import Mathlib

/-!
# FDN reverb engine: numeric utilities, feedback matrices and physics mapping

A shallow embedding of `Source/FDN_DSP.h`.

* C++ `int` values are embedded as `Int`; the embedding covers runs in which no
  intermediate value leaves the `int` range.
* C++ `float` values are embedded in exact arithmetic (an ordered field, `ℝ` in
  the theorems), so rounding, infinities and NaN are outside the model.
* `while`/`for` loops whose trip count is not a compile-time constant are
  embedded with an explicit fuel argument; running out of fuel yields `none`.
-/

namespace FDN

/-! ## 1. `findNearestPrime` -/

/-- The loop `for (int i = 5; i * i <= num; i += 6)` of the lambda `isPrime`,
entered with the current `i`. The product `i * i` is exact; in `int` arithmetic
it is exact as long as `i ≤ 46340`, which covers every `num < 46337 ^ 2`. -/
def isPrimeLoop (num : Int) : Nat → Int → Option Bool
  | 0, _ => none
  | fuel + 1, i =>
    if i * i ≤ num then
      if num.tmod i = 0 ∨ num.tmod (i + 2) = 0 then some false
      else isPrimeLoop num fuel (i + 6)
    else some true

/-- The lambda `isPrime` inside `findNearestPrime`. -/
def isPrime (fuel : Nat) (num : Int) : Option Bool :=
  if num ≤ 1 then some false
  else if num ≤ 3 then some true
  else if num.tmod 2 = 0 ∨ num.tmod 3 = 0 then some false
  else isPrimeLoop num fuel 5

/-- The loop `while (!isPrime(up)) up++;`, with `steps` bounding the trip count. -/
def searchUp (fuel : Nat) : Nat → Int → Option Int
  | 0, _ => none
  | steps + 1, up =>
    match isPrime fuel up with
    | none => none
    | some true => some up
    | some false => searchUp fuel steps (up + 1)

/-- The loop `while (down > 2 && !isPrime(down)) down--;`. -/
def searchDown (fuel : Nat) : Nat → Int → Option Int
  | 0, _ => none
  | steps + 1, down =>
    if down > 2 then
      match isPrime fuel down with
      | none => none
      | some true => some down
      | some false => searchDown fuel steps (down - 1)
    else some down

/-- The body of `findNearestPrime(int n)`, every loop running on `fuel`. -/
def findNearestPrimeF (fuel : Nat) (n : Int) : Option Int :=
  if n ≤ 2 then some 2
  else
    match searchUp fuel fuel n, searchDown fuel fuel n with
    | some up, some down => some (if up - n < n - down then up else down)
    | _, _ => none

/-- Fuel that is enough for every loop started by `findNearestPrime(n)`. -/
def fuelFor (n : Int) : Nat := 2 * n.toNat + 2

/-- The function `findNearestPrime(int n)` as a total function: the body run with
`fuelFor n`, which never runs out (`findNearestPrimeF_fuelFor`). -/
def findNearestPrime (n : Int) : Int :=
  (findNearestPrimeF (fuelFor n) n).getD 2

/-- Specification: `up` is the smallest prime that is at least `n`. -/
def IsLeastPrimeGE (n up : Int) : Prop :=
  Nat.Prime up.toNat ∧ n ≤ up ∧ ∀ d : Int, n ≤ d → d < up → ¬ Nat.Prime d.toNat

/-- Specification: `down` is the largest prime that is at most `n`. -/
def IsGreatestPrimeLE (n down : Int) : Prop :=
  Nat.Prime down.toNat ∧ down ≤ n ∧ ∀ d : Int, down < d → d ≤ n → ¬ Nat.Prime d.toNat

/-! ## 2. Feedback mixing matrices

A `float* x` is embedded as a map from offsets to values; the sixteen channel
values are the offsets `0 .. 15`. -/

/-- The loop `for (int i = ...; i < hi; i += step) body(i);` entered at `i`, the
loop state threaded through `body`. The fuel bounds the trip count. -/
def forLoop {σ : Type} (hi step : Nat) (body : Nat → σ → σ) : Nat → Nat → σ → σ
  | 0, _, s => s
  | fuel + 1, i, s =>
    if i < hi then forLoop hi step body fuel (i + step) (body i s) else s

/-- The loop `for (int i = lo; i < hi; i += step) body(i);` for `step ≥ 1`: at
most `hi` trips are made, so the fuel `hi` never runs out. -/
def forRange {σ : Type} (lo hi step : Nat) (body : Nat → σ → σ) (s : σ) : σ :=
  forLoop hi step body hi lo s

/-- The assignment `x[i] = v`. -/
def store {α : Type} (x : Nat → α) (i : Nat) (v : α) : Nat → α :=
  fun k => if k = i then v else x k

section Matrices

variable {α : Type} [Field α]

/-- The function `matrixHadamard(float* x)`. -/
def matrixHadamard (x : Nat → α) : Nat → α :=
  let x := forRange 0 16 2 (fun i x =>
    let a := x i
    let b := x (i + 1)
    store (store x i (a + b)) (i + 1) (a - b)) x
  let x := forRange 0 16 4 (fun i x =>
    let a0 := x i
    let b0 := x (i + 2)
    let x := store (store x i (a0 + b0)) (i + 2) (a0 - b0)
    let a1 := x (i + 1)
    let b1 := x (i + 3)
    store (store x (i + 1) (a1 + b1)) (i + 3) (a1 - b1)) x
  let x := forRange 0 16 8 (fun i x =>
    forRange 0 4 1 (fun j x =>
      let a := x (i + j)
      let b := x (i + j + 4)
      store (store x (i + j) (a + b)) (i + j + 4) (a - b)) x) x
  let x := forRange 0 8 1 (fun i x =>
    let a := x i
    let b := x (i + 8)
    store (store x i (a + b)) (i + 8) (a - b)) x
  forRange 0 16 1 (fun i x => store x i (x i * 0.25)) x

/-- The function `matrixHouseholder(float* x)`. -/
def matrixHouseholder (x : Nat → α) : Nat → α :=
  let sum := forRange 0 16 1 (fun i sum => sum + x i) (0 : α)
  let u : α := -2 / 16
  let s := sum * u
  forRange 0 16 1 (fun i x => store x i (x i + s)) x

/-- The lambda `mix4` of `matrixBlockPerm`, applied to the pointer `&x[off]`. -/
def mix4 (x : Nat → α) (off : Nat) : Nat → α :=
  let a := x off
  let b := x (off + 1)
  let c := x (off + 2)
  let d := x (off + 3)
  let x := store x off (0.5 * (a + b + c + d))
  let x := store x (off + 1) (0.5 * (a - b + c - d))
  let x := store x (off + 2) (0.5 * (a + b - c - d))
  store x (off + 3) (0.5 * (a - b - c + d))

/-- The function `matrixBlockPerm(float* x)`. -/
def matrixBlockPerm (x : Nat → α) : Nat → α :=
  let x := mix4 x 0
  let x := mix4 x 4
  let x := mix4 x 8
  let x := mix4 x 12
  let temp := x 1
  let x := store x 1 (x 5)
  let x := store x 5 (x 9)
  let x := store x 9 (x 13)
  let x := store x 13 temp
  let temp := x 2
  let x := store x 2 (x 6)
  let x := store x 6 (x 10)
  let x := store x 10 (x 14)
  let x := store x 14 temp
  let temp := x 3
  let x := store x 3 (x 7)
  let x := store x 7 (x 11)
  let x := store x 11 (x 15)
  store x 15 temp

/-- The pairwise rotation loop shared by `matrixCylinder` and `matrixSparse`. -/
def rotatePairs (x : Nat → α) : Nat → α :=
  forRange 0 16 2 (fun i x =>
    let a := x i
    let b := x (i + 1)
    store (store x i (0.707 * (a - b))) (i + 1) (0.707 * (a + b))) x

/-- The function `matrixCylinder(float* x)`. -/
def matrixCylinder (x : Nat → α) : Nat → α :=
  let x := rotatePairs x
  let temp := x 0
  let x := forRange 0 15 1 (fun i x => store x i (x (i + 1))) x
  store x 15 temp

/-- The call `std::swap(x[i], x[j])`. -/
def swapAt (x : Nat → α) (i j : Nat) : Nat → α :=
  let t := x i
  let x := store x i (x j)
  store x j t

/-- The function `matrixSparse(float* x)`. -/
def matrixSparse (x : Nat → α) : Nat → α :=
  let x := rotatePairs x
  let x := swapAt x 1 4
  let x := swapAt x 5 8
  swapAt x 9 12

/-- The loop `for (int i = 1; i < 16; i += 2) x[i] = -x[i];` of `matrixMDS`. -/
def negateOdd (x : Nat → α) : Nat → α :=
  forRange 1 16 2 (fun i x => store x i (-(x i))) x

/-- The function `matrixMDS(float* x)`. -/
def matrixMDS (x : Nat → α) : Nat → α :=
  let x := matrixHadamard x
  let x := negateOdd x
  matrixHadamard x

/-- The table `p` of `matrixChaos`. -/
def chaosTable : List Nat := [3, 15, 4, 0, 8, 12, 1, 5, 9, 2, 6, 10, 14, 7, 11, 13]

/-- The array `temp` of `matrixChaos` after the loop
`for (int i = 0; i < 16; ++i) temp[i] = x[p[i]];`, starting from `{ 0.0f }`. -/
def chaosGather (x : Nat → α) : Nat → α :=
  forRange 0 16 1 (fun i temp => store temp i (x (chaosTable.getD i 0))) (fun _ => 0)

/-- The function `matrixChaos(float* x)`. -/
def matrixChaos (x : Nat → α) : Nat → α :=
  let temp := matrixHadamard (chaosGather x)
  forRange 0 16 1 (fun i x => store x i (temp i)) x

/-- The sum of the squares of the sixteen channel values. -/
def energy (x : Nat → α) : α := ∑ i in Finset.range 16, x i * x i

/-- Specification: the number of set bits of `n` (for `n < 2 ^ 32`). -/
def popcount (n : Nat) : Nat := ((List.range 32).filter (fun k => n.testBit k)).length

/-- Specification: the natural-order 16-point Walsh-Hadamard transform scaled by
`1/4`, `out[i] = (1/4) * Σ_j (-1)^popcount(i AND j) * x[j]`. -/
def walshHadamard (x : Nat → α) (i : Nat) : α :=
  (1 / 4) * ∑ j in Finset.range 16, (-1) ^ popcount (i &&& j) * x j

/-- Closed form of one output row of `mix4` on the block at `off`. -/
def mix4Row (x : Nat → α) (off : Nat) : Nat → α
  | 0 => 0.5 * (x off + x (off + 1) + x (off + 2) + x (off + 3))
  | 1 => 0.5 * (x off - x (off + 1) + x (off + 2) - x (off + 3))
  | 2 => 0.5 * (x off + x (off + 1) - x (off + 2) - x (off + 3))
  | _ => 0.5 * (x off - x (off + 1) - x (off + 2) + x (off + 3))

/-- Closed form of `matrixBlockPerm`: row `k % 4` of the block mix; rows 1, 2, 3
are taken from the next block (cyclically), row 0 from the own block. -/
def blockPermClosed (x : Nat → α) (k : Nat) : α :=
  mix4Row x (if k % 4 = 0 then k else (k / 4 * 4 + 4) % 16) (k % 4)

/-- The source offset of output `k` after the three swaps of `matrixSparse`. -/
def sparseSource : Nat → Nat
  | 1 => 4
  | 4 => 1
  | 5 => 8
  | 8 => 5
  | 9 => 12
  | 12 => 9
  | k => k

/-- The input `[1, 0, ..., 0]`. -/
def unitImpulse : Nat → α := fun k => if k = 0 then 1 else 0

end Matrices

/-! ## 3. Constants, helper functions and the material catalog -/

section Physics

variable {α : Type} [LinearOrderedField α]

/-- The constant `MAX_DELAY_SECONDS`. -/
def MAX_DELAY_SECONDS : α := 10.0

/-- The constant `SPEED_OF_SOUND`. -/
def SPEED_OF_SOUND : α := 343.0

/-- The constant `FDN_CHANNELS`. -/
def FDN_CHANNELS : Nat := 16

/-- The constant `HARD_CLIP_THRESHOLD`. -/
def HARD_CLIP_THRESHOLD : α := 2.0

/-- The constant `REFERENCE_SAMPLE_RATE`. -/
def REFERENCE_SAMPLE_RATE : α := 48000.0

/-- The table `LFO_RATIOS`. -/
def LFO_RATIOS : List α :=
  [1.000, 0.618, 1.272, 0.786, 1.618, 0.382, 1.414, 0.528,
   1.175, 0.854, 1.324, 0.472, 1.089, 0.927, 1.236, 0.691]

/-- The call `std::clamp(v, lo, hi)`. -/
def stdClamp (v lo hi : α) : α :=
  if v < lo then lo else if hi < v then hi else v

/-- The call `std::max(a, b)`. -/
def stdMax (a b : α) : α := if a < b then b else a

/-- The function `hardClip`. -/
def hardClip (x : α) : α := stdClamp x (-HARD_CLIP_THRESHOLD) HARD_CLIP_THRESHOLD

/-- The conversion `(int)x` of a `float`: truncation toward zero. -/
def truncInt [FloorRing α] (x : α) : Int := if 0 ≤ x then ⌊x⌋ else ⌈x⌉

/-- The functions of `<cmath>` that the physics mapping calls. They are a
parameter of the embedding; `isNonFinite x` stands for
`std::isnan(x) || std::isinf(x)`. -/
structure Libm (α : Type) where
  pow : α → α → α
  sqrt : α → α
  exp : α → α
  isNonFinite : α → Bool
  sin : α → α
  cos : α → α
  log10 : α → α
  tanh : α → α

/-- The function `calcAirAbsorption(freq, tempC, humidity)`. -/
def calcAirAbsorption (m : Libm α) (freq tempC humidity : α) : α :=
  let safeTemp := stdClamp tempC (-50.0) 100.0
  let safeHum := stdClamp humidity 1.0 100.0
  let T := safeTemp + 273.15
  let T0 : α := 293.15
  let P_atm : α := 1.0
  let h_rel := safeHum
  let exponent := -6.8346 * m.pow (T0 / T) 1.261 + 4.6151
  let psat_ratio := m.pow 10.0 exponent
  let h := h_rel * psat_ratio
  let fr_O := P_atm * (24.0 + 4.04e4 * h * (0.02 + h) / (0.391 + h))
  let fr_N := P_atm * m.pow (T / T0) (-0.5) *
    (9.0 + 280.0 * h * m.exp (-4.17 * (m.pow (T / T0) (-1.0 / 3.0) - 1.0)))
  let f := freq
  let f2 := f * f
  let alpha := 8.686 * f2 * m.pow T (-2.5) * (
    1.84e-11 * (1.0 / P_atm) * m.sqrt (T / T0) +
    m.pow (T / T0) (-2.5) * (
      0.01275 * m.exp (-2239.1 / T) / (fr_O + f2 / fr_O) +
      0.1068 * m.exp (-3352.0 / T) / (fr_N + f2 / fr_N)))
  let alpha := alpha * 100.0
  if m.isNonFinite alpha then 1.0
  else m.pow 10.0 (-alpha / 20.0)

/-- The struct `MaterialDef`. -/
structure MaterialDef (α : Type) where
  absorption : List α
  isResonator : Bool

/-- The table `data` of `MaterialDB::get`. -/
def materialData : List (MaterialDef α) :=
  [ ⟨[0.02, 0.03, 0.04, 0.05, 0.06, 0.07], false⟩,
    ⟨[0.10, 0.08, 0.06, 0.05, 0.04, 0.02], false⟩,
    ⟨[0.15, 0.13, 0.11, 0.10, 0.08, 0.07], false⟩,
    ⟨[0.20, 0.18, 0.15, 0.12, 0.10, 0.10], false⟩,
    ⟨[0.05, 0.15, 0.30, 0.40, 0.55, 0.70], false⟩,
    ⟨[0.15, 0.35, 0.45, 0.55, 0.70, 0.85], false⟩,
    ⟨[0.20, 0.40, 0.60, 0.70, 0.80, 0.90], false⟩,
    ⟨[0.05, 0.04, 0.04, 0.04, 0.05, 0.05], false⟩,
    ⟨[0.30, 0.20, 0.15, 0.10, 0.07, 0.05], false⟩,
    ⟨[0.01, 0.01, 0.01, 0.01, 0.03, 0.05], false⟩,
    ⟨[0.01, 0.01, 0.01, 0.01, 0.02, 0.03], false⟩,
    ⟨[0.01, 0.01, 0.01, 0.01, 0.01, 0.01], false⟩,
    ⟨[0.00, 0.00, 0.00, 0.00, 0.00, 0.00], false⟩,
    ⟨[0.50, 0.50, 0.50, 0.50, 0.50, 0.50], true⟩,
    ⟨[0.10, 0.20, 0.30, 0.40, 0.45, 0.50], false⟩,
    ⟨[0.05, 0.04, 0.03, 0.03, 0.02, 0.02], false⟩,
    ⟨[0.15, 0.25, 0.35, 0.40, 0.55, 0.70], false⟩,
    ⟨[0.15, 0.40, 0.65, 0.75, 0.85, 0.90], false⟩,
    ⟨[0.20, 0.50, 0.80, 0.90, 0.75, 0.60], false⟩,
    ⟨[0.02, 0.02, 0.03, 0.03, 0.04, 0.05], false⟩,
    ⟨[0.15, 0.20, 0.25, 0.30, 0.45, 0.60], true⟩,
    ⟨[0.05, 0.07, 0.09, 0.10, 0.15, 0.20], false⟩,
    ⟨[0.05, 0.10, 0.20, 0.30, 0.20, 0.10], false⟩,
    ⟨[0.40, 0.50, 0.10, 0.05, 0.05, 0.05], false⟩,
    ⟨[0.15, 0.25, 0.35, 0.45, 0.55, 0.65], false⟩,
    ⟨[0.10, 0.30, 0.50, 0.70, 0.85, 0.95], false⟩,
    ⟨[0.01, 0.01, 0.01, 0.02, 0.02, 0.10], false⟩,
    ⟨[0.05, 0.20, 0.50, 0.80, 0.95, 0.99], false⟩,
    ⟨[0.60, 0.70, 0.80, 0.85, 0.90, 0.95], false⟩,
    ⟨[0.30, 0.40, 0.50, 0.50, 0.40, 0.30], true⟩,
    ⟨[0.10, 0.30, 0.80, 0.90, 0.95, 0.99], false⟩,
    ⟨[0.10, 0.15, 0.10, 0.15, 0.10, 0.15], true⟩,
    ⟨[0.0001, 0.0001, 0.0001, 0.0001, 0.0001, 0.0001], false⟩,
    ⟨[0.99, 0.99, 0.01, 0.01, 0.99, 0.99], true⟩ ]

/-- The default-constructed `MaterialDef`. -/
def MaterialDef.default : MaterialDef α := ⟨[0.5, 0.5, 0.5, 0.5, 0.5, 0.5], false⟩

/-- The function `MaterialDB::get(int index)`. -/
def MaterialDB.get (index : Int) : MaterialDef α :=
  if index < 0 ∨ index ≥ 34 then materialData.getD 0 MaterialDef.default
  else materialData.getD index.toNat MaterialDef.default

/-- The read `m.absorption[b]`. -/
def MaterialDef.abs (m : MaterialDef α) (b : Nat) : α := m.absorption.getD b 0

/-! ## 4. `FDNEngine::updatePhysics` -/

/-- The arguments of `FDNEngine::updatePhysics`. -/
structure PhysicsParams (α : Type) where
  widthM : α
  depthM : α
  heightM : α
  matFloorIdx : Int
  matCeilIdx : Int
  matWallIdx : Int
  matWallFBIdx : Int
  absorptionOverride : α
  modRate : α
  modDepth : α
  predelayMs : α
  tempC : α
  humidityPct : α
  dryWet : α
  inLC : α
  inHC : α
  outLC : α
  outHC : α
  sourceDist : α
  sourcePan : α
  sourceHeight : α
  roomShape : Int
  diffusion : α
  stereoWidth : α
  outputLevel : α
  density : α
  drive : α
  dynamicsAmount : α
  tilt : α
  dynThreshold : α
  dynRatio : α
  dynAttack : α
  dynRelease : α
  samplesPerBlock : Int
  decayRatio : α

/-- The part of the engine state that `updatePhysics` reads: the sample rate `fs`
and `maxChBuf = (int)channels[0].buffer.size()`. -/
structure EngineConfig (α : Type) where
  fs : α
  maxChBuf : Int

/-- The local `size` of `FDNChannel::prepare(sampleRate)`. -/
def channelBufferSize [FloorRing α] (sampleRate : α) : Int :=
  truncInt (MAX_DELAY_SECONDS * sampleRate) + 4096

/-- The engine has been prepared: `FDNChannel::prepare` grows the channel buffer
to at least `channelBufferSize fs` and never shrinks it. -/
def EngineConfig.Prepared [FloorRing α] (e : EngineConfig α) : Prop :=
  channelBufferSize e.fs ≤ e.maxChBuf

/-- The lambda `checkSFX`. -/
def checkSFX (mat : Int) : Int :=
  if mat = 13 then 1
  else if mat = 20 then 2
  else if mat = 29 then 3
  else if mat = 31 then 4
  else if mat = 33 then 5
  else 0

/-- Specification: `mat` is one of the five reserved SFX material indices. -/
def IsSfxMaterial (mat : Int) : Prop :=
  mat = 13 ∨ mat = 20 ∨ mat = 29 ∨ mat = 31 ∨ mat = 33

/-- The local `sfxType` after the four checks. -/
def sfxTypeOf (p : PhysicsParams α) : Int :=
  let sfxType := checkSFX p.matFloorIdx
  let sfxType := if sfxType = 0 then checkSFX p.matCeilIdx else sfxType
  let sfxType := if sfxType = 0 then checkSFX p.matWallIdx else sfxType
  if sfxType = 0 then checkSFX p.matWallFBIdx else sfxType

/-- The local `volFactor`. -/
def volFactor (roomShape : Int) : α :=
  if roomShape = 1 then 0.65
  else if roomShape = 2 then 0.75
  else if roomShape = 3 then 0.785
  else if roomShape = 4 then 0.333
  else 1.0

/-- The local `areaFloor` (and `areaCeil`). -/
def areaFloor (p : PhysicsParams α) : α := p.widthM * p.depthM

/-- The local `areaSide`. -/
def areaSide (p : PhysicsParams α) : α := 2.0 * (p.depthM * p.heightM)

/-- The local `areaFB`. -/
def areaFB (p : PhysicsParams α) : α := 2.0 * (p.widthM * p.heightM)

/-- The local `totalArea`, after the two shape corrections. -/
def totalArea (p : PhysicsParams α) : α :=
  let totalArea := areaFloor p + areaFloor p + areaSide p + areaFB p
  let totalArea := if p.roomShape = 1 then totalArea * 0.8 else totalArea
  if p.roomShape = 4 then totalArea * 0.6 else totalArea

/-- The local `volume`. -/
def volume (p : PhysicsParams α) : α :=
  p.widthM * p.depthM * p.heightM * volFactor p.roomShape

/-- The local `mfp`. -/
def mfp (p : PhysicsParams α) : α := 4.0 * volume p / stdMax 1.0 (totalArea p)

/-- The local `baseDelaySec`. -/
def baseDelaySec (p : PhysicsParams α) : α := mfp p / SPEED_OF_SOUND

/-- The table `silkyRatios`. -/
def silkyRatios : List α :=
  [1.0000, 1.0931, 1.1953, 1.3072, 1.4298, 1.5641, 1.7112, 1.8723,
   2.0489, 2.2421, 2.4532, 2.6843, 2.9371, 3.2134, 3.5156, 3.8462]

/-- The table `chaosRatios`. -/
def chaosRatios : List α :=
  [0.3, 1.9, 0.7, 2.3, 1.1, 0.5, 2.9, 1.3, 0.9, 2.1, 0.4, 1.7, 2.5, 0.8, 1.5, 0.6]

/-- The entry `ratios[i]` after the shape-dependent overwrite. -/
def ratios (roomShape : Int) (i : Nat) : α :=
  if roomShape = 3 then 1.0 + (i : α) * 0.1
  else if roomShape = 5 then 1.0 + ((i % 4 : Nat) : α) * 0.05
  else if roomShape = 6 then chaosRatios.getD i 0
  else silkyRatios.getD i 0

/-- The local `ratioSum`. -/
def ratioSum (roomShape : Int) : α :=
  forRange 0 16 1 (fun i s => s + ratios roomShape i) 0

/-- The local `rawDelay` of channel `i`. -/
def rawDelay (e : EngineConfig α) (p : PhysicsParams α) (i : Nat) : α :=
  baseDelaySec p * ratios p.roomShape i * e.fs

/-- The entry `targetDelays[i]` after the first loop of `updatePhysics`: the
nearest prime of the truncated raw delay, clamped to `maxChBuf - 4096`. -/
def physicsTargetDelay [FloorRing α] (e : EngineConfig α) (p : PhysicsParams α)
    (i : Nat) : α :=
  let primeDelay := findNearestPrime (truncInt (rawDelay e p i))
  let target : α := (primeDelay : α)
  if target > ((e.maxChBuf - 4096 : Int) : α) then ((e.maxChBuf - 4096 : Int) : α)
  else target

/-- The local `fixedDelay` of channel `i` in the SFX branch. -/
def sfxFixedDelay (sfxType : Int) (i : Nat) : α :=
  if sfxType = 1 then 0.02 + (i : α) * 0.0015
  else if sfxType = 2 then 0.005 + (i : α) * 0.0003
  else if sfxType = 3 then 0.01 + (((i * 7) % 40 : Nat) : α) * 0.001
  else if sfxType = 4 then 0.001 + (i : α) * 0.0002
  else if sfxType = 5 then 0.015
  else 0.0

/-- The entry `targetDelays[i]` that `updatePhysics` hands to
`channels[i].delaySmoother.setTarget`: the SFX branch overwrites the entry of
the first loop with `fixedDelay * fs`. -/
def targetDelay [FloorRing α] (e : EngineConfig α) (p : PhysicsParams α) (i : Nat) : α :=
  if sfxTypeOf p > 0 then sfxFixedDelay (sfxTypeOf p) i * e.fs
  else physicsTargetDelay e p i

/-- The local `sfxFeedback`. -/
def sfxFeedback (p : PhysicsParams α) : α := stdClamp p.decayRatio 0.01 0.99

/-- The entry `sfxGains[b]` at the call of `setCoeffs` in the SFX branch. -/
def sfxGains (p : PhysicsParams α) (b : Nat) : α :=
  if sfxTypeOf p = 2 then
    let g := sfxFeedback p * 0.3
    if b = 3 then g * 0.5
    else if b = 4 then g * 0.2
    else if b = 5 then g * 0.1
    else g
  else sfxFeedback p

/-- The lambda `weightedAvg`. -/
def weightedAvg (p : PhysicsParams α) (vF vC vS vFB : α) : α :=
  (vF * areaFloor p + vC * areaFloor p + vS * areaSide p + vFB * areaFB p) / totalArea p

/-- The entry `avgAbs[b]` after the first loop of the normal branch. -/
def avgAbsRaw (p : PhysicsParams α) (b : Nat) : α :=
  weightedAvg p ((MaterialDB.get p.matFloorIdx).abs b) ((MaterialDB.get p.matCeilIdx).abs b)
    ((MaterialDB.get p.matWallIdx).abs b) ((MaterialDB.get p.matWallFBIdx).abs b)

/-- The entry `avgAbs[b]` after the scaling loop. -/
def avgAbs (p : PhysicsParams α) (b : Nat) : α :=
  let scaler := 0.5 + p.absorptionOverride
  let a := avgAbsRaw p b * scaler
  let a := if a > 0.9 then
      let x := (a - 0.9) / 1.1
      0.9 + (x / (1.0 + x)) * 0.095
    else a
  if a < 0.01 then 0.01 else a

/-- The table `freqs`. -/
def freqs : List α := [125.0, 250.0, 500.0, 1000.0, 2000.0, 4000.0]

/-- The local `exponent` of the normal branch. -/
def decayExponent (p : PhysicsParams α) : α :=
  if p.decayRatio > 0.01 then 1.0 / p.decayRatio else 100.0

/-- The entry `finalGains[b]`. -/
def finalGains (m : Libm α) (p : PhysicsParams α) (b : Nat) : α :=
  let air := m.pow (calcAirAbsorption m (freqs.getD b 0) p.tempC p.humidityPct) (mfp p)
  let r := m.sqrt (1.0 - avgAbs p b) * air
  let r := m.pow r (decayExponent p)
  if r > 0.98 then 0.98 else r

/-- The local `maxG` after the loop over `finalGains`. -/
def maxG (m : Libm α) (p : PhysicsParams α) : α :=
  forRange 0 6 1 (fun b maxG => if finalGains m p b > maxG then finalGains m p b else maxG)
    0.0001

/-- The local `baseGain`. -/
def baseGain (m : Libm α) (p : PhysicsParams α) : α :=
  if maxG m p > 0.98 then 0.98 else maxG m p

/-- The local `delaySamples` of channel `i` in the normal branch. -/
def delaySamples [FloorRing α] (e : EngineConfig α) (p : PhysicsParams α) (i : Nat) : α :=
  if physicsTargetDelay e p i < 1.0 then 1.0 else physicsTargetDelay e p i

/-- The entry `sampleGains[b]` of channel `i`. -/
def sampleGains [FloorRing α] (m : Libm α) (e : EngineConfig α) (p : PhysicsParams α)
    (i b : Nat) : α :=
  let gs := m.pow (finalGains m p b) (1.0 / delaySamples e p i)
  if gs > 0.9999 then 0.9999 else gs

/-- The first argument `targetGains[b]` of the call
`channels[i].materialFilter.setCoeffs(...)` made by `updatePhysics`. -/
def setCoeffsGains [FloorRing α] (m : Libm α) (e : EngineConfig α) (p : PhysicsParams α)
    (i b : Nat) : α :=
  if sfxTypeOf p > 0 then sfxGains p b else sampleGains m e p i b

/-- The second argument `baseG` of the call
`channels[i].materialFilter.setCoeffs(...)` made by `updatePhysics`. -/
def setCoeffsBaseG (m : Libm α) (p : PhysicsParams α) : α :=
  if sfxTypeOf p > 0 then 1.0 else baseGain m p

/-! ## 5. The output stage of `FDNEngine::process` -/

/-- The class `ParameterSmoother`. -/
structure ParameterSmoother (α : Type) where
  currentValue : α
  targetValue : α
  step : α
  countdown : Int

/-- The method `ParameterSmoother::getNext`: the new state and the value returned. -/
def ParameterSmoother.getNext (s : ParameterSmoother α) : ParameterSmoother α × α :=
  if s.countdown > 0 then
    let s1 := { s with currentValue := s.currentValue + s.step, countdown := s.countdown - 1 }
    (s1, s1.currentValue)
  else
    let s1 := { s with currentValue := s.targetValue }
    (s1, s1.currentValue)

/-- A parameter tuple inside the ranges of the plugin (a 10 m x 15 m x 5 m shoe
box, material 0 on every surface). -/
def exampleParams : PhysicsParams α where
  widthM := 10
  depthM := 15
  heightM := 5
  matFloorIdx := 0
  matCeilIdx := 0
  matWallIdx := 0
  matWallFBIdx := 0
  absorptionOverride := 0.5
  modRate := 0.5
  modDepth := 0.3
  predelayMs := 20
  tempC := 20
  humidityPct := 50
  dryWet := 0.3
  inLC := 20
  inHC := 20000
  outLC := 20
  outHC := 20000
  sourceDist := 5
  sourcePan := 0
  sourceHeight := 1.5
  roomShape := 0
  diffusion := 0.5
  stereoWidth := 1
  outputLevel := 1
  density := 0.5
  drive := 0
  dynamicsAmount := 0
  tilt := 0
  dynThreshold := -20
  dynRatio := 2
  dynAttack := 10
  dynRelease := 100
  samplesPerBlock := 512
  decayRatio := 1

/-- The tuple `exampleParams` with the floor material 33 (force field). -/
def forceFieldParams : PhysicsParams α := { exampleParams with matFloorIdx := 33 }

/-- The tuple `exampleParams` with a 3000 m x 3000 m x 3000 m room. -/
def hugeRoomParams : PhysicsParams α :=
  { exampleParams with widthM := 3000, depthM := 3000, heightM := 3000 }

/-- An engine prepared at 48 kHz: `fs = 48000` and channel buffers of
`(int)(10 * 48000) + 4096 = 484096` samples. -/
def engine48k : EngineConfig α := ⟨48000, 484096⟩

end Physics

/-! ## 7. The engine state

The structures below hold the members of the C++ classes. Audio buffers are
maps from offsets to samples together with their `size()`. The taps and the
buffer of `VelvetNoiseDiffuser`, which `prepare` fills from `std::mt19937`, are
left out: `updatePhysics` only sets its `amount`. -/

section Engine

variable {α : Type} [LinearOrderedField α]

/-- The constant `PI`. -/
def PI : α := 3.14159265359

/-- The constant `PI_2`. -/
def PI_2 : α := 6.28318530718

/-- The constant `HALF_PI`. -/
def HALF_PI : α := 1.570796327

/-- The constant `STEREO_SPREAD_MS`. -/
def STEREO_SPREAD_MS : α := 0.5

/-- The call `std::min(a, b)`. -/
def stdMin (a b : α) : α := if b < a then b else a

/-- The call `std::max(a, b)` on `int`. -/
def stdMaxInt (a b : Int) : Int := if a < b then b else a

/-- The call `std::clamp(v, lo, hi)` on `int`. -/
def stdClampInt (v lo hi : Int) : Int :=
  if v < lo then lo else if hi < v then hi else v

/-- The method `ParameterSmoother::setTarget`. -/
def ParameterSmoother.setTarget (s : ParameterSmoother α) (target : α)
    (samplesToSmooth : Int) : ParameterSmoother α :=
  let s := { s with targetValue := target }
  if samplesToSmooth ≤ 0 then { s with currentValue := target, countdown := 0 }
  else { s with step := (target - s.currentValue) / (samplesToSmooth : α),
                countdown := samplesToSmooth }

/-- The method `ParameterSmoother::snapTo`. -/
def ParameterSmoother.snapTo (_s : ParameterSmoother α) (value : α) : ParameterSmoother α :=
  { currentValue := value, targetValue := value, countdown := 0, step := 0.0 }

/-- The default-initialised `ParameterSmoother`. -/
def ParameterSmoother.fresh : ParameterSmoother α :=
  { currentValue := 0.0, targetValue := 0.0, step := 0.0, countdown := 0 }

/-! ### `DynamicsProcessor` -/

/-- The class `DynamicsProcessor`. -/
structure DynamicsProcessor (α : Type) where
  envelope : α
  attackCoef : α
  releaseCoef : α
  thresholdDB : α
  ratio : α
  sampleRate : α

/-- The default-initialised `DynamicsProcessor`. -/
def DynamicsProcessor.fresh : DynamicsProcessor α :=
  { envelope := 0.0, attackCoef := 0.0, releaseCoef := 0.0, thresholdDB := -20.0,
    ratio := 2.0, sampleRate := 48000.0 }

/-- The method `DynamicsProcessor::setParams`. -/
def DynamicsProcessor.setParams (m : Libm α) (d : DynamicsProcessor α)
    (thresh r attMs relMs : α) : DynamicsProcessor α :=
  { d with
    thresholdDB := thresh
    ratio := stdMax 1.01 r
    attackCoef := m.exp (-1000.0 / (stdMax 1.0 attMs * d.sampleRate))
    releaseCoef := m.exp (-1000.0 / (stdMax 1.0 relMs * d.sampleRate)) }

/-- The method `DynamicsProcessor::reset`. -/
def DynamicsProcessor.reset (d : DynamicsProcessor α) : DynamicsProcessor α :=
  { d with envelope := 0.0 }

/-- The method `DynamicsProcessor::prepare`. -/
def DynamicsProcessor.prepare (m : Libm α) (d : DynamicsProcessor α) (fs : α) :
    DynamicsProcessor α :=
  let d := { d with sampleRate := fs }
  let d := d.setParams m (-20.0) 2.0 10.0 100.0
  d.reset

/-! ### `TiltEqualizer` -/

/-- The class `TiltEqualizer`. -/
structure TiltEqualizer (α : Type) where
  b0 : α
  b1 : α
  b2 : α
  a1 : α
  a2 : α
  x1 : α
  x2 : α
  y1 : α
  y2 : α
  sampleRate : α
  currentGainDB : α

/-- The default-initialised `TiltEqualizer`. -/
def TiltEqualizer.fresh : TiltEqualizer α :=
  { b0 := 1.0, b1 := 0.0, b2 := 0.0, a1 := 0.0, a2 := 0.0,
    x1 := 0.0, x2 := 0.0, y1 := 0.0, y2 := 0.0,
    sampleRate := 48000.0, currentGainDB := 0.0 }

/-- The method `TiltEqualizer::reset`. -/
def TiltEqualizer.reset (t : TiltEqualizer α) : TiltEqualizer α :=
  { t with x1 := 0.0, x2 := 0.0, y1 := 0.0, y2 := 0.0,
           b0 := 1.0, b1 := 0.0, b2 := 0.0, a1 := 0.0, a2 := 0.0, currentGainDB := 0.0 }

/-- The method `TiltEqualizer::prepare`. -/
def TiltEqualizer.prepare (t : TiltEqualizer α) (fs : α) : TiltEqualizer α :=
  ({ t with sampleRate := fs } : TiltEqualizer α).reset

/-- The method `TiltEqualizer::setTilt`. -/
def TiltEqualizer.setTilt (m : Libm α) (t : TiltEqualizer α) (gainDB : α) :
    TiltEqualizer α :=
  if |gainDB - t.currentGainDB| < 0.01 then t
  else
    let gain := m.pow 10.0 (gainDB / 20.0)
    let freq : α := 1000.0
    let w0 := 2.0 * PI * freq / t.sampleRate
    let A := m.sqrt gain
    let cosW := m.cos w0
    let sinW := m.sin w0
    let alpha := sinW / 2.0 * m.sqrt ((A + 1.0 / A) * (1.0 / 0.707 - 1.0) + 2.0)
    let a0_inv := 1.0 / ((A + 1.0) - (A - 1.0) * cosW + 2.0 * m.sqrt A * alpha)
    let pivotGain := 1.0 / A
    { t with
      currentGainDB := gainDB
      b0 := A * ((A + 1.0) + (A - 1.0) * cosW + 2.0 * m.sqrt A * alpha) * a0_inv * pivotGain
      b1 := -2.0 * A * ((A - 1.0) + (A + 1.0) * cosW) * a0_inv * pivotGain
      b2 := A * ((A + 1.0) + (A - 1.0) * cosW - 2.0 * m.sqrt A * alpha) * a0_inv * pivotGain
      a1 := 2.0 * ((A - 1.0) - (A + 1.0) * cosW) * a0_inv
      a2 := ((A + 1.0) - (A - 1.0) * cosW - 2.0 * m.sqrt A * alpha) * a0_inv }

/-! ### `DCBlocker`, `ChaosLFO`, `OnePoleHighpass` -/

/-- The class `DCBlocker`. -/
structure DCBlocker (α : Type) where
  x1 : α
  y1 : α

/-- The method `DCBlocker::reset`, also the default-initialised `DCBlocker`. -/
def DCBlocker.reset : DCBlocker α := { x1 := 0.0, y1 := 0.0 }

/-- The class `ChaosLFO`. -/
structure ChaosLFO (α : Type) where
  phase1 : α
  phase2 : α
  inc1 : α
  inc2 : α

/-- The default-initialised `ChaosLFO`. -/
def ChaosLFO.fresh : ChaosLFO α := { phase1 := 0.0, phase2 := 0.0, inc1 := 0.0, inc2 := 0.0 }

/-- The method `ChaosLFO::setFrequency`. -/
def ChaosLFO.setFrequency (l : ChaosLFO α) (freq sampleRate : α) : ChaosLFO α :=
  let safeFreq := if freq > 0.0 then freq else 0.0
  { l with inc1 := safeFreq / sampleRate, inc2 := (safeFreq * 1.41421356) / sampleRate }

/-- The method `ChaosLFO::setPhase`. -/
def ChaosLFO.setPhase (l : ChaosLFO α) (p : α) : ChaosLFO α :=
  { l with phase1 := p, phase2 := p * 1.618 }

/-- The class `OnePoleHighpass`. -/
structure OnePoleHighpass (α : Type) where
  x1 : α
  y1 : α
  a1 : α
  b0 : α
  b1 : α

/-- The default-initialised `OnePoleHighpass`. -/
def OnePoleHighpass.fresh : OnePoleHighpass α :=
  { x1 := 0.0, y1 := 0.0, a1 := 0.0, b0 := 1.0, b1 := -1.0 }

/-- The method `OnePoleHighpass::reset`. -/
def OnePoleHighpass.reset (h : OnePoleHighpass α) : OnePoleHighpass α :=
  { h with x1 := 0.0, y1 := 0.0 }

/-- The method `OnePoleHighpass::setFrequency`. -/
def OnePoleHighpass.setFrequency (m : Libm α) (h : OnePoleHighpass α)
    (freq sampleRate : α) : OnePoleHighpass α :=
  let w := 2.0 * PI * freq / sampleRate
  let w := if w ≥ PI then PI - 0.001 else w
  let p := m.exp (-w)
  { h with b0 := (1.0 + p) * 0.5, b1 := -(1.0 + p) * 0.5, a1 := -p }

/-! ### `HighQualityFilter` -/

/-- The struct `HighQualityFilter::BiquadSection`. -/
structure BiquadSection (α : Type) where
  b0 : α
  b1 : α
  b2 : α
  a1 : α
  a2 : α
  x1 : α
  x2 : α
  y1 : α
  y2 : α

/-- The default-initialised `BiquadSection`. -/
def BiquadSection.fresh : BiquadSection α :=
  { b0 := 1, b1 := 0, b2 := 0, a1 := 0, a2 := 0, x1 := 0, x2 := 0, y1 := 0, y2 := 0 }

/-- The method `BiquadSection::reset`. -/
def BiquadSection.reset (s : BiquadSection α) : BiquadSection α :=
  { s with x1 := 0.0, x2 := 0.0, y1 := 0.0, y2 := 0.0 }

/-- The class `HighQualityFilter`. -/
structure HighQualityFilter (α : Type) where
  lpSection1 : BiquadSection α
  lpSection2 : BiquadSection α
  hpSection1 : BiquadSection α
  hpSection2 : BiquadSection α
  currentLPFreq : α
  currentHPFreq : α
  sampleRate : α

/-- The default-initialised `HighQualityFilter`. -/
def HighQualityFilter.fresh : HighQualityFilter α :=
  { lpSection1 := BiquadSection.fresh, lpSection2 := BiquadSection.fresh,
    hpSection1 := BiquadSection.fresh, hpSection2 := BiquadSection.fresh,
    currentLPFreq := 20000.0, currentHPFreq := 20.0, sampleRate := 48000.0 }

/-- The method `HighQualityFilter::reset`. -/
def HighQualityFilter.reset (f : HighQualityFilter α) : HighQualityFilter α :=
  { f with lpSection1 := f.lpSection1.reset, lpSection2 := f.lpSection2.reset,
           hpSection1 := f.hpSection1.reset, hpSection2 := f.hpSection2.reset }

/-- The method `HighQualityFilter::prepare`. -/
def HighQualityFilter.prepare (f : HighQualityFilter α) (fs : α) : HighQualityFilter α :=
  ({ f with sampleRate := fs } : HighQualityFilter α).reset

/-- The method `HighQualityFilter::calculateLPCoeffs`. -/
def calculateLPCoeffs (m : Libm α) (sampleRate : α) (s : BiquadSection α) (freq Q : α) :
    BiquadSection α :=
  let w0 := 2.0 * PI * freq / sampleRate
  let alpha := m.sin w0 / (2.0 * Q)
  let cosw0 := m.cos w0
  let a0 := 1.0 + alpha
  let invA0 := 1.0 / a0
  { s with
    b0 := ((1.0 - cosw0) / 2.0) * invA0
    b1 := (1.0 - cosw0) * invA0
    b2 := ((1.0 - cosw0) / 2.0) * invA0
    a1 := (-2.0 * cosw0) * invA0
    a2 := (1.0 - alpha) * invA0 }

/-- The method `HighQualityFilter::calculateHPCoeffs`. -/
def calculateHPCoeffs (m : Libm α) (sampleRate : α) (s : BiquadSection α) (freq Q : α) :
    BiquadSection α :=
  let w0 := 2.0 * PI * freq / sampleRate
  let alpha := m.sin w0 / (2.0 * Q)
  let cosw0 := m.cos w0
  let a0 := 1.0 + alpha
  let invA0 := 1.0 / a0
  { s with
    b0 := ((1.0 + cosw0) / 2.0) * invA0
    b1 := (-(1.0 + cosw0)) * invA0
    b2 := ((1.0 + cosw0) / 2.0) * invA0
    a1 := (-2.0 * cosw0) * invA0
    a2 := (1.0 - alpha) * invA0 }

/-- The method `HighQualityFilter::setLowPass`. -/
def HighQualityFilter.setLowPass (m : Libm α) (f : HighQualityFilter α) (freq : α) :
    HighQualityFilter α :=
  let freq := stdClamp freq 20.0 (f.sampleRate * 0.49)
  { f with
    currentLPFreq := freq
    lpSection1 := calculateLPCoeffs m f.sampleRate f.lpSection1 freq 0.707
    lpSection2 := calculateLPCoeffs m f.sampleRate f.lpSection2 freq 0.707 }

/-- The method `HighQualityFilter::setHighPass`. -/
def HighQualityFilter.setHighPass (m : Libm α) (f : HighQualityFilter α) (freq : α) :
    HighQualityFilter α :=
  let freq := stdClamp freq 20.0 (f.sampleRate * 0.49)
  { f with
    currentHPFreq := freq
    hpSection1 := calculateHPCoeffs m f.sampleRate f.hpSection1 freq 0.707
    hpSection2 := calculateHPCoeffs m f.sampleRate f.hpSection2 freq 0.707 }

/-! ### `MaterialFilter4Band` -/

/-- The struct `MaterialFilter4Band::SmoothedBiquad`. -/
structure SmoothedBiquad (α : Type) where
  b0 : α
  b1 : α
  b2 : α
  a1 : α
  a2 : α
  tb0 : α
  tb1 : α
  tb2 : α
  ta1 : α
  ta2 : α
  x1 : α
  x2 : α
  y1 : α
  y2 : α
  rampCounter : Int

/-- The default-initialised `SmoothedBiquad`. -/
def SmoothedBiquad.fresh : SmoothedBiquad α :=
  { b0 := 1, b1 := 0, b2 := 0, a1 := 0, a2 := 0, tb0 := 1, tb1 := 0, tb2 := 0, ta1 := 0,
    ta2 := 0, x1 := 0, x2 := 0, y1 := 0, y2 := 0, rampCounter := 0 }

/-- The method `SmoothedBiquad::reset`. -/
def SmoothedBiquad.reset (s : SmoothedBiquad α) : SmoothedBiquad α :=
  { s with x1 := 0.0, x2 := 0.0, y1 := 0.0, y2 := 0.0, b0 := 1, tb0 := 1, b1 := 0, tb1 := 0,
           b2 := 0, tb2 := 0, a1 := 0, ta1 := 0, a2 := 0, ta2 := 0 }

/-- The method `SmoothedBiquad::setTarget`. -/
def SmoothedBiquad.setTarget (s : SmoothedBiquad α) (n_b0 n_b1 n_b2 n_a1 n_a2 : α) :
    SmoothedBiquad α :=
  { s with tb0 := n_b0, tb1 := n_b1, tb2 := n_b2, ta1 := n_a1, ta2 := n_a2, rampCounter := 64 }

/-- The class `MaterialFilter4Band`. -/
structure MaterialFilter4Band (α : Type) where
  ls : SmoothedBiquad α
  p1 : SmoothedBiquad α
  p2 : SmoothedBiquad α
  hs : SmoothedBiquad α
  midGainSmoother : ParameterSmoother α

/-- The default-initialised `MaterialFilter4Band`. -/
def MaterialFilter4Band.fresh : MaterialFilter4Band α :=
  { ls := SmoothedBiquad.fresh, p1 := SmoothedBiquad.fresh, p2 := SmoothedBiquad.fresh,
    hs := SmoothedBiquad.fresh, midGainSmoother := ParameterSmoother.fresh }

/-- The method `MaterialFilter4Band::reset`. -/
def MaterialFilter4Band.reset (f : MaterialFilter4Band α) : MaterialFilter4Band α :=
  { ls := f.ls.reset, p1 := f.p1.reset, p2 := f.p2.reset, hs := f.hs.reset,
    midGainSmoother := f.midGainSmoother.snapTo 1.0 }

/-- The lambda `calcLS` of `setCoeffs`, applied to the section `ls`. -/
def calcLS (m : Libm α) (fs : α) (ls : SmoothedBiquad α) (g : α) : SmoothedBiquad α :=
  let A := m.sqrt g
  let w0 := 2.0 * PI * 200.0 / fs
  let alpha := m.sin w0 / 2.0 * m.sqrt ((A + 1 / A) * (1 / 0.707 - 1) + 2)
  let cosw0 := m.cos w0
  let a0 := (A + 1) + (A - 1) * cosw0 + 2 * m.sqrt A * alpha
  let a0_inv := 1.0 / a0
  ls.setTarget
    (A * ((A + 1) - (A - 1) * cosw0 + 2 * m.sqrt A * alpha) * a0_inv)
    (2 * A * ((A - 1) - (A + 1) * cosw0) * a0_inv)
    (A * ((A + 1) - (A - 1) * cosw0 - 2 * m.sqrt A * alpha) * a0_inv)
    (-2 * ((A - 1) + (A + 1) * cosw0) * a0_inv)
    (((A + 1) + (A - 1) * cosw0 - 2 * m.sqrt A * alpha) * a0_inv)

/-- The lambda `calcPeak` of `setCoeffs`. -/
def calcPeak (m : Libm α) (fs : α) (g freq Q : α) (bq : SmoothedBiquad α) :
    SmoothedBiquad α :=
  let A := m.sqrt g
  let w0 := 2.0 * PI * freq / fs
  let alpha := m.sin w0 / (2.0 * Q)
  let cosw0 := m.cos w0
  let a0_inv := 1.0 / (1.0 + alpha / A)
  bq.setTarget
    ((1.0 + alpha * A) * a0_inv)
    ((-2.0 * cosw0) * a0_inv)
    ((1.0 - alpha * A) * a0_inv)
    ((-2.0 * cosw0) * a0_inv)
    ((1.0 - alpha / A) * a0_inv)

/-- The lambda `calcHS` of `setCoeffs`, applied to the section `hs`. -/
def calcHS (m : Libm α) (fs : α) (hs : SmoothedBiquad α) (g : α) : SmoothedBiquad α :=
  let A := m.sqrt g
  let w0 := 2.0 * PI * 3000.0 / fs
  let alpha := m.sin w0 / 2.0 * m.sqrt ((A + 1 / A) * (1 / 0.707 - 1) + 2)
  let cosw0 := m.cos w0
  let a0 := (A + 1) - (A - 1) * cosw0 + 2 * m.sqrt A * alpha
  let a0_inv := 1.0 / a0
  hs.setTarget
    (A * ((A + 1) + (A - 1) * cosw0 + 2 * m.sqrt A * alpha) * a0_inv)
    (-2 * A * ((A - 1) + (A + 1) * cosw0) * a0_inv)
    (A * ((A + 1) + (A - 1) * cosw0 - 2 * m.sqrt A * alpha) * a0_inv)
    (2 * ((A - 1) - (A + 1) * cosw0) * a0_inv)
    (((A + 1) - (A - 1) * cosw0 - 2 * m.sqrt A * alpha) * a0_inv)

/-- The method `MaterialFilter4Band::setCoeffs`. -/
def MaterialFilter4Band.setCoeffs (m : Libm α) (f : MaterialFilter4Band α)
    (targetGains : Nat → α) (baseG fs : α) : MaterialFilter4Band α :=
  let f := { f with midGainSmoother := f.midGainSmoother.setTarget baseG 64 }
  let safeBase := if baseG > 0.000001 then baseG else 0.000001
  let f := { f with ls := calcLS m fs f.ls (stdClamp (targetGains 0 / safeBase) 0.0 1.0) }
  let f := { f with p1 := calcPeak m fs (stdClamp (targetGains 2 / safeBase) 0.0 1.0) 500.0 0.5
                            f.p1 }
  let f := { f with p2 := calcPeak m fs (stdClamp (targetGains 4 / safeBase) 0.0 1.0) 2000.0 0.5
                            f.p2 }
  { f with hs := calcHS m fs f.hs (stdClamp (targetGains 5 / safeBase) 0.0 1.0) }

/-! ### `LoopAllpass`, `VelvetNoiseDiffuser` -/

/-- The class `LoopAllpass`; `bufferSize` is `buffer.size()`. -/
structure LoopAllpass (α : Type) where
  buffer : Nat → α
  bufferSize : Int
  writePos : Int
  currentDelayLen : Int
  gain : α
  lfoPhase : α
  lfoInc : α
  lfoDepth : α

/-- The default-initialised `LoopAllpass`. -/
def LoopAllpass.fresh : LoopAllpass α :=
  { buffer := fun _ => 0.0, bufferSize := 0, writePos := 0, currentDelayLen := 0,
    gain := 0.0, lfoPhase := 0.0, lfoInc := 0.0, lfoDepth := 0.0 }

/-- The method `LoopAllpass::setup`: `resize` keeps the samples already in the
buffer and fills new places with `0.0f`. -/
def LoopAllpass.setup (a : LoopAllpass α) (maxLen : Int) (_sampleRate : α) : LoopAllpass α :=
  { a with
    buffer := fun k => if (k : Int) < a.bufferSize then a.buffer k else 0.0
    bufferSize := maxLen + 128
    currentDelayLen := findNearestPrime (stdMaxInt 1 (Int.tdiv maxLen 2)) }

/-- The method `LoopAllpass::setBaseDelay`. -/
def LoopAllpass.setBaseDelay (a : LoopAllpass α) (samples : Int) : LoopAllpass α :=
  { a with currentDelayLen := findNearestPrime (stdMaxInt 1 samples) }

/-- The method `LoopAllpass::setModulation`. -/
def LoopAllpass.setModulation (a : LoopAllpass α) (rate depth sampleRate : α)
    (channelIdx : Int) : LoopAllpass α :=
  if depth ≤ 0.001 then { a with lfoInc := 0.0, lfoDepth := 0.0 }
  else
    { a with
      lfoInc := ((0.05 + rate * 0.55) * PI_2) / sampleRate
      lfoDepth := depth * stdMin 12.0 ((a.currentDelayLen : α) * 0.15)
      lfoPhase := (channelIdx : α) * 0.618 * PI_2 }

/-- The method `LoopAllpass::reset`. -/
def LoopAllpass.reset (a : LoopAllpass α) : LoopAllpass α :=
  { a with buffer := fun _ => 0.0, writePos := 0, lfoPhase := 0.0 }

/-- The member `amount` of `VelvetNoiseDiffuser`. -/
structure VelvetNoiseDiffuser (α : Type) where
  amount : α

/-- The method `VelvetNoiseDiffuser::setAmount`. -/
def VelvetNoiseDiffuser.setAmount (_v : VelvetNoiseDiffuser α) (a : α) :
    VelvetNoiseDiffuser α :=
  { amount := a }

/-! ### `EarlyReflections` -/

/-- The struct `EarlyReflections::Reflection`. -/
structure Reflection (α : Type) where
  delaySamples : Int
  gain : α
  panL : α
  panR : α

/-- The default-initialised `Reflection`. -/
def Reflection.fresh : Reflection α :=
  { delaySamples := 0, gain := 0.0, panL := 0.5, panR := 0.5 }

/-- The struct `EarlyReflections`; `predelayBufferSize` is `predelayBuffer.size()`. -/
structure EarlyReflections (α : Type) where
  predelayBuffer : Nat → α
  predelayBufferSize : Int
  preWritePos : Int
  fs : α
  taps : Nat → Reflection α

/-- The default-initialised `EarlyReflections`. -/
def EarlyReflections.fresh : EarlyReflections α :=
  { predelayBuffer := fun _ => 0.0, predelayBufferSize := 0, preWritePos := 0, fs := 48000.0,
    taps := fun _ => Reflection.fresh }

/-- The method `EarlyReflections::reset`. -/
def EarlyReflections.reset (er : EarlyReflections α) : EarlyReflections α :=
  { er with predelayBuffer := fun _ => 0.0, preWritePos := 0 }

/-- The method `EarlyReflections::prepare`. -/
def EarlyReflections.prepare [FloorRing α] (er : EarlyReflections α) (sampleRate : α) :
    EarlyReflections α :=
  let er := { er with fs := sampleRate }
  let size := truncInt (MAX_DELAY_SECONDS * sampleRate) + 4096
  let er :=
    { er with
      predelayBufferSize := if er.predelayBufferSize < size then size else er.predelayBufferSize }
  er.reset

/-- The body of the tap loop of `EarlyReflections::updateGeometry` for tap `i`,
with the locals `paths[i]`, `dDirect`, `baseDelay` and `maxBuf` given. -/
def updateTap [FloorRing α] (fs : α) (path dDirect : α) (baseDelay maxBuf : Int)
    (diffusion : α) (i : Nat) (t : Reflection α) : Reflection α :=
  let c : α := SPEED_OF_SOUND
  let pathDiff := path - dDirect
  let pathDiff := if pathDiff < 0.1 then 0.1 else pathDiff
  let timeSec := pathDiff / c
  let samp := baseDelay + truncInt (timeSec * fs)
  let t := { t with delaySamples := stdClampInt samp 1 (maxBuf - 1) }
  let distAtten := 1.0 / (1.0 + path * 0.5)
  let t := { t with gain := distAtten * (1.0 - diffusion * 0.3) }
  if i = 2 then { t with panL := 0.9, panR := 0.1 }
  else if i = 3 then { t with panL := 0.1, panR := 0.9 }
  else { t with panL := 0.5, panR := 0.5 }

/-- The local `dDirect` of `EarlyReflections::updateGeometry`. -/
def directPath (m : Libm α) (W D H srcH dist pan : α) : α :=
  let sx := pan * (W * 0.45)
  let sy := (srcH - 0.5) * H
  let sz := (dist - 0.5) * D
  let lx : α := 0.0
  let ly : α := 0.0
  let lz := -D * 0.45
  m.sqrt (m.pow (sx - lx) 2 + m.pow (sy - ly) 2 + m.pow (sz - lz) 2)

/-- The local array `paths` of `EarlyReflections::updateGeometry`. -/
def reflectionPaths (m : Libm α) (W D H srcH dist pan : α) : List α :=
  let sx := pan * (W * 0.45)
  let sy := (srcH - 0.5) * H
  let sz := (dist - 0.5) * D
  let lx : α := 0.0
  let ly : α := 0.0
  let lz := -D * 0.45
  let dFloor := m.sqrt (m.pow (sx - lx) 2 + m.pow (-H - sy - ly) 2 + m.pow (sz - lz) 2)
  let dCeil :=
    m.sqrt (m.pow (sx - lx) 2 + m.pow (H + (H / 2.0 - sy) - ly) 2 + m.pow (sz - lz) 2)
  let dLeft := m.sqrt (m.pow (-W - sx - lx) 2 + m.pow (sy - ly) 2 + m.pow (sz - lz) 2)
  let dRight :=
    m.sqrt (m.pow (W + (W / 2.0 - sx) - lx) 2 + m.pow (sy - ly) 2 + m.pow (sz - lz) 2)
  let dFront :=
    m.sqrt (m.pow (sx - lx) 2 + m.pow (sy - ly) 2 + m.pow (D + (D / 2.0 - sz) - lz) 2)
  let dBack := m.sqrt (m.pow (sx - lx) 2 + m.pow (sy - ly) 2 + m.pow (-D - sz - lz) 2)
  [dFloor, dCeil, dLeft, dRight, dFront, dBack,
    (dFloor + dCeil + dLeft + dRight) * 0.25 + 1.0]

/-- The method `EarlyReflections::updateGeometry`. -/
def EarlyReflections.updateGeometry [FloorRing α] (m : Libm α) (er : EarlyReflections α)
    (W D H predelayMs srcH diffusion dist pan : α) : EarlyReflections α :=
  let baseDelay := truncInt (predelayMs * 0.001 * er.fs)
  let dDirect := directPath m W D H srcH dist pan
  let paths := reflectionPaths m W D H srcH dist pan
  let maxBuf := er.predelayBufferSize
  { er with
    taps := forRange 0 7 1
      (fun i taps => store taps i
        (updateTap er.fs (paths.getD i 0) dDirect baseDelay maxBuf diffusion i (taps i)))
      er.taps }

/-! ### `FDNChannel` -/

/-- The struct `FDNChannel`; `bufferSize` is `buffer.size()`. -/
structure FDNChannel (α : Type) where
  buffer : Nat → α
  bufferSize : Int
  writePos : Int
  lfo : ChaosLFO α
  materialFilter : MaterialFilter4Band α
  loopAllpass1 : LoopAllpass α
  loopAllpass2 : LoopAllpass α
  feedbackDCBlocker : DCBlocker α
  delaySmoother : ParameterSmoother α
  gainSmoother : ParameterSmoother α
  densitySmoother : ParameterSmoother α

/-- The default-initialised `FDNChannel`. -/
def FDNChannel.fresh : FDNChannel α :=
  { buffer := fun _ => 0.0, bufferSize := 0, writePos := 0, lfo := ChaosLFO.fresh,
    materialFilter := MaterialFilter4Band.fresh, loopAllpass1 := LoopAllpass.fresh,
    loopAllpass2 := LoopAllpass.fresh, feedbackDCBlocker := DCBlocker.reset,
    delaySmoother := ParameterSmoother.fresh, gainSmoother := ParameterSmoother.fresh,
    densitySmoother := ParameterSmoother.fresh }

/-- The method `FDNChannel::prepare`. -/
def FDNChannel.prepare [FloorRing α] (ch : FDNChannel α) (sampleRate : α) : FDNChannel α :=
  let size := truncInt (MAX_DELAY_SECONDS * sampleRate) + 4096
  let ch :=
    { ch with
      buffer :=
        if ch.bufferSize < size then
          fun k => if (k : Int) < ch.bufferSize then ch.buffer k else 0.0
        else ch.buffer
      bufferSize := if ch.bufferSize < size then size else ch.bufferSize }
  let ch := { ch with loopAllpass1 := ch.loopAllpass1.setup 4096 sampleRate }
  { ch with loopAllpass2 := ch.loopAllpass2.setup 4096 sampleRate }

/-- The method `FDNChannel::setDensity`. -/
def FDNChannel.setDensity (ch : FDNChannel α) (amount : α) (samplesToSmooth : Int) :
    FDNChannel α :=
  let g := amount * 0.6
  { ch with densitySmoother := ch.densitySmoother.setTarget g samplesToSmooth }

/-- The method `FDNChannel::reset`. -/
def FDNChannel.reset (ch : FDNChannel α) : FDNChannel α :=
  { ch with
    buffer := fun _ => 0.0
    writePos := 0
    materialFilter := ch.materialFilter.reset
    loopAllpass1 := ch.loopAllpass1.reset
    loopAllpass2 := ch.loopAllpass2.reset
    feedbackDCBlocker := DCBlocker.reset
    delaySmoother := ch.delaySmoother.snapTo 1000.0
    gainSmoother := ch.gainSmoother.snapTo 0.0
    densitySmoother := ch.densitySmoother.snapTo 0.0 }

/-! ### `FDNEngine` -/

/-- The class `FDNEngine`; every `...Size` member is the `size()` of the vector
of that name. -/
structure FDNEngine (α : Type) where
  inputDelayBuffer : Nat → α
  inputDelayBufferSize : Int
  inputDelayWritePos : Int
  currentPreDelaySamples : Int
  dryGainSmoother : ParameterSmoother α
  wetGainSmoother : ParameterSmoother α
  stereoSpreadBuffer : Nat → α
  stereoSpreadBufferSize : Int
  stereoSpreadSamples : Int
  stereoSpreadWritePos : Int
  inFilterL : HighQualityFilter α
  inFilterR : HighQualityFilter α
  outFilterL : HighQualityFilter α
  outFilterR : HighQualityFilter α
  dynamicsProcessor : DynamicsProcessor α
  currentDynamicsAmount : α
  tiltEQ_L : TiltEqualizer α
  tiltEQ_R : TiltEqualizer α
  velvetL : VelvetNoiseDiffuser α
  velvetR : VelvetNoiseDiffuser α
  sideHPF : OnePoleHighpass α
  channels : Nat → FDNChannel α
  erEngine : EarlyReflections α
  dcBlockerL : DCBlocker α
  dcBlockerR : DCBlocker α
  fs : α
  currentModDepth : α
  currentDrive : α
  currentWidth : α
  panInputL : α
  panInputR : α
  lastAvgDelay : α
  lastRT60Data : Nat → α
  currentShapeMode : Int

/-- The part of the engine state that `updatePhysics` reads for the delay
targets: `fs` and `maxChBuf = (int)channels[0].buffer.size()`. -/
def FDNEngine.config (s : FDNEngine α) : EngineConfig α :=
  { fs := s.fs, maxChBuf := (s.channels 0).bufferSize }

/-- The body of the channel loop of `FDNEngine::reset` for channel `i`: the calls
`channels[i].reset()` and `channels[i].lfo.setPhase((float)i / (float)FDN_CHANNELS)`. -/
def resetChannel (i : Nat) (ch : FDNChannel α) : FDNChannel α :=
  let ch := ch.reset
  { ch with lfo := ch.lfo.setPhase ((i : α) / (FDN_CHANNELS : α)) }

/-- The method `FDNEngine::reset`. The calls `velvetL.reset()` and
`velvetR.reset()` act only on members that are left out. -/
def FDNEngine.reset (s : FDNEngine α) : FDNEngine α :=
  { s with
    channels := forRange 0 FDN_CHANNELS 1
      (fun i chans => store chans i (resetChannel i (chans i))) s.channels
    inputDelayBuffer := fun _ => 0.0
    inputDelayWritePos := 0
    stereoSpreadBuffer := fun _ => 0.0
    stereoSpreadWritePos := 0
    dryGainSmoother := s.dryGainSmoother.snapTo 1.0
    wetGainSmoother := s.wetGainSmoother.snapTo 0.0
    erEngine := s.erEngine.reset
    dcBlockerL := DCBlocker.reset
    dcBlockerR := DCBlocker.reset
    inFilterL := s.inFilterL.reset
    inFilterR := s.inFilterR.reset
    outFilterL := s.outFilterL.reset
    outFilterR := s.outFilterR.reset
    sideHPF := s.sideHPF.reset
    dynamicsProcessor := s.dynamicsProcessor.reset
    tiltEQ_L := s.tiltEQ_L.reset
    tiltEQ_R := s.tiltEQ_R.reset }

/-- The engine after its constructor: the default member initialisers, then
`stereoSpreadBuffer.resize(2048, 0.0f)` and `reset()`. -/
def FDNEngine.fresh : FDNEngine α :=
  FDNEngine.reset
    { inputDelayBuffer := fun _ => 0.0
      inputDelayBufferSize := 0
      inputDelayWritePos := 0
      currentPreDelaySamples := 0
      dryGainSmoother := ParameterSmoother.fresh
      wetGainSmoother := ParameterSmoother.fresh
      stereoSpreadBuffer := fun _ => 0.0
      stereoSpreadBufferSize := 2048
      stereoSpreadSamples := 24
      stereoSpreadWritePos := 0
      inFilterL := HighQualityFilter.fresh
      inFilterR := HighQualityFilter.fresh
      outFilterL := HighQualityFilter.fresh
      outFilterR := HighQualityFilter.fresh
      dynamicsProcessor := DynamicsProcessor.fresh
      currentDynamicsAmount := 0.0
      tiltEQ_L := TiltEqualizer.fresh
      tiltEQ_R := TiltEqualizer.fresh
      velvetL := { amount := 0.0 }
      velvetR := { amount := 0.0 }
      sideHPF := OnePoleHighpass.fresh
      channels := fun _ => FDNChannel.fresh
      erEngine := EarlyReflections.fresh
      dcBlockerL := DCBlocker.reset
      dcBlockerR := DCBlocker.reset
      fs := 48000.0
      currentModDepth := 0.0
      currentDrive := 0.0
      currentWidth := 1.0
      panInputL := 0.707
      panInputR := 0.707
      lastAvgDelay := 0.0
      lastRT60Data := fun _ => 0.0
      currentShapeMode := 0 }

/-- The body of the channel loop of `FDNEngine::prepare` for channel `i`: the
calls `lfo.setFrequency(0.5f * LFO_RATIOS[i], fs)`, `lfo.setPhase(i / FDN_CHANNELS)`
and `channels[i].prepare(sampleRate)`. -/
def prepareChannel [FloorRing α] (sampleRate : α) (i : Nat) (ch : FDNChannel α) :
    FDNChannel α :=
  let ch := { ch with lfo := ch.lfo.setFrequency (0.5 * LFO_RATIOS.getD i 0) sampleRate }
  let ch := { ch with lfo := ch.lfo.setPhase ((i : α) / (FDN_CHANNELS : α)) }
  ch.prepare sampleRate

/-- The method `FDNEngine::prepare`. The calls `velvetL.prepare` and
`velvetR.prepare` act only on members that are left out. -/
def FDNEngine.prepare [FloorRing α] (m : Libm α) (s : FDNEngine α) (sampleRate : α) :
    FDNEngine α :=
  let s := { s with fs := sampleRate }
  let inDelaySize := truncInt (MAX_DELAY_SECONDS * sampleRate) + 4096
  let s :=
    { s with
      inputDelayBuffer :=
        if s.inputDelayBufferSize < inDelaySize then
          fun k => if (k : Int) < s.inputDelayBufferSize then s.inputDelayBuffer k else 0.0
        else s.inputDelayBuffer
      inputDelayBufferSize :=
        if s.inputDelayBufferSize < inDelaySize then inDelaySize else s.inputDelayBufferSize }
  let stereoSpreadSamples := stdMaxInt 1 (truncInt (STEREO_SPREAD_MS * 0.001 * sampleRate))
  let s :=
    { s with
      stereoSpreadSamples := if stereoSpreadSamples > 2048 then 2048 else stereoSpreadSamples }
  let s :=
    { s with
      channels := forRange 0 FDN_CHANNELS 1
        (fun i chans => store chans i (prepareChannel sampleRate i (chans i))) s.channels }
  let s :=
    { s with
      inFilterL := s.inFilterL.prepare s.fs
      inFilterR := s.inFilterR.prepare s.fs
      outFilterL := s.outFilterL.prepare s.fs
      outFilterR := s.outFilterR.prepare s.fs }
  let s := { s with sideHPF := (s.sideHPF.setFrequency m 200.0 s.fs).reset }
  let s := { s with erEngine := s.erEngine.prepare sampleRate }
  let s := { s with dynamicsProcessor := s.dynamicsProcessor.prepare m sampleRate }
  let s :=
    { s with tiltEQ_L := s.tiltEQ_L.prepare sampleRate, tiltEQ_R := s.tiltEQ_R.prepare sampleRate }
  s.reset

/-! ## 8. `FDNEngine::updatePhysics` as a state transformer -/

/-- The local `lfoFreq` of the SFX branch. -/
def sfxLfoFreq (sfxType : Int) : α :=
  if sfxType = 1 then 2.0
  else if sfxType = 2 then 0.0
  else if sfxType = 3 then 6.0
  else if sfxType = 4 then 50.0
  else if sfxType = 5 then 0.0
  else 0.0

/-- The local `lfoDepthScaled` of the SFX branch. -/
def sfxLfoDepthScaled (sfxType : Int) : α :=
  if sfxType = 1 then 200.0
  else if sfxType = 2 then 0.0
  else if sfxType = 3 then 30.0
  else if sfxType = 4 then 5.0
  else if sfxType = 5 then 0.0
  else 0.0

/-- The value of `currentModDepth` set by the normal branch. -/
def normalModDepth (fs : α) (p : PhysicsParams α) : α :=
  let depthSkewed :=
    if p.modDepth < 0.8 then p.modDepth * 0.25 else 0.2 + (p.modDepth - 0.8) * 4.0
  let depthSkewed := depthSkewed * (1.0 + p.diffusion * 0.5)
  let sampleRateScale := fs / REFERENCE_SAMPLE_RATE
  depthSkewed * 20.0 * sampleRateScale

/-- The local `rateScaled` of the normal branch. -/
def rateScaled (p : PhysicsParams α) : α := p.modRate * 0.4

/-- The value of `lastAvgDelay` set by the normal branch. -/
def avgDelaySamples (fs : α) (p : PhysicsParams α) : α :=
  baseDelaySec p * (ratioSum p.roomShape / 16.0) * fs

/-- The method `FDNEngine::calcT60`, reading the members `lastAvgDelay` and `fs`. -/
def calcT60 (m : Libm α) (fs lastAvgDelay g : α) : α :=
  let safeG := stdMin g 0.9995
  if safeG ≤ 0.001 then 0.0
  else
    let delaySec := lastAvgDelay / fs
    let t60 := -3.0 * delaySec / m.log10 safeG
    t60

/-- The local `apLen` of channel `i` in the last channel loop. -/
def apLen [FloorRing α] (e : EngineConfig α) (p : PhysicsParams α) (i : Nat) : Int :=
  let apLen := truncInt (targetDelay e p i * 0.3)
  if apLen < 8 then 8 else apLen

/-- The local `distanceFactor`. -/
def distanceFactor (p : PhysicsParams α) : α :=
  stdClamp (p.sourceDist / p.depthM) 0.0 1.0

/-- The local `effectivePreDelay`. -/
def effectivePreDelay (p : PhysicsParams α) : α :=
  let distDelayReduction := distanceFactor p * 20.0
  let effectivePreDelay := p.predelayMs - distDelayReduction
  if effectivePreDelay < 0.0 then 0.0 else effectivePreDelay

/-- The value of `currentPreDelaySamples` set by `updatePhysics`. -/
def preDelaySamples [FloorRing α] (fs : α) (maxInBuf : Int) (p : PhysicsParams α) : Int :=
  let c := truncInt ((effectivePreDelay p / 1000.0) * fs)
  if c ≥ maxInBuf then maxInBuf - 1 else c

/-- The local `panVal`. -/
def panVal (p : PhysicsParams α) : α := stdClamp p.sourcePan (-1.0) 1.0

/-- The value of `panInputL` before normalisation. -/
def panInputLRaw (p : PhysicsParams α) : α := 1.0 - stdMax 0.0 (panVal p)

/-- The value of `panInputR` before normalisation. -/
def panInputRRaw (p : PhysicsParams α) : α := 1.0 - stdMax 0.0 (-(panVal p))

/-- The local `norm`. -/
def panNorm (m : Libm α) (p : PhysicsParams α) : α :=
  1.0 / m.sqrt (panInputLRaw p * panInputLRaw p + panInputRRaw p * panInputRRaw p)

/-- The local `baseGainMix`. -/
def baseGainMix (p : PhysicsParams α) : α :=
  1.0 / stdMax 0.1 (1.0 - p.absorptionOverride * 0.5)

/-- The local `sizeComp`. -/
def sizeComp (p : PhysicsParams α) : α := 1.0 + stdClamp (volume p / 10000.0) 0.0 0.5

/-- The local `makeup`. -/
def makeup (p : PhysicsParams α) : α := stdClamp (baseGainMix p * sizeComp p) 1.0 3.0

/-- The local `mix`. -/
def mixAmount (p : PhysicsParams α) : α := stdClamp p.dryWet 0.0 1.0

/-- The local `dryG`, the target given to `dryGainSmoother`. -/
def dryGainTarget (m : Libm α) (p : PhysicsParams α) : α :=
  m.cos (mixAmount p * HALF_PI) * p.outputLevel

/-- The local `wetG`, the target given to `wetGainSmoother`. -/
def wetGainTarget (m : Libm α) (p : PhysicsParams α) : α :=
  let wetBoost : α := 2.4
  m.sin (mixAmount p * HALF_PI) * p.outputLevel * makeup p * wetBoost

/-- The body of the SFX branch for channel `i`: the calls
`materialFilter.setCoeffs(sfxGains, 1.0f, fs)` and `lfo.setFrequency(lfoFreq, fs)`. -/
def sfxChannelUpdate (m : Libm α) (fs : α) (p : PhysicsParams α) (ch : FDNChannel α) :
    FDNChannel α :=
  let ch := { ch with materialFilter := ch.materialFilter.setCoeffs m (sfxGains p) 1.0 fs }
  { ch with lfo := ch.lfo.setFrequency (sfxLfoFreq (sfxTypeOf p)) fs }

/-- The body of the channel loop of the normal branch for channel `i`: the calls
`materialFilter.setCoeffs(sampleGains, baseGain, fs)` and
`lfo.setFrequency(rateScaled * LFO_RATIOS[i], fs)`. -/
def normalChannelUpdate [FloorRing α] (m : Libm α) (e : EngineConfig α) (p : PhysicsParams α)
    (i : Nat) (ch : FDNChannel α) : FDNChannel α :=
  let ch :=
    { ch with
      materialFilter := ch.materialFilter.setCoeffs m (sampleGains m e p i) (baseGain m p) e.fs }
  let uniqueRate := rateScaled p * LFO_RATIOS.getD i 0
  { ch with lfo := ch.lfo.setFrequency uniqueRate e.fs }

/-- The body of the loop "Apply delays & filters" for channel `i`. -/
def applyChannelUpdate [FloorRing α] (e : EngineConfig α) (p : PhysicsParams α) (i : Nat)
    (ch : FDNChannel α) : FDNChannel α :=
  let apGain := p.density * 0.15
  let ch := ch.setDensity apGain p.samplesPerBlock
  let ch :=
    { ch with loopAllpass1 := ch.loopAllpass1.setModulation p.modRate p.modDepth e.fs (i : Int) }
  let ch :=
    { ch with
      loopAllpass2 := ch.loopAllpass2.setModulation p.modRate p.modDepth e.fs ((i : Int) + 16) }
  let apLen := apLen e p i
  let ch := { ch with loopAllpass1 := ch.loopAllpass1.setBaseDelay apLen }
  let ch :=
    { ch with loopAllpass2 := ch.loopAllpass2.setBaseDelay (truncInt ((apLen : α) * 1.5)) }
  { ch with delaySmoother := ch.delaySmoother.setTarget (targetDelay e p i) p.samplesPerBlock }

/-- The method `FDNEngine::updatePhysics`. The local array `targetDelays` is
`targetDelay e p`, where `e` holds `fs` and `maxChBuf`. -/
def FDNEngine.updatePhysics [FloorRing α] (m : Libm α) (s : FDNEngine α)
    (p : PhysicsParams α) : FDNEngine α :=
  let s := { s with currentShapeMode := p.roomShape }
  let sfxType := sfxTypeOf p
  let e : EngineConfig α := s.config
  let s :=
    { s with
      currentDrive := p.drive
      dynamicsProcessor :=
        s.dynamicsProcessor.setParams m p.dynThreshold p.dynRatio p.dynAttack p.dynRelease
      currentDynamicsAmount := p.dynamicsAmount
      tiltEQ_L := s.tiltEQ_L.setTilt m p.tilt
      tiltEQ_R := s.tiltEQ_R.setTilt m p.tilt
      velvetL := s.velvetL.setAmount p.diffusion
      velvetR := s.velvetR.setAmount p.diffusion }
  let s :=
    if sfxType > 0 then
      { s with
        lastRT60Data := forRange 0 6 1 (fun b decay => store decay b 0.0) s.lastRT60Data
        channels := forRange 0 FDN_CHANNELS 1
          (fun i chans => store chans i (sfxChannelUpdate m s.fs p (chans i))) s.channels
        currentDrive := if sfxType = 4 then 1.0 else s.currentDrive
        currentModDepth := sfxLfoDepthScaled sfxType }
    else
      let s := { s with currentModDepth := normalModDepth s.fs p }
      let s :=
        { s with
          channels := forRange 0 FDN_CHANNELS 1
            (fun i chans => store chans i (normalChannelUpdate m e p i (chans i))) s.channels }
      let s := { s with lastAvgDelay := avgDelaySamples s.fs p }
      { s with
        lastRT60Data := forRange 0 6 1
          (fun b decay => store decay b (calcT60 m s.fs s.lastAvgDelay (finalGains m p b)))
          s.lastRT60Data }
  let s :=
    { s with
      channels := forRange 0 FDN_CHANNELS 1
        (fun i chans => store chans i (applyChannelUpdate e p i (chans i))) s.channels }
  let s :=
    { s with
      currentPreDelaySamples := preDelaySamples s.fs s.inputDelayBufferSize p
      currentWidth := p.stereoWidth * (1.0 - distanceFactor p * 0.5)
      panInputL := panInputLRaw p * panNorm m p
      panInputR := panInputRRaw p * panNorm m p }
  let safeSrcH := stdClamp p.sourceHeight 0.0 p.heightM
  let s :=
    { s with
      erEngine := s.erEngine.updateGeometry m p.widthM p.depthM p.heightM (effectivePreDelay p)
        safeSrcH p.diffusion p.sourceDist p.sourcePan }
  let s :=
    { s with
      inFilterL := (s.inFilterL.setHighPass m p.inLC).setLowPass m p.inHC
      inFilterR := (s.inFilterR.setHighPass m p.inLC).setLowPass m p.inHC
      outFilterL := (s.outFilterL.setHighPass m p.outLC).setLowPass m p.outHC
      outFilterR := (s.outFilterR.setHighPass m p.outLC).setLowPass m p.outHC }
  let smoothSamples := truncInt (0.05 * s.fs)
  { s with
    dryGainSmoother := s.dryGainSmoother.setTarget (dryGainTarget m p) smoothSamples
    wetGainSmoother := s.wetGainSmoother.setTarget (wetGainTarget m p) smoothSamples }

/-- The method `FDNEngine::getEstimatedRT60`, band by band. -/
def FDNEngine.getEstimatedRT60 (s : FDNEngine α) (b : Nat) : α := s.lastRT60Data b

end Engine

section Inputs

variable {α : Type} [LinearOrderedField α]

/-! ## 9. More concrete inputs and states used in evaluations -/

/-- The engine after its constructor and one call `prepare(sampleRate)`. -/
def preparedEngine [FloorRing α] (m : Libm α) (sampleRate : α) : FDNEngine α :=
  FDNEngine.prepare m FDNEngine.fresh sampleRate

/-- The arguments that the processor passes to `updatePhysics` for the factory
preset "Grand Canyon" (`addPreset("Grand Canyon", "07_Nature_FX", ..., 300.0f,
300.0f, 300.0f, 19, 12, 19, 19, 0.20f, ...)`) with blocks of 512 samples: the
processor passes `sourceDist = 0.3 * 300` and `sourceHeight = 0.1 * 300`. -/
def grandCanyonParams : PhysicsParams α where
  widthM := 300
  depthM := 300
  heightM := 300
  matFloorIdx := 19
  matCeilIdx := 12
  matWallIdx := 19
  matWallFBIdx := 19
  absorptionOverride := 0.20
  modRate := 0
  modDepth := 0
  predelayMs := 0
  tempC := 25
  humidityPct := 20
  dryWet := 0.40
  inLC := 20
  inHC := 20000
  outLC := 100
  outHC := 15000
  sourceDist := 90
  sourcePan := 0
  sourceHeight := 30
  roomShape := 2
  diffusion := 0.30
  stereoWidth := 2.0
  outputLevel := 1.0
  density := 0
  drive := 0
  dynamicsAmount := 0
  tilt := 0
  dynThreshold := -20
  dynRatio := 2
  dynAttack := 10
  dynRelease := 100
  samplesPerBlock := 512
  decayRatio := 1.0

/-- The tuple `exampleParams` with a room of width 0 (a 0 m x 15 m x 5 m room). -/
def flatRoomParams : PhysicsParams α := { exampleParams with widthM := 0 }

/-- The tuple `exampleParams` with `decayRatio = 0`, the fallback branch of the
decay exponent. -/
def zeroDecayParams : PhysicsParams α := { exampleParams with decayRatio := 0 }

/-- The tuple `exampleParams` with a room of depth 0. -/
def zeroDepthParams : PhysicsParams α := { exampleParams with depthM := 0 }

/-- The tuple `exampleParams` with a room whose three dimensions are 0. -/
def zeroRoomParams : PhysicsParams α :=
  { exampleParams with widthM := 0, depthM := 0, heightM := 0 }

/-- The tuple `exampleParams` with the floor material 31 (plasma) and a tilt of
3 dB. -/
def plasmaTiltParams : PhysicsParams α := { exampleParams with matFloorIdx := 31, tilt := 3 }

/-- The tuple `exampleParams` with a tilt of 2.995 dB. -/
def nearTiltParams : PhysicsParams α := { exampleParams with tilt := 2.995 }

/-- The tuple `exampleParams` with `roomShape = 5`. -/
def shape5Params : PhysicsParams α := { exampleParams with roomShape := 5 }

/-- An engine prepared at 8 kHz: `fs = 8000` and channel buffers of
`(int)(10 * 8000) + 4096 = 84096` samples. -/
def engine8k : EngineConfig α := ⟨8000, 84096⟩

/-- A parameter tuple inside the ranges of the plugin: a 2 m cube in room shape 6,
material 28 on every surface, `absorptionOverride = 1` and `decayRatio = 0`. -/
def absorbentRoomParams : PhysicsParams α :=
  { exampleParams with
    widthM := 2, depthM := 2, heightM := 2, matFloorIdx := 28, matCeilIdx := 28,
    matWallIdx := 28, matWallFBIdx := 28, absorptionOverride := 1, roomShape := 6,
    decayRatio := 0 }

end Inputs

section SpecSide

variable {α : Type} [LinearOrderedField α]

/-! ## 10. Specification-side observations of the engine state -/

/-- Specification: the target coefficients of one smoothed biquad section. -/
def SmoothedBiquad.targets (s : SmoothedBiquad α) : List α :=
  [s.tb0, s.tb1, s.tb2, s.ta1, s.ta2]

/-- Specification: the smoother targets of one channel, namely the delay target,
the density target, the broadband-gain target of the material filter and the
target coefficients of its four sections. -/
def FDNChannel.smootherTargets (ch : FDNChannel α) : List α :=
  [ch.delaySmoother.targetValue, ch.densitySmoother.targetValue,
    ch.materialFilter.midGainSmoother.targetValue]
    ++ ch.materialFilter.ls.targets ++ ch.materialFilter.p1.targets
    ++ ch.materialFilter.p2.targets ++ ch.materialFilter.hs.targets

/-- Specification: the smoother targets of the engine, namely the dry and wet
gain targets and the targets of each of the 16 channels. -/
def FDNEngine.smootherTargets (s : FDNEngine α) : List α × List (List α) :=
  ([s.dryGainSmoother.targetValue, s.wetGainSmoother.targetValue],
    (List.range FDN_CHANNELS).map (fun i => (s.channels i).smootherTargets))

/-- Specification: two engine states are prepared alike when they agree on the
members that `prepare` writes and `updatePhysics` only reads: the sample rate of
the engine and of its parts, and the sizes of the channel, input-delay and
early-reflection buffers. -/
def FDNEngine.SamePreparation (s t : FDNEngine α) : Prop :=
  s.fs = t.fs ∧
  (s.channels 0).bufferSize = (t.channels 0).bufferSize ∧
  s.inputDelayBufferSize = t.inputDelayBufferSize ∧
  s.dynamicsProcessor.sampleRate = t.dynamicsProcessor.sampleRate ∧
  s.inFilterL.sampleRate = t.inFilterL.sampleRate ∧
  s.inFilterR.sampleRate = t.inFilterR.sampleRate ∧
  s.outFilterL.sampleRate = t.outFilterL.sampleRate ∧
  s.outFilterR.sampleRate = t.outFilterR.sampleRate ∧
  s.erEngine.fs = t.erEngine.fs ∧
  s.erEngine.predelayBufferSize = t.erEngine.predelayBufferSize ∧
  s.tiltEQ_L.sampleRate = t.tiltEQ_L.sampleRate ∧
  s.tiltEQ_R.sampleRate = t.tiltEQ_R.sampleRate

/-- Specification: the coefficients of one biquad section of an input or output
filter. -/
def BiquadSection.coeffs (b : BiquadSection α) : List α := [b.b0, b.b1, b.b2, b.a1, b.a2]

/-- Specification: the cutoff frequencies and section coefficients of an input or
output filter. -/
def HighQualityFilter.coeffs (f : HighQualityFilter α) : List α :=
  [f.currentLPFreq, f.currentHPFreq] ++ f.lpSection1.coeffs ++ f.lpSection2.coeffs
    ++ f.hpSection1.coeffs ++ f.hpSection2.coeffs

/-- Specification: the threshold, ratio and time coefficients of the dynamics
processor. -/
def DynamicsProcessor.coeffs (d : DynamicsProcessor α) : List α :=
  [d.thresholdDB, d.ratio, d.attackCoef, d.releaseCoef]

/-- Specification: the applied gain and the coefficients of a tilt equaliser. -/
def TiltEqualizer.coeffs (t : TiltEqualizer α) : List α :=
  [t.currentGainDB, t.b0, t.b1, t.b2, t.a1, t.a2]

/-- Specification: the delay, gain and pan of the seven early reflections. -/
def EarlyReflections.coeffs (er : EarlyReflections α) : List (Int × List α) :=
  (List.range 7).map (fun i =>
    ((er.taps i).delaySamples, [(er.taps i).gain, (er.taps i).panL, (er.taps i).panR]))

/-- Specification: the coefficients that `updatePhysics` derives for one channel,
namely the two loop-allpass lengths, the smoother targets, the two increments of
the channel LFO and the LFO increments of the two loop allpasses. The modulation
depth `lfoDepth` of the loop allpasses is not part of it. -/
def FDNChannel.coeffs (ch : FDNChannel α) : List Int × List α :=
  ([ch.loopAllpass1.currentDelayLen, ch.loopAllpass2.currentDelayLen],
    ch.smootherTargets
      ++ [ch.lfo.inc1, ch.lfo.inc2, ch.loopAllpass1.lfoInc, ch.loopAllpass2.lfoInc])

/-- Specification: the coefficients that `updatePhysics` derives, the tilt
equalisers and the loop-allpass modulation depths left aside. -/
structure DerivedCoefficients (α : Type) where
  shapeMode : Int
  preDelaySamples : Int
  scalars : List α
  gainTargets : List α
  rt60 : List α
  dynamics : List α
  filters : List (List α)
  reflections : List (Int × List α)
  channels : List (List Int × List α)

/-- Specification: the derived coefficients held by an engine state. -/
def FDNEngine.derivedCoefficients (s : FDNEngine α) : DerivedCoefficients α where
  shapeMode := s.currentShapeMode
  preDelaySamples := s.currentPreDelaySamples
  scalars := [s.currentDrive, s.currentDynamicsAmount, s.currentModDepth, s.currentWidth,
    s.panInputL, s.panInputR, s.velvetL.amount, s.velvetR.amount]
  gainTargets := [s.dryGainSmoother.targetValue, s.wetGainSmoother.targetValue]
  rt60 := (List.range 6).map s.lastRT60Data
  dynamics := s.dynamicsProcessor.coeffs
  filters := [s.inFilterL.coeffs, s.inFilterR.coeffs, s.outFilterL.coeffs, s.outFilterR.coeffs]
  reflections := s.erEngine.coeffs
  channels := (List.range FDN_CHANNELS).map (fun i => (s.channels i).coeffs)

/-- Specification: the smoother after `k` calls of `getNext`, that is after `k`
trips of the sample loop of `process`. -/
def ParameterSmoother.advance (k : Nat) (s : ParameterSmoother α) : ParameterSmoother α :=
  (fun t => (ParameterSmoother.getNext t).1)^[k] s

/-! ## 11. Statements of `updatePhysics` with guarded division -/

/-- Guarded division: `none` when the divisor is zero. -/
def checkedDiv (a b : α) : Option α := if b = 0 then none else some (a / b)

/-- The statement `float mfp = (4.0f * volume / std::max(1.0f, totalArea));` with
its division guarded. -/
def mfpChecked (p : PhysicsParams α) : Option α :=
  checkedDiv (4.0 * volume p) (stdMax 1.0 (totalArea p))

/-- The lambda `weightedAvg` with its division guarded. -/
def weightedAvgChecked (p : PhysicsParams α) (vF vC vS vFB : α) : Option α :=
  checkedDiv (vF * areaFloor p + vC * areaFloor p + vS * areaSide p + vFB * areaFB p)
    (totalArea p)

/-- The statement `float distanceFactor = std::clamp(sourceDist / depthM, 0.0f, 1.0f);`
with its division guarded. -/
def distanceFactorChecked (p : PhysicsParams α) : Option α :=
  (checkedDiv p.sourceDist p.depthM).map (fun q => stdClamp q 0.0 1.0)

end SpecSide

section SampleProcessing

variable {α : Type} [LinearOrderedField α]

/-! ## 12. Per-sample processing -/

/-- The function `antiDenormal(float x)`. -/
def antiDenormal (x : α) : α := if |x| < 1.0e-20 then 0.0 else x

/-- The function `safeLoopSaturate(float x)`. -/
def safeLoopSaturate (m : Libm α) (x : α) : α :=
  if x > 1.5 then 1.5 + m.tanh (x - 1.5) * 0.1
  else if x < -1.5 then -1.5 + m.tanh (x + 1.5) * 0.1
  else x

/-- The method `DynamicsProcessor::process`: the new state and the gain
returned. -/
def DynamicsProcessor.process (m : Libm α) (d : DynamicsProcessor α) (input amount : α) :
    DynamicsProcessor α × α :=
  if |amount| < 0.01 then (d, 1.0)
  else
    let absIn := |input|
    let envelope :=
      if absIn > d.envelope then d.attackCoef * d.envelope + (1.0 - d.attackCoef) * absIn
      else d.releaseCoef * d.envelope + (1.0 - d.releaseCoef) * absIn
    let envelope := antiDenormal envelope
    let envDB := 20.0 * m.log10 (stdMax 1.0e-6 envelope)
    let gainChangeDB : α :=
      if amount < 0.0 then
        (if envDB > d.thresholdDB then
          let over := envDB - d.thresholdDB
          let change := -over * (1.0 - 1.0 / d.ratio)
          change
        else 0.0)
      else
        (if envDB > d.thresholdDB then
          let over := envDB - d.thresholdDB
          over * (1.0 - 1.0 / d.ratio)
        else 0.0)
    let gainChangeDB := gainChangeDB * |amount|
    let gainChangeDB := if gainChangeDB > 24.0 then 24.0 else gainChangeDB
    let gainChangeDB := if gainChangeDB < -60.0 then -60.0 else gainChangeDB
    ({ d with envelope := envelope }, m.pow 10.0 (gainChangeDB / 20.0))

/-- The loop `while (readPos < 0.0f) readPos += (float)size;` entered with the
current `readPos`. -/
def wrapUpLoop (size : α) : Nat → α → Option α
  | 0, _ => none
  | fuel + 1, readPos =>
    if readPos < 0.0 then wrapUpLoop size fuel (readPos + size) else some readPos

/-- The loop `while (readPos >= (float)size) readPos -= (float)size;` entered with
the current `readPos`. -/
def wrapDownLoop (size : α) : Nat → α → Option α
  | 0, _ => none
  | fuel + 1, readPos =>
    if readPos ≥ size then wrapDownLoop size fuel (readPos - size) else some readPos

/-- The two wrapping loops of `LagrangeInterpolator::process` and
`LoopAllpass::process` in sequence, each running on `fuel`. -/
def wrapReadPosF (size : α) (fuel : Nat) (readPos : α) : Option α :=
  match wrapUpLoop size fuel readPos with
  | none => none
  | some readPos => wrapDownLoop size fuel readPos

/-- Fuel that is enough for both wrapping loops when `size` is positive. -/
def wrapFuel [FloorRing α] (size readPos : α) : Nat := (⌈|readPos| / size⌉).toNat + 2

/-- The two wrapping loops as a total function: the loops run with
`wrapFuel size readPos`, which never runs out when `size` is positive
(`wrapReadPosF_eq`). For `size ≤ 0` the C++ loops may not return. -/
def wrapReadPos [FloorRing α] (size readPos : α) : α :=
  (wrapReadPosF size (wrapFuel size readPos) readPos).getD 0.0

/-- The function `LagrangeInterpolator::process(buffer, readPos)`; `size` is
`buffer.size()`. -/
def LagrangeInterpolator.process [FloorRing α] (buffer : Nat → α) (size : Int)
    (readPos : α) : α :=
  if size = 0 then 0.0
  else
    let readPos := wrapReadPos (size : α) readPos
    let i0 := truncInt readPos
    let frac := readPos - (i0 : α)
    let im1 := Int.tmod (i0 - 1 + size) size
    let i1 := Int.tmod (i0 + 1) size
    let i2 := Int.tmod (i0 + 2) size
    let ym1 := buffer im1.toNat
    let y0 := buffer i0.toNat
    let y1 := buffer i1.toNat
    let y2 := buffer i2.toNat
    let c0 := y0
    let c1 := y1 - ym1 * (1.0 / 3.0) - y0 * 0.5 - y2 * (1.0 / 6.0)
    let c2 := (ym1 + y1) * 0.5 - y0
    let c3 := (y0 - y1) * (1.0 / 2.0) + (y2 - ym1) * (1.0 / 6.0)
    ((c3 * frac + c2) * frac + c1) * frac + c0

/-- The method `LoopAllpass::setGain`. -/
def LoopAllpass.setGain (a : LoopAllpass α) (g : α) : LoopAllpass α := { a with gain := g }

/-- The local `readPos` of `LoopAllpass::process` after the two wrapping loops,
computed from the state in which `lfoPhase` has been advanced. -/
def LoopAllpass.readPos [FloorRing α] (m : Libm α) (a : LoopAllpass α) : α :=
  let mod : α := if a.lfoDepth > 0.0 then m.sin a.lfoPhase * a.lfoDepth else 0.0
  let readPos := (a.writePos : α) - (a.currentDelayLen : α) + mod
  wrapReadPos (a.bufferSize : α) readPos

/-- The local `delayed` of `LoopAllpass::process`. -/
def LoopAllpass.delayed [FloorRing α] (m : Libm α) (a : LoopAllpass α) : α :=
  let readPos := a.readPos m
  let bufSize := a.bufferSize
  let idxA := truncInt readPos
  let frac := readPos - (idxA : α)
  a.buffer idxA.toNat * (1.0 - frac) + a.buffer (Int.tmod (idxA + 1) bufSize).toNat * frac

/-- The method `LoopAllpass::process`: the new state and the sample returned. -/
def LoopAllpass.process [FloorRing α] (m : Libm α) (a : LoopAllpass α) (x : α) :
    LoopAllpass α × α :=
  let a : LoopAllpass α :=
    { a with
      lfoPhase :=
        if a.lfoDepth > 0.0 then
          (if a.lfoPhase + a.lfoInc > PI_2 then a.lfoPhase + a.lfoInc - PI_2
           else a.lfoPhase + a.lfoInc)
        else a.lfoPhase }
  let delayed := a.delayed m
  let v_n := x + a.gain * delayed
  let v_n := safeLoopSaturate m v_n
  let v_n := antiDenormal v_n
  let a := { a with buffer := store a.buffer a.writePos.toNat v_n }
  let out := delayed - a.gain * v_n
  ({ a with writePos := Int.tmod (a.writePos + 1) a.bufferSize }, out)

/-- Specification: the state of a loop allpass is bounded when its buffer is not
empty, `writePos` is an offset into it and every sample held in the buffer has a
magnitude below `1.6`. -/
def LoopAllpass.StateBounded (a : LoopAllpass α) : Prop :=
  0 < a.bufferSize ∧ 0 ≤ a.writePos ∧ a.writePos < a.bufferSize ∧
    ∀ k : Nat, (k : Int) < a.bufferSize → |a.buffer k| < 1.6

/-- Specification: a run of a loop allpass over a list of pairs `(gain, input)`,
one pair per sample: `setGain(gain)` then `process(input)`, as in
`FDNChannel::processFilter`. The result is the last state and the list of pairs
`(gain, output)`. -/
def LoopAllpass.run [FloorRing α] (m : Libm α) :
    LoopAllpass α → List (α × α) → LoopAllpass α × List (α × α)
  | a, [] => (a, [])
  | a, (g, x) :: rest =>
    let r := (a.setGain g).process m x
    let t := LoopAllpass.run m r.1 rest
    (t.1, (g, r.2) :: t.2)

/-- Specification: a real function is a polynomial of degree at most three. -/
def IsCubic (P : α → α) : Prop :=
  ∃ a b c d : α, ∀ t : α, P t = a + b * t + c * t ^ 2 + d * t ^ 3

end SampleProcessing
/-- The `<cmath>` functions in exact real arithmetic; every real is finite. -/
noncomputable def realLibm : Libm ℝ where
  pow := fun x y => x ^ y
  sqrt := Real.sqrt
  exp := Real.exp
  isNonFinite := fun _ => false
  sin := Real.sin
  cos := Real.cos
  log10 := fun x => Real.log x / Real.log 10
  tanh := Real.tanh

/-! # Lemmas -/

/-! ### Correctness of the trial division -/

theorem prime_toNat_of_no_small_divisor (num : Int) (h2 : 2 ≤ num)
    (h : ∀ d : Int, 2 ≤ d → d * d ≤ num → ¬ d ∣ num) : Nat.Prime num.toNat := by
  obtain ⟨m, rfl⟩ : ∃ m : ℕ, num = (m : Int) := ⟨num.toNat, by omega⟩
  rw [Int.toNat_natCast, Nat.prime_def_le_sqrt]
  refine ⟨by exact_mod_cast h2, fun d hd hds hdvd => ?_⟩
  refine h (d : Int) (by exact_mod_cast hd) ?_ (Int.natCast_dvd_natCast.mpr hdvd)
  have := Nat.le_sqrt.mp hds
  exact_mod_cast this

theorem no_proper_divisor_of_prime_toNat (num : Int) (hp : Nat.Prime num.toNat)
    (d : Int) (hd : 2 ≤ d) (hlt : d < num) : ¬ d ∣ num := by
  have h0 : 0 ≤ num := by
    by_contra hneg
    rw [Int.toNat_of_nonpos (by omega)] at hp
    exact Nat.not_prime_zero hp
  obtain ⟨m, rfl⟩ : ∃ m : ℕ, num = (m : Int) := ⟨num.toNat, by omega⟩
  obtain ⟨e, rfl⟩ : ∃ e : ℕ, d = (e : Int) := ⟨d.toNat, by omega⟩
  rw [Int.toNat_natCast] at hp
  intro hdvd
  have hdvd2 : e ∣ m := Int.natCast_dvd_natCast.mp hdvd
  rcases hp.eq_one_or_self_of_dvd e hdvd2 with h | h
  · omega
  · omega

theorem tmod_eq_zero_iff_dvd (a b : Int) (ha : 0 ≤ a) (hb : 0 < b) :
    a.tmod b = 0 ↔ b ∣ a := by
  rw [Int.tmod_eq_emod ha (le_of_lt hb)]
  exact Int.dvd_iff_emod_eq_zero.symm

/-! ### Termination of the loops -/

/-! ### The two searches -/

/-! ### Specification of the result -/

theorem isLeastPrimeGE_unique {n a b : Int} (ha : IsLeastPrimeGE n a)
    (hb : IsLeastPrimeGE n b) : a = b := by
  rcases lt_trichotomy a b with h | h | h
  · exact absurd ha.1 (hb.2.2 a ha.2.1 h)
  · exact h
  · exact absurd hb.1 (ha.2.2 b hb.2.1 h)

theorem isGreatestPrimeLE_unique {n a b : Int} (ha : IsGreatestPrimeLE n a)
    (hb : IsGreatestPrimeLE n b) : a = b := by
  rcases lt_trichotomy a b with h | h | h
  · exact absurd hb.1 (ha.2.2 b h hb.2.1)
  · exact h
  · exact absurd ha.1 (hb.2.2 a h ha.2.1)

theorem findNearestPrimeF_small (fuel : Nat) (n : Int) (h : n ≤ 2) :
    findNearestPrimeF fuel n = some 2 := by
  unfold findNearestPrimeF
  rw [if_pos h]

set_option maxHeartbeats 16000000 in
/-- Facts on the trial division `isPrime` and the two searches of `findNearestPrime`:
each returns on enough fuel, and what it returns. -/
theorem prime_search_facts :
    (∀ (num : Int) (hnum : 3 < num),
      ∀ (fuel : Nat) (i : Int), 5 ≤ i → i % 6 = 5 →
        (∀ d : Int, 2 ≤ d → d < i → ¬ d ∣ num) →
        ∀ b, isPrimeLoop num fuel i = some b → (b = true ↔ Nat.Prime num.toNat)) ∧
    (∀ (fuel : Nat) (num : Int) (b : Bool)
    (hb : isPrime fuel num = some b),
      (b = true ↔ Nat.Prime num.toNat)) ∧
    (∀ (num : Int),
      ∀ (fuel : Nat) (i : Int), 2 ≤ i → num < i + fuel →
        ∃ b, isPrimeLoop num (fuel + 1) i = some b) ∧
    (∀ (fuel : Nat) (num : Int) (h : num < 4 + fuel),
      ∃ b, isPrime fuel num = some b) ∧
    (∀ (fuel : Nat) (num : Int) (h : num < 4 + fuel),
      isPrime fuel num = some (decide (Nat.Prime num.toNat))) ∧
    (∀ (fuel : Nat),
      ∀ (steps : Nat) (up q : Int), searchUp fuel steps up = some q →
        Nat.Prime q.toNat ∧ up ≤ q ∧ ∀ d : Int, up ≤ d → d < q → ¬ Nat.Prime d.toNat) ∧
    (∀ (fuel : Nat) (p : Int) (hp : Nat.Prime p.toNat)
    (hfuel : p < 4 + fuel),
      ∀ (steps : Nat) (up : Int), up ≤ p → p < up + steps →
        ∃ q, searchUp fuel steps up = some q) ∧
    (∀ (fuel : Nat),
      ∀ (steps : Nat) (down q : Int), 2 ≤ down → searchDown fuel steps down = some q →
        Nat.Prime q.toNat ∧ q ≤ down ∧ ∀ d : Int, q < d → d ≤ down → ¬ Nat.Prime d.toNat) ∧
    (∀ (fuel : Nat),
      ∀ (steps : Nat) (down : Int), down < 4 + fuel → down < 3 + steps →
        ∃ q, searchDown fuel (steps + 1) down = some q) ∧
    (∀ (fuel : Nat) (n r : Int) (hn : 2 < n)
    (h : findNearestPrimeF fuel n = some r),
      ∃ up down, IsLeastPrimeGE n up ∧ IsGreatestPrimeLE n down ∧
        r = if up - n < n - down then up else down) ∧
    (∀ (f g : Nat) (n r s : Int)
    (hr : findNearestPrimeF f n = some r) (hs : findNearestPrimeF g n = some s),
      r = s) := by
  have isPrimeLoop_spec (num : Int) (hnum : 3 < num) :
      ∀ (fuel : Nat) (i : Int), 5 ≤ i → i % 6 = 5 →
        (∀ d : Int, 2 ≤ d → d < i → ¬ d ∣ num) →
        ∀ b, isPrimeLoop num fuel i = some b → (b = true ↔ Nat.Prime num.toNat) := by
    intro fuel
    induction fuel with
    | zero => intro i _ _ _ b hb; simp [isPrimeLoop] at hb
    | succ fuel ih =>
      intro i hi hmod hno b hb
      unfold isPrimeLoop at hb
      by_cases hsq : i * i ≤ num
      · rw [if_pos hsq] at hb
        have hilt : i + 2 < num := by nlinarith
        by_cases hdiv : num.tmod i = 0 ∨ num.tmod (i + 2) = 0
        · rw [if_pos hdiv] at hb
          rw [tmod_eq_zero_iff_dvd num i (by omega) (by omega),
            tmod_eq_zero_iff_dvd num (i + 2) (by omega) (by omega)] at hdiv
          have hbf : b = false := by injection hb with hb; exact hb.symm
          subst hbf
          constructor
          · intro h; exact absurd h (by decide)
          · intro hp
            rcases hdiv with h | h
            · exact absurd h (no_proper_divisor_of_prime_toNat num hp i (by omega) (by omega))
            · exact absurd h
                (no_proper_divisor_of_prime_toNat num hp (i + 2) (by omega) hilt)
        · rw [if_neg hdiv] at hb
          rw [tmod_eq_zero_iff_dvd num i (by omega) (by omega),
            tmod_eq_zero_iff_dvd num (i + 2) (by omega) (by omega)] at hdiv
          push_neg at hdiv
          refine ih (i + 6) (by omega) (by omega) ?_ b hb
          intro d hd2 hdlt hdvd
          by_cases hlt : d < i
          · exact hno d hd2 hlt hdvd
          · have h2 : ¬ (2 : Int) ∣ num := hno 2 (by omega) (by omega)
            have h3 : ¬ (3 : Int) ∣ num := hno 3 (by omega) (by omega)
            have hcases : d = i ∨ d = i + 2 ∨ (2 : Int) ∣ d ∨ (3 : Int) ∣ d := by omega
            rcases hcases with h | h | h | h
            · exact hdiv.1 (h ▸ hdvd)
            · exact hdiv.2 (h ▸ hdvd)
            · exact h2 (dvd_trans h hdvd)
            · exact h3 (dvd_trans h hdvd)
      · rw [if_neg hsq] at hb
        have hbt : b = true := by injection hb with hb; exact hb.symm
        subst hbt
        refine ⟨fun _ => ?_, fun _ => rfl⟩
        refine prime_toNat_of_no_small_divisor num (by omega) ?_
        intro d hd2 hdsq
        refine hno d hd2 ?_
        by_contra hge
        push_neg at hge
        have : i * i ≤ d * d := by nlinarith
        omega
  have isPrime_spec (fuel : Nat) (num : Int) (b : Bool)
      (hb : isPrime fuel num = some b) : (b = true ↔ Nat.Prime num.toNat) := by
    unfold isPrime at hb
    by_cases h1 : num ≤ 1
    · rw [if_pos h1] at hb
      have hbf : b = false := by injection hb with hb; exact hb.symm
      subst hbf
      constructor
      · intro h; exact absurd h (by decide)
      · intro hp
        have := hp.two_le
        omega
    · rw [if_neg h1] at hb
      by_cases h3 : num ≤ 3
      · rw [if_pos h3] at hb
        have hbt : b = true := by injection hb with hb; exact hb.symm
        subst hbt
        refine ⟨fun _ => ?_, fun _ => rfl⟩
        have hcases : num = 2 ∨ num = 3 := by omega
        rcases hcases with h | h <;> subst h <;> decide
      · rw [if_neg h3] at hb
        by_cases hdiv : num.tmod 2 = 0 ∨ num.tmod 3 = 0
        · rw [if_pos hdiv] at hb
          rw [tmod_eq_zero_iff_dvd num 2 (by omega) (by omega),
            tmod_eq_zero_iff_dvd num 3 (by omega) (by omega)] at hdiv
          have hbf : b = false := by injection hb with hb; exact hb.symm
          subst hbf
          constructor
          · intro h; exact absurd h (by decide)
          · intro hp
            rcases hdiv with h | h
            · exact absurd h (no_proper_divisor_of_prime_toNat num hp 2 (by omega) (by omega))
            · exact absurd h (no_proper_divisor_of_prime_toNat num hp 3 (by omega) (by omega))
        · rw [if_neg hdiv] at hb
          rw [tmod_eq_zero_iff_dvd num 2 (by omega) (by omega),
            tmod_eq_zero_iff_dvd num 3 (by omega) (by omega)] at hdiv
          push_neg at hdiv
          refine isPrimeLoop_spec num (by omega) fuel 5 (by omega) (by decide) ?_ b hb
          intro d hd2 hd5 hdvd
          have hcases : d = 3 ∨ (2 : Int) ∣ d := by omega
          rcases hcases with h | h
          · exact hdiv.2 (h ▸ hdvd)
          · exact hdiv.1 (dvd_trans h hdvd)
  have isPrimeLoop_terminates (num : Int) :
      ∀ (fuel : Nat) (i : Int), 2 ≤ i → num < i + fuel →
        ∃ b, isPrimeLoop num (fuel + 1) i = some b := by
    intro fuel
    induction fuel with
    | zero =>
      intro i hi hlt
      have hlt2 : num < i := by simpa using hlt
      have hsq : ¬ i * i ≤ num := by nlinarith
      exact ⟨true, by simp [isPrimeLoop, hsq]⟩
    | succ fuel ih =>
      intro i hi hlt
      unfold isPrimeLoop
      by_cases hsq : i * i ≤ num
      · rw [if_pos hsq]
        by_cases hdiv : num.tmod i = 0 ∨ num.tmod (i + 2) = 0
        · exact ⟨false, by rw [if_pos hdiv]⟩
        · rw [if_neg hdiv]
          exact ih (i + 6) (by omega) (by push_cast at hlt ⊢; omega)
      · exact ⟨true, by rw [if_neg hsq]⟩
  have isPrime_terminates (fuel : Nat) (num : Int) (h : num < 4 + fuel) :
      ∃ b, isPrime fuel num = some b := by
    unfold isPrime
    by_cases h1 : num ≤ 1
    · exact ⟨false, by rw [if_pos h1]⟩
    · rw [if_neg h1]
      by_cases h3 : num ≤ 3
      · exact ⟨true, by rw [if_pos h3]⟩
      · rw [if_neg h3]
        by_cases hdiv : num.tmod 2 = 0 ∨ num.tmod 3 = 0
        · exact ⟨false, by rw [if_pos hdiv]⟩
        · rw [if_neg hdiv]
          obtain ⟨k, rfl⟩ : ∃ k, fuel = k + 1 := ⟨fuel - 1, by omega⟩
          exact isPrimeLoop_terminates num k 5 (by omega) (by push_cast at h; omega)
  -- The value `isPrime` returns once the fuel is enough: the primality of `num`.
  have isPrime_eq (fuel : Nat) (num : Int) (h : num < 4 + fuel) :
      isPrime fuel num = some (decide (Nat.Prime num.toNat)) := by
    obtain ⟨b, hb⟩ := isPrime_terminates fuel num h
    have hs := isPrime_spec fuel num b hb
    rw [hb]
    congr 1
    by_cases hp : Nat.Prime num.toNat
    · simp [hp, hs.mpr hp]
    · have : b = false := by
        cases b
        · rfl
        · exact absurd (hs.mp rfl) hp
      simp [hp, this]
  have searchUp_spec (fuel : Nat) :
      ∀ (steps : Nat) (up q : Int), searchUp fuel steps up = some q →
        Nat.Prime q.toNat ∧ up ≤ q ∧ ∀ d : Int, up ≤ d → d < q → ¬ Nat.Prime d.toNat := by
    intro steps
    induction steps with
    | zero => intro up q h; simp [searchUp] at h
    | succ steps ih =>
      intro up q h
      unfold searchUp at h
      cases hb : isPrime fuel up with
      | none => rw [hb] at h; simp at h
      | some b =>
        rw [hb] at h
        have hs := isPrime_spec fuel up b hb
        cases b with
        | true =>
          simp only [Option.some.injEq] at h
          subst h
          exact ⟨hs.mp rfl, le_refl _, fun d h1 h2 => by omega⟩
        | false =>
          simp only at h
          obtain ⟨hq, hle, hmin⟩ := ih (up + 1) q h
          refine ⟨hq, by omega, fun d h1 h2 => ?_⟩
          by_cases hd : d = up
          · subst hd
            intro hp
            exact absurd (hs.mpr hp) (by decide)
          · exact hmin d (by omega) h2
  have searchUp_terminates (fuel : Nat) (p : Int) (hp : Nat.Prime p.toNat)
      (hfuel : p < 4 + fuel) :
      ∀ (steps : Nat) (up : Int), up ≤ p → p < up + steps →
        ∃ q, searchUp fuel steps up = some q := by
    intro steps
    induction steps with
    | zero => intro up h1 h2; simp at h2; omega
    | succ steps ih =>
      intro up h1 h2
      unfold searchUp
      rw [isPrime_eq fuel up (by omega)]
      by_cases hup : Nat.Prime up.toNat
      · exact ⟨up, by simp [hup]⟩
      · simp only [hup, decide_False]
        refine ih (up + 1) ?_ (by push_cast at h2; omega)
        by_contra hlt
        have : up = p := by omega
        exact hup (this ▸ hp)
  have searchDown_spec (fuel : Nat) :
      ∀ (steps : Nat) (down q : Int), 2 ≤ down → searchDown fuel steps down = some q →
        Nat.Prime q.toNat ∧ q ≤ down ∧ ∀ d : Int, q < d → d ≤ down → ¬ Nat.Prime d.toNat := by
    intro steps
    induction steps with
    | zero => intro down q _ h; simp [searchDown] at h
    | succ steps ih =>
      intro down q h2 h
      unfold searchDown at h
      by_cases hgt : down > 2
      · rw [if_pos hgt] at h
        cases hb : isPrime fuel down with
        | none => rw [hb] at h; simp at h
        | some b =>
          rw [hb] at h
          have hs := isPrime_spec fuel down b hb
          cases b with
          | true =>
            simp only [Option.some.injEq] at h
            subst h
            exact ⟨hs.mp rfl, le_refl _, fun d h1 h2 => by omega⟩
          | false =>
            simp only at h
            obtain ⟨hq, hle, hmin⟩ := ih (down - 1) q (by omega) h
            refine ⟨hq, by omega, fun d h1 h3 => ?_⟩
            by_cases hd : d = down
            · subst hd
              intro hp
              exact absurd (hs.mpr hp) (by decide)
            · exact hmin d h1 (by omega)
      · rw [if_neg hgt] at h
        simp only [Option.some.injEq] at h
        subst h
        have : down = 2 := by omega
        subst this
        exact ⟨by decide, le_refl _, fun d h1 h2 => by omega⟩
  have searchDown_terminates (fuel : Nat) :
      ∀ (steps : Nat) (down : Int), down < 4 + fuel → down < 3 + steps →
        ∃ q, searchDown fuel (steps + 1) down = some q := by
    intro steps
    induction steps with
    | zero =>
      intro down _ h2
      have hgt : ¬ down > 2 := by simp at h2; omega
      exact ⟨down, by unfold searchDown; rw [if_neg hgt]⟩
    | succ steps ih =>
      intro down h1 h2
      unfold searchDown
      by_cases hgt : down > 2
      · rw [if_pos hgt, isPrime_eq fuel down h1]
        by_cases hd : Nat.Prime down.toNat
        · exact ⟨down, by simp [hd]⟩
        · simp only [hd, decide_False]
          exact ih (down - 1) (by omega) (by push_cast at h2; omega)
      · exact ⟨down, by rw [if_neg hgt]⟩
  have findNearestPrimeF_spec (fuel : Nat) (n r : Int) (hn : 2 < n)
      (h : findNearestPrimeF fuel n = some r) :
      ∃ up down, IsLeastPrimeGE n up ∧ IsGreatestPrimeLE n down ∧
        r = if up - n < n - down then up else down := by
    unfold findNearestPrimeF at h
    rw [if_neg (by omega)] at h
    cases hu : searchUp fuel fuel n with
    | none => rw [hu] at h; simp at h
    | some up =>
      cases hd : searchDown fuel fuel n with
      | none => rw [hu, hd] at h; simp at h
      | some down =>
        rw [hu, hd] at h
        simp only [Option.some.injEq] at h
        exact ⟨up, down, searchUp_spec fuel fuel n up hu,
          searchDown_spec fuel fuel n down (by omega) hd, h.symm⟩
  -- Any two runs of the body that return agree, whatever their fuel.
  have findNearestPrimeF_deterministic (f g : Nat) (n r s : Int)
      (hr : findNearestPrimeF f n = some r) (hs : findNearestPrimeF g n = some s) :
      r = s := by
    by_cases hn : n ≤ 2
    · rw [findNearestPrimeF_small f n hn] at hr
      rw [findNearestPrimeF_small g n hn] at hs
      simp only [Option.some.injEq] at hr hs
      omega
    · obtain ⟨u1, d1, hu1, hd1, e1⟩ := findNearestPrimeF_spec f n r (by omega) hr
      obtain ⟨u2, d2, hu2, hd2, e2⟩ := findNearestPrimeF_spec g n s (by omega) hs
      have hu := isLeastPrimeGE_unique hu1 hu2
      have hd := isGreatestPrimeLE_unique hd1 hd2
      subst hu hd
      rw [e1, e2]
  exact ⟨isPrimeLoop_spec, isPrime_spec, isPrimeLoop_terminates, isPrime_terminates, isPrime_eq,
    searchUp_spec, searchUp_terminates, searchDown_spec, searchDown_terminates,
    findNearestPrimeF_spec, findNearestPrimeF_deterministic⟩

set_option maxHeartbeats 16000000 in
/-- Facts on `findNearestPrime`: the body returns on the fuel `fuelFor n`, and the
result is the nearest prime. -/
theorem nearest_prime_facts :
    (∀ (fuel : Nat) (n : Int) (hfuel : fuelFor n ≤ fuel),
      ∃ r, findNearestPrimeF fuel n = some r) ∧
    (∀ (n : Int),
      findNearestPrimeF (fuelFor n) n = some (findNearestPrime n)) ∧
    (∀ (fuel : Nat) (n : Int) (hfuel : fuelFor n ≤ fuel),
      findNearestPrimeF fuel n = some (findNearestPrime n)) ∧
    (∀ (n : Int) (h : n ≤ 2),
      findNearestPrime n = 2) ∧
    (∀ (n : Int) (hn : 2 < n),
      ∃ up down, IsLeastPrimeGE n up ∧ IsGreatestPrimeLE n down ∧
        findNearestPrime n = if up - n < n - down then up else down) ∧
    (∀ (n : Int),
      Nat.Prime (findNearestPrime n).toNat) ∧
    (∀ (n : Int),
      2 ≤ findNearestPrime n) ∧
    (∀ (n : Int) (p : ℕ) (hp : Nat.Prime p),
      |findNearestPrime n - n| ≤ |(p : Int) - n|) ∧
    (∀ (n : Int) (hp : Nat.Prime n.toNat),
      findNearestPrime n = n) := by
  have searchUp_terminates := prime_search_facts.2.2.2.2.2.2.1
  have searchDown_terminates := prime_search_facts.2.2.2.2.2.2.2.2.1
  have findNearestPrimeF_spec := prime_search_facts.2.2.2.2.2.2.2.2.2.1
  have findNearestPrimeF_deterministic := prime_search_facts.2.2.2.2.2.2.2.2.2.2
  have findNearestPrimeF_terminates (fuel : Nat) (n : Int) (hfuel : fuelFor n ≤ fuel) :
      ∃ r, findNearestPrimeF fuel n = some r := by
    by_cases hn : n ≤ 2
    · exact ⟨2, findNearestPrimeF_small fuel n hn⟩
    · unfold fuelFor at hfuel
      obtain ⟨p, hp, h1, h2⟩ := Nat.exists_prime_lt_and_le_two_mul n.toNat (by omega)
      obtain ⟨up, hu⟩ := searchUp_terminates fuel (p : Int)
        (by rw [Int.toNat_natCast]; exact hp) (by omega) fuel n (by omega) (by omega)
      obtain ⟨k, hk⟩ : ∃ k, fuel = k + 1 := ⟨fuel - 1, by omega⟩
      obtain ⟨down, hd⟩ := searchDown_terminates fuel k n (by omega) (by omega)
      rw [← hk] at hd
      refine ⟨if up - n < n - down then up else down, ?_⟩
      unfold findNearestPrimeF
      rw [if_neg hn, hu, hd]
  have findNearestPrimeF_fuelFor (n : Int) :
      findNearestPrimeF (fuelFor n) n = some (findNearestPrime n) := by
    obtain ⟨r, hr⟩ := findNearestPrimeF_terminates (fuelFor n) n (le_refl _)
    unfold findNearestPrime
    rw [hr]
    rfl
  have findNearestPrimeF_eq (fuel : Nat) (n : Int) (hfuel : fuelFor n ≤ fuel) :
      findNearestPrimeF fuel n = some (findNearestPrime n) := by
    obtain ⟨r, hr⟩ := findNearestPrimeF_terminates fuel n hfuel
    rw [hr, findNearestPrimeF_deterministic fuel (fuelFor n) n r _ hr
      (findNearestPrimeF_fuelFor n)]
  have findNearestPrime_small (n : Int) (h : n ≤ 2) : findNearestPrime n = 2 := by
    have := findNearestPrimeF_fuelFor n
    rw [findNearestPrimeF_small _ n h] at this
    simp only [Option.some.injEq] at this
    exact this.symm
  have findNearestPrime_char (n : Int) (hn : 2 < n) :
      ∃ up down, IsLeastPrimeGE n up ∧ IsGreatestPrimeLE n down ∧
        findNearestPrime n = if up - n < n - down then up else down :=
    findNearestPrimeF_spec (fuelFor n) n _ hn (findNearestPrimeF_fuelFor n)
  have findNearestPrime_isPrime (n : Int) : Nat.Prime (findNearestPrime n).toNat := by
    by_cases hn : n ≤ 2
    · rw [findNearestPrime_small n hn]; decide
    · obtain ⟨up, down, hu, hd, e⟩ := findNearestPrime_char n (by omega)
      rw [e]
      split
      · exact hu.1
      · exact hd.1
  have findNearestPrime_ge_two (n : Int) : 2 ≤ findNearestPrime n := by
    have h := (findNearestPrime_isPrime n).two_le
    omega
  have findNearestPrime_dist_le (n : Int) (p : ℕ) (hp : Nat.Prime p) :
      |findNearestPrime n - n| ≤ |(p : Int) - n| := by
    have hp2 : (2 : Int) ≤ p := by exact_mod_cast hp.two_le
    by_cases hn : n ≤ 2
    · rw [findNearestPrime_small n hn, abs_of_nonneg (by omega), abs_of_nonneg (by omega)]
      omega
    · obtain ⟨up, down, hu, hd, e⟩ := findNearestPrime_char n (by omega)
      have hpp : Nat.Prime ((p : Int)).toNat := by rw [Int.toNat_natCast]; exact hp
      have hup : n ≤ (p : Int) → up ≤ p := by
        intro h
        by_contra hlt
        exact hu.2.2 p h (by omega) hpp
      have hdown : (p : Int) ≤ n → (p : Int) ≤ down := by
        intro h
        by_contra hlt
        exact hd.2.2 p (by omega) h hpp
      have h1 := hu.2.1
      have h2 := hd.2.1
      rw [e]
      rcases le_total n (p : Int) with h | h
      · have := hup h
        rw [abs_of_nonneg (by omega : (0 : Int) ≤ p - n)]
        split
        · rw [abs_of_nonneg (by omega)]; omega
        · rw [abs_of_nonpos (by omega)]; omega
      · have := hdown h
        rw [abs_of_nonpos (by omega : (p : Int) - n ≤ 0)]
        split
        · rw [abs_of_nonneg (by omega)]; omega
        · rw [abs_of_nonpos (by omega)]; omega
  have findNearestPrime_of_prime (n : Int) (hp : Nat.Prime n.toNat) :
      findNearestPrime n = n := by
    have h2 := hp.two_le
    by_cases hn : n ≤ 2
    · rw [findNearestPrime_small n hn]; omega
    · obtain ⟨up, down, hu, hd, e⟩ := findNearestPrime_char n (by omega)
      have hun : up = n := by
        by_contra hne
        exact hu.2.2 n (le_refl _) (lt_of_le_of_ne hu.2.1 (Ne.symm hne)) hp
      have hdn : down = n := by
        by_contra hne
        exact hd.2.2 n (lt_of_le_of_ne hd.2.1 hne) (le_refl _) hp
      rw [e, hun, hdn]
      simp
  exact ⟨findNearestPrimeF_terminates, findNearestPrimeF_fuelFor, findNearestPrimeF_eq,
    findNearestPrime_small, findNearestPrime_char, findNearestPrime_isPrime,
    findNearestPrime_ge_two, findNearestPrime_dist_le, findNearestPrime_of_prime⟩
/-! ### Feedback matrices -/

section MatrixLemmas

variable {α : Type} [Field α]

theorem neg_one_pow_popcount_even (n : ℕ) (h : popcount n % 2 = 0) :
    (-1 : α) ^ popcount n = 1 :=
  Even.neg_one_pow (Nat.even_iff.mpr h)

theorem neg_one_pow_popcount_odd (n : ℕ) (h : popcount n % 2 = 1) :
    (-1 : α) ^ popcount n = -1 :=
  Odd.neg_one_pow (Nat.odd_iff.mpr h)

theorem matrixHadamard_of_ge (x : Nat → α) (i : Nat) (hi : 16 ≤ i) :
    matrixHadamard x i = x i := by
  have h : ∀ k : Nat, k < 16 → ¬ i = k := fun k hk => by omega
  simp [matrixHadamard, forRange, forLoop, store, h]

theorem walshHadamard_linear [CharZero α] (a b : α) (x y : Nat → α) (i : Nat) :
    walshHadamard (fun k => a * x k + b * y k) i
      = a * walshHadamard x i + b * walshHadamard y i := by
  unfold walshHadamard
  simp only [Finset.mul_sum, ← Finset.sum_add_distrib]
  refine Finset.sum_congr rfl (fun j _ => ?_)
  ring

/-! #### Householder -/

set_option maxRecDepth 100000 in
set_option maxHeartbeats 4000000 in
theorem matrixHouseholder_apply [CharZero α] (x : Nat → α) (i : Nat) (hi : i < 16) :
    matrixHouseholder x i = x i - (1 / 8) * ∑ j in Finset.range 16, x j := by
  interval_cases i <;>
  · simp [matrixHouseholder, forRange, forLoop, store, Finset.sum_range_succ]
    ring

set_option maxRecDepth 100000 in
set_option maxHeartbeats 4000000 in
theorem matrixHouseholder_energy [CharZero α] (x : Nat → α) :
    energy (matrixHouseholder x) = energy x := by
  simp [energy, matrixHouseholder_apply, Finset.sum_range_succ]
  ring

theorem matrixHouseholder_linear [CharZero α] (a b : α) (x y : Nat → α) (i : Nat) (hi : i < 16) :
    matrixHouseholder (fun k => a * x k + b * y k) i
      = a * matrixHouseholder x i + b * matrixHouseholder y i := by
  rw [matrixHouseholder_apply _ i hi, matrixHouseholder_apply _ i hi,
    matrixHouseholder_apply _ i hi, Finset.sum_add_distrib, ← Finset.mul_sum,
    ← Finset.mul_sum]
  ring

/-! #### Block permutation -/

theorem matrixBlockPerm_apply (x : Nat → α) (k : Nat) (hk : k < 16) :
    matrixBlockPerm x k = blockPermClosed x k := by
  interval_cases k <;> rfl

/-! #### Pairwise rotation, cylinder, sparse -/

theorem rotatePairs_apply (x : Nat → α) (k : Nat) (hk : k < 16) :
    rotatePairs x k =
      if k % 2 = 0 then 0.707 * (x k - x (k + 1)) else 0.707 * (x (k - 1) + x k) := by
  interval_cases k <;> rfl

theorem matrixCylinder_apply (x : Nat → α) (k : Nat) (hk : k < 16) :
    matrixCylinder x k = rotatePairs x (if k = 15 then 0 else k + 1) := by
  interval_cases k <;> rfl

theorem matrixSparse_apply (x : Nat → α) (k : Nat) (hk : k < 16) :
    matrixSparse x k = rotatePairs x (sparseSource k) := by
  interval_cases k <;> rfl

set_option maxRecDepth 100000 in
set_option maxHeartbeats 4000000 in
theorem matrixCylinder_energy_rotate (x : Nat → α) :
    energy (matrixCylinder x) = energy (rotatePairs x) := by
  simp [energy, matrixCylinder_apply, Finset.sum_range_succ]
  ring

set_option maxRecDepth 100000 in
set_option maxHeartbeats 4000000 in
theorem matrixSparse_energy_rotate (x : Nat → α) :
    energy (matrixSparse x) = energy (rotatePairs x) := by
  simp [energy, matrixSparse_apply, sparseSource, Finset.sum_range_succ]
  ring

/-! #### MDS -/

theorem negateOdd_apply (x : Nat → α) (k : Nat) (hk : k < 16) :
    negateOdd x k = if k % 2 = 1 then -(x k) else x k := by
  interval_cases k <;> rfl

theorem negateOdd_of_ge (x : Nat → α) (k : Nat) (hk : 16 ≤ k) : negateOdd x k = x k := by
  have h : ∀ j : Nat, j < 16 → ¬ k = j := fun j hj => by omega
  simp [negateOdd, forRange, forLoop, store, h]

set_option maxRecDepth 100000 in
set_option maxHeartbeats 4000000 in
theorem negateOdd_energy (x : Nat → α) : energy (negateOdd x) = energy x := by
  simp [energy, negateOdd_apply, Finset.sum_range_succ]

theorem negateOdd_linear_fun (a b : α) (x y : Nat → α) :
    negateOdd (fun k => a * x k + b * y k)
      = fun k => a * negateOdd x k + b * negateOdd y k := by
  funext k
  by_cases hk : k < 16
  · rw [negateOdd_apply _ k hk, negateOdd_apply _ k hk, negateOdd_apply _ k hk]
    split <;> ring
  · rw [negateOdd_of_ge _ k (by omega), negateOdd_of_ge _ k (by omega),
      negateOdd_of_ge _ k (by omega)]

/-! #### Chaos -/

theorem chaosGather_apply (x : Nat → α) (k : Nat) (hk : k < 16) :
    chaosGather x k = x (chaosTable.getD k 0) := by
  interval_cases k <;> rfl

theorem chaosGather_of_ge (x : Nat → α) (k : Nat) (hk : 16 ≤ k) : chaosGather x k = 0 := by
  have h : ∀ j : Nat, j < 16 → ¬ k = j := fun j hj => by omega
  simp [chaosGather, forRange, forLoop, store, h]

theorem copyLoop_apply {β : Type} (temp x : Nat → β) (k : Nat) (hk : k < 16) :
    forRange 0 16 1 (fun i x => store x i (temp i)) x k = temp k := by
  interval_cases k <;> rfl

theorem matrixChaos_apply (x : Nat → α) (k : Nat) (hk : k < 16) :
    matrixChaos x k = matrixHadamard (chaosGather x) k :=
  copyLoop_apply (matrixHadamard (chaosGather x)) x k hk

set_option maxRecDepth 100000 in
set_option maxHeartbeats 4000000 in
theorem chaosGather_energy (x : Nat → α) : energy (chaosGather x) = energy x := by
  simp [energy, chaosGather_apply, chaosTable, Finset.sum_range_succ]
  ring

theorem chaosGather_linear_fun (a b : α) (x y : Nat → α) :
    chaosGather (fun k => a * x k + b * y k)
      = fun k => a * chaosGather x k + b * chaosGather y k := by
  funext k
  by_cases hk : k < 16
  · rw [chaosGather_apply _ k hk, chaosGather_apply _ k hk, chaosGather_apply _ k hk]
  · rw [chaosGather_of_ge _ k (by omega), chaosGather_of_ge _ k (by omega),
      chaosGather_of_ge _ k (by omega)]
    ring

/-! #### The unit impulse -/

theorem energy_unitImpulse : energy (unitImpulse : Nat → α) = 1 := by
  simp [energy, unitImpulse, Finset.sum_range_succ]

theorem walshHadamard_unitImpulse (i : Nat) :
    walshHadamard (unitImpulse : Nat → α) i = 1 / 4 := by
  unfold walshHadamard
  rw [Finset.sum_eq_single 0]
  · have h0 : popcount 0 = 0 := by decide
    simp [unitImpulse, h0]
  · intro j _ hj
    simp [unitImpulse, hj]
  · intro h
    exact absurd (Finset.mem_range.mpr (by decide)) h

end MatrixLemmas

set_option maxRecDepth 100000 in
set_option maxHeartbeats 16000000 in
/-- Facts on the feedback matrices over a field of characteristic zero: the closed form
of `matrixHadamard`, and linearity and energy of the matrices built on it. -/
theorem matrix_facts {α : Type} [Field α] [CharZero α] :
    (∀ (x : Nat → α) (i : Nat) (hi : i < 16),
      matrixHadamard x i = walshHadamard x i) ∧
    (∀ (x : Nat → α),
      energy (matrixHadamard x) = energy x) ∧
    (∀ (a b : α) (x y : Nat → α) (i : Nat) (hi : i < 16),
      matrixHadamard (fun k => a * x k + b * y k) i
        = a * matrixHadamard x i + b * matrixHadamard y i) ∧
    (∀ (a b : α) (x y : Nat → α),
      matrixHadamard (fun k => a * x k + b * y k)
        = fun k => a * matrixHadamard x k + b * matrixHadamard y k) ∧
    (∀ (x : Nat → α),
      energy (matrixBlockPerm x) = energy x) ∧
    (∀ (a b : α) (x y : Nat → α) (i : Nat)
    (hi : i < 16),
      matrixBlockPerm (fun k => a * x k + b * y k) i
        = a * matrixBlockPerm x i + b * matrixBlockPerm y i) ∧
    (∀ (x : Nat → α),
      energy (rotatePairs x) = 0.999698 * energy x) ∧
    (∀ (x : Nat → α),
      energy (matrixMDS x) = energy x) ∧
    (∀ (a b : α) (x y : Nat → α) (i : Nat),
      matrixMDS (fun k => a * x k + b * y k) i = a * matrixMDS x i + b * matrixMDS y i) ∧
    (∀ (x : Nat → α),
      energy (matrixChaos x) = energy x) ∧
    (∀ (a b : α) (x y : Nat → α) (i : Nat) (hi : i < 16),
      matrixChaos (fun k => a * x k + b * y k) i
        = a * matrixChaos x i + b * matrixChaos y i) := by
  have matrixHadamard_eq_walsh (x : Nat → α) (i : Nat) (hi : i < 16) :
      matrixHadamard x i = walshHadamard x i := by
    interval_cases i <;>
    · simp +decide [matrixHadamard, forRange, forLoop, store, walshHadamard,
        Finset.sum_range_succ, neg_one_pow_popcount_even, neg_one_pow_popcount_odd]
      ring
  have matrixHadamard_energy (x : Nat → α) : energy (matrixHadamard x) = energy x := by
    simp +decide [energy, matrixHadamard_eq_walsh, walshHadamard, Finset.sum_range_succ,
      neg_one_pow_popcount_even, neg_one_pow_popcount_odd]
    ring
  have matrixHadamard_linear (a b : α) (x y : Nat → α) (i : Nat) (hi : i < 16) :
      matrixHadamard (fun k => a * x k + b * y k) i
        = a * matrixHadamard x i + b * matrixHadamard y i := by
    rw [matrixHadamard_eq_walsh _ i hi, matrixHadamard_eq_walsh _ i hi,
      matrixHadamard_eq_walsh _ i hi, walshHadamard_linear]
  have matrixHadamard_linear_fun (a b : α) (x y : Nat → α) :
      matrixHadamard (fun k => a * x k + b * y k)
        = fun k => a * matrixHadamard x k + b * matrixHadamard y k := by
    funext k
    by_cases hk : k < 16
    · exact matrixHadamard_linear a b x y k hk
    · rw [matrixHadamard_of_ge _ k (by omega), matrixHadamard_of_ge _ k (by omega),
        matrixHadamard_of_ge _ k (by omega)]
  have matrixBlockPerm_energy (x : Nat → α) :
      energy (matrixBlockPerm x) = energy x := by
    simp [energy, matrixBlockPerm_apply, blockPermClosed, mix4Row, Finset.sum_range_succ]
    ring
  have matrixBlockPerm_linear (a b : α) (x y : Nat → α) (i : Nat)
      (hi : i < 16) :
      matrixBlockPerm (fun k => a * x k + b * y k) i
        = a * matrixBlockPerm x i + b * matrixBlockPerm y i := by
    rw [matrixBlockPerm_apply _ i hi, matrixBlockPerm_apply _ i hi,
      matrixBlockPerm_apply _ i hi]
    interval_cases i <;>
    · simp [blockPermClosed, mix4Row]
      ring
  have rotatePairs_energy (x : Nat → α) :
      energy (rotatePairs x) = 0.999698 * energy x := by
    simp [energy, rotatePairs_apply, Finset.sum_range_succ]
    ring
  have matrixMDS_energy (x : Nat → α) : energy (matrixMDS x) = energy x := by
    unfold matrixMDS
    rw [matrixHadamard_energy, negateOdd_energy, matrixHadamard_energy]
  have matrixMDS_linear (a b : α) (x y : Nat → α) (i : Nat) :
      matrixMDS (fun k => a * x k + b * y k) i = a * matrixMDS x i + b * matrixMDS y i := by
    unfold matrixMDS
    simp only [matrixHadamard_linear_fun, negateOdd_linear_fun]
  have matrixChaos_energy (x : Nat → α) :
      energy (matrixChaos x) = energy x := by
    have h : energy (matrixChaos x) = energy (matrixHadamard (chaosGather x)) := by
      unfold energy
      refine Finset.sum_congr rfl (fun k hk => ?_)
      rw [matrixChaos_apply x k (Finset.mem_range.mp hk)]
    rw [h, matrixHadamard_energy, chaosGather_energy]
  have matrixChaos_linear (a b : α) (x y : Nat → α) (i : Nat) (hi : i < 16) :
      matrixChaos (fun k => a * x k + b * y k) i
        = a * matrixChaos x i + b * matrixChaos y i := by
    rw [matrixChaos_apply _ i hi, matrixChaos_apply _ i hi, matrixChaos_apply _ i hi,
      chaosGather_linear_fun, matrixHadamard_linear_fun]
  exact ⟨matrixHadamard_eq_walsh, matrixHadamard_energy, matrixHadamard_linear,
    matrixHadamard_linear_fun, matrixBlockPerm_energy, matrixBlockPerm_linear, rotatePairs_energy,
    matrixMDS_energy, matrixMDS_linear, matrixChaos_energy, matrixChaos_linear⟩
/-! ### Physics mapping -/

section PhysicsLemmas

variable {α : Type} [LinearOrderedField α]

theorem stdClamp_bounds (v lo hi : α) (h : lo ≤ hi) :
    lo ≤ stdClamp v lo hi ∧ stdClamp v lo hi ≤ hi := by
  unfold stdClamp
  split
  · exact ⟨le_refl _, h⟩
  · split
    · exact ⟨h, le_refl _⟩
    · constructor
      · exact le_of_not_lt ‹_›
      · exact le_of_not_lt ‹_›

theorem checkSFX_nonneg (mat : Int) : 0 ≤ checkSFX mat := by
  unfold checkSFX
  split_ifs <;> decide

omit [LinearOrderedField α] in
theorem sfxTypeOf_nonneg (p : PhysicsParams α) : 0 ≤ sfxTypeOf p := by
  unfold sfxTypeOf
  simp only []
  split_ifs <;> exact checkSFX_nonneg _

theorem finalGains_le (m : Libm α) (p : PhysicsParams α) (b : Nat) :
    finalGains m p b ≤ 0.98 := by
  unfold finalGains
  simp only []
  split_ifs with h
  · exact le_refl _
  · exact le_of_not_lt h

theorem forLoop_maxG_le (f : Nat → α) (c : α) (hf : ∀ b, f b ≤ c) :
    ∀ (fuel i : Nat) (acc : α), acc ≤ c →
      forLoop 6 1 (fun b maxG => if f b > maxG then f b else maxG) fuel i acc ≤ c := by
  intro fuel
  induction fuel with
  | zero => intro i acc h; simpa [forLoop] using h
  | succ fuel ih =>
    intro i acc h
    unfold forLoop
    split_ifs
    · exact ih _ _ (hf i)
    · exact ih _ _ h
    · exact h

theorem forLoop_maxG_ge (f : Nat → α) :
    ∀ (fuel i : Nat) (acc : α),
      acc ≤ forLoop 6 1 (fun b maxG => if f b > maxG then f b else maxG) fuel i acc := by
  intro fuel
  induction fuel with
  | zero => intro i acc; simp [forLoop]
  | succ fuel ih =>
    intro i acc
    unfold forLoop
    split_ifs with h1 h2
    · exact le_trans (le_of_lt h2) (ih _ _)
    · exact ih _ _
    · exact le_refl _

theorem sampleGains_le [FloorRing α] (m : Libm α) (e : EngineConfig α)
    (p : PhysicsParams α) (i b : Nat) : sampleGains m e p i b ≤ 0.9999 := by
  unfold sampleGains
  simp only []
  split_ifs with h
  · exact le_refl _
  · exact le_of_not_lt h

theorem physicsTargetDelay_eq_of_fits [FloorRing α] (e : EngineConfig α)
    (p : PhysicsParams α) (i : Nat)
    (h : findNearestPrime (truncInt (rawDelay e p i)) ≤ e.maxChBuf - 4096) :
    physicsTargetDelay e p i = ((findNearestPrime (truncInt (rawDelay e p i)) : Int) : α) := by
  unfold physicsTargetDelay
  simp only []
  rw [if_neg]
  rw [gt_iff_lt, not_lt]
  exact_mod_cast h

theorem physicsTargetDelay_eq_of_exceeds [FloorRing α] (e : EngineConfig α)
    (p : PhysicsParams α) (i : Nat)
    (h : e.maxChBuf - 4096 < findNearestPrime (truncInt (rawDelay e p i))) :
    physicsTargetDelay e p i = ((e.maxChBuf - 4096 : Int) : α) := by
  unfold physicsTargetDelay
  simp only []
  rw [if_pos]
  rw [gt_iff_lt]
  exact_mod_cast h

theorem physicsTargetDelay_pos [FloorRing α] (e : EngineConfig α) (p : PhysicsParams α)
    (i : Nat) (hcap : 0 < e.maxChBuf - 4096) : 0 < physicsTargetDelay e p i := by
  have findNearestPrime_ge_two := nearest_prime_facts.2.2.2.2.2.2.1
  by_cases h : findNearestPrime (truncInt (rawDelay e p i)) ≤ e.maxChBuf - 4096
  · rw [physicsTargetDelay_eq_of_fits e p i h]
    have := findNearestPrime_ge_two (truncInt (rawDelay e p i))
    exact_mod_cast (by omega : 0 < findNearestPrime (truncInt (rawDelay e p i)))
  · rw [physicsTargetDelay_eq_of_exceeds e p i (by omega)]
    exact_mod_cast hcap

end PhysicsLemmas

/-! ### Real arithmetic -/

/-! ### Concrete evaluations -/

theorem sfxTypeOf_forceFieldParams : sfxTypeOf (forceFieldParams : PhysicsParams ℝ) = 5 := by
  decide

theorem sfxTypeOf_hugeRoomParams : sfxTypeOf (hugeRoomParams : PhysicsParams ℝ) = 0 := by
  decide

theorem sfxTypeOf_exampleParams : sfxTypeOf (exampleParams : PhysicsParams ℝ) = 0 := by
  decide

set_option maxHeartbeats 16000000 in
/-- Bounds on the SFX gains, the averaged absorption and the base gain over an ordered
field. -/
theorem gain_bound_facts {α : Type} [LinearOrderedField α] :
    (∀ (p : PhysicsParams α),
      0.01 ≤ sfxFeedback p ∧ sfxFeedback p ≤ 0.99) ∧
    (∀ (p : PhysicsParams α) (b : Nat),
      0 < sfxGains p b ∧ sfxGains p b ≤ 0.99) ∧
    (∀ (p : PhysicsParams α) (b : Nat),
      0.01 ≤ avgAbs p b ∧ avgAbs p b < 0.995) ∧
    (∀ (m : Libm α) (p : PhysicsParams α),
      0.0001 ≤ maxG m p ∧ maxG m p ≤ 0.98) ∧
    (∀ (m : Libm α) (p : PhysicsParams α),
      0 < baseGain m p ∧ baseGain m p ≤ 0.98) := by
  have sfxFeedback_bounds (p : PhysicsParams α) :
      0.01 ≤ sfxFeedback p ∧ sfxFeedback p ≤ 0.99 :=
    stdClamp_bounds _ _ _ (by norm_num)
  have sfxGains_bounds (p : PhysicsParams α) (b : Nat) :
      0 < sfxGains p b ∧ sfxGains p b ≤ 0.99 := by
    obtain ⟨h1, h2⟩ := sfxFeedback_bounds p
    have h0 : (0 : α) < sfxFeedback p := lt_of_lt_of_le (by norm_num) h1
    unfold sfxGains
    split_ifs <;> constructor <;> first | positivity | nlinarith
  have avgAbs_bounds (p : PhysicsParams α) (b : Nat) :
      0.01 ≤ avgAbs p b ∧ avgAbs p b < 0.995 := by
    unfold avgAbs
    simp only []
    by_cases h : avgAbsRaw p b * (0.5 + p.absorptionOverride) > 0.9
    · rw [if_pos h]
      set x := (avgAbsRaw p b * (0.5 + p.absorptionOverride) - 0.9) / 1.1 with hx
      have hxpos : 0 < x := by
        rw [hx]
        apply div_pos
        · linarith
        · norm_num
      have hfrac : x / (1.0 + x) < 1 := by
        rw [div_lt_one (by linarith)]
        linarith
      have hfrac0 : 0 < x / (1.0 + x) := div_pos hxpos (by linarith)
      have hlow : ¬ (0.9 + x / (1.0 + x) * 0.095 < (0.01 : α)) := by
        intro hh
        nlinarith
      rw [if_neg hlow]
      constructor
      · nlinarith
      · nlinarith
    · rw [if_neg h]
      split_ifs with h2
      · constructor <;> norm_num
      · push_neg at h h2
        constructor
        · exact h2
        · have : (0.9 : α) < 0.995 := by norm_num
          linarith
  have maxG_bounds (m : Libm α) (p : PhysicsParams α) :
      0.0001 ≤ maxG m p ∧ maxG m p ≤ 0.98 := by
    unfold maxG forRange
    exact ⟨forLoop_maxG_ge _ _ _ _,
      forLoop_maxG_le _ _ (finalGains_le m p) _ _ _ (by norm_num)⟩
  have baseGain_bounds (m : Libm α) (p : PhysicsParams α) :
      0 < baseGain m p ∧ baseGain m p ≤ 0.98 := by
    obtain ⟨h1, h2⟩ := maxG_bounds m p
    unfold baseGain
    split_ifs
    · constructor <;> norm_num
    · exact ⟨lt_of_lt_of_le (by norm_num) h1, h2⟩
  exact ⟨sfxFeedback_bounds, sfxGains_bounds, avgAbs_bounds, maxG_bounds, baseGain_bounds⟩

set_option maxHeartbeats 16000000 in
/-- Facts on the gains and delays of the physics mapping in real arithmetic, and their
values on the example inputs. -/
theorem physics_real_facts :
    (∀ (freq tempC humidity : ℝ),
      0 < calcAirAbsorption realLibm freq tempC humidity) ∧
    (∀ (p : PhysicsParams ℝ) (b : Nat),
      0 < finalGains realLibm p b) ∧
    (∀ (e : EngineConfig ℝ) (p : PhysicsParams ℝ) (i b : Nat),
      0 < sampleGains realLibm e p i b) ∧
    (∀ (e : EngineConfig ℝ) (p : PhysicsParams ℝ) (i b : Nat),
      sampleGains realLibm e p i b
        = min ((finalGains realLibm p b) ^ (1 / delaySamples e p i)) 0.9999) ∧
    (∀ (i : Nat),
      targetDelay engine48k (forceFieldParams : PhysicsParams ℝ) i = 720) ∧
    (truncInt (rawDelay engine48k (hugeRoomParams : PhysicsParams ℝ) 15) = 1076487) ∧
    ((engine48k : EngineConfig ℝ).Prepared) ∧
    (∀ (v : ℝ) (n : ℕ) (hv : v = (n : ℝ)) (hn : ¬ Nat.Prime n),
      ¬ ∃ q : ℕ, Nat.Prime q ∧ v = (q : ℝ)) ∧
    (truncInt (rawDelay engine48k (exampleParams : PhysicsParams ℝ) 0) = 763) ∧
    (∀ (p : PhysicsParams ℝ) (hw : 0 < p.widthM) (hd : 0 < p.depthM)
    (hh : 0 < p.heightM),
      0 < totalArea p) ∧
    (∀ (e : EngineConfig ℝ) (p : PhysicsParams ℝ) (i : Nat),
      1 ≤ delaySamples e p i) := by
  have avgAbs_bounds {α : Type} [LinearOrderedField α] := (@gain_bound_facts α _).2.2.1
  have calcAirAbsorption_real_pos (freq tempC humidity : ℝ) :
      0 < calcAirAbsorption realLibm freq tempC humidity := by
    unfold calcAirAbsorption
    simp only [realLibm, Bool.false_eq_true, if_false]
    exact Real.rpow_pos_of_pos (by norm_num) _
  have finalGains_real_pos (p : PhysicsParams ℝ) (b : Nat) :
      0 < finalGains realLibm p b := by
    have habs := (avgAbs_bounds p b).2
    have hsqrt : 0 < Real.sqrt (1.0 - avgAbs p b) := Real.sqrt_pos.mpr (by norm_num; linarith)
    have hair : 0 < (calcAirAbsorption realLibm ((freqs : List ℝ).getD b 0) p.tempC
        p.humidityPct) ^ (mfp p) :=
      Real.rpow_pos_of_pos (calcAirAbsorption_real_pos _ _ _) _
    have hr : 0 < (Real.sqrt (1.0 - avgAbs p b) *
        (calcAirAbsorption realLibm ((freqs : List ℝ).getD b 0) p.tempC p.humidityPct) ^ (mfp p))
          ^ (decayExponent p) :=
      Real.rpow_pos_of_pos (mul_pos hsqrt hair) _
    unfold finalGains
    simp only []
    split_ifs
    · norm_num
    · exact hr
  have sampleGains_real_pos (e : EngineConfig ℝ) (p : PhysicsParams ℝ) (i b : Nat) :
      0 < sampleGains realLibm e p i b := by
    have h : 0 < (finalGains realLibm p b) ^ (1.0 / delaySamples e p i) :=
      Real.rpow_pos_of_pos (finalGains_real_pos p b) _
    unfold sampleGains
    simp only []
    split_ifs
    · norm_num
    · exact h
  have sampleGains_real_eq_min (e : EngineConfig ℝ) (p : PhysicsParams ℝ) (i b : Nat) :
      sampleGains realLibm e p i b
        = min ((finalGains realLibm p b) ^ (1 / delaySamples e p i)) 0.9999 := by
    unfold sampleGains
    simp only []
    split_ifs with h
    · rw [min_eq_right]
      have : (1.0 : ℝ) = 1 := by norm_num
      rw [this] at h
      exact le_of_lt h
    · rw [min_eq_left]
      · norm_num [realLibm]
      · have : (1.0 : ℝ) = 1 := by norm_num
        rw [this] at h
        exact le_of_not_lt h
  have targetDelay_forceFieldParams (i : Nat) :
      targetDelay engine48k (forceFieldParams : PhysicsParams ℝ) i = 720 := by
    unfold targetDelay
    rw [sfxTypeOf_forceFieldParams, if_pos (by decide)]
    norm_num [sfxFixedDelay, engine48k]
  have rawDelay_hugeRoomParams :
      truncInt (rawDelay engine48k (hugeRoomParams : PhysicsParams ℝ) 15) = 1076487 := by
    have h : rawDelay engine48k (hugeRoomParams : PhysicsParams ℝ) 15
        = 2000 / 343 * 3.8462 * 48000 := by
      norm_num [rawDelay, baseDelaySec, mfp, volume, totalArea, areaFloor, areaSide, areaFB,
        volFactor, stdMax, ratios, silkyRatios, hugeRoomParams, exampleParams, engine48k,
        SPEED_OF_SOUND]
    rw [h]
    unfold truncInt
    rw [if_pos (by norm_num)]
    rw [Int.floor_eq_iff]
    constructor <;> norm_num
  have engine48k_prepared : (engine48k : EngineConfig ℝ).Prepared := by
    unfold EngineConfig.Prepared channelBufferSize truncInt
    have h : (MAX_DELAY_SECONDS : ℝ) * (engine48k : EngineConfig ℝ).fs = ((480000 : Int) : ℝ) := by
      norm_num [MAX_DELAY_SECONDS, engine48k]
    rw [h, if_pos (by norm_num), Int.floor_intCast]
    decide
  have not_prime_of_cast_eq (v : ℝ) (n : ℕ) (hv : v = (n : ℝ)) (hn : ¬ Nat.Prime n) :
      ¬ ∃ q : ℕ, Nat.Prime q ∧ v = (q : ℝ) := by
    rintro ⟨q, hq, hvq⟩
    rw [hv] at hvq
    have : n = q := by exact_mod_cast hvq
    exact hn (this ▸ hq)
  have truncInt_rawDelay_exampleParams :
      truncInt (rawDelay engine48k (exampleParams : PhysicsParams ℝ) 0) = 763 := by
    have h : rawDelay engine48k (exampleParams : PhysicsParams ℝ) 0
        = 4 * 750 / 550 / 343 * 48000 := by
      norm_num [rawDelay, baseDelaySec, mfp, volume, totalArea, areaFloor, areaSide, areaFB,
        volFactor, stdMax, ratios, silkyRatios, exampleParams, engine48k, SPEED_OF_SOUND]
    rw [h]
    unfold truncInt
    rw [if_pos (by norm_num)]
    rw [Int.floor_eq_iff]
    constructor <;> norm_num
  have totalArea_pos (p : PhysicsParams ℝ) (hw : 0 < p.widthM) (hd : 0 < p.depthM)
      (hh : 0 < p.heightM) : 0 < totalArea p := by
    have h1 : 0 < areaFloor p := mul_pos hw hd
    have h2 : 0 < areaSide p := by unfold areaSide; positivity
    have h3 : 0 < areaFB p := by unfold areaFB; positivity
    unfold totalArea
    simp only []
    split_ifs <;> positivity
  have delaySamples_ge_one (e : EngineConfig ℝ) (p : PhysicsParams ℝ) (i : Nat) :
      1 ≤ delaySamples e p i := by
    unfold delaySamples
    split_ifs with h
    · norm_num
    · have : (1.0 : ℝ) = 1 := by norm_num
      rw [this] at h
      exact le_of_not_lt h
  exact ⟨calcAirAbsorption_real_pos, finalGains_real_pos, sampleGains_real_pos,
    sampleGains_real_eq_min, targetDelay_forceFieldParams, rawDelay_hugeRoomParams,
    engine48k_prepared, not_prime_of_cast_eq, truncInt_rawDelay_exampleParams, totalArea_pos,
    delaySamples_ge_one⟩

set_option maxHeartbeats 16000000 in
/-- Facts on the delay targets that rest on `findNearestPrime`. -/
theorem physics_prime_facts :
    (∀ (n q : Int) (hq : Nat.Prime q.toNat) (hqn : q ≤ n),
      q ≤ findNearestPrime n) ∧
    (targetDelay engine48k (hugeRoomParams : PhysicsParams ℝ) 15 = 480000) := by
  have findNearestPrime_small := nearest_prime_facts.2.2.2.1
  have findNearestPrime_char := nearest_prime_facts.2.2.2.2.1
  have rawDelay_hugeRoomParams := physics_real_facts.2.2.2.2.2.1
  have findNearestPrime_ge_of_prime_le (n q : Int) (hq : Nat.Prime q.toNat) (hqn : q ≤ n) :
      q ≤ findNearestPrime n := by
    have hq2 := hq.two_le
    by_cases hn : n ≤ 2
    · rw [findNearestPrime_small n hn]; omega
    · obtain ⟨up, down, hu, hd, e⟩ := findNearestPrime_char n (by omega)
      have hdown : q ≤ down := by
        by_contra hlt
        exact hd.2.2 q (by omega) hqn hq
      have hup := hu.2.1
      rw [e]
      split <;> omega
  have targetDelay_hugeRoomParams :
      targetDelay engine48k (hugeRoomParams : PhysicsParams ℝ) 15 = 480000 := by
    unfold targetDelay
    rw [sfxTypeOf_hugeRoomParams, if_neg (by decide)]
    rw [physicsTargetDelay_eq_of_exceeds]
    · norm_num [engine48k]
    · rw [rawDelay_hugeRoomParams]
      have hp : Nat.Prime (Int.toNat 480013) := by
        rw [show Int.toNat 480013 = 480013 from rfl]
        norm_num
      have h := findNearestPrime_ge_of_prime_le 1076487 480013 hp (by norm_num)
      have : (engine48k : EngineConfig ℝ).maxChBuf = 484096 := rfl
      omega
  exact ⟨findNearestPrime_ge_of_prime_le, targetDelay_hugeRoomParams⟩

/-! ### SFX detection and the material catalog -/

theorem checkSFX_ne_zero_iff (mat : Int) :
    checkSFX mat ≠ 0 ↔ (mat = 13 ∨ mat = 20 ∨ mat = 29 ∨ mat = 31 ∨ mat = 33) := by
  unfold checkSFX
  split_ifs <;> simp_all

theorem checkSFX_pos_iff (mat : Int) :
    0 < checkSFX mat ↔ (mat = 13 ∨ mat = 20 ∨ mat = 29 ∨ mat = 31 ∨ mat = 33) := by
  rw [← checkSFX_ne_zero_iff]
  have := checkSFX_nonneg mat
  omega

theorem materialDB_get_mem (index : Int) :
    (MaterialDB.get index : MaterialDef ℝ) ∈ (materialData : List (MaterialDef ℝ)) := by
  have hlen : (materialData : List (MaterialDef ℝ)).length = 34 := rfl
  unfold MaterialDB.get
  split_ifs with h
  · rw [List.getD_eq_getElem _ _ (by rw [hlen]; decide)]
    exact List.getElem_mem _
  · have hlt : index.toNat < (materialData : List (MaterialDef ℝ)).length := by
      rw [hlen]; omega
    rw [List.getD_eq_getElem _ _ hlt]
    exact List.getElem_mem _

/-! ### Delay targets and the channel buffer -/

theorem physicsTargetDelay_le_capacity (e : EngineConfig ℝ) (p : PhysicsParams ℝ) (i : Nat) :
    physicsTargetDelay e p i ≤ ((e.maxChBuf - 4096 : Int) : ℝ) := by
  unfold physicsTargetDelay
  simp only []
  split_ifs with h
  · exact le_refl _
  · exact le_of_not_lt h

theorem isSfxMaterial_iff (mat : Int) :
    IsSfxMaterial mat ↔ (mat = 13 ∨ mat = 20 ∨ mat = 29 ∨ mat = 31 ∨ mat = 33) := Iff.rfl

set_option maxHeartbeats 16000000 in
/-- Bounds on the material catalog, the SFX delays and the channel buffer size. -/
theorem catalog_and_buffer_facts :
    (∀ d ∈ (materialData : List (MaterialDef ℝ)),
        d.absorption.length = 6 ∧ ∀ a ∈ d.absorption, 0 ≤ a ∧ a ≤ 1) ∧
    (∀ (index : Int) (b : Nat) (hb : b < 6),
      0 ≤ (MaterialDB.get index : MaterialDef ℝ).abs b ∧
        (MaterialDB.get index : MaterialDef ℝ).abs b ≤ 1) ∧
    (∀ (t : Int) (i : Nat) (hi : i < 16),
      (0 : ℝ) ≤ sfxFixedDelay t i ∧ (sfxFixedDelay t i : ℝ) ≤ 0.049) ∧
    (∀ (fs : ℝ) (hfs : 0 < fs),
      10 * fs - 1 + 4096 < ((channelBufferSize fs : Int) : ℝ)) ∧
    (∀ (fs : ℝ) (hfs : 1 ≤ 10 * fs),
      (1 : ℝ) + 4096 ≤ ((channelBufferSize fs : Int) : ℝ)) := by
  have materialData_real_bounds :
      ∀ d ∈ (materialData : List (MaterialDef ℝ)),
        d.absorption.length = 6 ∧ ∀ a ∈ d.absorption, 0 ≤ a ∧ a ≤ 1 := by
    intro d hd
    simp only [materialData, List.mem_cons, List.mem_singleton, List.not_mem_nil, or_false] at hd
    rcases hd with h | h | h | h | h | h | h | h | h | h | h | h | h | h | h | h | h | h | h | h |
      h | h | h | h | h | h | h | h | h | h | h | h | h | h <;>
    · subst h
      refine ⟨rfl, ?_⟩
      intro a ha
      simp only [List.mem_cons, List.mem_singleton, List.not_mem_nil, or_false] at ha
      rcases ha with h | h | h | h | h | h <;> subst h <;> constructor <;> norm_num
  have materialDB_abs_bounds (index : Int) (b : Nat) (hb : b < 6) :
      0 ≤ (MaterialDB.get index : MaterialDef ℝ).abs b ∧
        (MaterialDB.get index : MaterialDef ℝ).abs b ≤ 1 := by
    obtain ⟨hlen, hall⟩ := materialData_real_bounds _ (materialDB_get_mem index)
    unfold MaterialDef.abs
    rw [List.getD_eq_getElem _ _ (by rw [hlen]; exact hb)]
    exact hall _ (List.getElem_mem _)
  have sfxFixedDelay_bounds (t : Int) (i : Nat) (hi : i < 16) :
      (0 : ℝ) ≤ sfxFixedDelay t i ∧ (sfxFixedDelay t i : ℝ) ≤ 0.049 := by
    have h0 : (0 : ℝ) ≤ (i : ℝ) := Nat.cast_nonneg i
    have h15 : (i : ℝ) ≤ 15 := by exact_mod_cast (by omega : i ≤ 15)
    have hm0 : (0 : ℝ) ≤ (((i * 7) % 40 : Nat) : ℝ) := Nat.cast_nonneg _
    have hm39 : (((i * 7) % 40 : Nat) : ℝ) ≤ 39 := by
      exact_mod_cast (by omega : (i * 7) % 40 ≤ 39)
    unfold sfxFixedDelay
    split_ifs <;> constructor <;> norm_num <;> nlinarith
  have channelBufferSize_gt (fs : ℝ) (hfs : 0 < fs) :
      10 * fs - 1 + 4096 < ((channelBufferSize fs : Int) : ℝ) := by
    unfold channelBufferSize truncInt MAX_DELAY_SECONDS
    have h10 : (10.0 : ℝ) = 10 := by norm_num
    rw [h10, if_pos (by positivity)]
    have := Int.lt_floor_add_one (10 * fs)
    push_cast
    linarith
  have channelBufferSize_ge_one (fs : ℝ) (hfs : 1 ≤ 10 * fs) :
      (1 : ℝ) + 4096 ≤ ((channelBufferSize fs : Int) : ℝ) := by
    unfold channelBufferSize truncInt MAX_DELAY_SECONDS
    have h10 : (10.0 : ℝ) = 10 := by norm_num
    rw [h10, if_pos (by linarith)]
    have h1 : (1 : Int) ≤ ⌊10 * fs⌋ := Int.le_floor.mpr (by exact_mod_cast hfs)
    have h2 : ((1 : Int) : ℝ) ≤ ((⌊10 * fs⌋ : Int) : ℝ) := by exact_mod_cast h1
    push_cast at h2 ⊢
    linarith
  exact ⟨materialData_real_bounds, materialDB_abs_bounds, sfxFixedDelay_bounds,
    channelBufferSize_gt, channelBufferSize_ge_one⟩

/-! ## Engine state -/

/-! ### `updatePhysics` channel by channel -/

section UpdatePhysicsChannels

variable {α : Type} [LinearOrderedField α]

theorem forRange_channels_apply {β : Type} (f : Nat → β → β) (c : Nat → β) (k : Nat)
    (hk : k < 16) :
    forRange 0 FDN_CHANNELS 1 (fun i chans => store chans i (f i (chans i))) c k = f k (c k) := by
  interval_cases k <;> rfl

theorem forRange_bands_apply {β : Type} (g : Nat → β) (d : Nat → β) (k : Nat) (hk : k < 6) :
    forRange 0 6 1 (fun b decay => store decay b (g b)) d k = g k := by
  interval_cases k <;> rfl

theorem updatePhysics_fs [FloorRing α] (m : Libm α) (s : FDNEngine α) (p : PhysicsParams α) :
    (s.updatePhysics m p).fs = s.fs := by
  unfold FDNEngine.updatePhysics
  dsimp only []
  split_ifs <;> rfl

theorem updatePhysics_channels [FloorRing α] (m : Libm α) (s : FDNEngine α)
    (p : PhysicsParams α) (k : Nat) (hk : k < 16) :
    (s.updatePhysics m p).channels k
      = applyChannelUpdate s.config p k
          (if sfxTypeOf p > 0 then sfxChannelUpdate m s.fs p (s.channels k)
           else normalChannelUpdate m s.config p k (s.channels k)) := by
  unfold FDNEngine.updatePhysics
  dsimp only [FDNEngine.config]
  by_cases h : sfxTypeOf p > 0
  · rw [if_pos h, if_pos h]
    dsimp only []
    rw [forRange_channels_apply (fun i c => applyChannelUpdate _ p i c) _ k hk,
      forRange_channels_apply (fun _ c => sfxChannelUpdate m s.fs p c) _ k hk]
  · rw [if_neg h, if_neg h]
    dsimp only []
    rw [forRange_channels_apply (fun i c => applyChannelUpdate _ p i c) _ k hk,
      forRange_channels_apply (fun i c => normalChannelUpdate m _ p i c) _ k hk]

end UpdatePhysicsChannels

/-! ### Members written by `updatePhysics` -/

section UpdatePhysicsFields

variable {α : Type} [LinearOrderedField α]

theorem updatePhysics_dryGainSmoother [FloorRing α] (m : Libm α) (s : FDNEngine α)
    (p : PhysicsParams α) :
    (s.updatePhysics m p).dryGainSmoother
      = s.dryGainSmoother.setTarget (dryGainTarget m p) (truncInt (0.05 * s.fs)) := by
  unfold FDNEngine.updatePhysics
  dsimp only [FDNEngine.config]
  by_cases h : sfxTypeOf p > 0
  · rw [if_pos h]
  · rw [if_neg h]

theorem updatePhysics_wetGainSmoother [FloorRing α] (m : Libm α) (s : FDNEngine α)
    (p : PhysicsParams α) :
    (s.updatePhysics m p).wetGainSmoother
      = s.wetGainSmoother.setTarget (wetGainTarget m p) (truncInt (0.05 * s.fs)) := by
  unfold FDNEngine.updatePhysics
  dsimp only [FDNEngine.config]
  by_cases h : sfxTypeOf p > 0
  · rw [if_pos h]
  · rw [if_neg h]

theorem updatePhysics_lastRT60Data [FloorRing α] (m : Libm α) (s : FDNEngine α)
    (p : PhysicsParams α) (b : Nat) (hb : b < 6) :
    (s.updatePhysics m p).lastRT60Data b
      = if sfxTypeOf p > 0 then 0.0
        else calcT60 m s.fs (avgDelaySamples s.fs p) (finalGains m p b) := by
  unfold FDNEngine.updatePhysics
  dsimp only [FDNEngine.config]
  by_cases h : sfxTypeOf p > 0
  · rw [if_pos h, if_pos h]
    dsimp only []
    rw [forRange_bands_apply (fun _ => (0.0 : α)) _ b hb]
  · rw [if_neg h, if_neg h]
    dsimp only []
    rw [forRange_bands_apply
      (fun b => calcT60 m s.fs (avgDelaySamples s.fs p) (finalGains m p b)) _ b hb]

theorem updatePhysics_tiltEQ_L [FloorRing α] (m : Libm α) (s : FDNEngine α)
    (p : PhysicsParams α) :
    (s.updatePhysics m p).tiltEQ_L = s.tiltEQ_L.setTilt m p.tilt := by
  unfold FDNEngine.updatePhysics
  dsimp only [FDNEngine.config]
  by_cases h : sfxTypeOf p > 0
  · rw [if_pos h]
  · rw [if_neg h]

end UpdatePhysicsFields

/-! ### The engine after `prepare` -/

section PrepareLemmas

variable {α : Type} [LinearOrderedField α]

theorem prepare_fs [FloorRing α] (m : Libm α) (s : FDNEngine α) (r : α) :
    (FDNEngine.prepare m s r).fs = r := rfl

theorem prepare_channels [FloorRing α] (m : Libm α) (s : FDNEngine α) (r : α) (k : Nat)
    (hk : k < 16) :
    (FDNEngine.prepare m s r).channels k
      = resetChannel k (prepareChannel r k (s.channels k)) := by
  unfold FDNEngine.prepare FDNEngine.reset
  dsimp only []
  rw [forRange_channels_apply (fun i c => resetChannel i c) _ k hk,
    forRange_channels_apply (fun i c => prepareChannel r i c) _ k hk]

theorem fresh_channels (k : Nat) (hk : k < 16) :
    (FDNEngine.fresh : FDNEngine α).channels k = resetChannel k FDNChannel.fresh := by
  unfold FDNEngine.fresh FDNEngine.reset
  dsimp only []
  rw [forRange_channels_apply (fun i c => resetChannel i c) _ k hk]

theorem preparedEngine_fs [FloorRing α] (m : Libm α) (r : α) :
    (preparedEngine m r).fs = r := rfl

theorem preparedEngine_channels [FloorRing α] (m : Libm α) (r : α) (k : Nat) (hk : k < 16) :
    (preparedEngine m r).channels k
      = resetChannel k (prepareChannel r k (resetChannel k FDNChannel.fresh)) := by
  unfold preparedEngine
  rw [prepare_channels m _ r k hk, fresh_channels k hk]

theorem preparedEngine_bufferSize [FloorRing α] (m : Libm α) (r : α) (k : Nat) (hk : k < 16)
    (hr : 0 < channelBufferSize r) :
    ((preparedEngine m r).channels k).bufferSize = channelBufferSize r := by
  rw [preparedEngine_channels m r k hk]
  show (if (0 : Int) < channelBufferSize r then channelBufferSize r else 0) = _
  rw [if_pos hr]

theorem preparedEngine_loopAllpass1 [FloorRing α] (m : Libm α) (r : α) (k : Nat)
    (hk : k < 16) :
    ((preparedEngine m r).channels k).loopAllpass1.bufferSize = 4224 ∧
    ((preparedEngine m r).channels k).loopAllpass1.currentDelayLen = 2053 ∧
    ((preparedEngine m r).channels k).loopAllpass2.bufferSize = 4224 ∧
    ((preparedEngine m r).channels k).loopAllpass2.currentDelayLen = 2053 := by
  rw [preparedEngine_channels m r k hk]
  have h : findNearestPrime (stdMaxInt 1 (Int.tdiv 4096 2)) = 2053 := by decide
  exact ⟨rfl, h, rfl, h⟩

end PrepareLemmas

/-! ### Buffers and loop allpasses after `updatePhysics` -/

section ChannelUpdateLemmas

variable {α : Type} [LinearOrderedField α]

theorem setModulation_bufferSize (a : LoopAllpass α) (rate depth sampleRate : α) (c : Int) :
    (a.setModulation rate depth sampleRate c).bufferSize = a.bufferSize ∧
    (a.setModulation rate depth sampleRate c).currentDelayLen = a.currentDelayLen := by
  unfold LoopAllpass.setModulation
  split_ifs <;> exact ⟨rfl, rfl⟩

theorem branchUpdate_static [FloorRing α] (m : Libm α) (e : EngineConfig α)
    (p : PhysicsParams α) (i : Nat) (ch : FDNChannel α) :
    let ch1 := if sfxTypeOf p > 0 then sfxChannelUpdate m e.fs p ch
      else normalChannelUpdate m e p i ch
    ch1.bufferSize = ch.bufferSize ∧ ch1.loopAllpass1 = ch.loopAllpass1 ∧
    ch1.loopAllpass2 = ch.loopAllpass2 ∧ ch1.delaySmoother = ch.delaySmoother ∧
    ch1.gainSmoother = ch.gainSmoother ∧ ch1.densitySmoother = ch.densitySmoother := by
  intro ch1
  by_cases h : sfxTypeOf p > 0
  · have : ch1 = sfxChannelUpdate m e.fs p ch := if_pos h
    rw [this]
    exact ⟨rfl, rfl, rfl, rfl, rfl, rfl⟩
  · have : ch1 = normalChannelUpdate m e p i ch := if_neg h
    rw [this]
    exact ⟨rfl, rfl, rfl, rfl, rfl, rfl⟩

theorem applyChannelUpdate_loopAllpass [FloorRing α] (e : EngineConfig α)
    (p : PhysicsParams α) (i : Nat) (ch : FDNChannel α) :
    (applyChannelUpdate e p i ch).loopAllpass1.currentDelayLen
      = findNearestPrime (stdMaxInt 1 (apLen e p i)) ∧
    (applyChannelUpdate e p i ch).loopAllpass2.currentDelayLen
      = findNearestPrime (stdMaxInt 1 (truncInt ((apLen e p i : α) * 1.5))) ∧
    (applyChannelUpdate e p i ch).loopAllpass1.bufferSize = ch.loopAllpass1.bufferSize ∧
    (applyChannelUpdate e p i ch).loopAllpass2.bufferSize = ch.loopAllpass2.bufferSize ∧
    (applyChannelUpdate e p i ch).bufferSize = ch.bufferSize :=
  ⟨rfl, rfl, (setModulation_bufferSize _ _ _ _ _).1, (setModulation_bufferSize _ _ _ _ _).1, rfl⟩

theorem updatePhysics_channel_static [FloorRing α] (m : Libm α) (s : FDNEngine α)
    (p : PhysicsParams α) (k : Nat) (hk : k < 16) :
    ((s.updatePhysics m p).channels k).bufferSize = (s.channels k).bufferSize ∧
    ((s.updatePhysics m p).channels k).loopAllpass1.bufferSize
      = (s.channels k).loopAllpass1.bufferSize ∧
    ((s.updatePhysics m p).channels k).loopAllpass2.bufferSize
      = (s.channels k).loopAllpass2.bufferSize := by
  rw [updatePhysics_channels m s p k hk]
  have hb := branchUpdate_static m s.config p k (s.channels k)
  have ha := applyChannelUpdate_loopAllpass s.config p k
    (if sfxTypeOf p > 0 then sfxChannelUpdate m s.fs p (s.channels k)
      else normalChannelUpdate m s.config p k (s.channels k))
  dsimp only [] at hb
  have hfs : s.config.fs = s.fs := rfl
  rw [hfs] at hb
  refine ⟨ha.2.2.2.2.trans hb.1, ?_, ?_⟩
  · rw [ha.2.2.1, hb.2.1]
  · rw [ha.2.2.2.1, hb.2.2.1]

theorem updatePhysics_config [FloorRing α] (m : Libm α) (s : FDNEngine α)
    (p : PhysicsParams α) : (s.updatePhysics m p).config = s.config := by
  unfold FDNEngine.config
  rw [updatePhysics_fs, (updatePhysics_channel_static m s p 0 (by decide)).1]

theorem updatePhysics_loopAllpass_len [FloorRing α] (m : Libm α) (s : FDNEngine α)
    (p : PhysicsParams α) (k : Nat) (hk : k < 16) :
    ((s.updatePhysics m p).channels k).loopAllpass1.currentDelayLen
      = findNearestPrime (stdMaxInt 1 (apLen s.config p k)) ∧
    ((s.updatePhysics m p).channels k).loopAllpass2.currentDelayLen
      = findNearestPrime (stdMaxInt 1 (truncInt ((apLen s.config p k : α) * 1.5))) := by
  rw [updatePhysics_channels m s p k hk]
  exact ⟨(applyChannelUpdate_loopAllpass _ _ _ _).1, (applyChannelUpdate_loopAllpass _ _ _ _).2.1⟩

theorem updatePhysics_delayTarget [FloorRing α] (m : Libm α) (s : FDNEngine α)
    (p : PhysicsParams α) (k : Nat) (hk : k < 16) :
    ((s.updatePhysics m p).channels k).delaySmoother.targetValue = targetDelay s.config p k := by
  rw [updatePhysics_channels m s p k hk]
  unfold applyChannelUpdate ParameterSmoother.setTarget
  dsimp only []
  split_ifs <;> rfl

end ChannelUpdateLemmas


/-! ### Evaluations at 48 kHz -/

theorem sfxTypeOf_grandCanyonParams : sfxTypeOf (grandCanyonParams : PhysicsParams ℝ) = 0 := by
  decide

set_option maxRecDepth 100000 in
theorem findNearestPrime_20991 : findNearestPrime 20991 = 20983 := by decide

set_option maxRecDepth 100000 in
theorem findNearestPrime_6294 : findNearestPrime 6294 = 6299 := by decide

set_option maxRecDepth 100000 in
theorem findNearestPrime_9441 : findNearestPrime 9441 = 9439 := by decide

/-! ### Smoother targets after `updatePhysics` -/

section SmootherTargetLemmas

variable {α : Type} [LinearOrderedField α]

theorem setTarget_targetValue (s : ParameterSmoother α) (t : α) (n : Int) :
    (s.setTarget t n).targetValue = t := by
  unfold ParameterSmoother.setTarget
  dsimp only []
  split_ifs <;> rfl

theorem setCoeffs_targets (m : Libm α) (f f' : MaterialFilter4Band α) (g : Nat → α)
    (baseG fs : α) :
    (f.setCoeffs m g baseG fs).midGainSmoother.targetValue = baseG ∧
    (f.setCoeffs m g baseG fs).ls.targets = (f'.setCoeffs m g baseG fs).ls.targets ∧
    (f.setCoeffs m g baseG fs).p1.targets = (f'.setCoeffs m g baseG fs).p1.targets ∧
    (f.setCoeffs m g baseG fs).p2.targets = (f'.setCoeffs m g baseG fs).p2.targets ∧
    (f.setCoeffs m g baseG fs).hs.targets = (f'.setCoeffs m g baseG fs).hs.targets :=
  ⟨setTarget_targetValue _ _ _, rfl, rfl, rfl, rfl⟩

theorem channelUpdate_smootherTargets [FloorRing α] (m : Libm α) (e : EngineConfig α)
    (p : PhysicsParams α) (i : Nat) (ch ch' : FDNChannel α) :
    (applyChannelUpdate e p i
      (if sfxTypeOf p > 0 then sfxChannelUpdate m e.fs p ch
        else normalChannelUpdate m e p i ch)).smootherTargets
    = (applyChannelUpdate e p i
      (if sfxTypeOf p > 0 then sfxChannelUpdate m e.fs p ch'
        else normalChannelUpdate m e p i ch')).smootherTargets := by
  unfold FDNChannel.smootherTargets
  by_cases h : sfxTypeOf p > 0
  · rw [if_pos h, if_pos h]
    have h1 : ∀ c : FDNChannel α,
        (applyChannelUpdate e p i (sfxChannelUpdate m e.fs p c)).delaySmoother.targetValue
          = targetDelay e p i := fun c => setTarget_targetValue _ _ _
    have h2 : ∀ c : FDNChannel α,
        (applyChannelUpdate e p i (sfxChannelUpdate m e.fs p c)).densitySmoother.targetValue
          = p.density * 0.15 * 0.6 := fun c => setTarget_targetValue _ _ _
    have h3 : ∀ c : FDNChannel α,
        (applyChannelUpdate e p i (sfxChannelUpdate m e.fs p c)).materialFilter
          = c.materialFilter.setCoeffs m (sfxGains p) 1.0 e.fs := fun c => rfl
    rw [h1, h1, h2, h2, h3, h3]
    have hc := setCoeffs_targets m ch.materialFilter ch'.materialFilter (sfxGains p) 1.0 e.fs
    have hc' := setCoeffs_targets m ch'.materialFilter ch'.materialFilter (sfxGains p) 1.0 e.fs
    rw [hc.1, hc'.1, hc.2.1, hc.2.2.1, hc.2.2.2.1, hc.2.2.2.2]
  · rw [if_neg h, if_neg h]
    have h1 : ∀ c : FDNChannel α,
        (applyChannelUpdate e p i (normalChannelUpdate m e p i c)).delaySmoother.targetValue
          = targetDelay e p i := fun c => setTarget_targetValue _ _ _
    have h2 : ∀ c : FDNChannel α,
        (applyChannelUpdate e p i (normalChannelUpdate m e p i c)).densitySmoother.targetValue
          = p.density * 0.15 * 0.6 := fun c => setTarget_targetValue _ _ _
    have h3 : ∀ c : FDNChannel α,
        (applyChannelUpdate e p i (normalChannelUpdate m e p i c)).materialFilter
          = c.materialFilter.setCoeffs m (sampleGains m e p i) (baseGain m p) e.fs :=
      fun c => rfl
    rw [h1, h1, h2, h2, h3, h3]
    have hc := setCoeffs_targets m ch.materialFilter ch'.materialFilter
      (sampleGains m e p i) (baseGain m p) e.fs
    have hc' := setCoeffs_targets m ch'.materialFilter ch'.materialFilter
      (sampleGains m e p i) (baseGain m p) e.fs
    rw [hc.1, hc'.1, hc.2.1, hc.2.2.1, hc.2.2.2.1, hc.2.2.2.2]

theorem updatePhysics_smootherTargets_congr [FloorRing α] (m : Libm α) (s t : FDNEngine α)
    (p : PhysicsParams α) (hcfg : s.config = t.config) :
    (s.updatePhysics m p).smootherTargets = (t.updatePhysics m p).smootherTargets := by
  have hfs : s.fs = t.fs := congrArg EngineConfig.fs hcfg
  unfold FDNEngine.smootherTargets
  rw [updatePhysics_dryGainSmoother, updatePhysics_wetGainSmoother,
    updatePhysics_dryGainSmoother, updatePhysics_wetGainSmoother]
  rw [setTarget_targetValue, setTarget_targetValue, setTarget_targetValue,
    setTarget_targetValue]
  congr 1
  apply List.map_congr_left
  intro i hi
  have hi16 : i < 16 := List.mem_range.mp hi
  rw [updatePhysics_channels m s p i hi16, updatePhysics_channels m t p i hi16, hcfg, hfs]
  have := channelUpdate_smootherTargets m t.config p i (s.channels i) (t.channels i)
  exact this

end SmootherTargetLemmas

set_option maxHeartbeats 16000000 in
/-- Values of the engine prepared at 48 kHz on the preset "Grand Canyon". -/
theorem engine_48k_facts :
    (channelBufferSize (48000 : ℝ) = 484096) ∧
    ((preparedEngine realLibm (48000 : ℝ)).config = engine48k) ∧
    (truncInt (rawDelay engine48k (grandCanyonParams : PhysicsParams ℝ) 0) = 20991) ∧
    (targetDelay engine48k (grandCanyonParams : PhysicsParams ℝ) 0 = 20983) ∧
    (apLen engine48k (grandCanyonParams : PhysicsParams ℝ) 0 = 6294) ∧
    (truncInt (((6294 : Int) : ℝ) * 1.5) = 9441) := by
  have channelBufferSize_48k : channelBufferSize (48000 : ℝ) = 484096 := by
    unfold channelBufferSize truncInt
    have h : (MAX_DELAY_SECONDS : ℝ) * 48000 = ((480000 : Int) : ℝ) := by
      norm_num [MAX_DELAY_SECONDS]
    rw [h, if_pos (by norm_num), Int.floor_intCast]
    rfl
  have preparedEngine_config_48k :
      (preparedEngine realLibm (48000 : ℝ)).config = engine48k := by
    unfold FDNEngine.config
    rw [preparedEngine_bufferSize realLibm 48000 0 (by decide)
      (by rw [channelBufferSize_48k]; decide), channelBufferSize_48k]
    rfl
  have truncInt_rawDelay_grandCanyonParams :
      truncInt (rawDelay engine48k (grandCanyonParams : PhysicsParams ℝ) 0) = 20991 := by
    have h : rawDelay engine48k (grandCanyonParams : PhysicsParams ℝ) 0
        = 150 / 343 * 48000 := by
      norm_num [rawDelay, baseDelaySec, mfp, volume, totalArea, areaFloor, areaSide, areaFB,
        volFactor, stdMax, ratios, silkyRatios, grandCanyonParams, engine48k, SPEED_OF_SOUND]
    rw [h]
    unfold truncInt
    rw [if_pos (by norm_num)]
    rw [Int.floor_eq_iff]
    constructor <;> norm_num
  have targetDelay_grandCanyonParams :
      targetDelay engine48k (grandCanyonParams : PhysicsParams ℝ) 0 = 20983 := by
    unfold targetDelay
    rw [sfxTypeOf_grandCanyonParams, if_neg (by decide)]
    rw [physicsTargetDelay_eq_of_fits]
    · rw [truncInt_rawDelay_grandCanyonParams, findNearestPrime_20991]
      norm_num
    · rw [truncInt_rawDelay_grandCanyonParams, findNearestPrime_20991]
      decide
  have apLen_grandCanyonParams :
      apLen engine48k (grandCanyonParams : PhysicsParams ℝ) 0 = 6294 := by
    unfold apLen
    rw [targetDelay_grandCanyonParams]
    have h : truncInt ((20983 : ℝ) * 0.3) = 6294 := by
      unfold truncInt
      rw [if_pos (by norm_num), Int.floor_eq_iff]
      constructor <;> norm_num
    simp only [h]
    decide
  have apLen2_grandCanyonParams :
      truncInt (((6294 : Int) : ℝ) * 1.5) = 9441 := by
    unfold truncInt
    rw [if_pos (by norm_num), Int.floor_eq_iff]
    constructor <;> norm_num
  exact ⟨channelBufferSize_48k, preparedEngine_config_48k, truncInt_rawDelay_grandCanyonParams,
    targetDelay_grandCanyonParams, apLen_grandCanyonParams, apLen2_grandCanyonParams⟩
/-! ### RT60 and the decay exponent -/

theorem sfxTypeOf_flatRoomParams : sfxTypeOf (flatRoomParams : PhysicsParams ℝ) = 0 := by
  decide

theorem materialDB_get_zero_abs_zero :
    ((MaterialDB.get 0 : MaterialDef ℝ).abs 0) = 0.02 := by
  rfl

set_option maxHeartbeats 16000000 in
/-- Facts on the mean free path, the steady-state gains and the RT60 report in real
arithmetic. -/
theorem rt60_facts :
    (∀ (roomShape : Int),
      (0 : ℝ) < ratioSum roomShape) ∧
    (∀ (roomShape : Int),
      (0 : ℝ) < volFactor roomShape) ∧
    (∀ (x : ℝ),
      0 < stdMax 1.0 x) ∧
    (∀ (p : PhysicsParams ℝ) (hv : 0 ≤ volume p),
      0 ≤ mfp p) ∧
    (∀ (p : PhysicsParams ℝ) (hw : 0 < p.widthM) (hd : 0 < p.depthM)
    (hh : 0 < p.heightM),
      0 < mfp p) ∧
    (∀ (p : PhysicsParams ℝ) (hw : 0 < p.widthM) (hd : 0 < p.depthM)
    (hh : 0 < p.heightM),
      0 < baseDelaySec p * (ratioSum p.roomShape / 16)) ∧
    (∀ (fs : ℝ) (p : PhysicsParams ℝ) (hfs : fs ≠ 0),
      avgDelaySamples fs p / fs = baseDelaySec p * (ratioSum p.roomShape / 16)) ∧
    (∀ (g : ℝ) (h0 : 0 < g) (h1 : g < 1),
      realLibm.log10 g < 0) ∧
    (∀ (fs d g : ℝ) (hg : g ≤ 0.98),
      calcT60 realLibm fs d g
        = if g ≤ 0.001 then 0 else -3 * (d / fs) / (Real.log g / Real.log 10)) ∧
    (mfp (flatRoomParams : PhysicsParams ℝ) = 0) ∧
    (avgAbs (flatRoomParams : PhysicsParams ℝ) 0 = 0.02) ∧
    (finalGains realLibm (flatRoomParams : PhysicsParams ℝ) 0 = 0.98) ∧
    (∀ (freq tempC humidity : ℝ),
      calcAirAbsorption realLibm freq tempC humidity ≤ 1) ∧
    (∀ (p : PhysicsParams ℝ) (b : Nat),
      finalGains realLibm p b
        = min ((Real.sqrt (1.0 - avgAbs p b) *
            (calcAirAbsorption realLibm ((freqs : List ℝ).getD b 0) p.tempC p.humidityPct)
              ^ (mfp p)) ^ (decayExponent p)) 0.98) ∧
    (∀ (p : PhysicsParams ℝ) (b : Nat),
      0 < Real.sqrt (1.0 - avgAbs p b) *
        (calcAirAbsorption realLibm ((freqs : List ℝ).getD b 0) p.tempC p.humidityPct)
          ^ (mfp p)) ∧
    (∀ (p : PhysicsParams ℝ) (b : Nat) (hm : 0 ≤ mfp p),
      (Real.sqrt (1.0 - avgAbs p b) *
        (calcAirAbsorption realLibm ((freqs : List ℝ).getD b 0) p.tempC p.humidityPct)
          ^ (mfp p)) ^ (2 : ℕ) ≤ 0.99) ∧
    (∀ (x e : ℝ) (hx : 0 < x) (he0 : 0 < e) (he : e ≤ 100),
      min (x ^ (100 : ℝ)) 0.98 ≤ min (x ^ e) 0.98) ∧
    (∀ (p : PhysicsParams ℝ),
      0 < decayExponent p ∧ decayExponent p ≤ 100) ∧
    (∀ (p : PhysicsParams ℝ) (r0 r1 : ℝ) (h0 : r0 ≤ 0.01)
    (b : Nat),
      finalGains realLibm { p with decayRatio := r0 } b
        ≤ finalGains realLibm { p with decayRatio := r1 } b) ∧
    (∀ (fs d g0 g1 : ℝ) (hd : 0 ≤ d / fs) (h0 : 0 < g0) (h01 : g0 ≤ g1)
    (h1 : g1 ≤ 0.98),
      calcT60 realLibm fs d g0 ≤ calcT60 realLibm fs d g1) ∧
    (∀ (p : PhysicsParams ℝ) (hw : 0 ≤ p.widthM) (hd : 0 ≤ p.depthM)
    (hh : 0 ≤ p.heightM),
      0 ≤ volume p) ∧
    (∀ (p : PhysicsParams ℝ) (hv : 0 ≤ volume p),
      0 ≤ baseDelaySec p * (ratioSum p.roomShape / 16)) ∧
    (∀ (s : FDNEngine ℝ) (p : PhysicsParams ℝ) (r0 r1 : ℝ)
    (h0 : r0 ≤ 0.01) (hfs : 0 < s.fs) (hv : 0 ≤ volume p) (b : Nat) (hb : b < 6),
      (s.updatePhysics realLibm { p with decayRatio := r0 }).getEstimatedRT60 b
        ≤ (s.updatePhysics realLibm { p with decayRatio := r1 }).getEstimatedRT60 b) ∧
    (finalGains realLibm (zeroDecayParams : PhysicsParams ℝ) 0
        < finalGains realLibm (exampleParams : PhysicsParams ℝ) 0) ∧
    ((10 : ℝ) ^ (-(1 / 10) : ℝ) ≤ calcAirAbsorption realLibm 125 20 50) ∧
    (avgAbs (exampleParams : PhysicsParams ℝ) 0 = 0.02) ∧
    (mfp (exampleParams : PhysicsParams ℝ) = 60 / 11) ∧
    ((0.001 : ℝ) < Real.sqrt (1.0 - avgAbs (exampleParams : PhysicsParams ℝ) 0) *
        (calcAirAbsorption realLibm ((freqs : List ℝ).getD 0 0)
          (exampleParams : PhysicsParams ℝ).tempC
          (exampleParams : PhysicsParams ℝ).humidityPct)
            ^ (mfp (exampleParams : PhysicsParams ℝ))) ∧
    (∀ (fs d g0 g1 : ℝ) (hd : 0 < d / fs) (h0 : 0 < g0)
    (h01 : g0 < g1) (hg1 : 0.001 < g1) (h1 : g1 ≤ 0.98),
      calcT60 realLibm fs d g0 < calcT60 realLibm fs d g1) ∧
    ((0.001 : ℝ) < finalGains realLibm (exampleParams : PhysicsParams ℝ) 0) ∧
    (((preparedEngine realLibm (48000 : ℝ)).updatePhysics realLibm
        zeroDecayParams).getEstimatedRT60 0
      < ((preparedEngine realLibm (48000 : ℝ)).updatePhysics realLibm
        exampleParams).getEstimatedRT60 0) := by
  have avgAbs_bounds {α : Type} [LinearOrderedField α] := (@gain_bound_facts α _).2.2.1
  have calcAirAbsorption_real_pos := physics_real_facts.1
  have finalGains_real_pos := physics_real_facts.2.1
  have ratioSum_real_pos (roomShape : Int) : (0 : ℝ) < ratioSum roomShape := by
    have hsum : (ratioSum roomShape : ℝ)
        = 0 + ratios roomShape 0 + ratios roomShape 1 + ratios roomShape 2 + ratios roomShape 3
          + ratios roomShape 4 + ratios roomShape 5 + ratios roomShape 6 + ratios roomShape 7
          + ratios roomShape 8 + ratios roomShape 9 + ratios roomShape 10 + ratios roomShape 11
          + ratios roomShape 12 + ratios roomShape 13 + ratios roomShape 14
          + ratios roomShape 15 := rfl
    have hpos : ∀ i : Nat, i < 16 → (0 : ℝ) < ratios roomShape i := by
      intro i hi
      unfold ratios
      split_ifs
      · positivity
      · positivity
      · interval_cases i <;> norm_num [chaosRatios]
      · interval_cases i <;> norm_num [silkyRatios]
    rw [hsum]
    have h0 := hpos 0 (by decide)
    have h1 := hpos 1 (by decide)
    have h2 := hpos 2 (by decide)
    have h3 := hpos 3 (by decide)
    have h4 := hpos 4 (by decide)
    have h5 := hpos 5 (by decide)
    have h6 := hpos 6 (by decide)
    have h7 := hpos 7 (by decide)
    have h8 := hpos 8 (by decide)
    have h9 := hpos 9 (by decide)
    have h10 := hpos 10 (by decide)
    have h11 := hpos 11 (by decide)
    have h12 := hpos 12 (by decide)
    have h13 := hpos 13 (by decide)
    have h14 := hpos 14 (by decide)
    have h15 := hpos 15 (by decide)
    linarith
  have volFactor_real_pos (roomShape : Int) : (0 : ℝ) < volFactor roomShape := by
    unfold volFactor
    split_ifs <;> norm_num
  have stdMax_one_pos (x : ℝ) : 0 < stdMax 1.0 x := by
    unfold stdMax
    split_ifs with h
    · have : (1.0 : ℝ) = 1 := by norm_num
      rw [this] at h
      linarith
    · norm_num
  have mfp_real_nonneg (p : PhysicsParams ℝ) (hv : 0 ≤ volume p) : 0 ≤ mfp p := by
    unfold mfp
    have := stdMax_one_pos (totalArea p)
    positivity
  have mfp_real_pos (p : PhysicsParams ℝ) (hw : 0 < p.widthM) (hd : 0 < p.depthM)
      (hh : 0 < p.heightM) : 0 < mfp p := by
    unfold mfp
    have := stdMax_one_pos (totalArea p)
    have hv : 0 < volume p := by
      unfold volume
      have := volFactor_real_pos p.roomShape
      positivity
    positivity
  have avgDelay_real_pos (p : PhysicsParams ℝ) (hw : 0 < p.widthM) (hd : 0 < p.depthM)
      (hh : 0 < p.heightM) : 0 < baseDelaySec p * (ratioSum p.roomShape / 16) := by
    have h1 := mfp_real_pos p hw hd hh
    have h2 := ratioSum_real_pos p.roomShape
    unfold baseDelaySec SPEED_OF_SOUND
    positivity
  have avgDelaySamples_div (fs : ℝ) (p : PhysicsParams ℝ) (hfs : fs ≠ 0) :
      avgDelaySamples fs p / fs = baseDelaySec p * (ratioSum p.roomShape / 16) := by
    unfold avgDelaySamples
    have : (16.0 : ℝ) = 16 := by norm_num
    rw [this]
    field_simp
    ring
  have log10_real_neg (g : ℝ) (h0 : 0 < g) (h1 : g < 1) : realLibm.log10 g < 0 := by
    show Real.log g / Real.log 10 < 0
    have h10 : 0 < Real.log 10 := Real.log_pos (by norm_num)
    exact div_neg_of_neg_of_pos (Real.log_neg h0 h1) h10
  have calcT60_of_le (fs d g : ℝ) (hg : g ≤ 0.98) :
      calcT60 realLibm fs d g
        = if g ≤ 0.001 then 0 else -3 * (d / fs) / (Real.log g / Real.log 10) := by
    unfold calcT60 stdMin
    have hmin : (if (0.9995 : ℝ) < g then (0.9995 : ℝ) else g) = g := by
      rw [if_neg]
      intro h
      norm_num at hg
      linarith
    simp only [hmin]
    split_ifs with h
    · norm_num
    · norm_num [realLibm]
  have mfp_flatRoomParams : mfp (flatRoomParams : PhysicsParams ℝ) = 0 := by
    norm_num [mfp, volume, flatRoomParams, exampleParams]
  have avgAbs_flatRoomParams : avgAbs (flatRoomParams : PhysicsParams ℝ) 0 = 0.02 := by
    have hraw : avgAbsRaw (flatRoomParams : PhysicsParams ℝ) 0 = 0.02 := by
      unfold avgAbsRaw
      have hm : (flatRoomParams : PhysicsParams ℝ).matFloorIdx = 0 := rfl
      have hc : (flatRoomParams : PhysicsParams ℝ).matCeilIdx = 0 := rfl
      have hw : (flatRoomParams : PhysicsParams ℝ).matWallIdx = 0 := rfl
      have hf : (flatRoomParams : PhysicsParams ℝ).matWallFBIdx = 0 := rfl
      rw [hm, hc, hw, hf, materialDB_get_zero_abs_zero]
      norm_num [weightedAvg, areaFloor, areaSide, areaFB, totalArea, flatRoomParams,
        exampleParams]
    unfold avgAbs
    rw [hraw]
    norm_num [flatRoomParams, exampleParams]
  have finalGains_flatRoomParams :
      finalGains realLibm (flatRoomParams : PhysicsParams ℝ) 0 = 0.98 := by
    unfold finalGains
    rw [mfp_flatRoomParams, avgAbs_flatRoomParams]
    have hexp : decayExponent (flatRoomParams : PhysicsParams ℝ) = 1 := by
      norm_num [decayExponent, flatRoomParams, exampleParams]
    rw [hexp]
    have hpow : ∀ x : ℝ, realLibm.pow x 0 = 1 := fun x => Real.rpow_zero x
    have hpow1 : ∀ x : ℝ, realLibm.pow x 1 = x := fun x => Real.rpow_one x
    simp only [hpow, hpow1, mul_one]
    rw [if_pos]
    show (0.98 : ℝ) < Real.sqrt (1.0 - 0.02)
    rw [Real.lt_sqrt (by norm_num)]
    norm_num
  have calcAirAbsorption_real_le_one (freq tempC humidity : ℝ) :
      calcAirAbsorption realLibm freq tempC humidity ≤ 1 := by
    unfold calcAirAbsorption
    simp only [realLibm, Bool.false_eq_true, if_false]
    have hTb := stdClamp_bounds tempC (-50.0 : ℝ) 100.0 (by norm_num)
    have hHb := stdClamp_bounds humidity (1.0 : ℝ) 100.0 (by norm_num)
    generalize stdClamp tempC (-50.0 : ℝ) 100.0 = t at hTb
    generalize stdClamp humidity (1.0 : ℝ) 100.0 = hum at hHb
    have hT : 0 < t + 273.15 := by
      have := hTb.1
      norm_num at this ⊢
      linarith
    have hH : 0 < hum := by
      have := hHb.1
      norm_num at this
      linarith
    generalize t + 273.15 = T at hT
    have hps : 0 < (10.0 : ℝ) ^ (-6.8346 * (293.15 / T) ^ (1.261 : ℝ) + 4.6151) :=
      Real.rpow_pos_of_pos (by norm_num) _
    generalize (10.0 : ℝ) ^ (-6.8346 * (293.15 / T) ^ (1.261 : ℝ) + 4.6151) = ps at hps
    have hh : 0 < hum * ps := mul_pos hH hps
    generalize hum * ps = h at hh
    apply Real.rpow_le_one_of_one_le_of_nonpos (by norm_num)
    have h1 : 0 < T / 293.15 := by positivity
    have hfrO : 0 < 1.0 * (24.0 + 4.04e4 * h * (2e-2 + h) / (0.391 + h)) := by positivity
    have hfrN : 0 < 1.0 * (T / 293.15) ^ (-0.5 : ℝ) *
        (9.0 + 280.0 * h * Real.exp (-4.17 * ((T / 293.15) ^ (-1.0 / 3.0 : ℝ) - 1.0))) := by
      have := Real.rpow_pos_of_pos h1 (-0.5)
      positivity
    generalize 1.0 * (24.0 + 4.04e4 * h * (2e-2 + h) / (0.391 + h)) = frO at hfrO
    generalize 1.0 * (T / 293.15) ^ (-0.5 : ℝ) *
        (9.0 + 280.0 * h * Real.exp (-4.17 * ((T / 293.15) ^ (-1.0 / 3.0 : ℝ) - 1.0))) = frN
      at hfrN
    have hT25 := Real.rpow_pos_of_pos hT (-2.5)
    have hr25 := Real.rpow_pos_of_pos h1 (-2.5)
    have halpha : 0 ≤ 8.686 * (freq * freq) * T ^ (-2.5 : ℝ) *
        (1.84e-11 * (1.0 / 1.0) * Real.sqrt (T / 293.15) +
          (T / 293.15) ^ (-2.5 : ℝ) *
            (0.01275 * Real.exp (-2239.1 / T) / (frO + freq * freq / frO) +
              0.1068 * Real.exp (-3352.0 / T) / (frN + freq * freq / frN))) * 100.0 := by
      have hf2 : 0 ≤ freq * freq := mul_self_nonneg freq
      positivity
    have : -(8.686 * (freq * freq) * T ^ (-2.5 : ℝ) *
        (1.84e-11 * (1.0 / 1.0) * Real.sqrt (T / 293.15) +
          (T / 293.15) ^ (-2.5 : ℝ) *
            (0.01275 * Real.exp (-2239.1 / T) / (frO + freq * freq / frO) +
              0.1068 * Real.exp (-3352.0 / T) / (frN + freq * freq / frN))) * 100.0) / 20.0
        ≤ 0 := by
      apply div_nonpos_of_nonpos_of_nonneg
      · linarith
      · norm_num
    exact this
  have finalGains_real_eq_min (p : PhysicsParams ℝ) (b : Nat) :
      finalGains realLibm p b
        = min ((Real.sqrt (1.0 - avgAbs p b) *
            (calcAirAbsorption realLibm ((freqs : List ℝ).getD b 0) p.tempC p.humidityPct)
              ^ (mfp p)) ^ (decayExponent p)) 0.98 := by
    unfold finalGains
    simp only []
    split_ifs with h
    · rw [min_eq_right]
      exact le_of_lt h
    · rw [min_eq_left]
      · rfl
      · exact le_of_not_lt h
  have reflectance_real_pos (p : PhysicsParams ℝ) (b : Nat) :
      0 < Real.sqrt (1.0 - avgAbs p b) *
        (calcAirAbsorption realLibm ((freqs : List ℝ).getD b 0) p.tempC p.humidityPct)
          ^ (mfp p) := by
    have habs := (avgAbs_bounds p b).2
    have hsqrt : 0 < Real.sqrt (1.0 - avgAbs p b) := Real.sqrt_pos.mpr (by norm_num; linarith)
    exact mul_pos hsqrt (Real.rpow_pos_of_pos (calcAirAbsorption_real_pos _ _ _) _)
  have reflectance_real_sq_le (p : PhysicsParams ℝ) (b : Nat) (hm : 0 ≤ mfp p) :
      (Real.sqrt (1.0 - avgAbs p b) *
        (calcAirAbsorption realLibm ((freqs : List ℝ).getD b 0) p.tempC p.humidityPct)
          ^ (mfp p)) ^ (2 : ℕ) ≤ 0.99 := by
    have habs := avgAbs_bounds p b
    have hnn : (0 : ℝ) ≤ 1.0 - avgAbs p b := by norm_num; linarith [habs.2]
    have hair0 : 0 < (calcAirAbsorption realLibm ((freqs : List ℝ).getD b 0) p.tempC
        p.humidityPct) ^ (mfp p) := Real.rpow_pos_of_pos (calcAirAbsorption_real_pos _ _ _) _
    have hair1 : (calcAirAbsorption realLibm ((freqs : List ℝ).getD b 0) p.tempC
        p.humidityPct) ^ (mfp p) ≤ 1 :=
      Real.rpow_le_one (le_of_lt (calcAirAbsorption_real_pos _ _ _))
        (calcAirAbsorption_real_le_one _ _ _) hm
    rw [mul_pow, Real.sq_sqrt hnn]
    have h1 : (1.0 : ℝ) - avgAbs p b ≤ 0.99 := by
      have := habs.1
      norm_num at this ⊢
      linarith
    have h2 : ((calcAirAbsorption realLibm ((freqs : List ℝ).getD b 0) p.tempC
        p.humidityPct) ^ (mfp p)) ^ (2 : ℕ) ≤ 1 := pow_le_one₀ (le_of_lt hair0) hair1
    calc (1.0 - avgAbs p b) * ((calcAirAbsorption realLibm ((freqs : List ℝ).getD b 0) p.tempC
        p.humidityPct) ^ (mfp p)) ^ (2 : ℕ)
        ≤ 0.99 * 1 := mul_le_mul h1 h2 (by positivity) (by norm_num)
      _ = 0.99 := by norm_num
  have rpow_fallback_le (x e : ℝ) (hx : 0 < x) (he0 : 0 < e) (he : e ≤ 100) :
      min (x ^ (100 : ℝ)) 0.98 ≤ min (x ^ e) 0.98 := by
    by_cases h1 : x ≤ 1
    · exact min_le_min (Real.rpow_le_rpow_of_exponent_ge hx h1 he) (le_refl _)
    · push_neg at h1
      have hxe : 1 < x ^ e := Real.one_lt_rpow h1 he0
      have hx100 : 1 < x ^ (100 : ℝ) := Real.one_lt_rpow h1 (by norm_num)
      rw [min_eq_right (by linarith), min_eq_right (by linarith)]
  have decayExponent_bounds (p : PhysicsParams ℝ) :
      0 < decayExponent p ∧ decayExponent p ≤ 100 := by
    unfold decayExponent
    split_ifs with h
    · have hpos : (0 : ℝ) < p.decayRatio := by linarith
      constructor
      · positivity
      · rw [div_le_iff₀ hpos]
        nlinarith
    · constructor <;> norm_num
  have finalGains_fallback_le (p : PhysicsParams ℝ) (r0 r1 : ℝ) (h0 : r0 ≤ 0.01)
      (b : Nat) :
      finalGains realLibm { p with decayRatio := r0 } b
        ≤ finalGains realLibm { p with decayRatio := r1 } b := by
    rw [finalGains_real_eq_min, finalGains_real_eq_min]
    have he0 : decayExponent ({ p with decayRatio := r0 } : PhysicsParams ℝ) = 100 := by
      unfold decayExponent
      rw [if_neg (not_lt.mpr h0)]
      norm_num
    rw [he0]
    have hb := decayExponent_bounds ({ p with decayRatio := r1 } : PhysicsParams ℝ)
    exact rpow_fallback_le _ _ (reflectance_real_pos p b) hb.1 hb.2
  have calcT60_real_mono (fs d g0 g1 : ℝ) (hd : 0 ≤ d / fs) (h0 : 0 < g0) (h01 : g0 ≤ g1)
      (h1 : g1 ≤ 0.98) :
      calcT60 realLibm fs d g0 ≤ calcT60 realLibm fs d g1 := by
    rw [calcT60_of_le fs d g0 (le_trans h01 h1), calcT60_of_le fs d g1 h1]
    have hg1pos : 0 < g1 := lt_of_lt_of_le h0 h01
    have hl1 : Real.log g1 / Real.log 10 < 0 := log10_real_neg g1 hg1pos (by linarith)
    have hl0 : Real.log g0 / Real.log 10 < 0 := log10_real_neg g0 h0 (by linarith)
    have h10 : 0 < Real.log 10 := Real.log_pos (by norm_num)
    have hle : Real.log g0 / Real.log 10 ≤ Real.log g1 / Real.log 10 :=
      div_le_div_of_nonneg_right (Real.log_le_log h0 h01) (le_of_lt h10)
    have hnum : -3 * (d / fs) ≤ 0 := by linarith
    by_cases hc0 : g0 ≤ 0.001
    · rw [if_pos hc0]
      split_ifs
      · exact le_refl _
      · exact div_nonneg_of_nonpos hnum (le_of_lt hl1)
    · rw [if_neg hc0, if_neg (fun h => hc0 (le_trans h01 h))]
      rw [← neg_div_neg_eq (-3 * (d / fs)) (Real.log g0 / Real.log 10),
        ← neg_div_neg_eq (-3 * (d / fs)) (Real.log g1 / Real.log 10)]
      exact div_le_div_of_nonneg_left (by linarith) (by linarith) (by linarith)
  have volume_real_nonneg (p : PhysicsParams ℝ) (hw : 0 ≤ p.widthM) (hd : 0 ≤ p.depthM)
      (hh : 0 ≤ p.heightM) : 0 ≤ volume p := by
    unfold volume
    have := volFactor_real_pos p.roomShape
    positivity
  have avgDelay_real_nonneg (p : PhysicsParams ℝ) (hv : 0 ≤ volume p) :
      0 ≤ baseDelaySec p * (ratioSum p.roomShape / 16) := by
    have h1 := mfp_real_nonneg p hv
    have h2 := ratioSum_real_pos p.roomShape
    unfold baseDelaySec SPEED_OF_SOUND
    positivity
  have rt60_fallback_le (s : FDNEngine ℝ) (p : PhysicsParams ℝ) (r0 r1 : ℝ)
      (h0 : r0 ≤ 0.01) (hfs : 0 < s.fs) (hv : 0 ≤ volume p) (b : Nat) (hb : b < 6) :
      (s.updatePhysics realLibm { p with decayRatio := r0 }).getEstimatedRT60 b
        ≤ (s.updatePhysics realLibm { p with decayRatio := r1 }).getEstimatedRT60 b := by
    unfold FDNEngine.getEstimatedRT60
    rw [updatePhysics_lastRT60Data _ _ _ b hb, updatePhysics_lastRT60Data _ _ _ b hb]
    have hs0 : sfxTypeOf ({ p with decayRatio := r0 } : PhysicsParams ℝ) = sfxTypeOf p := rfl
    have hs1 : sfxTypeOf ({ p with decayRatio := r1 } : PhysicsParams ℝ) = sfxTypeOf p := rfl
    rw [hs0, hs1]
    by_cases hsfx : sfxTypeOf p > 0
    · rw [if_pos hsfx, if_pos hsfx]
    · rw [if_neg hsfx, if_neg hsfx]
      have ha0 : avgDelaySamples s.fs ({ p with decayRatio := r0 } : PhysicsParams ℝ)
          = avgDelaySamples s.fs p := rfl
      have ha1 : avgDelaySamples s.fs ({ p with decayRatio := r1 } : PhysicsParams ℝ)
          = avgDelaySamples s.fs p := rfl
      rw [ha0, ha1]
      apply calcT60_real_mono
      · rw [avgDelaySamples_div _ _ (ne_of_gt hfs)]
        exact avgDelay_real_nonneg p hv
      · exact finalGains_real_pos _ _
      · exact finalGains_fallback_le p r0 r1 h0 b
      · exact finalGains_le _ _ _
  have finalGains_zeroDecay_lt :
      finalGains realLibm (zeroDecayParams : PhysicsParams ℝ) 0
        < finalGains realLibm (exampleParams : PhysicsParams ℝ) 0 := by
    rw [finalGains_real_eq_min, finalGains_real_eq_min]
    have he0 : decayExponent (zeroDecayParams : PhysicsParams ℝ) = 100 := by
      norm_num [decayExponent, zeroDecayParams]
    have he1 : decayExponent (exampleParams : PhysicsParams ℝ) = 1 := by
      norm_num [decayExponent, exampleParams]
    have hsame : Real.sqrt (1.0 - avgAbs (zeroDecayParams : PhysicsParams ℝ) 0) *
        (calcAirAbsorption realLibm ((freqs : List ℝ).getD 0 0)
          (zeroDecayParams : PhysicsParams ℝ).tempC
          (zeroDecayParams : PhysicsParams ℝ).humidityPct)
            ^ (mfp (zeroDecayParams : PhysicsParams ℝ))
        = Real.sqrt (1.0 - avgAbs (exampleParams : PhysicsParams ℝ) 0) *
        (calcAirAbsorption realLibm ((freqs : List ℝ).getD 0 0)
          (exampleParams : PhysicsParams ℝ).tempC
          (exampleParams : PhysicsParams ℝ).humidityPct)
            ^ (mfp (exampleParams : PhysicsParams ℝ)) := rfl
    rw [he0, he1, hsame]
    have hm : 0 ≤ mfp (exampleParams : PhysicsParams ℝ) :=
      mfp_real_nonneg _ (volume_real_nonneg _ (by norm_num [exampleParams])
        (by norm_num [exampleParams]) (by norm_num [exampleParams]))
    have hpos := reflectance_real_pos (exampleParams : PhysicsParams ℝ) 0
    have hsq := reflectance_real_sq_le (exampleParams : PhysicsParams ℝ) 0 hm
    generalize Real.sqrt (1.0 - avgAbs (exampleParams : PhysicsParams ℝ) 0) *
        (calcAirAbsorption realLibm ((freqs : List ℝ).getD 0 0)
          (exampleParams : PhysicsParams ℝ).tempC
          (exampleParams : PhysicsParams ℝ).humidityPct)
            ^ (mfp (exampleParams : PhysicsParams ℝ)) = x at hpos hsq
    have hx1 : x < 1 := by
      by_contra h
      push_neg at h
      have : (1 : ℝ) ≤ x ^ (2 : ℕ) := one_le_pow₀ h
      linarith
    have h6 : x ^ (100 : ℝ) ≤ x ^ (6 : ℝ) :=
      Real.rpow_le_rpow_of_exponent_ge hpos (le_of_lt hx1) (by norm_num)
    have h6' : x ^ (6 : ℝ) = (x ^ (2 : ℕ)) ^ (3 : ℕ) := by
      rw [← pow_mul]
      exact_mod_cast Real.rpow_natCast x 6
    have h63 : (x ^ (2 : ℕ)) ^ (3 : ℕ) ≤ (0.99 : ℝ) ^ (3 : ℕ) :=
      pow_le_pow_left₀ (by positivity) hsq 3
    have h100 : x ^ (100 : ℝ) < 0.98 :=
      calc x ^ (100 : ℝ) ≤ x ^ (6 : ℝ) := h6
        _ = (x ^ (2 : ℕ)) ^ (3 : ℕ) := h6'
        _ ≤ (0.99 : ℝ) ^ (3 : ℕ) := h63
        _ < 0.98 := by norm_num
    have hlt : x ^ (100 : ℝ) < x ^ (1 : ℝ) :=
      Real.rpow_lt_rpow_of_exponent_gt hpos hx1 (by norm_num)
    rw [min_eq_left (le_of_lt h100)]
    exact lt_min hlt h100
  have calcAirAbsorption_example_ge :
      (10 : ℝ) ^ (-(1 / 10) : ℝ) ≤ calcAirAbsorption realLibm 125 20 50 := by
    unfold calcAirAbsorption
    simp only [realLibm, Bool.false_eq_true, if_false]
    have hc1 : stdClamp (20 : ℝ) (-50.0) 100.0 = 20 := by norm_num [stdClamp]
    have hc2 : stdClamp (50 : ℝ) 1.0 100.0 = 50 := by norm_num [stdClamp]
    rw [hc1, hc2]
    have hT : (20 : ℝ) + 273.15 = 293.15 := by norm_num
    have h1 : (293.15 : ℝ) / 293.15 = 1 := by norm_num
    simp only [hT, h1, Real.one_rpow, Real.sqrt_one]
    have hps : 0 < (10.0 : ℝ) ^ (-6.8346 * 1 + 4.6151 : ℝ) :=
      Real.rpow_pos_of_pos (by norm_num) _
    generalize (10.0 : ℝ) ^ (-6.8346 * 1 + 4.6151 : ℝ) = ps at hps
    have hh : 0 < 50 * ps := by positivity
    generalize 50 * ps = h at hh
    have hfrO : 24 ≤ 1.0 * (24.0 + 4.04e4 * h * (2e-2 + h) / (0.391 + h)) := by
      have : 0 ≤ 4.04e4 * h * (2e-2 + h) / (0.391 + h) := by positivity
      linarith
    have hfrN : 9 ≤ 1.0 * 1 * (9.0 + 280.0 * h * Real.exp (-4.17 * (1 - 1.0))) := by
      have : 0 ≤ 280.0 * h * Real.exp (-4.17 * (1 - 1.0)) := by positivity
      linarith
    generalize 1.0 * (24.0 + 4.04e4 * h * (2e-2 + h) / (0.391 + h)) = frO at hfrO
    generalize 1.0 * 1 * (9.0 + 280.0 * h * Real.exp (-4.17 * (1 - 1.0))) = frN at hfrN
    have hP0 : 0 < (293.15 : ℝ) ^ (-2.5 : ℝ) := Real.rpow_pos_of_pos (by norm_num) _
    have hP : (293.15 : ℝ) ^ (-2.5 : ℝ) ≤ 1 / 85000 := by
      have h2 : (293.15 : ℝ) ^ (-2.5 : ℝ) ≤ (293.15 : ℝ) ^ (-2 : ℝ) :=
        Real.rpow_le_rpow_of_exponent_le (by norm_num) (by norm_num)
      have h3 : (293.15 : ℝ) ^ (-2 : ℝ) = ((293.15 : ℝ) ^ (2 : ℕ))⁻¹ := by
        rw [Real.rpow_neg (by norm_num)]
        congr 1
        exact_mod_cast Real.rpow_natCast (293.15 : ℝ) 2
      rw [h3] at h2
      have h4 : ((293.15 : ℝ) ^ (2 : ℕ))⁻¹ ≤ 1 / 85000 := by
        rw [inv_eq_one_div]
        apply one_div_le_one_div_of_le (by norm_num)
        norm_num
      linarith
    generalize (293.15 : ℝ) ^ (-2.5 : ℝ) = P at hP0 hP
    have hE1 : Real.exp (-2239.1 / 293.15) ≤ 1 := Real.exp_le_one_iff.mpr (by norm_num)
    have hE1p : 0 < Real.exp (-2239.1 / 293.15) := Real.exp_pos _
    have hE2 : Real.exp (-3352.0 / 293.15) ≤ 1 := Real.exp_le_one_iff.mpr (by norm_num)
    have hE2p : 0 < Real.exp (-3352.0 / 293.15) := Real.exp_pos _
    generalize Real.exp (-2239.1 / 293.15) = E1 at hE1 hE1p
    generalize Real.exp (-3352.0 / 293.15) = E2 at hE2 hE2p
    have hfO : 0 < frO := by linarith
    have hfN : 0 < frN := by linarith
    have ht1 : 0.01275 * E1 / (frO + 125 * 125 / frO) ≤ 0.01275 / 24 := by
      have hden : 24 ≤ frO + 125 * 125 / frO := by
        have : 0 ≤ 125 * 125 / frO := by positivity
        linarith
      calc 0.01275 * E1 / (frO + 125 * 125 / frO)
          ≤ 0.01275 * 1 / (frO + 125 * 125 / frO) := by
            apply div_le_div_of_nonneg_right _ (by linarith)
            nlinarith
        _ ≤ 0.01275 * 1 / 24 := by
            apply div_le_div_of_nonneg_left (by norm_num) (by norm_num) hden
        _ = 0.01275 / 24 := by norm_num
    have ht2 : 0.1068 * E2 / (frN + 125 * 125 / frN) ≤ 0.1068 / 9 := by
      have hden : 9 ≤ frN + 125 * 125 / frN := by
        have : 0 ≤ 125 * 125 / frN := by positivity
        linarith
      calc 0.1068 * E2 / (frN + 125 * 125 / frN)
          ≤ 0.1068 * 1 / (frN + 125 * 125 / frN) := by
            apply div_le_div_of_nonneg_right _ (by linarith)
            nlinarith
        _ ≤ 0.1068 * 1 / 9 := by
            apply div_le_div_of_nonneg_left (by norm_num) (by norm_num) hden
        _ = 0.1068 / 9 := by norm_num
    have ht1p : 0 ≤ 0.01275 * E1 / (frO + 125 * 125 / frO) := by positivity
    have ht2p : 0 ≤ 0.1068 * E2 / (frN + 125 * 125 / frN) := by positivity
    generalize 0.01275 * E1 / (frO + 125 * 125 / frO) = t1 at ht1 ht1p
    generalize 0.1068 * E2 / (frN + 125 * 125 / frN) = t2 at ht2 ht2p
    have h10 : (10.0 : ℝ) = 10 := by norm_num
    rw [h10]
    apply Real.rpow_le_rpow_of_exponent_le (by norm_num)
    have hS : 1.84e-11 * (1.0 / 1.0) * 1 + 1 * (t1 + t2) ≤ (0.0125 : ℝ) := by
      norm_num at ht1 ht2 ⊢
      linarith
    have hS0 : 0 ≤ 1.84e-11 * (1.0 / 1.0) * 1 + 1 * (t1 + t2) := by positivity
    generalize 1.84e-11 * (1.0 / 1.0) * 1 + 1 * (t1 + t2) = S at hS hS0
    have hPS : P * S ≤ 1 / 85000 * 0.0125 := mul_le_mul hP hS hS0 (by norm_num)
    have : 8.686 * (125 * 125) * P * S * 100.0 ≤ 2 := by
      have : 8.686 * (125 * 125) * P * S * 100.0 = 8.686 * (125 * 125) * 100.0 * (P * S) := by
        ring
      rw [this]
      nlinarith
    linarith
  have avgAbs_exampleParams : avgAbs (exampleParams : PhysicsParams ℝ) 0 = 0.02 := by
    have hraw : avgAbsRaw (exampleParams : PhysicsParams ℝ) 0 = 0.02 := by
      unfold avgAbsRaw
      have hm : (exampleParams : PhysicsParams ℝ).matFloorIdx = 0 := rfl
      have hc : (exampleParams : PhysicsParams ℝ).matCeilIdx = 0 := rfl
      have hw : (exampleParams : PhysicsParams ℝ).matWallIdx = 0 := rfl
      have hf : (exampleParams : PhysicsParams ℝ).matWallFBIdx = 0 := rfl
      rw [hm, hc, hw, hf, materialDB_get_zero_abs_zero]
      norm_num [weightedAvg, areaFloor, areaSide, areaFB, totalArea, exampleParams]
    unfold avgAbs
    rw [hraw]
    norm_num [exampleParams]
  have mfp_exampleParams : mfp (exampleParams : PhysicsParams ℝ) = 60 / 11 := by
    norm_num [mfp, volume, totalArea, areaFloor, areaSide, areaFB, volFactor, stdMax,
      exampleParams]
  have reflectance_exampleParams_gt :
      (0.001 : ℝ) < Real.sqrt (1.0 - avgAbs (exampleParams : PhysicsParams ℝ) 0) *
        (calcAirAbsorption realLibm ((freqs : List ℝ).getD 0 0)
          (exampleParams : PhysicsParams ℝ).tempC
          (exampleParams : PhysicsParams ℝ).humidityPct)
            ^ (mfp (exampleParams : PhysicsParams ℝ)) := by
    rw [avgAbs_exampleParams, mfp_exampleParams]
    have hf : (freqs : List ℝ).getD 0 0 = 125 := by
      show (125.0 : ℝ) = 125
      norm_num
    have ht : (exampleParams : PhysicsParams ℝ).tempC = 20 := rfl
    have hh : (exampleParams : PhysicsParams ℝ).humidityPct = 50 := rfl
    rw [hf, ht, hh]
    have hsqrt : (0.9 : ℝ) ≤ Real.sqrt (1.0 - 0.02) := by
      rw [Real.le_sqrt' (by norm_num)]
      norm_num
    have hbase : (0 : ℝ) < (10 : ℝ) ^ (-(1 / 10) : ℝ) := Real.rpow_pos_of_pos (by norm_num) _
    have hair : ((10 : ℝ) ^ (-(1 / 10) : ℝ)) ^ (60 / 11 : ℝ)
        ≤ (calcAirAbsorption realLibm 125 20 50) ^ (60 / 11 : ℝ) :=
      Real.rpow_le_rpow (le_of_lt hbase) calcAirAbsorption_example_ge (by norm_num)
    have hpow : ((10 : ℝ) ^ (-(1 / 10) : ℝ)) ^ (60 / 11 : ℝ) = (10 : ℝ) ^ (-(6 / 11) : ℝ) := by
      rw [← Real.rpow_mul (by norm_num)]
      norm_num
    have hlow : (10 : ℝ) ^ (-1 : ℝ) ≤ (10 : ℝ) ^ (-(6 / 11) : ℝ) :=
      Real.rpow_le_rpow_of_exponent_le (by norm_num) (by norm_num)
    have h01 : (10 : ℝ) ^ (-1 : ℝ) = 0.1 := by
      rw [Real.rpow_neg_one]
      norm_num
    have hA : (0.1 : ℝ) ≤ (calcAirAbsorption realLibm 125 20 50) ^ (60 / 11 : ℝ) := by
      rw [hpow] at hair
      linarith
    nlinarith
  have calcT60_real_strict_mono (fs d g0 g1 : ℝ) (hd : 0 < d / fs) (h0 : 0 < g0)
      (h01 : g0 < g1) (hg1 : 0.001 < g1) (h1 : g1 ≤ 0.98) :
      calcT60 realLibm fs d g0 < calcT60 realLibm fs d g1 := by
    rw [calcT60_of_le fs d g0 (le_trans (le_of_lt h01) h1), calcT60_of_le fs d g1 h1]
    have hg1pos : 0 < g1 := lt_trans h0 h01
    have hl1 : Real.log g1 / Real.log 10 < 0 := log10_real_neg g1 hg1pos (by linarith)
    have hl0 : Real.log g0 / Real.log 10 < 0 := log10_real_neg g0 h0 (by linarith)
    have h10 : 0 < Real.log 10 := Real.log_pos (by norm_num)
    have hlt : Real.log g0 / Real.log 10 < Real.log g1 / Real.log 10 :=
      div_lt_div_of_pos_right (Real.log_lt_log h0 h01) h10
    rw [if_neg (not_le.mpr hg1)]
    have hpos1 : 0 < -3 * (d / fs) / (Real.log g1 / Real.log 10) :=
      div_pos_of_neg_of_neg (by linarith) hl1
    by_cases hc0 : g0 ≤ 0.001
    · rw [if_pos hc0]
      exact hpos1
    · rw [if_neg hc0]
      rw [← neg_div_neg_eq (-3 * (d / fs)) (Real.log g0 / Real.log 10),
        ← neg_div_neg_eq (-3 * (d / fs)) (Real.log g1 / Real.log 10)]
      exact div_lt_div_of_pos_left (by linarith) (by linarith) (by linarith)
  have finalGains_exampleParams_gt :
      (0.001 : ℝ) < finalGains realLibm (exampleParams : PhysicsParams ℝ) 0 := by
    rw [finalGains_real_eq_min]
    have he1 : decayExponent (exampleParams : PhysicsParams ℝ) = 1 := by
      norm_num [decayExponent, exampleParams]
    rw [he1, Real.rpow_one]
    exact lt_min reflectance_exampleParams_gt (by norm_num)
  have rt60_zeroDecay_lt :
      ((preparedEngine realLibm (48000 : ℝ)).updatePhysics realLibm
        zeroDecayParams).getEstimatedRT60 0
      < ((preparedEngine realLibm (48000 : ℝ)).updatePhysics realLibm
        exampleParams).getEstimatedRT60 0 := by
    unfold FDNEngine.getEstimatedRT60
    rw [updatePhysics_lastRT60Data _ _ _ 0 (by decide),
      updatePhysics_lastRT60Data _ _ _ 0 (by decide)]
    have hs0 : sfxTypeOf (zeroDecayParams : PhysicsParams ℝ) = 0 := by decide
    rw [hs0, sfxTypeOf_exampleParams, if_neg (by decide)]
    have ha : avgDelaySamples (preparedEngine realLibm (48000 : ℝ)).fs
        (zeroDecayParams : PhysicsParams ℝ)
        = avgDelaySamples (preparedEngine realLibm (48000 : ℝ)).fs
          (exampleParams : PhysicsParams ℝ) := rfl
    rw [ha]
    have hfs : (preparedEngine realLibm (48000 : ℝ)).fs ≠ 0 := by
      rw [preparedEngine_fs]
      norm_num
    apply calcT60_real_strict_mono
    · rw [avgDelaySamples_div _ _ hfs]
      exact avgDelay_real_pos _ (by norm_num [exampleParams]) (by norm_num [exampleParams])
        (by norm_num [exampleParams])
    · exact finalGains_real_pos _ _
    · exact finalGains_zeroDecay_lt
    · exact finalGains_exampleParams_gt
    · exact finalGains_le _ _ _
  exact ⟨ratioSum_real_pos, volFactor_real_pos, stdMax_one_pos, mfp_real_nonneg, mfp_real_pos,
    avgDelay_real_pos, avgDelaySamples_div, log10_real_neg, calcT60_of_le, mfp_flatRoomParams,
    avgAbs_flatRoomParams, finalGains_flatRoomParams, calcAirAbsorption_real_le_one,
    finalGains_real_eq_min, reflectance_real_pos, reflectance_real_sq_le, rpow_fallback_le,
    decayExponent_bounds, finalGains_fallback_le, calcT60_real_mono, volume_real_nonneg,
    avgDelay_real_nonneg, rt60_fallback_le, finalGains_zeroDecay_lt, calcAirAbsorption_example_ge,
    avgAbs_exampleParams, mfp_exampleParams, reflectance_exampleParams_gt,
    calcT60_real_strict_mono, finalGains_exampleParams_gt, rt60_zeroDecay_lt⟩

/-! ### Output stage -/

section SmootherLemmas

variable {α : Type} [LinearOrderedField α]

theorem getNext_targetValue (s : ParameterSmoother α) :
    s.getNext.1.targetValue = s.targetValue := by
  unfold ParameterSmoother.getNext
  split_ifs <;> rfl

theorem getNext_countdown (s : ParameterSmoother α) :
    s.getNext.1.countdown = if s.countdown > 0 then s.countdown - 1 else s.countdown := by
  unfold ParameterSmoother.getNext
  split_ifs <;> rfl

theorem getNext_of_done (s : ParameterSmoother α) (h : s.countdown ≤ 0) :
    s.getNext.2 = s.targetValue := by
  unfold ParameterSmoother.getNext
  rw [if_neg (not_lt.mpr h)]

theorem advance_spec (k : Nat) (s : ParameterSmoother α) (h : s.countdown ≤ k) :
    (s.advance k).targetValue = s.targetValue ∧ (s.advance k).countdown ≤ 0 := by
  induction k generalizing s with
  | zero => exact ⟨rfl, by simpa using h⟩
  | succ n ih =>
    have hstep : s.advance (n + 1) = (s.getNext.1).advance n := by
      unfold ParameterSmoother.advance
      rw [Function.iterate_succ_apply]
    rw [hstep]
    have hc : s.getNext.1.countdown ≤ n := by
      rw [getNext_countdown]
      split_ifs with hpos
      · push_cast at h
        omega
      · push_neg at hpos
        have : (0 : Int) ≤ n := Int.natCast_nonneg n
        omega
    have := ih s.getNext.1 hc
    exact ⟨this.1.trans (getNext_targetValue s), this.2⟩

end SmootherLemmas

section DerivedCoefficientLemmas

variable {α : Type} [LinearOrderedField α]

theorem updatePhysics_scalars [FloorRing α] (m : Libm α) (s : FDNEngine α)
    (p : PhysicsParams α) :
    (s.updatePhysics m p).currentShapeMode = p.roomShape ∧
    (s.updatePhysics m p).currentPreDelaySamples
      = preDelaySamples s.fs s.inputDelayBufferSize p ∧
    (s.updatePhysics m p).currentDrive
      = (if sfxTypeOf p > 0 then (if sfxTypeOf p = 4 then 1.0 else p.drive) else p.drive) ∧
    (s.updatePhysics m p).currentDynamicsAmount = p.dynamicsAmount ∧
    (s.updatePhysics m p).currentModDepth
      = (if sfxTypeOf p > 0 then sfxLfoDepthScaled (sfxTypeOf p)
         else normalModDepth s.fs p) ∧
    (s.updatePhysics m p).currentWidth = p.stereoWidth * (1.0 - distanceFactor p * 0.5) ∧
    (s.updatePhysics m p).panInputL = panInputLRaw p * panNorm m p ∧
    (s.updatePhysics m p).panInputR = panInputRRaw p * panNorm m p ∧
    (s.updatePhysics m p).velvetL.amount = p.diffusion ∧
    (s.updatePhysics m p).velvetR.amount = p.diffusion := by
  unfold FDNEngine.updatePhysics
  dsimp only [FDNEngine.config]
  by_cases h : sfxTypeOf p > 0
  · simp only [if_pos h]
    refine ⟨?_, ?_, ?_, ?_, ?_, ?_, ?_, ?_, ?_, ?_⟩ <;> trivial
  · simp only [if_neg h]
    refine ⟨?_, ?_, ?_, ?_, ?_, ?_, ?_, ?_, ?_, ?_⟩ <;> trivial

theorem updatePhysics_parts [FloorRing α] (m : Libm α) (s : FDNEngine α)
    (p : PhysicsParams α) :
    (s.updatePhysics m p).dynamicsProcessor
      = s.dynamicsProcessor.setParams m p.dynThreshold p.dynRatio p.dynAttack p.dynRelease ∧
    (s.updatePhysics m p).inFilterL = (s.inFilterL.setHighPass m p.inLC).setLowPass m p.inHC ∧
    (s.updatePhysics m p).inFilterR = (s.inFilterR.setHighPass m p.inLC).setLowPass m p.inHC ∧
    (s.updatePhysics m p).outFilterL
      = (s.outFilterL.setHighPass m p.outLC).setLowPass m p.outHC ∧
    (s.updatePhysics m p).outFilterR
      = (s.outFilterR.setHighPass m p.outLC).setLowPass m p.outHC ∧
    (s.updatePhysics m p).erEngine
      = s.erEngine.updateGeometry m p.widthM p.depthM p.heightM (effectivePreDelay p)
          (stdClamp p.sourceHeight 0.0 p.heightM) p.diffusion p.sourceDist p.sourcePan ∧
    (s.updatePhysics m p).tiltEQ_R = s.tiltEQ_R.setTilt m p.tilt ∧
    (s.updatePhysics m p).inputDelayBufferSize = s.inputDelayBufferSize := by
  unfold FDNEngine.updatePhysics
  dsimp only [FDNEngine.config]
  by_cases h : sfxTypeOf p > 0
  · simp only [if_pos h]
    refine ⟨?_, ?_, ?_, ?_, ?_, ?_, ?_, ?_⟩ <;> trivial
  · simp only [if_neg h]
    refine ⟨?_, ?_, ?_, ?_, ?_, ?_, ?_, ?_⟩ <;> trivial

theorem setParams_congr (m : Libm α) (d d' : DynamicsProcessor α) (a b c e : α)
    (h : d.sampleRate = d'.sampleRate) :
    (d.setParams m a b c e).coeffs = (d'.setParams m a b c e).coeffs := by
  unfold DynamicsProcessor.setParams DynamicsProcessor.coeffs
  dsimp only []
  rw [h]

theorem setFilter_congr (m : Libm α) (f f' : HighQualityFilter α) (lc hc : α)
    (h : f.sampleRate = f'.sampleRate) :
    ((f.setHighPass m lc).setLowPass m hc).coeffs
      = ((f'.setHighPass m lc).setLowPass m hc).coeffs := by
  unfold HighQualityFilter.setLowPass HighQualityFilter.setHighPass HighQualityFilter.coeffs
    BiquadSection.coeffs calculateLPCoeffs calculateHPCoeffs
  dsimp only []
  rw [h]

theorem setFilter_sampleRate (m : Libm α) (f : HighQualityFilter α) (lc hc : α) :
    ((f.setHighPass m lc).setLowPass m hc).sampleRate = f.sampleRate := rfl

theorem setTilt_sampleRate (m : Libm α) (t : TiltEqualizer α) (g : α) :
    (t.setTilt m g).sampleRate = t.sampleRate := by
  unfold TiltEqualizer.setTilt
  split_ifs <;> rfl

theorem setTilt_congr (m : Libm α) (t t' : TiltEqualizer α) (g : α)
    (h : t.sampleRate = t'.sampleRate) (ht : ¬ |g - t.currentGainDB| < 0.01)
    (ht' : ¬ |g - t'.currentGainDB| < 0.01) :
    (t.setTilt m g).coeffs = (t'.setTilt m g).coeffs := by
  unfold TiltEqualizer.setTilt TiltEqualizer.coeffs
  rw [if_neg ht, if_neg ht']
  dsimp only []
  rw [h]

theorem setTilt_keep (m : Libm α) (t : TiltEqualizer α) (g : α)
    (ht : |g - t.currentGainDB| < 0.01) : t.setTilt m g = t := by
  unfold TiltEqualizer.setTilt
  rw [if_pos ht]

theorem forRange_taps_apply {β : Type} (f : Nat → β → β) (c : Nat → β) (k : Nat)
    (hk : k < 7) :
    forRange 0 7 1 (fun i taps => store taps i (f i (taps i))) c k = f k (c k) := by
  interval_cases k <;> rfl

theorem updateGeometry_congr [FloorRing α] (m : Libm α) (er er' : EarlyReflections α)
    (W D H pre srcH diff dist pan : α) (h : er.fs = er'.fs)
    (hb : er.predelayBufferSize = er'.predelayBufferSize) :
    (er.updateGeometry m W D H pre srcH diff dist pan).coeffs
      = (er'.updateGeometry m W D H pre srcH diff dist pan).coeffs := by
  unfold EarlyReflections.coeffs
  apply List.map_congr_left
  intro i hi
  have hi7 : i < 7 := List.mem_range.mp hi
  unfold EarlyReflections.updateGeometry
  dsimp only []
  rw [forRange_taps_apply (fun i t => updateTap er.fs
      ((reflectionPaths m W D H srcH dist pan).getD i 0) (directPath m W D H srcH dist pan)
      (truncInt (pre * 0.001 * er.fs)) er.predelayBufferSize diff i t) _ i hi7,
    forRange_taps_apply (fun i t => updateTap er'.fs
      ((reflectionPaths m W D H srcH dist pan).getD i 0) (directPath m W D H srcH dist pan)
      (truncInt (pre * 0.001 * er'.fs)) er'.predelayBufferSize diff i t) _ i hi7]
  rw [h, hb]
  unfold updateTap
  dsimp only []

theorem updateGeometry_static [FloorRing α] (m : Libm α) (er : EarlyReflections α)
    (W D H pre srcH diff dist pan : α) :
    (er.updateGeometry m W D H pre srcH diff dist pan).fs = er.fs ∧
    (er.updateGeometry m W D H pre srcH diff dist pan).predelayBufferSize
      = er.predelayBufferSize := ⟨rfl, rfl⟩

theorem setModulation_lfoInc (a a' : LoopAllpass α) (rate depth sampleRate : α) (c : Int) :
    (a.setModulation rate depth sampleRate c).lfoInc
      = (a'.setModulation rate depth sampleRate c).lfoInc := by
  unfold LoopAllpass.setModulation
  split_ifs <;> rfl

theorem channelUpdate_coeffs [FloorRing α] (m : Libm α) (e : EngineConfig α)
    (p : PhysicsParams α) (i : Nat) (ch ch' : FDNChannel α) :
    (applyChannelUpdate e p i
      (if sfxTypeOf p > 0 then sfxChannelUpdate m e.fs p ch
        else normalChannelUpdate m e p i ch)).coeffs
    = (applyChannelUpdate e p i
      (if sfxTypeOf p > 0 then sfxChannelUpdate m e.fs p ch'
        else normalChannelUpdate m e p i ch')).coeffs := by
  unfold FDNChannel.coeffs
  rw [channelUpdate_smootherTargets m e p i ch ch']
  have hl := applyChannelUpdate_loopAllpass e p i
  rw [(hl _).1, (hl _).2.1, (hl _).1, (hl _).2.1]
  by_cases h : sfxTypeOf p > 0
  · rw [if_pos h, if_pos h]
    have h1 : ∀ c : FDNChannel α,
        (applyChannelUpdate e p i (sfxChannelUpdate m e.fs p c)).lfo.inc1
          = (if sfxLfoFreq (sfxTypeOf p) > (0.0 : α) then sfxLfoFreq (sfxTypeOf p) else 0.0)
            / e.fs := fun c => rfl
    have h2 : ∀ c : FDNChannel α,
        (applyChannelUpdate e p i (sfxChannelUpdate m e.fs p c)).lfo.inc2
          = ((if sfxLfoFreq (sfxTypeOf p) > (0.0 : α) then sfxLfoFreq (sfxTypeOf p) else 0.0)
            * 1.41421356) / e.fs := fun c => rfl
    have h3 : ∀ c : FDNChannel α,
        (applyChannelUpdate e p i (sfxChannelUpdate m e.fs p c)).loopAllpass1.lfoInc
          = (LoopAllpass.fresh.setModulation p.modRate p.modDepth e.fs (i : Int)).lfoInc :=
      fun c => setModulation_lfoInc _ _ _ _ _ _
    have h4 : ∀ c : FDNChannel α,
        (applyChannelUpdate e p i (sfxChannelUpdate m e.fs p c)).loopAllpass2.lfoInc
          = (LoopAllpass.fresh.setModulation p.modRate p.modDepth e.fs
              ((i : Int) + 16)).lfoInc :=
      fun c => setModulation_lfoInc _ _ _ _ _ _
    rw [h1, h1, h2, h2, h3, h3, h4, h4]
  · rw [if_neg h, if_neg h]
    have h1 : ∀ c : FDNChannel α,
        (applyChannelUpdate e p i (normalChannelUpdate m e p i c)).lfo.inc1
          = (if rateScaled p * LFO_RATIOS.getD i 0 > (0.0 : α)
              then rateScaled p * LFO_RATIOS.getD i 0 else 0.0) / e.fs := fun c => rfl
    have h2 : ∀ c : FDNChannel α,
        (applyChannelUpdate e p i (normalChannelUpdate m e p i c)).lfo.inc2
          = ((if rateScaled p * LFO_RATIOS.getD i 0 > (0.0 : α)
              then rateScaled p * LFO_RATIOS.getD i 0 else 0.0) * 1.41421356) / e.fs :=
      fun c => rfl
    have h3 : ∀ c : FDNChannel α,
        (applyChannelUpdate e p i (normalChannelUpdate m e p i c)).loopAllpass1.lfoInc
          = (LoopAllpass.fresh.setModulation p.modRate p.modDepth e.fs (i : Int)).lfoInc :=
      fun c => setModulation_lfoInc _ _ _ _ _ _
    have h4 : ∀ c : FDNChannel α,
        (applyChannelUpdate e p i (normalChannelUpdate m e p i c)).loopAllpass2.lfoInc
          = (LoopAllpass.fresh.setModulation p.modRate p.modDepth e.fs
              ((i : Int) + 16)).lfoInc :=
      fun c => setModulation_lfoInc _ _ _ _ _ _
    rw [h1, h1, h2, h2, h3, h3, h4, h4]

theorem updatePhysics_derivedCoefficients_congr [FloorRing α] (m : Libm α)
    (s t : FDNEngine α) (p : PhysicsParams α) (h : s.SamePreparation t) :
    (s.updatePhysics m p).derivedCoefficients = (t.updatePhysics m p).derivedCoefficients := by
  obtain ⟨hfs, hbuf, hin, hdyn, hfl, hfr, hol, hor, herfs, herbuf, _, _⟩ := h
  have hcfg : s.config = t.config := by
    unfold FDNEngine.config
    rw [hfs, hbuf]
  have hs := updatePhysics_scalars m s p
  have ht := updatePhysics_scalars m t p
  have hps := updatePhysics_parts m s p
  have hpt := updatePhysics_parts m t p
  have htar := updatePhysics_smootherTargets_congr m s t p hcfg
  have htar1 : [(s.updatePhysics m p).dryGainSmoother.targetValue,
      (s.updatePhysics m p).wetGainSmoother.targetValue]
      = [(t.updatePhysics m p).dryGainSmoother.targetValue,
        (t.updatePhysics m p).wetGainSmoother.targetValue] := congrArg Prod.fst htar
  have h1 : (s.updatePhysics m p).currentShapeMode = (t.updatePhysics m p).currentShapeMode := by
    rw [hs.1, ht.1]
  have h2 : (s.updatePhysics m p).currentPreDelaySamples
      = (t.updatePhysics m p).currentPreDelaySamples := by
    rw [hs.2.1, ht.2.1, hfs, hin]
  have h3 : [(s.updatePhysics m p).currentDrive, (s.updatePhysics m p).currentDynamicsAmount,
      (s.updatePhysics m p).currentModDepth, (s.updatePhysics m p).currentWidth,
      (s.updatePhysics m p).panInputL, (s.updatePhysics m p).panInputR,
      (s.updatePhysics m p).velvetL.amount, (s.updatePhysics m p).velvetR.amount]
      = [(t.updatePhysics m p).currentDrive, (t.updatePhysics m p).currentDynamicsAmount,
      (t.updatePhysics m p).currentModDepth, (t.updatePhysics m p).currentWidth,
      (t.updatePhysics m p).panInputL, (t.updatePhysics m p).panInputR,
      (t.updatePhysics m p).velvetL.amount, (t.updatePhysics m p).velvetR.amount] := by
    rw [hs.2.2.1, ht.2.2.1, hs.2.2.2.1, ht.2.2.2.1, hs.2.2.2.2.1, ht.2.2.2.2.1,
      hs.2.2.2.2.2.1, ht.2.2.2.2.2.1, hs.2.2.2.2.2.2.1, ht.2.2.2.2.2.2.1,
      hs.2.2.2.2.2.2.2.1, ht.2.2.2.2.2.2.2.1, hs.2.2.2.2.2.2.2.2.1, ht.2.2.2.2.2.2.2.2.1,
      hs.2.2.2.2.2.2.2.2.2, ht.2.2.2.2.2.2.2.2.2, hfs]
  have h5 : (List.range 6).map (s.updatePhysics m p).lastRT60Data
      = (List.range 6).map (t.updatePhysics m p).lastRT60Data := by
    apply List.map_congr_left
    intro b hb
    have hb6 : b < 6 := List.mem_range.mp hb
    rw [updatePhysics_lastRT60Data m s p b hb6, updatePhysics_lastRT60Data m t p b hb6, hfs]
  have h6 : (s.updatePhysics m p).dynamicsProcessor.coeffs
      = (t.updatePhysics m p).dynamicsProcessor.coeffs := by
    rw [hps.1, hpt.1]
    exact setParams_congr m _ _ _ _ _ _ hdyn
  have h7 : [(s.updatePhysics m p).inFilterL.coeffs, (s.updatePhysics m p).inFilterR.coeffs,
      (s.updatePhysics m p).outFilterL.coeffs, (s.updatePhysics m p).outFilterR.coeffs]
      = [(t.updatePhysics m p).inFilterL.coeffs, (t.updatePhysics m p).inFilterR.coeffs,
      (t.updatePhysics m p).outFilterL.coeffs, (t.updatePhysics m p).outFilterR.coeffs] := by
    rw [hps.2.1, hpt.2.1, hps.2.2.1, hpt.2.2.1, hps.2.2.2.1, hpt.2.2.2.1,
      hps.2.2.2.2.1, hpt.2.2.2.2.1, setFilter_congr m _ _ _ _ hfl,
      setFilter_congr m _ _ _ _ hfr, setFilter_congr m _ _ _ _ hol,
      setFilter_congr m _ _ _ _ hor]
  have h8 : (s.updatePhysics m p).erEngine.coeffs = (t.updatePhysics m p).erEngine.coeffs := by
    rw [hps.2.2.2.2.2.1, hpt.2.2.2.2.2.1]
    exact updateGeometry_congr m _ _ _ _ _ _ _ _ _ _ herfs herbuf
  have h9 : (List.range FDN_CHANNELS).map (fun i => ((s.updatePhysics m p).channels i).coeffs)
      = (List.range FDN_CHANNELS).map (fun i => ((t.updatePhysics m p).channels i).coeffs) := by
    apply List.map_congr_left
    intro i hi
    have hi16 : i < 16 := List.mem_range.mp hi
    rw [updatePhysics_channels m s p i hi16, updatePhysics_channels m t p i hi16, hcfg, hfs]
    exact channelUpdate_coeffs m t.config p i (s.channels i) (t.channels i)
  unfold FDNEngine.derivedCoefficients
  rw [h1, h2, h3, htar1, h5, h6, h7, h8, h9]

theorem updatePhysics_samePreparation [FloorRing α] (m : Libm α) (s : FDNEngine α)
    (p : PhysicsParams α) : s.SamePreparation (s.updatePhysics m p) := by
  have hps := updatePhysics_parts m s p
  unfold FDNEngine.SamePreparation
  rw [updatePhysics_fs, (updatePhysics_channel_static m s p 0 (by decide)).1, hps.1, hps.2.1,
    hps.2.2.1, hps.2.2.2.1, hps.2.2.2.2.1, hps.2.2.2.2.2.1, hps.2.2.2.2.2.2.1,
    hps.2.2.2.2.2.2.2, updatePhysics_tiltEQ_L, setTilt_sampleRate, setTilt_sampleRate]
  exact ⟨rfl, rfl, rfl, rfl, rfl, rfl, rfl, rfl, rfl, rfl, rfl, rfl⟩

end DerivedCoefficientLemmas

section HistoryLemmas

variable {α : Type} [LinearOrderedField α]

theorem setTilt_currentGainDB (m : Libm α) (t : TiltEqualizer α) (g : α)
    (ht : ¬ |g - t.currentGainDB| < 0.01) : (t.setTilt m g).currentGainDB = g := by
  unfold TiltEqualizer.setTilt
  rw [if_neg ht]

theorem updatePhysics_lfoDepth [FloorRing α] (m : Libm α) (s : FDNEngine α)
    (p : PhysicsParams α) (k : Nat) (hk : k < 16) :
    ((s.updatePhysics m p).channels k).loopAllpass1.lfoDepth
      = if p.modDepth ≤ 0.001 then 0.0
        else p.modDepth * stdMin 12.0 (((s.channels k).loopAllpass1.currentDelayLen : α) * 0.15)
    := by
  rw [updatePhysics_channels m s p k hk]
  have hb := (branchUpdate_static m s.config p k (s.channels k)).2.1
  have hfs : s.config.fs = s.fs := rfl
  rw [hfs] at hb
  have hap : ∀ ch : FDNChannel α, (applyChannelUpdate s.config p k ch).loopAllpass1.lfoDepth
      = (ch.loopAllpass1.setModulation p.modRate p.modDepth s.config.fs (k : Int)).lfoDepth :=
    fun ch => rfl
  rw [hap, hb]
  unfold LoopAllpass.setModulation
  split_ifs <;> rfl

theorem prepare_bufferSize [FloorRing α] (m : Libm α) (s : FDNEngine α) (r : α) (k : Nat)
    (hk : k < 16) :
    ((FDNEngine.prepare m s r).channels k).bufferSize
      = if (s.channels k).bufferSize < channelBufferSize r then channelBufferSize r
        else (s.channels k).bufferSize := by
  rw [prepare_channels m s r k hk]
  rfl

theorem preparedEngine_tilt [FloorRing α] (m : Libm α) (r : α) :
    (preparedEngine m r).tiltEQ_L.currentGainDB = 0.0 := rfl

end HistoryLemmas

theorem sfxTypeOf_plasmaTiltParams :
    sfxTypeOf (plasmaTiltParams : PhysicsParams ℝ) = 4 := by
  decide

theorem sfxTypeOf_nearTiltParams : sfxTypeOf (nearTiltParams : PhysicsParams ℝ) = 0 := by
  decide

theorem findNearestPrime_14 : findNearestPrime 14 = 13 := by decide

set_option maxHeartbeats 16000000 in
/-- Values of the engine prepared at 96 kHz and of the tilt inputs. -/
theorem history_facts :
    (channelBufferSize (96000 : ℝ) = 964096) ∧
    ((FDNEngine.prepare realLibm (preparedEngine realLibm (96000 : ℝ)) 48000).config
        = ⟨48000, 964096⟩) ∧
    (targetDelay engine48k (plasmaTiltParams : PhysicsParams ℝ) 0 = 48) ∧
    (apLen engine48k (plasmaTiltParams : PhysicsParams ℝ) 0 = 14) := by
  have channelBufferSize_48k := engine_48k_facts.1
  have channelBufferSize_96k : channelBufferSize (96000 : ℝ) = 964096 := by
    unfold channelBufferSize truncInt
    have h : (MAX_DELAY_SECONDS : ℝ) * 96000 = ((960000 : Int) : ℝ) := by
      norm_num [MAX_DELAY_SECONDS]
    rw [h, if_pos (by norm_num), Int.floor_intCast]
    rfl
  have reprepared_config :
      (FDNEngine.prepare realLibm (preparedEngine realLibm (96000 : ℝ)) 48000).config
        = ⟨48000, 964096⟩ := by
    unfold FDNEngine.config
    rw [prepare_fs, prepare_bufferSize realLibm _ _ 0 (by decide),
      preparedEngine_bufferSize realLibm 96000 0 (by decide)
        (by rw [channelBufferSize_96k]; decide), channelBufferSize_96k, channelBufferSize_48k,
      if_neg (by decide)]
  have targetDelay_plasmaTiltParams :
      targetDelay engine48k (plasmaTiltParams : PhysicsParams ℝ) 0 = 48 := by
    unfold targetDelay
    rw [sfxTypeOf_plasmaTiltParams, if_pos (by decide)]
    norm_num [sfxFixedDelay, engine48k]
  have apLen_plasmaTiltParams :
      apLen engine48k (plasmaTiltParams : PhysicsParams ℝ) 0 = 14 := by
    unfold apLen
    rw [targetDelay_plasmaTiltParams]
    have h : truncInt ((48 : ℝ) * 0.3) = 14 := by
      unfold truncInt
      rw [if_pos (by norm_num), Int.floor_eq_iff]
      constructor <;> norm_num
    simp only [h]
    decide
  exact ⟨channelBufferSize_96k, reprepared_config, targetDelay_plasmaTiltParams,
    apLen_plasmaTiltParams⟩

set_option maxHeartbeats 16000000 in
/-- Values of the large-room delay target, which rests on `findNearestPrime`. -/
theorem history_prime_facts :
    (targetDelay (⟨48000, 964096⟩ : EngineConfig ℝ) (hugeRoomParams : PhysicsParams ℝ) 15
        = 960000) := by
  have rawDelay_hugeRoomParams := physics_real_facts.2.2.2.2.2.1
  have findNearestPrime_ge_of_prime_le := physics_prime_facts.1
  have targetDelay_hugeRoomParams_large :
      targetDelay (⟨48000, 964096⟩ : EngineConfig ℝ) (hugeRoomParams : PhysicsParams ℝ) 15
        = 960000 := by
    unfold targetDelay
    rw [sfxTypeOf_hugeRoomParams, if_neg (by decide)]
    have hraw : rawDelay (⟨48000, 964096⟩ : EngineConfig ℝ) (hugeRoomParams : PhysicsParams ℝ) 15
        = rawDelay engine48k (hugeRoomParams : PhysicsParams ℝ) 15 := rfl
    rw [physicsTargetDelay_eq_of_exceeds]
    · norm_num
    · rw [hraw, rawDelay_hugeRoomParams]
      have hp : Nat.Prime (Int.toNat 1000003) := by
        rw [show Int.toNat 1000003 = 1000003 from rfl]
        norm_num
      have h := findNearestPrime_ge_of_prime_le 1076487 1000003 hp (by norm_num)
      have : (⟨48000, 964096⟩ : EngineConfig ℝ).maxChBuf = 964096 := rfl
      omega
  exact targetDelay_hugeRoomParams_large

/-! ### Delay targets against the buffers of the engine -/

set_option maxHeartbeats 16000000 in
/-- Bounds on the delay targets against the buffers of a prepared engine. -/
theorem capacity_facts :
    (∀ (e : EngineConfig ℝ) (p : PhysicsParams ℝ) (i : Nat)
    (hprep : e.Prepared) (hfs : 0 < e.fs) (hi : i < 16),
      targetDelay e p i ≤ (e.maxChBuf : ℝ) ∧
      (1 ≤ 10 * e.fs → targetDelay e p i ≤ ((e.maxChBuf - 4096 : Int) : ℝ)) ∧
      (sfxTypeOf p = 0 → targetDelay e p i ≤ ((e.maxChBuf - 4096 : Int) : ℝ))) ∧
    (channelBufferSize (1 / 20 : ℝ) = 4096) ∧
    ((preparedEngine realLibm (1 / 20 : ℝ)).config = ⟨1 / 20, 4096⟩) ∧
    (∀ (r : ℝ) (hr : 0 < channelBufferSize r) (k : Nat)
    (hk : k < 16),
      (preparedEngine realLibm r).config.Prepared ∧
      ((preparedEngine realLibm r).channels k).bufferSize
        = ((preparedEngine realLibm r).channels 0).bufferSize) := by
  have sfxFixedDelay_bounds := catalog_and_buffer_facts.2.2.1
  have channelBufferSize_gt := catalog_and_buffer_facts.2.2.2.1
  have channelBufferSize_ge_one := catalog_and_buffer_facts.2.2.2.2
  have delayTarget_bounds_of_config (e : EngineConfig ℝ) (p : PhysicsParams ℝ) (i : Nat)
      (hprep : e.Prepared) (hfs : 0 < e.fs) (hi : i < 16) :
      targetDelay e p i ≤ (e.maxChBuf : ℝ) ∧
      (1 ≤ 10 * e.fs → targetDelay e p i ≤ ((e.maxChBuf - 4096 : Int) : ℝ)) ∧
      (sfxTypeOf p = 0 → targetDelay e p i ≤ ((e.maxChBuf - 4096 : Int) : ℝ)) := by
    have hbuf : ((channelBufferSize e.fs : Int) : ℝ) ≤ (e.maxChBuf : ℝ) := by
      exact_mod_cast hprep
    have hgt := channelBufferSize_gt e.fs hfs
    have hphys := physicsTargetDelay_le_capacity e p i
    obtain ⟨hs0, hs1⟩ := sfxFixedDelay_bounds (sfxTypeOf p) i hi
    have hsfx : sfxFixedDelay (sfxTypeOf p) i * e.fs ≤ 0.049 * e.fs :=
      mul_le_mul_of_nonneg_right hs1 (le_of_lt hfs)
    have hcap : ((e.maxChBuf - 4096 : Int) : ℝ) = (e.maxChBuf : ℝ) - 4096 := by push_cast; ring
    unfold targetDelay
    refine ⟨?_, ?_, ?_⟩
    · split_ifs
      · linarith
      · rw [hcap] at hphys
        linarith
    · intro h01
      have hge := channelBufferSize_ge_one e.fs h01
      split_ifs
      · rw [hcap]
        by_cases hsmall : 0.049 * e.fs ≤ 1
        · linarith
        · linarith
      · exact hphys
    · intro h0
      rw [h0, if_neg (by decide)]
      exact hphys
  have channelBufferSize_slow : channelBufferSize (1 / 20 : ℝ) = 4096 := by
    unfold channelBufferSize truncInt MAX_DELAY_SECONDS
    have h : (10.0 : ℝ) * (1 / 20) = 1 / 2 := by norm_num
    simp only [h]
    rw [if_pos (by norm_num)]
    have hf : ⌊(1 / 2 : ℝ)⌋ = 0 := by
      rw [Int.floor_eq_iff]
      constructor <;> norm_num
    rw [hf]
    rfl
  have preparedEngine_config_slow :
      (preparedEngine realLibm (1 / 20 : ℝ)).config = ⟨1 / 20, 4096⟩ := by
    unfold FDNEngine.config
    rw [preparedEngine_bufferSize realLibm (1 / 20) 0 (by decide)
      (by rw [channelBufferSize_slow]; decide), channelBufferSize_slow]
    rfl
  have preparedEngine_prepared (r : ℝ) (hr : 0 < channelBufferSize r) (k : Nat)
      (hk : k < 16) :
      (preparedEngine realLibm r).config.Prepared ∧
      ((preparedEngine realLibm r).channels k).bufferSize
        = ((preparedEngine realLibm r).channels 0).bufferSize := by
    have h0 := preparedEngine_bufferSize realLibm r 0 (by decide) hr
    have hk' := preparedEngine_bufferSize realLibm r k hk hr
    refine ⟨?_, hk'.trans h0.symm⟩
    unfold EngineConfig.Prepared FDNEngine.config
    show channelBufferSize (preparedEngine realLibm r).fs
      ≤ ((preparedEngine realLibm r).channels 0).bufferSize
    rw [h0, preparedEngine_fs]
  exact ⟨delayTarget_bounds_of_config, channelBufferSize_slow, preparedEngine_config_slow,
    preparedEngine_prepared⟩

/-! ### Per-sample processing -/

section SampleLemmas

variable {α : Type} [LinearOrderedField α]

theorem advance_succ (k : Nat) (s : ParameterSmoother α) :
    s.advance (k + 1) = (s.advance k).getNext.1 := by
  unfold ParameterSmoother.advance
  rw [Function.iterate_succ_apply']

theorem advance_ramp (s : ParameterSmoother α) (k : Nat) (h : (k : Int) ≤ s.countdown) :
    (s.advance k).currentValue = s.currentValue + (k : α) * s.step ∧
      (s.advance k).countdown = s.countdown - k ∧
      (s.advance k).step = s.step ∧ (s.advance k).targetValue = s.targetValue := by
  induction k with
  | zero => exact ⟨by simp [ParameterSmoother.advance], by simp [ParameterSmoother.advance], rfl, rfl⟩
  | succ n ih =>
    have hn : (n : Int) ≤ s.countdown := by push_cast at h; omega
    obtain ⟨h1, h2, h3, h4⟩ := ih hn
    have hpos : (s.advance n).countdown > 0 := by rw [h2]; push_cast at h; omega
    rw [advance_succ]
    unfold ParameterSmoother.getNext
    rw [if_pos hpos]
    refine ⟨?_, ?_, ?_, ?_⟩
    · show (s.advance n).currentValue + (s.advance n).step = _
      rw [h1, h3]; push_cast; ring
    · show (s.advance n).countdown - 1 = _
      rw [h2]; push_cast; ring
    · exact h3
    · exact h4

theorem getNext_of_running (s : ParameterSmoother α) (h : 0 < s.countdown) :
    s.getNext.2 = s.currentValue + s.step := by
  unfold ParameterSmoother.getNext
  rw [if_pos h]

theorem advance_getNext_of_done (s : ParameterSmoother α) (k : Nat) (h : s.countdown ≤ k) :
    (s.advance k).getNext.2 = s.targetValue := by
  obtain ⟨h1, h2⟩ := advance_spec k s h
  rw [getNext_of_done _ h2, h1]

end SampleLemmas

/-! ### The MDS matrix as a permutation -/

section MdsLemmas
variable {α : Type} [Field α]

set_option maxRecDepth 100000 in
theorem mds_kernel_int : ∀ i < 16, ∀ k < 16,
    (∑ j in Finset.range 16, (-1 : Int) ^ popcount (i &&& j)
        * ((if j % 2 = 1 then -1 else 1) * (-1) ^ popcount (j &&& k)))
      = if k = i ^^^ 1 then 16 else 0 := by
  decide

theorem xor_one_lt : ∀ i < 16, i ^^^ 1 < 16 := by decide

end MdsLemmas

theorem ratios_shape5_add_four {α : Type} [LinearOrderedField α] (i : Nat) :
    (ratios 5 (i + 4) : α) = ratios 5 i := by
  unfold ratios
  rw [if_neg (by decide), if_pos rfl, if_neg (by decide), if_pos rfl, Nat.add_mod_right]

/-! ### The dynamics processor -/

theorem dynamics_process_idle {α : Type} [LinearOrderedField α] (m : Libm α)
    (d : DynamicsProcessor α) (input amount : α) (h : |amount| < 0.01) :
    d.process m input amount = (d, 1.0) := by
  unfold DynamicsProcessor.process
  rw [if_pos h]

theorem dynamics_process_frame {α : Type} [LinearOrderedField α] (m : Libm α)
    (d : DynamicsProcessor α) (input amount : α) :
    (d.process m input amount).1.ratio = d.ratio ∧
      (d.process m input amount).1.thresholdDB = d.thresholdDB ∧
      (d.process m input amount).1.attackCoef = d.attackCoef ∧
      (d.process m input amount).1.releaseCoef = d.releaseCoef ∧
      (d.process m input amount).1.sampleRate = d.sampleRate := by
  unfold DynamicsProcessor.process
  split_ifs <;> exact ⟨rfl, rfl, rfl, rfl, rfl⟩

/-! ### The wrapping loops -/

section WrapLemmas

variable {α : Type} [LinearOrderedField α]

theorem wrapDownLoop_eq (size : α) (n : Nat) :
    ∀ (fuel : Nat) (r : α), n < fuel → (∀ j : Nat, j < n → r - (j : α) * size ≥ size) →
      ¬ r - (n : α) * size ≥ size → wrapDownLoop size fuel r = some (r - (n : α) * size) := by
  induction n with
  | zero =>
    intro fuel r hf _ hn
    obtain ⟨f, rfl⟩ : ∃ f, fuel = f + 1 := ⟨fuel - 1, by omega⟩
    have hr : ¬ r ≥ size := by simpa using hn
    unfold wrapDownLoop
    rw [if_neg hr]
    simp
  | succ n ih =>
    intro fuel r hf hlt hn
    obtain ⟨f, rfl⟩ : ∃ f, fuel = f + 1 := ⟨fuel - 1, by omega⟩
    have hr : r ≥ size := by simpa using hlt 0 (Nat.succ_pos n)
    unfold wrapDownLoop
    rw [if_pos hr]
    rw [ih f (r - size) (by omega)
      (fun j hj => by
        have := hlt (j + 1) (by omega)
        push_cast at this
        linarith)
      (by
        push_cast at hn
        intro hc
        exact hn (by linarith))]
    push_cast
    congr 1
    ring

theorem natCast_toNat_of_nonneg (z : Int) (hz : 0 ≤ z) : ((z.toNat : Nat) : α) = (z : α) := by
  obtain ⟨n, rfl⟩ := Int.eq_ofNat_of_zero_le hz
  simp

variable [FloorRing α]

theorem floor_div_mul_bounds (size r : α) (hs : 0 < size) :
    (⌊r / size⌋ : α) * size ≤ r ∧ r < ((⌊r / size⌋ : α) + 1) * size := by
  constructor
  · exact (le_div_iff₀ hs).mp (Int.floor_le _)
  · exact (div_lt_iff₀ hs).mp (Int.lt_floor_add_one _)

theorem floor_div_le_wrapFuel (size r : α) (hs : 0 < size) :
    (⌊r / size⌋).toNat < wrapFuel size r ∧ (-⌊r / size⌋).toNat < wrapFuel size r := by
  unfold wrapFuel
  have h1 : ⌊r / size⌋ ≤ ⌈|r| / size⌉ := by
    apply (Int.floor_le_ceil _).trans
    apply Int.ceil_mono
    exact div_le_div_of_nonneg_right (le_abs_self r) hs.le
  have h2 : -⌊r / size⌋ ≤ ⌈|r| / size⌉ := by
    rw [← Int.ceil_neg, ← neg_div]
    apply Int.ceil_mono
    exact div_le_div_of_nonneg_right (neg_le_abs r) hs.le
  have h3 : 0 ≤ ⌈|r| / size⌉ := Int.ceil_nonneg (div_nonneg (abs_nonneg r) hs.le)
  omega

theorem truncInt_of_parts (i0 : Int) (f : α) (hi : 0 ≤ i0) (hf0 : 0 ≤ f) (hf1 : f < 1) :
    truncInt ((i0 : α) + f) = i0 := by
  have hnn : (0 : α) ≤ (i0 : α) + f := by
    have : (0 : α) ≤ (i0 : α) := by exact_mod_cast hi
    linarith
  unfold truncInt
  rw [if_pos hnn, Int.floor_eq_iff]
  constructor
  · linarith
  · linarith

end WrapLemmas

/-! ### The Lagrange interpolator -/

theorem tmod_index (a size : Int) (ha : 0 ≤ a) (hs : 0 < size) :
    Int.tmod a size = a % size ∧ 0 ≤ Int.tmod a size ∧ Int.tmod a size < size := by
  have h : Int.tmod a size = a % size := Int.tmod_eq_emod ha hs.le
  rw [h]
  exact ⟨rfl, Int.emod_nonneg _ (ne_of_gt hs), Int.emod_lt_of_pos _ hs⟩

/-! ### The loop allpass -/

/-! ### Identity sections of the material filter -/

/-! ### The band of maximum gain -/

theorem forLoop_maxG_le_of_lt {α : Type} [LinearOrderedField α] (f : Nat → α) (c : α)
    (hf : ∀ b, b < 6 → f b ≤ c) :
    ∀ (fuel i : Nat) (acc : α), acc ≤ c →
      forLoop 6 1 (fun b maxG => if f b > maxG then f b else maxG) fuel i acc ≤ c := by
  intro fuel
  induction fuel with
  | zero => intro i acc h; simpa [forLoop] using h
  | succ fuel ih =>
    intro i acc h
    unfold forLoop
    split_ifs with h1 h2
    · exact ih _ _ (hf i h1)
    · exact ih _ _ h
    · exact h

/-! ### A small absorbent room at 8 kHz -/

theorem sfxTypeOf_absorbentRoomParams :
    sfxTypeOf (absorbentRoomParams : PhysicsParams ℝ) = 0 := by
  decide

theorem setCoeffs_sections (m : Libm ℝ) (f : MaterialFilter4Band ℝ) (tg : Nat → ℝ)
    (baseG fs : ℝ) :
    (f.setCoeffs m tg baseG fs).ls
        = calcLS m fs f.ls
            (stdClamp (tg 0 / (if baseG > 0.000001 then baseG else 0.000001)) 0.0 1.0) ∧
      (f.setCoeffs m tg baseG fs).p1
        = calcPeak m fs
            (stdClamp (tg 2 / (if baseG > 0.000001 then baseG else 0.000001)) 0.0 1.0)
            500.0 0.5 f.p1 ∧
      (f.setCoeffs m tg baseG fs).p2
        = calcPeak m fs
            (stdClamp (tg 4 / (if baseG > 0.000001 then baseG else 0.000001)) 0.0 1.0)
            2000.0 0.5 f.p2 ∧
      (f.setCoeffs m tg baseG fs).hs
        = calcHS m fs f.hs
            (stdClamp (tg 5 / (if baseG > 0.000001 then baseG else 0.000001)) 0.0 1.0) :=
  ⟨rfl, rfl, rfl, rfl⟩

theorem setCoeffs_congr_bands (m : Libm ℝ) (f : MaterialFilter4Band ℝ) (tg tg' : Nat → ℝ)
    (baseG fs : ℝ) (h0 : tg' 0 = tg 0) (h2 : tg' 2 = tg 2) (h4 : tg' 4 = tg 4)
    (h5 : tg' 5 = tg 5) : f.setCoeffs m tg' baseG fs = f.setCoeffs m tg baseG fs := by
  unfold MaterialFilter4Band.setCoeffs
  rw [h0, h2, h4, h5]

set_option maxHeartbeats 16000000 in
/-- `matrixMDS` as the permutation that swaps adjacent pairs, over a field of
characteristic zero. -/
theorem mds_facts {α : Type} [Field α] [CharZero α] :
    (∀ (x : Nat → α) (j : Nat) (hj : j < 16),
      negateOdd (matrixHadamard x) j
        = (if j % 2 = 1 then -1 else 1) * walshHadamard x j) ∧
    (∀ (x : Nat → α) (i : Nat) (hi : i < 16),
      matrixMDS x i = x (i ^^^ 1)) := by
  have matrixHadamard_eq_walsh {α : Type} [Field α] [CharZero α] := (@matrix_facts α _ _).1
  have negateOdd_hadamard (x : Nat → α) (j : Nat) (hj : j < 16) :
      negateOdd (matrixHadamard x) j
        = (if j % 2 = 1 then -1 else 1) * walshHadamard x j := by
    rw [negateOdd_apply _ j hj, matrixHadamard_eq_walsh x j hj]
    split_ifs <;> ring
  have matrixMDS_apply (x : Nat → α) (i : Nat) (hi : i < 16) :
      matrixMDS x i = x (i ^^^ 1) := by
    unfold matrixMDS
    rw [matrixHadamard_eq_walsh _ i hi]
    unfold walshHadamard
    have h1 : ∀ j ∈ Finset.range 16,
        (-1 : α) ^ popcount (i &&& j) * negateOdd (matrixHadamard x) j
          = ∑ k in Finset.range 16, (1 / 4) * (((-1 : Int) ^ popcount (i &&& j)
              * ((if j % 2 = 1 then -1 else 1) * (-1) ^ popcount (j &&& k)) : Int) : α) * x k := by
      intro j hj
      rw [negateOdd_hadamard x j (Finset.mem_range.mp hj)]
      unfold walshHadamard
      rw [Finset.mul_sum, Finset.mul_sum, Finset.mul_sum]
      refine Finset.sum_congr rfl (fun k _ => ?_)
      push_cast
      split_ifs <;> ring
    rw [Finset.sum_congr rfl h1, Finset.sum_comm, Finset.mul_sum]
    have h2 : ∀ k ∈ Finset.range 16,
        (1 / 4 : α) * ∑ j in Finset.range 16, (1 / 4) * (((-1 : Int) ^ popcount (i &&& j)
              * ((if j % 2 = 1 then -1 else 1) * (-1) ^ popcount (j &&& k)) : Int) : α) * x k
          = if k = i ^^^ 1 then x k else 0 := by
      intro k hk
      have hk16 := Finset.mem_range.mp hk
      have := mds_kernel_int i hi k hk16
      have hc : (∑ j in Finset.range 16, (((-1 : Int) ^ popcount (i &&& j)
              * ((if j % 2 = 1 then -1 else 1) * (-1) ^ popcount (j &&& k)) : Int) : α))
          = ((if k = i ^^^ 1 then 16 else 0 : Int) : α) := by
        rw [← this, Int.cast_sum]
      have hs : ∑ j in Finset.range 16, (1 / 4 : α) * (((-1 : Int) ^ popcount (i &&& j)
              * ((if j % 2 = 1 then -1 else 1) * (-1) ^ popcount (j &&& k)) : Int) : α) * x k
          = (1 / 4) * x k * ∑ j in Finset.range 16, (((-1 : Int) ^ popcount (i &&& j)
              * ((if j % 2 = 1 then -1 else 1) * (-1) ^ popcount (j &&& k)) : Int) : α) := by
        rw [Finset.mul_sum]
        refine Finset.sum_congr rfl (fun j _ => ?_)
        ring
      rw [hs, hc]
      split_ifs
      · push_cast; ring
      · push_cast; ring
    rw [Finset.sum_congr rfl h2, Finset.sum_ite_eq' (Finset.range 16) (i ^^^ 1) x,
      if_pos (Finset.mem_range.mpr (xor_one_lt i hi))]
  exact ⟨negateOdd_hadamard, matrixMDS_apply⟩

set_option maxHeartbeats 16000000 in
/-- Facts on the two wrapping loops over an ordered field with a floor: they return on
the fuel `wrapFuel`, and what they return. -/
theorem wrap_facts {α : Type} [LinearOrderedField α] [FloorRing α] :
    (∀ (size : α) (n : Nat),
      ∀ (fuel : Nat) (r : α), n < fuel → (∀ j : Nat, j < n → r + (j : α) * size < 0) →
        ¬ r + (n : α) * size < 0 → wrapUpLoop size fuel r = some (r + (n : α) * size)) ∧
    (∀ (size r : α) (hs : 0 < size) (fuel : Nat)
    (hfuel : wrapFuel size r ≤ fuel),
      wrapReadPosF size fuel r = some (r - (⌊r / size⌋ : α) * size)) ∧
    (∀ (size r : α) (hs : 0 < size),
      wrapReadPos size r = r - (⌊r / size⌋ : α) * size) ∧
    (∀ (size r : α) (hs : 0 < size),
      0 ≤ wrapReadPos size r ∧ wrapReadPos size r < size) ∧
    (∀ (size r w : α) (k : Int) (hs : 0 < size)
    (h0 : 0 ≤ w) (h1 : w < size) (hr : r = w + (k : α) * size),
      wrapReadPos size r = w) ∧
    (∀ (x : α),
      |antiDenormal x| ≤ |x|) := by
  have wrapUpLoop_eq (size : α) (n : Nat) :
      ∀ (fuel : Nat) (r : α), n < fuel → (∀ j : Nat, j < n → r + (j : α) * size < 0) →
        ¬ r + (n : α) * size < 0 → wrapUpLoop size fuel r = some (r + (n : α) * size) := by
    have h0 : (0.0 : α) = 0 := by norm_num
    induction n with
    | zero =>
      intro fuel r hf _ hn
      obtain ⟨f, rfl⟩ : ∃ f, fuel = f + 1 := ⟨fuel - 1, by omega⟩
      have hr : ¬ r < 0 := by simpa using hn
      unfold wrapUpLoop
      rw [h0, if_neg hr]
      simp
    | succ n ih =>
      intro fuel r hf hlt hn
      obtain ⟨f, rfl⟩ : ∃ f, fuel = f + 1 := ⟨fuel - 1, by omega⟩
      have hr : r < 0 := by simpa using hlt 0 (Nat.succ_pos n)
      unfold wrapUpLoop
      rw [h0, if_pos hr]
      rw [ih f (r + size) (by omega)
        (fun j hj => by
          have := hlt (j + 1) (by omega)
          push_cast at this
          linarith)
        (by
          push_cast at hn
          intro hc
          exact hn (by linarith))]
      push_cast
      congr 1
      ring
  -- With a positive `size` the two wrapping loops return on every fuel from
  -- `wrapFuel size r` on, and the position they return is `r` minus the multiple of
  -- `size` below it.
  have wrapReadPosF_eq (size r : α) (hs : 0 < size) (fuel : Nat)
      (hfuel : wrapFuel size r ≤ fuel) :
      wrapReadPosF size fuel r = some (r - (⌊r / size⌋ : α) * size) := by
    obtain ⟨hlo, hhi⟩ := floor_div_mul_bounds size r hs
    obtain ⟨hf1, hf2⟩ := floor_div_le_wrapFuel size r hs
    unfold wrapReadPosF
    by_cases hr : r < 0
    · have hq : ⌊r / size⌋ < 0 := by
        rw [Int.floor_lt]
        push_cast
        exact div_neg_of_neg_of_pos hr hs
      have hn : (((-⌊r / size⌋).toNat : Nat) : α) = -(⌊r / size⌋ : α) := by
        rw [natCast_toNat_of_nonneg (-⌊r / size⌋) (by omega), Int.cast_neg]
      rw [wrapUpLoop_eq size (-⌊r / size⌋).toNat fuel r (by omega)
        (fun j hj => by
          have hj1 : (j : Int) + 1 ≤ -⌊r / size⌋ := by omega
          have hj2 : (j : α) + 1 ≤ -(⌊r / size⌋ : α) := by exact_mod_cast hj1
          have : (j : α) * size ≤ (-(⌊r / size⌋ : α) - 1) * size :=
            mul_le_mul_of_nonneg_right (by linarith) hs.le
          nlinarith)
        (by rw [hn]; intro hc; nlinarith)]
      dsimp only []
      rw [hn]
      have hw : ¬ r + -(⌊r / size⌋ : α) * size ≥ size := by
        intro hc
        nlinarith
      have := wrapDownLoop_eq size 0 fuel (r + -(⌊r / size⌋ : α) * size) (by omega)
        (fun j hj => absurd hj (Nat.not_lt_zero j)) (by simpa using hw)
      rw [this]
      congr 1
      push_cast
      ring
    · have hr0 : 0 ≤ r := not_lt.mp hr
      have hq : 0 ≤ ⌊r / size⌋ := Int.floor_nonneg.mpr (div_nonneg hr0 hs.le)
      have hn : (((⌊r / size⌋).toNat : Nat) : α) = (⌊r / size⌋ : α) :=
        natCast_toNat_of_nonneg _ hq
      have := wrapUpLoop_eq size 0 fuel r (by omega)
        (fun j hj => absurd hj (Nat.not_lt_zero j)) (by simpa using hr)
      rw [this]
      dsimp only []
      have e : r + ((0 : Nat) : α) * size = r := by simp
      rw [e]
      rw [wrapDownLoop_eq size (⌊r / size⌋).toNat fuel r (by omega)
        (fun j hj => by
          have hj1 : (j : Int) + 1 ≤ ⌊r / size⌋ := by omega
          have hj2 : (j : α) + 1 ≤ (⌊r / size⌋ : α) := by exact_mod_cast hj1
          have : ((j : α) + 1) * size ≤ (⌊r / size⌋ : α) * size :=
            mul_le_mul_of_nonneg_right hj2 hs.le
          show size ≤ r - (j : α) * size
          nlinarith)
        (by
          rw [hn]
          intro hc
          have : size ≤ r - (⌊r / size⌋ : α) * size := hc
          nlinarith)]
      rw [hn]
  have wrapReadPos_eq (size r : α) (hs : 0 < size) :
      wrapReadPos size r = r - (⌊r / size⌋ : α) * size := by
    unfold wrapReadPos
    rw [wrapReadPosF_eq size r hs _ (le_refl _)]
    rfl
  have wrapReadPos_bounds (size r : α) (hs : 0 < size) :
      0 ≤ wrapReadPos size r ∧ wrapReadPos size r < size := by
    rw [wrapReadPos_eq size r hs]
    obtain ⟨hlo, hhi⟩ := floor_div_mul_bounds size r hs
    constructor
    · linarith
    · linarith
  have wrapReadPos_of_decomposition (size r w : α) (k : Int) (hs : 0 < size)
      (h0 : 0 ≤ w) (h1 : w < size) (hr : r = w + (k : α) * size) :
      wrapReadPos size r = w := by
    rw [wrapReadPos_eq size r hs]
    have hk : ⌊r / size⌋ = k := by
      rw [Int.floor_eq_iff]
      constructor
      · rw [le_div_iff₀ hs, hr]
        linarith
      · rw [div_lt_iff₀ hs, hr]
        linarith
    rw [hk, hr]
    ring
  have antiDenormal_abs_le (x : α) :
      |antiDenormal x| ≤ |x| := by
    unfold antiDenormal
    split_ifs
    · have : (0.0 : α) = 0 := by norm_num
      rw [this, abs_zero]
      exact abs_nonneg x
    · exact le_refl _
  exact ⟨wrapUpLoop_eq, wrapReadPosF_eq, wrapReadPos_eq, wrapReadPos_bounds,
    wrapReadPos_of_decomposition, antiDenormal_abs_le⟩

set_option maxHeartbeats 16000000 in
/-- Facts on the per-sample processing: the dynamics gain, the Lagrange interpolator,
the loop allpass, the identity sections of the material filter and the absorbent
room at 8 kHz. -/
theorem sample_processing_facts :
    (∀ (x : ℝ),
      antiDenormal x = if |x| < 1e-20 then 0 else x) ∧
    (∀ (g lo hi : ℝ) (hlo : lo ≤ g) (hhi : g ≤ hi),
      (10 : ℝ) ^ (lo / 20) ≤ realLibm.pow 10.0 (g / 20.0) ∧
        realLibm.pow 10.0 (g / 20.0) ≤ (10 : ℝ) ^ (hi / 20)) ∧
    (realLibm.pow 10.0 ((0 : ℝ) / 20.0) = 1) ∧
    (∀ (g : ℝ),
      -60 ≤ (if (if g > 24.0 then 24.0 else g) < -60.0 then (-60.0 : ℝ) else (if g > 24.0 then 24.0 else g)) ∧
      (if (if g > 24.0 then 24.0 else g) < -60.0 then (-60.0 : ℝ) else (if g > 24.0 then 24.0 else g)) ≤ 24 ∧
      (g ≤ 0 → (if (if g > 24.0 then 24.0 else g) < -60.0 then (-60.0 : ℝ) else (if g > 24.0 then 24.0 else g)) ≤ 0) ∧
      (0 ≤ g → 0 ≤ (if (if g > 24.0 then 24.0 else g) < -60.0 then (-60.0 : ℝ) else (if g > 24.0 then 24.0 else g)))) ∧
    (∀ (d : DynamicsProcessor ℝ) (input amount : ℝ)
    (h : ¬ |amount| < 0.01),
      ∃ g : ℝ, (d.process realLibm input amount).2
          = realLibm.pow 10.0 ((if (if g > 24.0 then 24.0 else g) < -60.0 then (-60.0 : ℝ)
              else (if g > 24.0 then 24.0 else g)) / 20.0) ∧
        (1 ≤ d.ratio → amount < 0 → g ≤ 0) ∧ (1 ≤ d.ratio → 0 ≤ amount → 0 ≤ g) ∧
        (20.0 * realLibm.log10 (stdMax 1.0e-6 (d.process realLibm input amount).1.envelope)
            ≤ d.thresholdDB → g = 0)) ∧
    (∀ (P : ℝ → ℝ) (hP : IsCubic P) (t : ℝ),
      P t = ((((P 0 - P 1) * (1.0 / 2.0) + (P 2 - P (-1)) * (1.0 / 6.0)) * t
          + ((P (-1) + P 1) * 0.5 - P 0)) * t
          + (P 1 - P (-1) * (1.0 / 3.0) - P 0 * 0.5 - P 2 * (1.0 / 6.0))) * t + P 0) ∧
    (∀ (buffer : Nat → ℝ) (size : Int) (hsize : 0 < size)
    (readPos : ℝ) (i0 : Int) (f : ℝ) (k : Int) (hi0 : 0 ≤ i0) (hi1 : i0 < size)
    (hf0 : 0 ≤ f) (hf1 : f < 1) (hr : readPos = (i0 : ℝ) + f + (k : ℝ) * (size : ℝ)),
      LagrangeInterpolator.process buffer size readPos
        = ((((buffer i0.toNat - buffer ((i0 + 1) % size).toNat) * (1.0 / 2.0)
              + (buffer ((i0 + 2) % size).toNat - buffer ((i0 - 1) % size).toNat) * (1.0 / 6.0)) * f
            + ((buffer ((i0 - 1) % size).toNat + buffer ((i0 + 1) % size).toNat) * 0.5
                - buffer i0.toNat)) * f
            + (buffer ((i0 + 1) % size).toNat - buffer ((i0 - 1) % size).toNat * (1.0 / 3.0)
                - buffer i0.toNat * 0.5 - buffer ((i0 + 2) % size).toNat * (1.0 / 6.0))) * f
          + buffer i0.toNat) ∧
    (∀ (x : ℝ),
      |realLibm.tanh x| < 1) ∧
    (∀ (x : ℝ) (h1 : -1.5 ≤ x) (h2 : x ≤ 1.5),
      safeLoopSaturate realLibm x = x) ∧
    (∀ (x : ℝ),
      |safeLoopSaturate realLibm x| < 1.6) ∧
    (∀ (a b f B : ℝ) (ha : |a| < B) (hb : |b| < B) (hf0 : 0 ≤ f) (hf1 : f < 1),
      |a * (1.0 - f) + b * f| < B) ∧
    (∀ (m : Libm ℝ) (a : LoopAllpass ℝ) (h : a.StateBounded),
      |a.delayed m| < 1.6) ∧
    (∀ (a : LoopAllpass ℝ) (x : ℝ) (h : a.StateBounded),
      (a.process realLibm x).1.StateBounded ∧
        |(a.process realLibm x).2| < 1.6 * (1 + |a.gain|)) ∧
    (∀ (inputs : List (ℝ × ℝ)),
      ∀ a : LoopAllpass ℝ, a.StateBounded →
        (LoopAllpass.run realLibm a inputs).1.StateBounded ∧
          ∀ r ∈ (LoopAllpass.run realLibm a inputs).2, |r.2| < 1.6 * (1 + |r.1|)) ∧
    (∀ (t baseG : ℝ) (hb : baseG > 0.000001) (ht : t ≥ baseG),
      stdClamp (t / (if baseG > 0.000001 then baseG else 0.000001)) 0.0 1.0 = 1) ∧
    (realLibm.sqrt 1 = 1) ∧
    (∀ (sn : ℝ) (h1 : -1 ≤ sn) (h2 : sn ≤ 1),
      -1 < sn / 2.0 * realLibm.sqrt ((1 + 1 / 1) * (1 / 0.707 - 1) + 2) ∧
        sn / 2.0 * realLibm.sqrt ((1 + 1 / 1) * (1 / 0.707 - 1) + 2) < 1) ∧
    (∀ (fs : ℝ) (ls : SmoothedBiquad ℝ),
      (calcLS realLibm fs ls 1).tb0 = 1 ∧
        (calcLS realLibm fs ls 1).tb1 = (calcLS realLibm fs ls 1).ta1 ∧
        (calcLS realLibm fs ls 1).tb2 = (calcLS realLibm fs ls 1).ta2) ∧
    (∀ (fs : ℝ) (hs : SmoothedBiquad ℝ),
      (calcHS realLibm fs hs 1).tb0 = 1 ∧
        (calcHS realLibm fs hs 1).tb1 = (calcHS realLibm fs hs 1).ta1 ∧
        (calcHS realLibm fs hs 1).tb2 = (calcHS realLibm fs hs 1).ta2) ∧
    (∀ (fs freq : ℝ) (bq : SmoothedBiquad ℝ),
      (1 + realLibm.sin (2.0 * PI * freq / fs) ≠ 0 →
          (calcPeak realLibm fs 1 freq 0.5 bq).tb0 = 1) ∧
        (1 + realLibm.sin (2.0 * PI * freq / fs) = 0 →
          (calcPeak realLibm fs 1 freq 0.5 bq).tb0 = 0) ∧
        (calcPeak realLibm fs 1 freq 0.5 bq).tb1 = (calcPeak realLibm fs 1 freq 0.5 bq).ta1 ∧
        (calcPeak realLibm fs 1 freq 0.5 bq).tb2 = (calcPeak realLibm fs 1 freq 0.5 bq).ta2) ∧
    (∀ (fs freq : ℝ) (hfs : 8000 ≤ fs) (hf0 : 0 ≤ freq) (hf : freq ≤ 2000),
      1 + realLibm.sin (2.0 * PI * freq / fs) ≠ 0) ∧
    (∀ (p : PhysicsParams ℝ) (k : Nat)
    (hmax : ∀ b, b < 6 → finalGains realLibm p b ≤ finalGains realLibm p k)
    (hfloor : 0.0001 ≤ finalGains realLibm p k),
      baseGain realLibm p ≤ finalGains realLibm p k) ∧
    (∀ (m : Libm ℝ) (p : PhysicsParams ℝ),
      0.0001 ≤ baseGain m p) ∧
    (∀ (e : EngineConfig ℝ) (p : PhysicsParams ℝ) (i b : Nat),
      finalGains realLibm p b ≤ sampleGains realLibm e p i b) ∧
    (∀ (s : FDNEngine ℝ) (p : PhysicsParams ℝ) (i : Nat)
    (hi : i < 16) (hsfx : sfxTypeOf p = 0),
      ((s.updatePhysics realLibm p).channels i).materialFilter
        = (s.channels i).materialFilter.setCoeffs realLibm (sampleGains realLibm s.config p i)
            (baseGain realLibm p) s.fs) ∧
    (channelBufferSize (8000 : ℝ) = 84096) ∧
    ((preparedEngine realLibm (8000 : ℝ)).config = engine8k) ∧
    (mfp (absorbentRoomParams : PhysicsParams ℝ) = 4 / 3) ∧
    (delaySamples engine8k (absorbentRoomParams : PhysicsParams ℝ) 0 = 7) ∧
    (∀ (p : PhysicsParams ℝ) (b : Nat)
    (h : 0.9 ≤ avgAbsRaw p b * (0.5 + p.absorptionOverride)),
      0.9 ≤ avgAbs p b) ∧
    (∀ (b : Nat) (hb : b < 6),
      0.9 ≤ avgAbs (absorbentRoomParams : PhysicsParams ℝ) b) ∧
    (∀ (b : Nat) (hb : b < 6),
      finalGains realLibm (absorbentRoomParams : PhysicsParams ℝ) b ≤ (0.1 : ℝ) ^ (50 : ℕ)) ∧
    (∀ (b : Nat) (hb : b < 6),
      sampleGains realLibm engine8k (absorbentRoomParams : PhysicsParams ℝ) 0 b < 0.0001) ∧
    (realLibm.sin (2.0 * PI * 500.0 / (2000 * PI / (3 * Real.pi))) = -1) := by
  have avgAbs_bounds {α : Type} [LinearOrderedField α] := (@gain_bound_facts α _).2.2.1
  have maxG_bounds {α : Type} [LinearOrderedField α] := (@gain_bound_facts α _).2.2.2.1
  have calcAirAbsorption_real_pos := physics_real_facts.1
  have finalGains_real_pos := physics_real_facts.2.1
  have sampleGains_real_eq_min := physics_real_facts.2.2.2.1
  have delaySamples_ge_one := physics_real_facts.2.2.2.2.2.2.2.2.2.2
  have calcAirAbsorption_real_le_one := rt60_facts.2.2.2.2.2.2.2.2.2.2.2.2.1
  have finalGains_real_eq_min := rt60_facts.2.2.2.2.2.2.2.2.2.2.2.2.2.1
  have reflectance_real_pos := rt60_facts.2.2.2.2.2.2.2.2.2.2.2.2.2.2.1
  have wrapReadPos_bounds {α : Type} [LinearOrderedField α] [FloorRing α] := (@wrap_facts α _ _).2.2.2.1
  have wrapReadPos_of_decomposition {α : Type} [LinearOrderedField α] [FloorRing α] := (@wrap_facts α _ _).2.2.2.2.1
  have antiDenormal_abs_le {α : Type} [LinearOrderedField α] [FloorRing α] := (@wrap_facts α _ _).2.2.2.2.2
  have antiDenormal_eq (x : ℝ) : antiDenormal x = if |x| < 1e-20 then 0 else x := by
    unfold antiDenormal
    have h1 : (1.0e-20 : ℝ) = 1e-20 := by norm_num
    have h2 : (0.0 : ℝ) = 0 := by norm_num
    rw [h1, h2]
  have db_pow_bounds (g lo hi : ℝ) (hlo : lo ≤ g) (hhi : g ≤ hi) :
      (10 : ℝ) ^ (lo / 20) ≤ realLibm.pow 10.0 (g / 20.0) ∧
        realLibm.pow 10.0 (g / 20.0) ≤ (10 : ℝ) ^ (hi / 20) := by
    have h10 : (10.0 : ℝ) = 10 := by norm_num
    have h20 : (20.0 : ℝ) = 20 := by norm_num
    show (10 : ℝ) ^ (lo / 20) ≤ (10.0 : ℝ) ^ (g / 20.0) ∧ (10.0 : ℝ) ^ (g / 20.0) ≤ (10 : ℝ) ^ (hi / 20)
    rw [h10, h20]
    constructor
    · exact Real.rpow_le_rpow_of_exponent_le (by norm_num) (by linarith)
    · exact Real.rpow_le_rpow_of_exponent_le (by norm_num) (by linarith)
  have db_pow_zero : realLibm.pow 10.0 ((0 : ℝ) / 20.0) = 1 := by
    show (10.0 : ℝ) ^ ((0 : ℝ) / 20.0) = 1
    rw [zero_div, Real.rpow_zero]
  have dynClamp_bounds (g : ℝ) :
      -60 ≤ (if (if g > 24.0 then 24.0 else g) < -60.0 then (-60.0 : ℝ) else (if g > 24.0 then 24.0 else g)) ∧
      (if (if g > 24.0 then 24.0 else g) < -60.0 then (-60.0 : ℝ) else (if g > 24.0 then 24.0 else g)) ≤ 24 ∧
      (g ≤ 0 → (if (if g > 24.0 then 24.0 else g) < -60.0 then (-60.0 : ℝ) else (if g > 24.0 then 24.0 else g)) ≤ 0) ∧
      (0 ≤ g → 0 ≤ (if (if g > 24.0 then 24.0 else g) < -60.0 then (-60.0 : ℝ) else (if g > 24.0 then 24.0 else g))) := by
    have e24 : (24.0 : ℝ) = 24 := by norm_num
    have e60 : (-60.0 : ℝ) = -60 := by norm_num
    rw [e24, e60]
    split_ifs with h1 h2 h3 <;> refine ⟨?_, ?_, ?_, ?_⟩ <;> intros <;> linarith
  have dynamics_process_active (d : DynamicsProcessor ℝ) (input amount : ℝ)
      (h : ¬ |amount| < 0.01) :
      ∃ g : ℝ, (d.process realLibm input amount).2
          = realLibm.pow 10.0 ((if (if g > 24.0 then 24.0 else g) < -60.0 then (-60.0 : ℝ)
              else (if g > 24.0 then 24.0 else g)) / 20.0) ∧
        (1 ≤ d.ratio → amount < 0 → g ≤ 0) ∧ (1 ≤ d.ratio → 0 ≤ amount → 0 ≤ g) ∧
        (20.0 * realLibm.log10 (stdMax 1.0e-6 (d.process realLibm input amount).1.envelope)
            ≤ d.thresholdDB → g = 0) := by
    unfold DynamicsProcessor.process
    rw [if_neg h]
    dsimp only []
    generalize antiDenormal (if |input| > d.envelope
        then d.attackCoef * d.envelope + (1.0 - d.attackCoef) * |input|
        else d.releaseCoef * d.envelope + (1.0 - d.releaseCoef) * |input|) = env
    generalize 20.0 * realLibm.log10 (stdMax 1.0e-6 env) = envDB
    refine ⟨_, rfl, ?_, ?_, ?_⟩
    · intro hr ha
      have hr0 : 0 ≤ 1.0 - 1.0 / d.ratio := by
        have h1 : (1.0 : ℝ) = 1 := by norm_num
        have : 1 / d.ratio ≤ 1 := by
          rw [div_le_one (by linarith)]
          exact hr
        rw [h1]
        linarith
      have h0 : (0.0 : ℝ) = 0 := by norm_num
      rw [if_pos (by rw [h0]; exact ha)]
      apply mul_nonpos_of_nonpos_of_nonneg _ (abs_nonneg _)
      split_ifs with h1
      · have : 0 < envDB - d.thresholdDB := by linarith
        nlinarith
      · norm_num
    · intro hr ha
      have hr0 : 0 ≤ 1.0 - 1.0 / d.ratio := by
        have h1 : (1.0 : ℝ) = 1 := by norm_num
        have : 1 / d.ratio ≤ 1 := by
          rw [div_le_one (by linarith)]
          exact hr
        rw [h1]
        linarith
      have h0 : (0.0 : ℝ) = 0 := by norm_num
      rw [if_neg (by rw [h0]; exact not_lt.mpr ha)]
      apply mul_nonneg _ (abs_nonneg _)
      split_ifs with h1
      · have : 0 < envDB - d.thresholdDB := by linarith
        nlinarith
      · norm_num
    · intro hle
      rw [if_neg (not_lt.mpr hle), if_neg (not_lt.mpr hle)]
      norm_num
  have cubic_through_four_points (P : ℝ → ℝ) (hP : IsCubic P) (t : ℝ) :
      P t = ((((P 0 - P 1) * (1.0 / 2.0) + (P 2 - P (-1)) * (1.0 / 6.0)) * t
          + ((P (-1) + P 1) * 0.5 - P 0)) * t
          + (P 1 - P (-1) * (1.0 / 3.0) - P 0 * 0.5 - P 2 * (1.0 / 6.0))) * t + P 0 := by
    obtain ⟨a, b, c, d, h⟩ := hP
    rw [h t, h 0, h 1, h 2, h (-1)]
    norm_num
    ring
  have lagrange_process_eq (buffer : Nat → ℝ) (size : Int) (hsize : 0 < size)
      (readPos : ℝ) (i0 : Int) (f : ℝ) (k : Int) (hi0 : 0 ≤ i0) (hi1 : i0 < size)
      (hf0 : 0 ≤ f) (hf1 : f < 1) (hr : readPos = (i0 : ℝ) + f + (k : ℝ) * (size : ℝ)) :
      LagrangeInterpolator.process buffer size readPos
        = ((((buffer i0.toNat - buffer ((i0 + 1) % size).toNat) * (1.0 / 2.0)
              + (buffer ((i0 + 2) % size).toNat - buffer ((i0 - 1) % size).toNat) * (1.0 / 6.0)) * f
            + ((buffer ((i0 - 1) % size).toNat + buffer ((i0 + 1) % size).toNat) * 0.5
                - buffer i0.toNat)) * f
            + (buffer ((i0 + 1) % size).toNat - buffer ((i0 - 1) % size).toNat * (1.0 / 3.0)
                - buffer i0.toNat * 0.5 - buffer ((i0 + 2) % size).toNat * (1.0 / 6.0))) * f
          + buffer i0.toNat := by
    have hsz : (0 : ℝ) < (size : ℝ) := by exact_mod_cast hsize
    have hw : wrapReadPos (size : ℝ) readPos = (i0 : ℝ) + f := by
      apply wrapReadPos_of_decomposition (size : ℝ) readPos _ k hsz
      · have : (0 : ℝ) ≤ (i0 : ℝ) := by exact_mod_cast hi0
        linarith
      · have : (i0 : ℝ) + 1 ≤ (size : ℝ) := by exact_mod_cast hi1
        linarith
      · exact hr
    unfold LagrangeInterpolator.process
    rw [if_neg (ne_of_gt hsize)]
    dsimp only []
    rw [hw, truncInt_of_parts i0 f hi0 hf0 hf1]
    have e1 : Int.tmod (i0 - 1 + size) size = (i0 - 1) % size := by
      rw [(tmod_index (i0 - 1 + size) size (by omega) hsize).1, Int.add_emod_self]
    rw [e1, (tmod_index (i0 + 1) size (by omega) hsize).1,
      (tmod_index (i0 + 2) size (by omega) hsize).1]
    have ef : (i0 : ℝ) + f - (i0 : ℝ) = f := by ring
    rw [ef]
  have abs_tanh_lt_one (x : ℝ) : |realLibm.tanh x| < 1 := by
    show |Real.tanh x| < 1
    rw [Real.tanh_eq_sinh_div_cosh, abs_div, abs_of_pos (Real.cosh_pos x),
      div_lt_one (Real.cosh_pos x), abs_lt]
    constructor
    · have := Real.sinh_lt_cosh (-x)
      rw [Real.sinh_neg, Real.cosh_neg] at this
      linarith
    · exact Real.sinh_lt_cosh x
  have safeLoopSaturate_of_mem (x : ℝ) (h1 : -1.5 ≤ x) (h2 : x ≤ 1.5) :
      safeLoopSaturate realLibm x = x := by
    unfold safeLoopSaturate
    rw [if_neg (not_lt.mpr h2), if_neg (not_lt.mpr h1)]
  have safeLoopSaturate_abs_lt (x : ℝ) : |safeLoopSaturate realLibm x| < 1.6 := by
    unfold safeLoopSaturate
    split_ifs with h1 h2
    · have := abs_lt.mp (abs_tanh_lt_one (x - 1.5))
      rw [abs_lt]
      constructor
      · linarith [this.1]
      · linarith [this.2]
    · have := abs_lt.mp (abs_tanh_lt_one (x + 1.5))
      rw [abs_lt]
      constructor
      · linarith [this.1]
      · linarith [this.2]
    · rw [abs_lt]
      constructor
      · linarith [not_lt.mp h2]
      · linarith [not_lt.mp h1]
  have lerp_abs_lt (a b f B : ℝ) (ha : |a| < B) (hb : |b| < B) (hf0 : 0 ≤ f) (hf1 : f < 1) :
      |a * (1.0 - f) + b * f| < B := by
    have e1 : (1.0 : ℝ) = 1 := by norm_num
    rw [e1]
    rw [abs_lt] at *
    have hp : 0 < 1 - f := by linarith
    constructor
    · nlinarith [mul_lt_mul_of_pos_right ha.1 hp, mul_le_mul_of_nonneg_right hb.1.le hf0]
    · nlinarith [mul_lt_mul_of_pos_right ha.2 hp, mul_le_mul_of_nonneg_right hb.2.le hf0]
  have loopAllpass_delayed_abs_lt (m : Libm ℝ) (a : LoopAllpass ℝ) (h : a.StateBounded) :
      |a.delayed m| < 1.6 := by
    obtain ⟨hs, hw0, hw1, hb⟩ := h
    have hsz : (0 : ℝ) < (a.bufferSize : ℝ) := by exact_mod_cast hs
    have hr : 0 ≤ a.readPos m ∧ a.readPos m < (a.bufferSize : ℝ) := by
      unfold LoopAllpass.readPos
      exact wrapReadPos_bounds _ _ hsz
    unfold LoopAllpass.delayed
    dsimp only []
    have ht : truncInt (a.readPos m) = ⌊a.readPos m⌋ := by
      unfold truncInt
      rw [if_pos hr.1]
    rw [ht]
    have hi0 : 0 ≤ ⌊a.readPos m⌋ := Int.floor_nonneg.mpr hr.1
    have hi1 : ⌊a.readPos m⌋ < a.bufferSize := Int.floor_lt.mpr hr.2
    apply lerp_abs_lt
    · apply hb
      rw [Int.toNat_of_nonneg hi0]
      exact hi1
    · apply hb
      obtain ⟨_, h0, h1⟩ := tmod_index (⌊a.readPos m⌋ + 1) a.bufferSize (by omega) hs
      rw [Int.toNat_of_nonneg h0]
      exact h1
    · have := Int.floor_le (a.readPos m)
      linarith
    · have := Int.lt_floor_add_one (a.readPos m)
      linarith
  have loopAllpass_process_bounded (a : LoopAllpass ℝ) (x : ℝ) (h : a.StateBounded) :
      (a.process realLibm x).1.StateBounded ∧
        |(a.process realLibm x).2| < 1.6 * (1 + |a.gain|) := by
    obtain ⟨hs, hw0, hw1, hb⟩ := h
    have hd := loopAllpass_delayed_abs_lt realLibm
      ({ a with
        lfoPhase :=
          if a.lfoDepth > 0.0 then
            (if a.lfoPhase + a.lfoInc > PI_2 then a.lfoPhase + a.lfoInc - PI_2
             else a.lfoPhase + a.lfoInc)
          else a.lfoPhase } : LoopAllpass ℝ) ⟨hs, hw0, hw1, hb⟩
    unfold LoopAllpass.process
    dsimp only []
    generalize LoopAllpass.delayed realLibm
      ({ a with
        lfoPhase :=
          if a.lfoDepth > 0.0 then
            (if a.lfoPhase + a.lfoInc > PI_2 then a.lfoPhase + a.lfoInc - PI_2
             else a.lfoPhase + a.lfoInc)
          else a.lfoPhase } : LoopAllpass ℝ) = dl at hd ⊢
    have hv : |antiDenormal (safeLoopSaturate realLibm (x + a.gain * dl))| < 1.6 :=
      lt_of_le_of_lt (antiDenormal_abs_le _) (safeLoopSaturate_abs_lt _)
    generalize antiDenormal (safeLoopSaturate realLibm (x + a.gain * dl)) = v at hv ⊢
    refine ⟨⟨hs, ?_, ?_, ?_⟩, ?_⟩
    · exact (tmod_index (a.writePos + 1) a.bufferSize (by omega) hs).2.1
    · exact (tmod_index (a.writePos + 1) a.bufferSize (by omega) hs).2.2
    · intro k hk
      show |store a.buffer a.writePos.toNat v k| < 1.6
      unfold store
      split_ifs
      · exact hv
      · exact hb k hk
    · show |dl - a.gain * v| < 1.6 * (1 + |a.gain|)
      have h1 : |dl - a.gain * v| ≤ |dl| + |a.gain| * |v| := by
        rw [← abs_mul]
        exact abs_sub _ _
      have h2 : |a.gain| * |v| ≤ |a.gain| * 1.6 :=
        mul_le_mul_of_nonneg_left hv.le (abs_nonneg _)
      linarith
  have loopAllpass_run_bounded (inputs : List (ℝ × ℝ)) :
      ∀ a : LoopAllpass ℝ, a.StateBounded →
        (LoopAllpass.run realLibm a inputs).1.StateBounded ∧
          ∀ r ∈ (LoopAllpass.run realLibm a inputs).2, |r.2| < 1.6 * (1 + |r.1|) := by
    induction inputs with
    | nil =>
      intro a h
      exact ⟨h, fun r hr => absurd hr (List.not_mem_nil r)⟩
    | cons gx rest ih =>
      intro a h
      obtain ⟨g, x⟩ := gx
      have hp := loopAllpass_process_bounded (a.setGain g) x h
      have hrec := ih ((a.setGain g).process realLibm x).1 hp.1
      unfold LoopAllpass.run
      dsimp only []
      refine ⟨hrec.1, ?_⟩
      intro r hr
      rcases List.mem_cons.mp hr with h0 | h0
      · rw [h0]
        exact hp.2
      · exact hrec.2 r h0
  have stdClamp_ratio_eq_one (t baseG : ℝ) (hb : baseG > 0.000001) (ht : t ≥ baseG) :
      stdClamp (t / (if baseG > 0.000001 then baseG else 0.000001)) 0.0 1.0 = 1 := by
    rw [if_pos hb]
    have hpos : 0 < baseG := lt_trans (by norm_num) hb
    have h1 : 1 ≤ t / baseG := by
      rw [le_div_iff₀ hpos]
      linarith
    unfold stdClamp
    rw [if_neg (by norm_num; linarith)]
    split_ifs with h
    · norm_num
    · norm_num at h
      linarith
  have realLibm_sqrt_one : realLibm.sqrt 1 = 1 := Real.sqrt_one
  have shelf_alpha_bounds (sn : ℝ) (h1 : -1 ≤ sn) (h2 : sn ≤ 1) :
      -1 < sn / 2.0 * realLibm.sqrt ((1 + 1 / 1) * (1 / 0.707 - 1) + 2) ∧
        sn / 2.0 * realLibm.sqrt ((1 + 1 / 1) * (1 / 0.707 - 1) + 2) < 1 := by
    have hK0 : 0 ≤ realLibm.sqrt ((1 + 1 / 1) * (1 / 0.707 - 1) + 2) := Real.sqrt_nonneg _
    have hK : realLibm.sqrt ((1 + 1 / 1) * (1 / 0.707 - 1) + 2) < 2 := by
      show Real.sqrt _ < 2
      rw [Real.sqrt_lt' (by norm_num)]
      norm_num
    have e2 : (2.0 : ℝ) = 2 := by norm_num
    rw [e2]
    generalize realLibm.sqrt ((1 + 1 / 1) * (1 / 0.707 - 1) + 2) = K at hK0 hK
    constructor
    · nlinarith
    · nlinarith
  have calcLS_one (fs : ℝ) (ls : SmoothedBiquad ℝ) :
      (calcLS realLibm fs ls 1).tb0 = 1 ∧
        (calcLS realLibm fs ls 1).tb1 = (calcLS realLibm fs ls 1).ta1 ∧
        (calcLS realLibm fs ls 1).tb2 = (calcLS realLibm fs ls 1).ta2 := by
    unfold calcLS SmoothedBiquad.setTarget
    simp only [realLibm_sqrt_one]
    have hs := shelf_alpha_bounds (realLibm.sin (2.0 * PI * 200.0 / fs))
      (Real.neg_one_le_sin _) (Real.sin_le_one _)
    generalize realLibm.sin (2.0 * PI * 200.0 / fs) / 2.0
      * realLibm.sqrt ((1 + 1 / 1) * (1 / 0.707 - 1) + 2) = al at hs
    generalize realLibm.cos (2.0 * PI * 200.0 / fs) = c
    have hne : (1 + 1 + (1 - 1) * c + 2 * 1 * al : ℝ) ≠ 0 := by
      have : (1 + 1 + (1 - 1) * c + 2 * 1 * al : ℝ) = 2 + 2 * al := by ring
      rw [this]
      intro h
      linarith [hs.1]
    refine ⟨?_, ?_, ?_⟩
    · show 1 * (1 + 1 - (1 - 1) * c + 2 * 1 * al) * (1.0 / (1 + 1 + (1 - 1) * c + 2 * 1 * al)) = 1
      have e : (1 : ℝ) * (1 + 1 - (1 - 1) * c + 2 * 1 * al) = 1 + 1 + (1 - 1) * c + 2 * 1 * al := by
        ring
      rw [e]
      have e1 : (1.0 : ℝ) = 1 := by norm_num
      rw [e1, mul_one_div, div_self hne]
    · show 2 * 1 * (1 - 1 - (1 + 1) * c) * (1.0 / (1 + 1 + (1 - 1) * c + 2 * 1 * al))
        = -2 * (1 - 1 + (1 + 1) * c) * (1.0 / (1 + 1 + (1 - 1) * c + 2 * 1 * al))
      ring
    · show 1 * (1 + 1 - (1 - 1) * c - 2 * 1 * al) * (1.0 / (1 + 1 + (1 - 1) * c + 2 * 1 * al))
        = (1 + 1 + (1 - 1) * c - 2 * 1 * al) * (1.0 / (1 + 1 + (1 - 1) * c + 2 * 1 * al))
      ring
  have calcHS_one (fs : ℝ) (hs : SmoothedBiquad ℝ) :
      (calcHS realLibm fs hs 1).tb0 = 1 ∧
        (calcHS realLibm fs hs 1).tb1 = (calcHS realLibm fs hs 1).ta1 ∧
        (calcHS realLibm fs hs 1).tb2 = (calcHS realLibm fs hs 1).ta2 := by
    unfold calcHS SmoothedBiquad.setTarget
    simp only [realLibm_sqrt_one]
    have hb := shelf_alpha_bounds (realLibm.sin (2.0 * PI * 3000.0 / fs))
      (Real.neg_one_le_sin _) (Real.sin_le_one _)
    generalize realLibm.sin (2.0 * PI * 3000.0 / fs) / 2.0
      * realLibm.sqrt ((1 + 1 / 1) * (1 / 0.707 - 1) + 2) = al at hb
    generalize realLibm.cos (2.0 * PI * 3000.0 / fs) = c
    have hne : (1 + 1 - (1 - 1) * c + 2 * 1 * al : ℝ) ≠ 0 := by
      have : (1 + 1 - (1 - 1) * c + 2 * 1 * al : ℝ) = 2 + 2 * al := by ring
      rw [this]
      intro h
      linarith [hb.1]
    refine ⟨?_, ?_, ?_⟩
    · show 1 * (1 + 1 + (1 - 1) * c + 2 * 1 * al) * (1.0 / (1 + 1 - (1 - 1) * c + 2 * 1 * al)) = 1
      have e : (1 : ℝ) * (1 + 1 + (1 - 1) * c + 2 * 1 * al) = 1 + 1 - (1 - 1) * c + 2 * 1 * al := by
        ring
      rw [e]
      have e1 : (1.0 : ℝ) = 1 := by norm_num
      rw [e1, mul_one_div, div_self hne]
    · show -2 * 1 * (1 - 1 + (1 + 1) * c) * (1.0 / (1 + 1 - (1 - 1) * c + 2 * 1 * al))
        = 2 * (1 - 1 - (1 + 1) * c) * (1.0 / (1 + 1 - (1 - 1) * c + 2 * 1 * al))
      ring
    · show 1 * (1 + 1 + (1 - 1) * c - 2 * 1 * al) * (1.0 / (1 + 1 - (1 - 1) * c + 2 * 1 * al))
        = (1 + 1 - (1 - 1) * c - 2 * 1 * al) * (1.0 / (1 + 1 - (1 - 1) * c + 2 * 1 * al))
      ring
  have calcPeak_one (fs freq : ℝ) (bq : SmoothedBiquad ℝ) :
      (1 + realLibm.sin (2.0 * PI * freq / fs) ≠ 0 →
          (calcPeak realLibm fs 1 freq 0.5 bq).tb0 = 1) ∧
        (1 + realLibm.sin (2.0 * PI * freq / fs) = 0 →
          (calcPeak realLibm fs 1 freq 0.5 bq).tb0 = 0) ∧
        (calcPeak realLibm fs 1 freq 0.5 bq).tb1 = (calcPeak realLibm fs 1 freq 0.5 bq).ta1 ∧
        (calcPeak realLibm fs 1 freq 0.5 bq).tb2 = (calcPeak realLibm fs 1 freq 0.5 bq).ta2 := by
    unfold calcPeak SmoothedBiquad.setTarget
    simp only [realLibm_sqrt_one]
    generalize realLibm.sin (2.0 * PI * freq / fs) = sn
    have hal : sn / (2.0 * 0.5) = sn := by norm_num
    rw [hal]
    have e1 : (1.0 : ℝ) = 1 := by norm_num
    refine ⟨?_, ?_, trivial, ?_⟩
    · intro hne
      show (1.0 + sn * 1) * (1.0 / (1.0 + sn / 1)) = 1
      rw [e1, mul_one, div_one, mul_one_div, div_self hne]
    · intro hz
      show (1.0 + sn * 1) * (1.0 / (1.0 + sn / 1)) = 0
      rw [e1, mul_one, hz, zero_mul]
    · show (1.0 - sn * 1) * (1.0 / (1.0 + sn / 1)) = (1.0 - sn / 1) * (1.0 / (1.0 + sn / 1))
      rw [mul_one, div_one]
  have peak_sin_nonneg (fs freq : ℝ) (hfs : 8000 ≤ fs) (hf0 : 0 ≤ freq) (hf : freq ≤ 2000) :
      1 + realLibm.sin (2.0 * PI * freq / fs) ≠ 0 := by
    have hpos : (0 : ℝ) < fs := by linarith
    have h0 : 0 ≤ 2.0 * PI * freq / fs := by
      apply div_nonneg _ hpos.le
      have : (0 : ℝ) ≤ PI := by unfold PI; norm_num
      positivity
    have h1 : 2.0 * PI * freq / fs ≤ Real.pi := by
      rw [div_le_iff₀ hpos]
      have hpi := Real.pi_gt_three
      have hPI : (PI : ℝ) ≤ 3.2 := by unfold PI; norm_num
      have hPI0 : (0 : ℝ) ≤ PI := by unfold PI; norm_num
      have e2 : (2.0 : ℝ) = 2 := by norm_num
      rw [e2]
      nlinarith [mul_le_mul hPI hf hf0 (by norm_num : (0 : ℝ) ≤ 3.2)]
    have := Real.sin_nonneg_of_nonneg_of_le_pi h0 h1
    show 1 + Real.sin _ ≠ 0
    intro h
    linarith
  have baseGain_le_of_max (p : PhysicsParams ℝ) (k : Nat)
      (hmax : ∀ b, b < 6 → finalGains realLibm p b ≤ finalGains realLibm p k)
      (hfloor : 0.0001 ≤ finalGains realLibm p k) :
      baseGain realLibm p ≤ finalGains realLibm p k := by
    have hm : maxG realLibm p ≤ finalGains realLibm p k := by
      unfold maxG forRange
      exact forLoop_maxG_le_of_lt _ _ hmax _ _ _ hfloor
    unfold baseGain
    split_ifs with h
    · linarith
    · exact hm
  have baseGain_ge_floor (m : Libm ℝ) (p : PhysicsParams ℝ) : 0.0001 ≤ baseGain m p := by
    have := (maxG_bounds m p).1
    unfold baseGain
    split_ifs
    · norm_num
    · exact this
  have finalGains_le_sampleGains (e : EngineConfig ℝ) (p : PhysicsParams ℝ) (i b : Nat) :
      finalGains realLibm p b ≤ sampleGains realLibm e p i b := by
    rw [sampleGains_real_eq_min]
    have hpos := finalGains_real_pos p b
    have hle := finalGains_le realLibm p b
    have hd := delaySamples_ge_one e p i
    apply le_min
    · have h1 : 1 / delaySamples e p i ≤ 1 := by
        rw [div_le_one (by linarith)]
        exact hd
      have := Real.rpow_le_rpow_of_exponent_ge hpos (by linarith) h1
      rwa [Real.rpow_one] at this
    · linarith
  have updatePhysics_materialFilter_normal (s : FDNEngine ℝ) (p : PhysicsParams ℝ) (i : Nat)
      (hi : i < 16) (hsfx : sfxTypeOf p = 0) :
      ((s.updatePhysics realLibm p).channels i).materialFilter
        = (s.channels i).materialFilter.setCoeffs realLibm (sampleGains realLibm s.config p i)
            (baseGain realLibm p) s.fs := by
    rw [updatePhysics_channels realLibm s p i hi, if_neg (by rw [hsfx]; decide)]
    rfl
  have channelBufferSize_8k : channelBufferSize (8000 : ℝ) = 84096 := by
    unfold channelBufferSize truncInt
    have h : (MAX_DELAY_SECONDS : ℝ) * 8000 = ((80000 : Int) : ℝ) := by
      norm_num [MAX_DELAY_SECONDS]
    rw [h, if_pos (by norm_num), Int.floor_intCast]
    rfl
  have preparedEngine_config_8k :
      (preparedEngine realLibm (8000 : ℝ)).config = engine8k := by
    unfold FDNEngine.config
    rw [preparedEngine_bufferSize realLibm 8000 0 (by decide)
      (by rw [channelBufferSize_8k]; decide), channelBufferSize_8k]
    rfl
  have mfp_absorbentRoomParams : mfp (absorbentRoomParams : PhysicsParams ℝ) = 4 / 3 := by
    norm_num [mfp, volume, totalArea, areaFloor, areaSide, areaFB, volFactor, stdMax,
      absorbentRoomParams, exampleParams]
  have delaySamples_absorbentRoomParams :
      delaySamples engine8k (absorbentRoomParams : PhysicsParams ℝ) 0 = 7 := by
    have h : rawDelay engine8k (absorbentRoomParams : PhysicsParams ℝ) 0
        = 4 / 3 / 343 * 0.3 * 8000 := by
      unfold rawDelay baseDelaySec
      rw [mfp_absorbentRoomParams]
      norm_num [ratios, chaosRatios, absorbentRoomParams, exampleParams, engine8k, SPEED_OF_SOUND]
    have ht : truncInt (rawDelay engine8k (absorbentRoomParams : PhysicsParams ℝ) 0) = 9 := by
      rw [h]
      unfold truncInt
      rw [if_pos (by norm_num), Int.floor_eq_iff]
      constructor <;> norm_num
    have hp : findNearestPrime 9 = 7 := by decide
    have htd : physicsTargetDelay engine8k (absorbentRoomParams : PhysicsParams ℝ) 0 = 7 := by
      unfold physicsTargetDelay
      simp only []
      rw [ht, hp]
      norm_num [engine8k]
    unfold delaySamples
    rw [htd]
    norm_num
  have avgAbs_ge_of_raw (p : PhysicsParams ℝ) (b : Nat)
      (h : 0.9 ≤ avgAbsRaw p b * (0.5 + p.absorptionOverride)) : 0.9 ≤ avgAbs p b := by
    unfold avgAbs
    simp only []
    by_cases h1 : avgAbsRaw p b * (0.5 + p.absorptionOverride) > 0.9
    · rw [if_pos h1]
      have hx : 0 < (avgAbsRaw p b * (0.5 + p.absorptionOverride) - 0.9) / 1.1 :=
        div_pos (by linarith) (by norm_num)
      have hfrac : 0 < (avgAbsRaw p b * (0.5 + p.absorptionOverride) - 0.9) / 1.1
          / (1.0 + (avgAbsRaw p b * (0.5 + p.absorptionOverride) - 0.9) / 1.1) :=
        div_pos hx (by linarith)
      rw [if_neg (by
        intro hc
        nlinarith)]
      nlinarith
    · rw [if_neg h1, if_neg (by
        intro hc
        linarith)]
      exact h
  have avgAbs_absorbentRoomParams (b : Nat) (hb : b < 6) :
      0.9 ≤ avgAbs (absorbentRoomParams : PhysicsParams ℝ) b := by
    apply avgAbs_ge_of_raw
    have hraw : avgAbsRaw (absorbentRoomParams : PhysicsParams ℝ) b
        = (MaterialDB.get 28 : MaterialDef ℝ).abs b := by
      unfold avgAbsRaw
      have hm : (absorbentRoomParams : PhysicsParams ℝ).matFloorIdx = 28 := rfl
      have hc : (absorbentRoomParams : PhysicsParams ℝ).matCeilIdx = 28 := rfl
      have hw : (absorbentRoomParams : PhysicsParams ℝ).matWallIdx = 28 := rfl
      have hf : (absorbentRoomParams : PhysicsParams ℝ).matWallFBIdx = 28 := rfl
      rw [hm, hc, hw, hf]
      generalize (MaterialDB.get 28 : MaterialDef ℝ).abs b = v
      norm_num [weightedAvg, areaFloor, areaSide, areaFB, totalArea, absorbentRoomParams,
        exampleParams]
      ring
    have hv : (0.6 : ℝ) ≤ (MaterialDB.get 28 : MaterialDef ℝ).abs b := by
      interval_cases b
      · show (0.6 : ℝ) ≤ 0.60
        norm_num
      · show (0.6 : ℝ) ≤ 0.70
        norm_num
      · show (0.6 : ℝ) ≤ 0.80
        norm_num
      · show (0.6 : ℝ) ≤ 0.85
        norm_num
      · show (0.6 : ℝ) ≤ 0.90
        norm_num
      · show (0.6 : ℝ) ≤ 0.95
        norm_num
    rw [hraw]
    have ho : (absorbentRoomParams : PhysicsParams ℝ).absorptionOverride = 1 := rfl
    rw [ho]
    linarith
  have finalGains_absorbentRoomParams (b : Nat) (hb : b < 6) :
      finalGains realLibm (absorbentRoomParams : PhysicsParams ℝ) b ≤ (0.1 : ℝ) ^ (50 : ℕ) := by
    rw [finalGains_real_eq_min]
    have he : decayExponent (absorbentRoomParams : PhysicsParams ℝ) = 100 := by
      norm_num [decayExponent, absorbentRoomParams, exampleParams]
    rw [he]
    have hm : 0 ≤ mfp (absorbentRoomParams : PhysicsParams ℝ) := by
      rw [mfp_absorbentRoomParams]
      norm_num
    have habs := avgAbs_absorbentRoomParams b hb
    have habs2 := (avgAbs_bounds (absorbentRoomParams : PhysicsParams ℝ) b).2
    have hpos := reflectance_real_pos (absorbentRoomParams : PhysicsParams ℝ) b
    have hair0 : 0 < (calcAirAbsorption realLibm ((freqs : List ℝ).getD b 0)
        (absorbentRoomParams : PhysicsParams ℝ).tempC
        (absorbentRoomParams : PhysicsParams ℝ).humidityPct)
          ^ (mfp (absorbentRoomParams : PhysicsParams ℝ)) :=
      Real.rpow_pos_of_pos (calcAirAbsorption_real_pos _ _ _) _
    have hair1 : (calcAirAbsorption realLibm ((freqs : List ℝ).getD b 0)
        (absorbentRoomParams : PhysicsParams ℝ).tempC
        (absorbentRoomParams : PhysicsParams ℝ).humidityPct)
          ^ (mfp (absorbentRoomParams : PhysicsParams ℝ)) ≤ 1 :=
      Real.rpow_le_one (le_of_lt (calcAirAbsorption_real_pos _ _ _))
        (calcAirAbsorption_real_le_one _ _ _) hm
    have hnn : (0 : ℝ) ≤ 1.0 - avgAbs (absorbentRoomParams : PhysicsParams ℝ) b := by
      norm_num
      linarith
    have hsq : (Real.sqrt (1.0 - avgAbs (absorbentRoomParams : PhysicsParams ℝ) b) *
        (calcAirAbsorption realLibm ((freqs : List ℝ).getD b 0)
          (absorbentRoomParams : PhysicsParams ℝ).tempC
          (absorbentRoomParams : PhysicsParams ℝ).humidityPct)
            ^ (mfp (absorbentRoomParams : PhysicsParams ℝ))) ^ (2 : ℕ) ≤ 0.1 := by
      rw [mul_pow, Real.sq_sqrt hnn]
      have h1 : (1.0 : ℝ) - avgAbs (absorbentRoomParams : PhysicsParams ℝ) b ≤ 0.1 := by
        norm_num
        linarith
      have h2 : ((calcAirAbsorption realLibm ((freqs : List ℝ).getD b 0)
          (absorbentRoomParams : PhysicsParams ℝ).tempC
          (absorbentRoomParams : PhysicsParams ℝ).humidityPct)
            ^ (mfp (absorbentRoomParams : PhysicsParams ℝ))) ^ (2 : ℕ) ≤ 1 :=
        pow_le_one₀ (le_of_lt hair0) hair1
      calc _ ≤ (0.1 : ℝ) * 1 := mul_le_mul h1 h2 (by positivity) (by norm_num)
        _ = 0.1 := by norm_num
    generalize Real.sqrt (1.0 - avgAbs (absorbentRoomParams : PhysicsParams ℝ) b) *
        (calcAirAbsorption realLibm ((freqs : List ℝ).getD b 0)
          (absorbentRoomParams : PhysicsParams ℝ).tempC
          (absorbentRoomParams : PhysicsParams ℝ).humidityPct)
            ^ (mfp (absorbentRoomParams : PhysicsParams ℝ)) = x at hpos hsq
    have h100 : x ^ (100 : ℝ) = (x ^ (2 : ℕ)) ^ (50 : ℕ) := by
      rw [← pow_mul]
      exact_mod_cast Real.rpow_natCast x 100
    apply (min_le_left _ _).trans
    rw [h100]
    exact pow_le_pow_left₀ (by positivity) hsq 50
  have sampleGains_absorbentRoomParams (b : Nat) (hb : b < 6) :
      sampleGains realLibm engine8k (absorbentRoomParams : PhysicsParams ℝ) 0 b < 0.0001 := by
    rw [sampleGains_real_eq_min, delaySamples_absorbentRoomParams]
    apply lt_of_le_of_lt (min_le_left _ _)
    have hg := finalGains_absorbentRoomParams b hb
    have hpos := finalGains_real_pos (absorbentRoomParams : PhysicsParams ℝ) b
    have hlt : finalGains realLibm (absorbentRoomParams : PhysicsParams ℝ) b
        < (0.0001 : ℝ) ^ (7 : ℕ) := lt_of_le_of_lt hg (by norm_num)
    have h1 : (finalGains realLibm (absorbentRoomParams : PhysicsParams ℝ) b) ^ ((1 : ℝ) / 7)
        < ((0.0001 : ℝ) ^ (7 : ℕ)) ^ ((1 : ℝ) / 7) :=
      Real.rpow_lt_rpow hpos.le hlt (by norm_num)
    have h2 : ((0.0001 : ℝ) ^ (7 : ℕ)) ^ ((1 : ℝ) / 7) = 0.0001 := by
      rw [one_div]
      exact Real.pow_rpow_inv_natCast (by norm_num) (by norm_num)
    rw [h2] at h1
    exact h1
  have sin_peak_pole :
      realLibm.sin (2.0 * PI * 500.0 / (2000 * PI / (3 * Real.pi))) = -1 := by
    have hPI : (PI : ℝ) ≠ 0 := by unfold PI; norm_num
    have hpi : Real.pi ≠ 0 := Real.pi_ne_zero
    have h : (2.0 * PI * 500.0 / (2000 * PI / (3 * Real.pi)) : ℝ) = Real.pi / 2 + Real.pi := by
      field_simp
      ring
    rw [h]
    show Real.sin (Real.pi / 2 + Real.pi) = -1
    rw [Real.sin_add_pi, Real.sin_pi_div_two]
  exact ⟨antiDenormal_eq, db_pow_bounds, db_pow_zero, dynClamp_bounds, dynamics_process_active,
    cubic_through_four_points, lagrange_process_eq, abs_tanh_lt_one, safeLoopSaturate_of_mem,
    safeLoopSaturate_abs_lt, lerp_abs_lt, loopAllpass_delayed_abs_lt, loopAllpass_process_bounded,
    loopAllpass_run_bounded, stdClamp_ratio_eq_one, realLibm_sqrt_one, shelf_alpha_bounds,
    calcLS_one, calcHS_one, calcPeak_one, peak_sin_nonneg, baseGain_le_of_max, baseGain_ge_floor,
    finalGains_le_sampleGains, updatePhysics_materialFilter_normal, channelBufferSize_8k,
    preparedEngine_config_8k, mfp_absorbentRoomParams, delaySamples_absorbentRoomParams,
    avgAbs_ge_of_raw, avgAbs_absorbentRoomParams, finalGains_absorbentRoomParams,
    sampleGains_absorbentRoomParams, sin_peak_pole⟩
/-! # Claims -/

/-- C1, as stated, fails in two ways on an engine prepared at 48 kHz. With the
floor material 33 (force field) the SFX branch hands every channel the target
`0.015 * 48000 = 720`, which is not prime. In normal mode with a 3000 m cube the
nearest prime for channel 15 exceeds the capacity `484096 - 4096`, so the target
is the capacity `480000`, which is not prime. -/
theorem targetDelay_not_always_prime :
    (engine48k : EngineConfig ℝ).Prepared ∧
    targetDelay engine48k (forceFieldParams : PhysicsParams ℝ) 0 = 720 ∧
    (¬ ∃ q : ℕ, Nat.Prime q ∧
      targetDelay engine48k (forceFieldParams : PhysicsParams ℝ) 0 = (q : ℝ)) ∧
    sfxTypeOf (hugeRoomParams : PhysicsParams ℝ) = 0 ∧
    targetDelay engine48k (hugeRoomParams : PhysicsParams ℝ) 15 = 480000 ∧
    (¬ ∃ q : ℕ, Nat.Prime q ∧
      targetDelay engine48k (hugeRoomParams : PhysicsParams ℝ) 15 = (q : ℝ)) := by
  have targetDelay_forceFieldParams := physics_real_facts.2.2.2.2.1
  have engine48k_prepared := physics_real_facts.2.2.2.2.2.2.1
  have not_prime_of_cast_eq := physics_real_facts.2.2.2.2.2.2.2.1
  have targetDelay_hugeRoomParams := physics_prime_facts.2
  refine ⟨engine48k_prepared, targetDelay_forceFieldParams 0, ?_,
    sfxTypeOf_hugeRoomParams, targetDelay_hugeRoomParams, ?_⟩
  · exact not_prime_of_cast_eq _ 720 (by rw [targetDelay_forceFieldParams]; norm_num)
      (by norm_num)
  · exact not_prime_of_cast_eq _ 480000 (by rw [targetDelay_hugeRoomParams]; norm_num)
      (by norm_num)

/-- C1, amended. In normal physics mode (no surface index is an SFX material),
for every channel whose nearest prime `findNearestPrime((int)rawDelay)` does not
exceed the capacity `maxChBuf - 4096`, the delay length handed to the channel's
delay smoother as its target is that prime number. -/
theorem targetDelay_prime_of_normal_unclamped (e : EngineConfig ℝ) (p : PhysicsParams ℝ)
    (i : Nat) (hnormal : sfxTypeOf p = 0)
    (hfits : findNearestPrime (truncInt (rawDelay e p i)) ≤ e.maxChBuf - 4096) :
    ∃ q : ℕ, Nat.Prime q ∧ targetDelay e p i = (q : ℝ) ∧
      (q : Int) = findNearestPrime (truncInt (rawDelay e p i)) := by
  have findNearestPrime_isPrime := nearest_prime_facts.2.2.2.2.2.1
  have findNearestPrime_ge_two := nearest_prime_facts.2.2.2.2.2.2.1
  have h2 := findNearestPrime_ge_two (truncInt (rawDelay e p i))
  have hq : ((findNearestPrime (truncInt (rawDelay e p i))).toNat : Int)
      = findNearestPrime (truncInt (rawDelay e p i)) := by omega
  refine ⟨(findNearestPrime (truncInt (rawDelay e p i))).toNat,
    findNearestPrime_isPrime _, ?_, hq⟩
  unfold targetDelay
  rw [hnormal, if_neg (by decide), physicsTargetDelay_eq_of_fits e p i hfits]
  rw [← hq]
  norm_cast

/-- Witness for C1 amended: channel 0 of the 10 m x 15 m x 5 m room at 48 kHz,
whose truncated raw delay is 763 and whose target is the prime 761. -/
theorem targetDelay_prime_of_normal_unclamped_witness :
    sfxTypeOf (exampleParams : PhysicsParams ℝ) = 0 ∧
    findNearestPrime (truncInt (rawDelay engine48k (exampleParams : PhysicsParams ℝ) 0))
      ≤ (engine48k : EngineConfig ℝ).maxChBuf - 4096 ∧
    ∃ q : ℕ, Nat.Prime q ∧ targetDelay engine48k (exampleParams : PhysicsParams ℝ) 0 = (q : ℝ) ∧
      (q : Int) = findNearestPrime
        (truncInt (rawDelay engine48k (exampleParams : PhysicsParams ℝ) 0)) := by
  have truncInt_rawDelay_exampleParams := physics_real_facts.2.2.2.2.2.2.2.2.1
  exact
    have hfits : findNearestPrime
        (truncInt (rawDelay engine48k (exampleParams : PhysicsParams ℝ) 0))
          ≤ (engine48k : EngineConfig ℝ).maxChBuf - 4096 := by
      rw [truncInt_rawDelay_exampleParams]
      decide
    ⟨sfxTypeOf_exampleParams, hfits,
      targetDelay_prime_of_normal_unclamped engine48k exampleParams 0
        sfxTypeOf_exampleParams hfits⟩

/-- C2. In normal physics mode, with positive room dimensions and a positive
sample rate, in real arithmetic: the divisor `totalArea` is positive and every
`delaySamples` is at least 1; every steady-state gain `finalGains[b]` satisfies
`0 < g ≤ 0.98`; and for every channel and band the gain handed to the material
filter is `sampleGains[b] = min(finalGains[b]^(1/delaySamples), 0.9999)` with
`0 < g ≤ 0.9999`. -/
theorem normal_mode_gain_bounds (e : EngineConfig ℝ) (p : PhysicsParams ℝ)
    (hnormal : sfxTypeOf p = 0) (hw : 0 < p.widthM) (hd : 0 < p.depthM)
    (hh : 0 < p.heightM) (_hfs : 0 < e.fs) :
    0 < totalArea p ∧
    (∀ b : Nat, 0 < finalGains realLibm p b ∧ finalGains realLibm p b ≤ 0.98) ∧
    (∀ i b : Nat,
      1 ≤ delaySamples e p i ∧
      setCoeffsGains realLibm e p i b = sampleGains realLibm e p i b ∧
      sampleGains realLibm e p i b
        = min ((finalGains realLibm p b) ^ (1 / delaySamples e p i)) 0.9999 ∧
      0 < sampleGains realLibm e p i b ∧ sampleGains realLibm e p i b ≤ 0.9999) := by
  have finalGains_real_pos := physics_real_facts.2.1
  have sampleGains_real_pos := physics_real_facts.2.2.1
  have sampleGains_real_eq_min := physics_real_facts.2.2.2.1
  have totalArea_pos := physics_real_facts.2.2.2.2.2.2.2.2.2.1
  have delaySamples_ge_one := physics_real_facts.2.2.2.2.2.2.2.2.2.2
  refine ⟨totalArea_pos p hw hd hh,
    fun b => ⟨finalGains_real_pos p b, finalGains_le realLibm p b⟩, fun i b => ?_⟩
  refine ⟨delaySamples_ge_one e p i, ?_, sampleGains_real_eq_min e p i b,
    sampleGains_real_pos e p i b, sampleGains_le realLibm e p i b⟩
  unfold setCoeffsGains
  rw [hnormal, if_neg (by decide)]

/-- Witness for C2: the 10 m x 15 m x 5 m room at 48 kHz. -/
theorem normal_mode_gain_bounds_witness :
    sfxTypeOf (exampleParams : PhysicsParams ℝ) = 0 ∧
    (0 : ℝ) < (exampleParams : PhysicsParams ℝ).widthM ∧
    (0 : ℝ) < (exampleParams : PhysicsParams ℝ).depthM ∧
    (0 : ℝ) < (exampleParams : PhysicsParams ℝ).heightM ∧
    (0 : ℝ) < (engine48k : EngineConfig ℝ).fs ∧
    (∀ b : Nat, 0 < finalGains realLibm (exampleParams : PhysicsParams ℝ) b ∧
      finalGains realLibm (exampleParams : PhysicsParams ℝ) b ≤ 0.98) :=
  have hw : (0 : ℝ) < (exampleParams : PhysicsParams ℝ).widthM := by
    norm_num [exampleParams]
  have hd : (0 : ℝ) < (exampleParams : PhysicsParams ℝ).depthM := by
    norm_num [exampleParams]
  have hh : (0 : ℝ) < (exampleParams : PhysicsParams ℝ).heightM := by
    norm_num [exampleParams]
  have hfs : (0 : ℝ) < (engine48k : EngineConfig ℝ).fs := by
    norm_num [engine48k]
  ⟨sfxTypeOf_exampleParams, hw, hd, hh, hfs,
    (normal_mode_gain_bounds engine48k exampleParams sfxTypeOf_exampleParams
      hw hd hh hfs).2.1⟩

/-- C3, as stated, fails: with the floor material 33 (force field) the SFX
branch calls `setCoeffs(sfxGains, 1.0f, fs)`, so the broadband gain `baseG`
given to every channel's material filter is exactly `1.0`, not below it. -/
theorem setCoeffs_baseG_sfx_is_one :
    sfxTypeOf (forceFieldParams : PhysicsParams ℝ) = 5 ∧
    setCoeffsBaseG realLibm (forceFieldParams : PhysicsParams ℝ) = 1 ∧
    ¬ setCoeffsBaseG realLibm (forceFieldParams : PhysicsParams ℝ) < 1 := by
  have h : setCoeffsBaseG realLibm (forceFieldParams : PhysicsParams ℝ) = 1 := by
    unfold setCoeffsBaseG
    rw [sfxTypeOf_forceFieldParams, if_pos (by decide)]
    norm_num
  exact ⟨sfxTypeOf_forceFieldParams, h, by rw [h]; exact lt_irrefl 1⟩

/-- C3, amended. After every call to `updatePhysics`, whatever the `<cmath>`
functions return, each of the six per-band gains given to a channel's material
filter is strictly below 1.0 in both modes (at most 0.9999 in normal mode, at
most 0.99 in SFX mode); the broadband gain `baseG` is strictly below 1.0 (at
most 0.98) in normal mode and is exactly 1.0 in SFX mode. -/
theorem setCoeffs_gain_targets (m : Libm ℝ) (e : EngineConfig ℝ) (p : PhysicsParams ℝ)
    (i b : Nat) :
    setCoeffsGains m e p i b < 1 ∧
    (sfxTypeOf p = 0 → setCoeffsGains m e p i b ≤ 0.9999) ∧
    (sfxTypeOf p ≠ 0 → setCoeffsGains m e p i b ≤ 0.99) ∧
    (sfxTypeOf p = 0 → setCoeffsBaseG m p ≤ 0.98 ∧ setCoeffsBaseG m p < 1) ∧
    (sfxTypeOf p ≠ 0 → setCoeffsBaseG m p = 1) := by
  have sfxGains_bounds {α : Type} [LinearOrderedField α] := (@gain_bound_facts α _).2.1
  have baseGain_bounds {α : Type} [LinearOrderedField α] := (@gain_bound_facts α _).2.2.2.2
  have hnn := sfxTypeOf_nonneg p
  have hs := sampleGains_le m e p i b
  have hx := (sfxGains_bounds p b).2
  have hb := (baseGain_bounds m p).2
  unfold setCoeffsGains setCoeffsBaseG
  refine ⟨?_, ?_, ?_, ?_, ?_⟩
  · split_ifs
    · linarith
    · linarith
  · intro h0
    rw [h0, if_neg (by decide)]
    exact hs
  · intro h0
    rw [if_pos (by omega)]
    exact hx
  · intro h0
    rw [h0, if_neg (by decide)]
    exact ⟨hb, by linarith⟩
  · intro h0
    rw [if_pos (by omega)]
    norm_num

/-- C8. For every 16-element real vector `x`, each of `matrixHadamard`,
`matrixHouseholder`, `matrixBlockPerm`, `matrixMDS` and `matrixChaos` preserves
the sum of squares of the sixteen values exactly and is linear (it maps
`a * x + b * y` to `a` times the image of `x` plus `b` times the image of `y` in
every one of the sixteen positions); the table `p` of `matrixChaos` is a
permutation of `0 .. 15`. -/
theorem matrices_linear_and_energy_preserving (x : Nat → ℝ) :
    (energy (matrixHadamard x) = energy x ∧
      energy (matrixHouseholder x) = energy x ∧
      energy (matrixBlockPerm x) = energy x ∧
      energy (matrixMDS x) = energy x ∧
      energy (matrixChaos x) = energy x) ∧
    (∀ (a b : ℝ) (y : Nat → ℝ) (i : Nat), i < 16 →
      matrixHadamard (fun k => a * x k + b * y k) i
          = a * matrixHadamard x i + b * matrixHadamard y i ∧
      matrixHouseholder (fun k => a * x k + b * y k) i
          = a * matrixHouseholder x i + b * matrixHouseholder y i ∧
      matrixBlockPerm (fun k => a * x k + b * y k) i
          = a * matrixBlockPerm x i + b * matrixBlockPerm y i ∧
      matrixMDS (fun k => a * x k + b * y k) i
          = a * matrixMDS x i + b * matrixMDS y i ∧
      matrixChaos (fun k => a * x k + b * y k) i
          = a * matrixChaos x i + b * matrixChaos y i) ∧
    chaosTable.Perm (List.range 16) := by
  have matrixHadamard_energy {α : Type} [Field α] [CharZero α] := (@matrix_facts α _ _).2.1
  have matrixHadamard_linear {α : Type} [Field α] [CharZero α] := (@matrix_facts α _ _).2.2.1
  have matrixBlockPerm_energy {α : Type} [Field α] [CharZero α] := (@matrix_facts α _ _).2.2.2.2.1
  have matrixBlockPerm_linear {α : Type} [Field α] [CharZero α] := (@matrix_facts α _ _).2.2.2.2.2.1
  have matrixMDS_energy {α : Type} [Field α] [CharZero α] := (@matrix_facts α _ _).2.2.2.2.2.2.2.1
  have matrixMDS_linear {α : Type} [Field α] [CharZero α] := (@matrix_facts α _ _).2.2.2.2.2.2.2.2.1
  have matrixChaos_energy {α : Type} [Field α] [CharZero α] := (@matrix_facts α _ _).2.2.2.2.2.2.2.2.2.1
  have matrixChaos_linear {α : Type} [Field α] [CharZero α] := (@matrix_facts α _ _).2.2.2.2.2.2.2.2.2.2
  exact
    ⟨⟨matrixHadamard_energy x, matrixHouseholder_energy x, matrixBlockPerm_energy x,
        matrixMDS_energy x, matrixChaos_energy x⟩,
      fun a b y i hi =>
        ⟨matrixHadamard_linear a b x y i hi, matrixHouseholder_linear a b x y i hi,
          matrixBlockPerm_linear a b x y i hi, matrixMDS_linear a b x y i,
          matrixChaos_linear a b x y i hi⟩,
      by decide⟩

/-- C9, as stated, fails: on the input `[1, 0, ..., 0]`, whose sum of squares is
`1`, both `matrixCylinder` and `matrixSparse` produce outputs whose sum of
squares is `0.999698`, not `1`. -/
theorem matrixCylinder_matrixSparse_lose_energy :
    energy (unitImpulse : Nat → ℝ) = 1 ∧
    energy (matrixCylinder (unitImpulse : Nat → ℝ)) = 0.999698 ∧
    energy (matrixSparse (unitImpulse : Nat → ℝ)) = 0.999698 ∧
    energy (matrixCylinder (unitImpulse : Nat → ℝ)) ≠ energy (unitImpulse : Nat → ℝ) ∧
    energy (matrixSparse (unitImpulse : Nat → ℝ)) ≠ energy (unitImpulse : Nat → ℝ) := by
  have rotatePairs_energy {α : Type} [Field α] [CharZero α] := (@matrix_facts α _ _).2.2.2.2.2.2.1
  have hc : energy (matrixCylinder (unitImpulse : Nat → ℝ)) = 0.999698 := by
    rw [matrixCylinder_energy_rotate, rotatePairs_energy, energy_unitImpulse, mul_one]
  have hs : energy (matrixSparse (unitImpulse : Nat → ℝ)) = 0.999698 := by
    rw [matrixSparse_energy_rotate, rotatePairs_energy, energy_unitImpulse, mul_one]
  refine ⟨energy_unitImpulse, hc, hs, ?_, ?_⟩
  · rw [hc, energy_unitImpulse]; norm_num
  · rw [hs, energy_unitImpulse]; norm_num

/-- C9, amended. For every 16-element real vector `x`, `matrixCylinder` and
`matrixSparse` scale the sum of squares by exactly `2 * 0.707² = 0.999698`: the
sum of squares of the sixteen outputs equals `0.999698` times that of the
inputs, hence never exceeds it. -/
theorem matrixCylinder_matrixSparse_energy (x : Nat → ℝ) :
    energy (matrixCylinder x) = 0.999698 * energy x ∧
    energy (matrixSparse x) = 0.999698 * energy x ∧
    (0.999698 : ℝ) = 2 * 0.707 ^ 2 ∧
    energy (matrixCylinder x) ≤ energy x ∧
    energy (matrixSparse x) ≤ energy x := by
  have rotatePairs_energy {α : Type} [Field α] [CharZero α] := (@matrix_facts α _ _).2.2.2.2.2.2.1
  have hc : energy (matrixCylinder x) = 0.999698 * energy x := by
    rw [matrixCylinder_energy_rotate, rotatePairs_energy]
  have hs : energy (matrixSparse x) = 0.999698 * energy x := by
    rw [matrixSparse_energy_rotate, rotatePairs_energy]
  have hnn : 0 ≤ energy x := Finset.sum_nonneg (fun i _ => mul_self_nonneg (x i))
  refine ⟨hc, hs, by norm_num, ?_, ?_⟩
  · rw [hc]; nlinarith
  · rw [hs]; nlinarith

/-- C10. For every input `x` and every position `i` of the sixteen,
`matrixHadamard` computes `out[i] = (1/4) * Σ_j (-1)^popcount(i AND j) * x[j]`,
the natural-order 16-point Walsh-Hadamard transform scaled by `1/4`; the input
`[1, 0, ..., 0]` yields `0.25` in all sixteen positions. -/
theorem matrixHadamard_is_walshHadamard (x : Nat → ℝ) :
    (∀ i, i < 16 → matrixHadamard x i
        = (1 / 4) * ∑ j in Finset.range 16, (-1) ^ popcount (i &&& j) * x j) ∧
    (∀ i, i < 16 → matrixHadamard x i = walshHadamard x i) ∧
    (∀ i, i < 16 → matrixHadamard (unitImpulse : Nat → ℝ) i = 0.25) := by
  have matrixHadamard_eq_walsh {α : Type} [Field α] [CharZero α] := (@matrix_facts α _ _).1
  refine ⟨fun i hi => matrixHadamard_eq_walsh x i hi,
    fun i hi => matrixHadamard_eq_walsh x i hi, fun i hi => ?_⟩
  rw [matrixHadamard_eq_walsh _ i hi, walshHadamard_unitImpulse]
  norm_num

/-- C11, as stated, fails at very low sample rates: after `prepare(0.05)` the
channel buffers hold `(int)(10 * 0.05) + 4096 = 4096` samples, so the capacity
`buffer.size() - 4096` is 0, and `updatePhysics` with the force-field floor hands
channel 0 the target `0.015 * 0.05 = 0.00075`, which exceeds it. -/
theorem targetDelay_exceeds_capacity_at_low_rate :
    (0 : ℝ) < (preparedEngine realLibm (1 / 20 : ℝ)).fs ∧
    (((preparedEngine realLibm (1 / 20 : ℝ)).updatePhysics realLibm
      forceFieldParams).channels 0).bufferSize = 4096 ∧
    (((preparedEngine realLibm (1 / 20 : ℝ)).updatePhysics realLibm
      forceFieldParams).channels 0).delaySmoother.targetValue = 3 / 4000 ∧
    (((((preparedEngine realLibm (1 / 20 : ℝ)).updatePhysics realLibm
      forceFieldParams).channels 0).bufferSize - 4096 : Int) : ℝ)
      < (((preparedEngine realLibm (1 / 20 : ℝ)).updatePhysics realLibm
        forceFieldParams).channels 0).delaySmoother.targetValue := by
  have channelBufferSize_slow := capacity_facts.2.1
  have preparedEngine_config_slow := capacity_facts.2.2.1
  have h0 : (0 : Nat) < 16 := by decide
  have hsize : (((preparedEngine realLibm (1 / 20 : ℝ)).updatePhysics realLibm
      forceFieldParams).channels 0).bufferSize = 4096 := by
    rw [(updatePhysics_channel_static _ _ _ 0 h0).1,
      preparedEngine_bufferSize realLibm (1 / 20) 0 h0
        (by rw [channelBufferSize_slow]; decide), channelBufferSize_slow]
  have htarget : (((preparedEngine realLibm (1 / 20 : ℝ)).updatePhysics realLibm
      forceFieldParams).channels 0).delaySmoother.targetValue = 3 / 4000 := by
    rw [updatePhysics_delayTarget _ _ _ 0 h0, preparedEngine_config_slow]
    unfold targetDelay
    rw [sfxTypeOf_forceFieldParams, if_pos (by decide)]
    norm_num [sfxFixedDelay]
  refine ⟨?_, hsize, htarget, ?_⟩
  · rw [preparedEngine_fs]
    norm_num
  · rw [hsize, htarget]
    norm_num

/-- C11, amended. Let the engine be prepared (the buffer of channel 0, which
`updatePhysics` reads as `maxChBuf`, holds at least `(int)(10 * fs) + 4096`
samples, and channel `i` has a buffer of the same size) at a positive sample
rate. After every call to `updatePhysics`, in either mode, the delay target of
channel `i` is at most the buffer length `buffer.size()`; it is at most the
capacity `buffer.size() - 4096` when the sample rate is at least 0.1 Hz, and in
normal mode at every sample rate. -/
theorem targetDelay_le_capacity (s : FDNEngine ℝ) (p : PhysicsParams ℝ) (i : Nat)
    (hprep : s.config.Prepared)
    (hsame : (s.channels i).bufferSize = (s.channels 0).bufferSize)
    (hfs : 0 < s.fs) (hi : i < 16) :
    ((s.updatePhysics realLibm p).channels i).delaySmoother.targetValue
      ≤ (((s.updatePhysics realLibm p).channels i).bufferSize : ℝ) ∧
    (1 ≤ 10 * s.fs →
      ((s.updatePhysics realLibm p).channels i).delaySmoother.targetValue
        ≤ ((((s.updatePhysics realLibm p).channels i).bufferSize - 4096 : Int) : ℝ)) ∧
    (sfxTypeOf p = 0 →
      ((s.updatePhysics realLibm p).channels i).delaySmoother.targetValue
        ≤ ((((s.updatePhysics realLibm p).channels i).bufferSize - 4096 : Int) : ℝ)) := by
  have delayTarget_bounds_of_config := capacity_facts.1
  have hsize : ((s.updatePhysics realLibm p).channels i).bufferSize = s.config.maxChBuf := by
    rw [(updatePhysics_channel_static realLibm s p i hi).1, hsame]
    rfl
  rw [updatePhysics_delayTarget realLibm s p i hi, hsize]
  exact delayTarget_bounds_of_config s.config p i hprep hfs hi

/-- Witness for C11 amended: channel 3 of the engine prepared at 48 kHz, with the
force-field tuple. -/
theorem targetDelay_le_capacity_witness :
    (preparedEngine realLibm (48000 : ℝ)).config.Prepared ∧
    ((preparedEngine realLibm (48000 : ℝ)).channels 3).bufferSize
      = ((preparedEngine realLibm (48000 : ℝ)).channels 0).bufferSize ∧
    (0 : ℝ) < (preparedEngine realLibm (48000 : ℝ)).fs ∧ (3 : Nat) < 16 ∧
    (((preparedEngine realLibm (48000 : ℝ)).updatePhysics realLibm
      forceFieldParams).channels 3).delaySmoother.targetValue
      ≤ ((((preparedEngine realLibm (48000 : ℝ)).updatePhysics realLibm
        forceFieldParams).channels 3).bufferSize : ℝ) := by
  have channelBufferSize_48k := engine_48k_facts.1
  have preparedEngine_prepared := capacity_facts.2.2.2
  exact
    have hr : 0 < channelBufferSize (48000 : ℝ) := by
      rw [channelBufferSize_48k]
      decide
    have hp := preparedEngine_prepared 48000 hr 3 (by decide)
    have hfs : (0 : ℝ) < (preparedEngine realLibm (48000 : ℝ)).fs := by
      rw [preparedEngine_fs]
      norm_num
    ⟨hp.1, hp.2, hfs, by decide,
      (targetDelay_le_capacity (preparedEngine realLibm (48000 : ℝ)) forceFieldParams 3
        hp.1 hp.2 hfs (by decide)).1⟩

/-- C12 fails on the factory preset "Grand Canyon" (a 300 m cube) at 48 kHz.
After `prepare(48000)` and `updatePhysics` with the arguments of that preset,
each loop allpass of channel 0 owns a buffer of `4096 + 128 = 4224` samples, the
channel's delay target is 20983, and `setBaseDelay` stores the lengths
`findNearestPrime(6294) = 6299` and `findNearestPrime(9441) = 9439`: both exceed
the buffer, nothing clamps them. -/
theorem loopAllpass_length_exceeds_buffer :
    (((preparedEngine realLibm (48000 : ℝ)).updatePhysics realLibm
      grandCanyonParams).channels 0).delaySmoother.targetValue = 20983 ∧
    (((preparedEngine realLibm (48000 : ℝ)).updatePhysics realLibm
      grandCanyonParams).channels 0).loopAllpass1.bufferSize = 4224 ∧
    (((preparedEngine realLibm (48000 : ℝ)).updatePhysics realLibm
      grandCanyonParams).channels 0).loopAllpass1.currentDelayLen = 6299 ∧
    (((preparedEngine realLibm (48000 : ℝ)).updatePhysics realLibm
      grandCanyonParams).channels 0).loopAllpass2.bufferSize = 4224 ∧
    (((preparedEngine realLibm (48000 : ℝ)).updatePhysics realLibm
      grandCanyonParams).channels 0).loopAllpass2.currentDelayLen = 9439 := by
  have preparedEngine_config_48k := engine_48k_facts.2.1
  have targetDelay_grandCanyonParams := engine_48k_facts.2.2.2.1
  have apLen_grandCanyonParams := engine_48k_facts.2.2.2.2.1
  have apLen2_grandCanyonParams := engine_48k_facts.2.2.2.2.2
  have h0 : (0 : Nat) < 16 := by decide
  have hst := updatePhysics_channel_static realLibm (preparedEngine realLibm (48000 : ℝ))
    grandCanyonParams 0 h0
  have hlen := updatePhysics_loopAllpass_len realLibm (preparedEngine realLibm (48000 : ℝ))
    grandCanyonParams 0 h0
  have hprep := preparedEngine_loopAllpass1 realLibm (48000 : ℝ) 0 h0
  have htd := updatePhysics_delayTarget realLibm (preparedEngine realLibm (48000 : ℝ))
    grandCanyonParams 0 h0
  rw [preparedEngine_config_48k] at hlen htd
  rw [apLen_grandCanyonParams] at hlen
  rw [apLen2_grandCanyonParams] at hlen
  refine ⟨htd.trans targetDelay_grandCanyonParams, hst.2.1.trans hprep.1, ?_,
    hst.2.2.trans hprep.2.2.1, ?_⟩
  · rw [hlen.1]
    exact findNearestPrime_6294
  · rw [hlen.2]
    exact findNearestPrime_9441

/-- C13. `updatePhysics` is idempotent on smoother targets: for every engine
state and every parameter tuple `p`, the smoother targets after calling
`updatePhysics(p)` twice in a row (the dry and wet gain targets and, for each of
the 16 channels, the delay target, the density target, the broadband-gain target
of the material filter and the target coefficients of its four sections) equal
those after calling it once. -/
theorem updatePhysics_idempotent_on_smoother_targets (s : FDNEngine ℝ)
    (p : PhysicsParams ℝ) :
    ((s.updatePhysics realLibm p).updatePhysics realLibm p).smootherTargets
      = (s.updatePhysics realLibm p).smootherTargets :=
  updatePhysics_smootherTargets_congr realLibm _ _ p (updatePhysics_config realLibm s p)

/-- C14, as stated, fails in three ways, on engine states that are all prepared
at 48 kHz. Let `s1` be the engine after `prepare(48000)` and `s2` the state after
one more call of `updatePhysics` (plasma floor, tilt 3 dB). For the same tuple
with tilt 2.995 dB, the tilt equaliser applies 2.995 dB from `s1` but keeps 3 dB
from `s2` (the call returns early when the change is below 0.01 dB); and the
modulation depth of the first loop allpass of channel 0 is `0.3 * 12 = 3.6` from
`s1` but `0.3 * (13 * 0.15) = 0.585` from `s2`, because `setModulation` reads the
allpass length left by the call before. Last, an engine prepared at 96 kHz and
then at 48 kHz keeps its channel buffers of 964096 samples, so for the 3000 m
room the delay target of channel 15 is clamped to 960000 instead of 480000. -/
theorem updatePhysics_depends_on_history :
    (preparedEngine realLibm (48000 : ℝ)).SamePreparation
      ((preparedEngine realLibm (48000 : ℝ)).updatePhysics realLibm plasmaTiltParams) ∧
    ((preparedEngine realLibm (48000 : ℝ)).updatePhysics realLibm
      nearTiltParams).tiltEQ_L.currentGainDB = 2.995 ∧
    (((preparedEngine realLibm (48000 : ℝ)).updatePhysics realLibm
      plasmaTiltParams).updatePhysics realLibm nearTiltParams).tiltEQ_L.currentGainDB = 3 ∧
    (((preparedEngine realLibm (48000 : ℝ)).updatePhysics realLibm
      nearTiltParams).channels 0).loopAllpass1.lfoDepth = 3.6 ∧
    ((((preparedEngine realLibm (48000 : ℝ)).updatePhysics realLibm
      plasmaTiltParams).updatePhysics realLibm nearTiltParams).channels 0).loopAllpass1.lfoDepth
        = 0.585 ∧
    (FDNEngine.prepare realLibm (preparedEngine realLibm (96000 : ℝ)) 48000).fs
      = (preparedEngine realLibm (48000 : ℝ)).fs ∧
    (((preparedEngine realLibm (48000 : ℝ)).updatePhysics realLibm
      hugeRoomParams).channels 15).delaySmoother.targetValue = 480000 ∧
    (((FDNEngine.prepare realLibm (preparedEngine realLibm (96000 : ℝ)) 48000).updatePhysics
      realLibm hugeRoomParams).channels 15).delaySmoother.targetValue = 960000 := by
  have targetDelay_hugeRoomParams := physics_prime_facts.2
  have preparedEngine_config_48k := engine_48k_facts.2.1
  have reprepared_config := history_facts.2.1
  have apLen_plasmaTiltParams := history_facts.2.2.2
  have targetDelay_hugeRoomParams_large := history_prime_facts
  have h0 : (0 : Nat) < 16 := by decide
  have h15 : (15 : Nat) < 16 := by decide
  have hmod : ¬ (nearTiltParams : PhysicsParams ℝ).modDepth ≤ 0.001 := by
    norm_num [nearTiltParams, exampleParams]
  have hdepth : (nearTiltParams : PhysicsParams ℝ).modDepth = 0.3 := by
    norm_num [nearTiltParams, exampleParams]
  have htilt : (nearTiltParams : PhysicsParams ℝ).tilt = 2.995 := rfl
  have htilt3 : (plasmaTiltParams : PhysicsParams ℝ).tilt = 3 := rfl
  have hg1 : ((preparedEngine realLibm (48000 : ℝ)).updatePhysics realLibm
      plasmaTiltParams).tiltEQ_L.currentGainDB = 3 := by
    rw [updatePhysics_tiltEQ_L, htilt3, setTilt_currentGainDB]
    rw [preparedEngine_tilt]
    norm_num
  refine ⟨updatePhysics_samePreparation _ _ _, ?_, ?_, ?_, ?_, rfl, ?_, ?_⟩
  · rw [updatePhysics_tiltEQ_L, htilt, setTilt_currentGainDB]
    rw [preparedEngine_tilt]
    norm_num [abs_lt]
  · rw [updatePhysics_tiltEQ_L, htilt, setTilt_keep, hg1]
    rw [hg1]
    norm_num [abs_lt]
  · rw [updatePhysics_lfoDepth _ _ _ 0 h0, if_neg hmod, hdepth,
      (preparedEngine_loopAllpass1 realLibm (48000 : ℝ) 0 h0).2.1]
    norm_num [stdMin]
  · rw [updatePhysics_lfoDepth _ _ _ 0 h0, if_neg hmod, hdepth,
      (updatePhysics_loopAllpass_len _ _ _ 0 h0).1, preparedEngine_config_48k,
      apLen_plasmaTiltParams]
    have hlen : findNearestPrime (stdMaxInt 1 14) = 13 := findNearestPrime_14
    rw [hlen]
    norm_num [stdMin]
  · rw [updatePhysics_delayTarget _ _ _ 15 h15, preparedEngine_config_48k,
      targetDelay_hugeRoomParams]
  · rw [updatePhysics_delayTarget _ _ _ 15 h15, reprepared_config,
      targetDelay_hugeRoomParams_large]

/-- C14, amended. For any two engine states prepared alike (same sample rate,
same buffer sizes) and the same parameter tuple, the coefficients that
`updatePhysics` derives are equal after the call, whatever the earlier history:
shape mode, pre-delay, drive, dynamics amount, modulation depth, width, pan
gains, diffusion amounts, dry and wet gain targets, the RT60 report, the dynamics
coefficients, the four input and output filters, the seven early reflections and,
for each channel, the loop-allpass lengths, the smoother targets and the LFO
increments. The applied gain and the coefficients of a tilt equaliser are equal
as well when the requested tilt is at least 0.01 dB away from the gain applied
before in both states; when it is closer, the tilt equaliser is left as it
was. -/
theorem updatePhysics_pure_by_inputs (s t : FDNEngine ℝ) (p : PhysicsParams ℝ)
    (h : s.SamePreparation t) :
    (s.updatePhysics realLibm p).derivedCoefficients
      = (t.updatePhysics realLibm p).derivedCoefficients ∧
    (¬ |p.tilt - s.tiltEQ_L.currentGainDB| < 0.01 →
      ¬ |p.tilt - t.tiltEQ_L.currentGainDB| < 0.01 →
      (s.updatePhysics realLibm p).tiltEQ_L.coeffs
        = (t.updatePhysics realLibm p).tiltEQ_L.coeffs) ∧
    (¬ |p.tilt - s.tiltEQ_R.currentGainDB| < 0.01 →
      ¬ |p.tilt - t.tiltEQ_R.currentGainDB| < 0.01 →
      (s.updatePhysics realLibm p).tiltEQ_R.coeffs
        = (t.updatePhysics realLibm p).tiltEQ_R.coeffs) ∧
    (|p.tilt - s.tiltEQ_L.currentGainDB| < 0.01 →
      (s.updatePhysics realLibm p).tiltEQ_L = s.tiltEQ_L) ∧
    (|p.tilt - s.tiltEQ_R.currentGainDB| < 0.01 →
      (s.updatePhysics realLibm p).tiltEQ_R = s.tiltEQ_R) := by
  refine ⟨updatePhysics_derivedCoefficients_congr realLibm s t p h, ?_, ?_, ?_, ?_⟩
  · intro hs ht
    rw [updatePhysics_tiltEQ_L, updatePhysics_tiltEQ_L]
    exact setTilt_congr realLibm _ _ _ h.2.2.2.2.2.2.2.2.2.2.1 hs ht
  · intro hs ht
    rw [(updatePhysics_parts realLibm s p).2.2.2.2.2.2.1,
      (updatePhysics_parts realLibm t p).2.2.2.2.2.2.1]
    exact setTilt_congr realLibm _ _ _ h.2.2.2.2.2.2.2.2.2.2.2 hs ht
  · intro hs
    rw [updatePhysics_tiltEQ_L]
    exact setTilt_keep realLibm _ _ hs
  · intro hs
    rw [(updatePhysics_parts realLibm s p).2.2.2.2.2.2.1]
    exact setTilt_keep realLibm _ _ hs

/-- Witness for C14 amended: the engine prepared at 48 kHz and the same engine
after one earlier call of `updatePhysics`. -/
theorem updatePhysics_pure_by_inputs_witness :
    (preparedEngine realLibm (48000 : ℝ)).SamePreparation
      ((preparedEngine realLibm (48000 : ℝ)).updatePhysics realLibm plasmaTiltParams) ∧
    ((preparedEngine realLibm (48000 : ℝ)).updatePhysics realLibm
      nearTiltParams).derivedCoefficients
      = (((preparedEngine realLibm (48000 : ℝ)).updatePhysics realLibm
          plasmaTiltParams).updatePhysics realLibm nearTiltParams).derivedCoefficients :=
  ⟨updatePhysics_samePreparation _ _ _,
    (updatePhysics_pure_by_inputs _ _ nearTiltParams
      (updatePhysics_samePreparation realLibm (preparedEngine realLibm (48000 : ℝ))
        plasmaTiltParams)).1⟩
/-- C15. `updatePhysics` enters SFX mode (`sfxType > 0`) if and only if at least
one of the four surface indices is in `{13, 20, 29, 31, 33}`; the SFX type is
that of the first such index in the order floor, ceiling, side wall, front/back
wall; and the types are 13 -> 1, 20 -> 2, 29 -> 3, 31 -> 4, 33 -> 5, every other
index giving 0. -/
theorem sfx_mode_selection (p : PhysicsParams ℝ) :
    (0 < sfxTypeOf p ↔
      (IsSfxMaterial p.matFloorIdx ∨ IsSfxMaterial p.matCeilIdx ∨
        IsSfxMaterial p.matWallIdx ∨ IsSfxMaterial p.matWallFBIdx)) ∧
    (IsSfxMaterial p.matFloorIdx → sfxTypeOf p = checkSFX p.matFloorIdx) ∧
    (¬ IsSfxMaterial p.matFloorIdx → IsSfxMaterial p.matCeilIdx →
      sfxTypeOf p = checkSFX p.matCeilIdx) ∧
    (¬ IsSfxMaterial p.matFloorIdx → ¬ IsSfxMaterial p.matCeilIdx →
      IsSfxMaterial p.matWallIdx → sfxTypeOf p = checkSFX p.matWallIdx) ∧
    (¬ IsSfxMaterial p.matFloorIdx → ¬ IsSfxMaterial p.matCeilIdx →
      ¬ IsSfxMaterial p.matWallIdx → sfxTypeOf p = checkSFX p.matWallFBIdx) ∧
    (checkSFX 13 = 1 ∧ checkSFX 20 = 2 ∧ checkSFX 29 = 3 ∧ checkSFX 31 = 4 ∧
      checkSFX 33 = 5) ∧
    (∀ mat : Int, ¬ IsSfxMaterial mat → checkSFX mat = 0) := by
  have key : ∀ mat : Int, checkSFX mat = 0 ↔ ¬ IsSfxMaterial mat := by
    intro mat
    rw [isSfxMaterial_iff, ← checkSFX_ne_zero_iff]
    exact not_not.symm
  have hpos : ∀ mat : Int, 0 < checkSFX mat ↔ IsSfxMaterial mat := by
    intro mat
    rw [isSfxMaterial_iff]
    exact checkSFX_pos_iff mat
  refine ⟨?_, ?_, ?_, ?_, ?_, by decide, fun mat h => (key mat).mpr h⟩
  · unfold sfxTypeOf
    simp only []
    by_cases h1 : checkSFX p.matFloorIdx = 0
    · by_cases h2 : checkSFX p.matCeilIdx = 0
      · by_cases h3 : checkSFX p.matWallIdx = 0
        · simp only [h1, h2, h3, if_true]
          rw [hpos]
          have n1 := (key _).mp h1
          have n2 := (key _).mp h2
          have n3 := (key _).mp h3
          constructor
          · intro h
            exact Or.inr (Or.inr (Or.inr h))
          · intro h
            rcases h with h | h | h | h
            · exact absurd h n1
            · exact absurd h n2
            · exact absurd h n3
            · exact h
        · simp only [h1, h2, h3, if_true, if_false]
          have hh : IsSfxMaterial p.matWallIdx := by
            by_contra hc
            exact h3 ((key _).mpr hc)
          exact iff_of_true ((hpos _).mpr hh) (Or.inr (Or.inr (Or.inl hh)))
      · simp only [h1, h2, if_true, if_false]
        have hh : IsSfxMaterial p.matCeilIdx := by
          by_contra hc
          exact h2 ((key _).mpr hc)
        exact iff_of_true ((hpos _).mpr hh) (Or.inr (Or.inl hh))
    · simp only [h1, if_false]
      have hh : IsSfxMaterial p.matFloorIdx := by
        by_contra hc
        exact h1 ((key _).mpr hc)
      exact iff_of_true ((hpos _).mpr hh) (Or.inl hh)
  · intro h
    have h1 : ¬ checkSFX p.matFloorIdx = 0 := fun hc => (key _).mp hc h
    unfold sfxTypeOf
    simp only [h1, if_false]
  · intro hf h
    have h1 : checkSFX p.matFloorIdx = 0 := (key _).mpr hf
    have h2 : ¬ checkSFX p.matCeilIdx = 0 := fun hc => (key _).mp hc h
    unfold sfxTypeOf
    simp only [h1, h2, if_true, if_false]
  · intro hf hc h
    have h1 : checkSFX p.matFloorIdx = 0 := (key _).mpr hf
    have h2 : checkSFX p.matCeilIdx = 0 := (key _).mpr hc
    have h3 : ¬ checkSFX p.matWallIdx = 0 := fun hc => (key _).mp hc h
    unfold sfxTypeOf
    simp only [h1, h2, h3, if_true, if_false]
  · intro hf hc hw
    have h1 : checkSFX p.matFloorIdx = 0 := (key _).mpr hf
    have h2 : checkSFX p.matCeilIdx = 0 := (key _).mpr hc
    have h3 : checkSFX p.matWallIdx = 0 := (key _).mpr hw
    unfold sfxTypeOf
    simp only [h1, h2, h3, if_true]

/-- C16, as stated, fails on the strict positivity: for a room of width 0
(0 m x 15 m x 5 m, material 0, normal mode) on an engine prepared at 48 kHz the
gain of band 0 is `0.98`, inside `(0.001, 0.98]`, but the average delay
`baseDelaySec * (ratioSum / 16)` is 0 and the reported RT60 of band 0 is 0. -/
theorem rt60_not_positive_for_flat_room :
    sfxTypeOf (flatRoomParams : PhysicsParams ℝ) = 0 ∧
    finalGains realLibm (flatRoomParams : PhysicsParams ℝ) 0 = 0.98 ∧
    baseDelaySec (flatRoomParams : PhysicsParams ℝ)
      * (ratioSum (flatRoomParams : PhysicsParams ℝ).roomShape / 16) = 0 ∧
    ((preparedEngine realLibm (48000 : ℝ)).updatePhysics realLibm
      flatRoomParams).getEstimatedRT60 0 = 0 := by
  have calcT60_of_le := rt60_facts.2.2.2.2.2.2.2.2.1
  have mfp_flatRoomParams := rt60_facts.2.2.2.2.2.2.2.2.2.1
  have finalGains_flatRoomParams := rt60_facts.2.2.2.2.2.2.2.2.2.2.2.1
  have hd : baseDelaySec (flatRoomParams : PhysicsParams ℝ) = 0 := by
    unfold baseDelaySec
    rw [mfp_flatRoomParams]
    norm_num
  refine ⟨sfxTypeOf_flatRoomParams, finalGains_flatRoomParams, by rw [hd]; norm_num, ?_⟩
  unfold FDNEngine.getEstimatedRT60
  rw [updatePhysics_lastRT60Data _ _ _ 0 (by decide), sfxTypeOf_flatRoomParams,
    if_neg (by decide), calcT60_of_le _ _ _ (finalGains_le _ _ _)]
  have hav : avgDelaySamples (preparedEngine realLibm (48000 : ℝ)).fs
      (flatRoomParams : PhysicsParams ℝ) = 0 := by
    unfold avgDelaySamples
    rw [hd]
    norm_num
  rw [hav]
  split_ifs <;> norm_num

/-- C16, amended. On an engine whose sample rate is positive, the RT60 report
after `updatePhysics` is: in SFX mode, 0 in all six bands; in normal mode, for
each band `b` with gain `g = finalGains[b]` (always at most `0.98`), 0 when
`g ≤ 0.001` and `-3 * d / log10(g)` when `0.001 < g`, where
`d = baseDelaySec * (ratioSum / 16)` is the average delay in seconds. When the
three room dimensions are positive, `d` is strictly positive and so is the
reported value of every band with `0.001 < g`. -/
theorem rt60_report (s : FDNEngine ℝ) (p : PhysicsParams ℝ) (hfs : 0 < s.fs) :
    (0 < sfxTypeOf p →
      ∀ b : Nat, b < 6 → (s.updatePhysics realLibm p).getEstimatedRT60 b = 0) ∧
    (sfxTypeOf p = 0 →
      ∀ b : Nat, b < 6 →
        finalGains realLibm p b ≤ 0.98 ∧
        (finalGains realLibm p b ≤ 0.001 →
          (s.updatePhysics realLibm p).getEstimatedRT60 b = 0) ∧
        (0.001 < finalGains realLibm p b →
          (s.updatePhysics realLibm p).getEstimatedRT60 b
            = -3 * (baseDelaySec p * (ratioSum p.roomShape / 16))
                / (Real.log (finalGains realLibm p b) / Real.log 10)) ∧
        (0 < p.widthM → 0 < p.depthM → 0 < p.heightM →
          0 < baseDelaySec p * (ratioSum p.roomShape / 16) ∧
          (0.001 < finalGains realLibm p b →
            0 < (s.updatePhysics realLibm p).getEstimatedRT60 b))) := by
  have finalGains_real_pos := physics_real_facts.2.1
  have avgDelay_real_pos := rt60_facts.2.2.2.2.2.1
  have avgDelaySamples_div := rt60_facts.2.2.2.2.2.2.1
  have log10_real_neg := rt60_facts.2.2.2.2.2.2.2.1
  have calcT60_of_le := rt60_facts.2.2.2.2.2.2.2.2.1
  constructor
  · intro hsfx b hb
    unfold FDNEngine.getEstimatedRT60
    rw [updatePhysics_lastRT60Data _ _ _ b hb, if_pos hsfx]
    norm_num
  · intro hnormal b hb
    have hval : (s.updatePhysics realLibm p).getEstimatedRT60 b
        = if finalGains realLibm p b ≤ 0.001 then 0
          else -3 * (baseDelaySec p * (ratioSum p.roomShape / 16))
            / (Real.log (finalGains realLibm p b) / Real.log 10) := by
      unfold FDNEngine.getEstimatedRT60
      rw [updatePhysics_lastRT60Data _ _ _ b hb, hnormal, if_neg (by decide),
        calcT60_of_le _ _ _ (finalGains_le _ _ _), avgDelaySamples_div _ _ (ne_of_gt hfs)]
    have hformula : 0.001 < finalGains realLibm p b →
        (s.updatePhysics realLibm p).getEstimatedRT60 b
          = -3 * (baseDelaySec p * (ratioSum p.roomShape / 16))
              / (Real.log (finalGains realLibm p b) / Real.log 10) := by
      intro hg
      rw [hval, if_neg (not_le.mpr hg)]
    refine ⟨finalGains_le _ _ _, ?_, hformula, ?_⟩
    · intro hg
      rw [hval, if_pos hg]
    · intro hw hd hh
      have hdpos := avgDelay_real_pos p hw hd hh
      refine ⟨hdpos, ?_⟩
      intro hg
      rw [hformula hg]
      have hlog : Real.log (finalGains realLibm p b) / Real.log 10 < 0 :=
        log10_real_neg _ (finalGains_real_pos p b)
          (lt_of_le_of_lt (finalGains_le _ _ _) (by norm_num))
      apply div_pos_of_neg_of_neg _ hlog
      linarith

/-- Witness for C16 amended: the 10 m x 15 m x 5 m room on an engine prepared at
48 kHz has a strictly positive average delay. -/
theorem rt60_report_witness :
    (0 : ℝ) < (preparedEngine realLibm (48000 : ℝ)).fs ∧
    (0 : ℝ) < baseDelaySec (exampleParams : PhysicsParams ℝ)
      * (ratioSum (exampleParams : PhysicsParams ℝ).roomShape / 16) :=
  have hfs : (0 : ℝ) < (preparedEngine realLibm (48000 : ℝ)).fs := by
    rw [preparedEngine_fs]
    norm_num
  ⟨hfs, (((rt60_report (preparedEngine realLibm (48000 : ℝ)) exampleParams hfs).2
      sfxTypeOf_exampleParams 0 (by decide)).2.2.2
        (by norm_num [exampleParams]) (by norm_num [exampleParams])
        (by norm_num [exampleParams])).1⟩

/-- C17, as stated, fails: the fallback branch uses the exponent 100, the largest
exponent there is, and a reflectance below 1 raised to a larger exponent is
smaller. For the 10 m x 15 m x 5 m room the gain of band 0 with `decayRatio = 0`
(fallback) is strictly below the gain with `decayRatio = 1`, and on an engine
prepared at 48 kHz so is the RT60 estimate of band 0. -/
theorem fallback_decay_not_longest_tail :
    (zeroDecayParams : PhysicsParams ℝ).decayRatio ≤ 0.01 ∧
    (0.01 : ℝ) < (exampleParams : PhysicsParams ℝ).decayRatio ∧
    sfxTypeOf (zeroDecayParams : PhysicsParams ℝ) = 0 ∧
    decayExponent (zeroDecayParams : PhysicsParams ℝ) = 100 ∧
    decayExponent (exampleParams : PhysicsParams ℝ) = 1 ∧
    finalGains realLibm (zeroDecayParams : PhysicsParams ℝ) 0
      < finalGains realLibm (exampleParams : PhysicsParams ℝ) 0 ∧
    ((preparedEngine realLibm (48000 : ℝ)).updatePhysics realLibm
      zeroDecayParams).getEstimatedRT60 0
      < ((preparedEngine realLibm (48000 : ℝ)).updatePhysics realLibm
        exampleParams).getEstimatedRT60 0 := by
  have finalGains_zeroDecay_lt := rt60_facts.2.2.2.2.2.2.2.2.2.2.2.2.2.2.2.2.2.2.2.2.2.2.2.1
  have rt60_zeroDecay_lt := rt60_facts.2.2.2.2.2.2.2.2.2.2.2.2.2.2.2.2.2.2.2.2.2.2.2.2.2.2.2.2.2.2
  exact
    ⟨by norm_num [zeroDecayParams], by norm_num [exampleParams], by decide,
      by norm_num [decayExponent, zeroDecayParams],
      by norm_num [decayExponent, exampleParams], finalGains_zeroDecay_lt, rt60_zeroDecay_lt⟩

/-- C17, amended. With all other parameters fixed, a `decayRatio` at or near zero
(`decayRatio ≤ 0.01`, the fallback branch) gives the shortest tail: each band's
steady-state gain `finalGains[b]` is at most the value obtained for any
`decayRatio > 0.01`; and on an engine with a positive sample rate, for room
dimensions that are not negative, so is each band's RT60 estimate. -/
theorem fallback_decay_gives_shortest_tail (p : PhysicsParams ℝ) (r0 r1 : ℝ)
    (h0 : r0 ≤ 0.01) (_h1 : 0.01 < r1) :
    (∀ b : Nat, finalGains realLibm { p with decayRatio := r0 } b
      ≤ finalGains realLibm { p with decayRatio := r1 } b) ∧
    (∀ s : FDNEngine ℝ, 0 < s.fs → 0 ≤ p.widthM → 0 ≤ p.depthM → 0 ≤ p.heightM →
      ∀ b : Nat, b < 6 →
        (s.updatePhysics realLibm { p with decayRatio := r0 }).getEstimatedRT60 b
          ≤ (s.updatePhysics realLibm { p with decayRatio := r1 }).getEstimatedRT60 b) := by
  have finalGains_fallback_le := rt60_facts.2.2.2.2.2.2.2.2.2.2.2.2.2.2.2.2.2.2.1
  have volume_real_nonneg := rt60_facts.2.2.2.2.2.2.2.2.2.2.2.2.2.2.2.2.2.2.2.2.1
  have rt60_fallback_le := rt60_facts.2.2.2.2.2.2.2.2.2.2.2.2.2.2.2.2.2.2.2.2.2.2.1
  exact
    ⟨fun b => finalGains_fallback_le p r0 r1 h0 b,
      fun s hfs hw hd hh b hb =>
        rt60_fallback_le s p r0 r1 h0 hfs (volume_real_nonneg p hw hd hh) b hb⟩

/-- Witness for C17 amended: the 10 m x 15 m x 5 m room with `decayRatio = 0`
against `decayRatio = 1`. -/
theorem fallback_decay_gives_shortest_tail_witness :
    (0 : ℝ) ≤ 0.01 ∧ (0.01 : ℝ) < 1 ∧
    finalGains realLibm ({ exampleParams with decayRatio := 0 } : PhysicsParams ℝ) 0
      ≤ finalGains realLibm ({ exampleParams with decayRatio := 1 } : PhysicsParams ℝ) 0 :=
  ⟨by norm_num, by norm_num,
    (fallback_decay_gives_shortest_tail exampleParams 0 1 (by norm_num) (by norm_num)).1 0⟩

/-- C19 fails. With `depthM = 0` the statement
`distanceFactor = std::clamp(sourceDist / depthM, 0.0f, 1.0f)` divides by zero,
and with a room whose three dimensions are 0 (normal mode) the lambda
`weightedAvg` divides by `totalArea = 0`: with guarded division both return
`none`. The division of `mfp` is guarded by `std::max(1.0f, totalArea)` and
never fails; and for a non-zero depth and a non-zero total area the guarded
statements return the values of the unguarded ones. -/
theorem updatePhysics_divides_by_zero :
    distanceFactorChecked (zeroDepthParams : PhysicsParams ℝ) = none ∧
    sfxTypeOf (zeroRoomParams : PhysicsParams ℝ) = 0 ∧
    totalArea (zeroRoomParams : PhysicsParams ℝ) = 0 ∧
    (∀ vF vC vS vFB : ℝ,
      weightedAvgChecked (zeroRoomParams : PhysicsParams ℝ) vF vC vS vFB = none) ∧
    (∀ p : PhysicsParams ℝ, mfpChecked p = some (mfp p)) ∧
    (∀ p : PhysicsParams ℝ, p.depthM ≠ 0 →
      distanceFactorChecked p = some (distanceFactor p)) ∧
    (∀ (p : PhysicsParams ℝ) (vF vC vS vFB : ℝ), totalArea p ≠ 0 →
      weightedAvgChecked p vF vC vS vFB = some (weightedAvg p vF vC vS vFB)) := by
  have stdMax_one_pos := rt60_facts.2.2.1
  have harea : totalArea (zeroRoomParams : PhysicsParams ℝ) = 0 := by
    norm_num [totalArea, areaFloor, areaSide, areaFB, zeroRoomParams, exampleParams]
  refine ⟨?_, by decide, harea, ?_, ?_, ?_, ?_⟩
  · unfold distanceFactorChecked checkedDiv
    rw [if_pos (by norm_num [zeroDepthParams])]
    rfl
  · intro vF vC vS vFB
    unfold weightedAvgChecked checkedDiv
    rw [if_pos harea]
  · intro p
    unfold mfpChecked checkedDiv mfp
    rw [if_neg (ne_of_gt (stdMax_one_pos _))]
  · intro p hp
    unfold distanceFactorChecked checkedDiv distanceFactor
    rw [if_neg hp]
    rfl
  · intro p vF vC vS vFB hp
    unfold weightedAvgChecked checkedDiv weightedAvg
    rw [if_neg hp]
/-- C20. For every integer index outside `0 .. 33`, `MaterialDB::get(index)`
returns the same definition as `MaterialDB::get(0)`; for every index in
`0 .. 33` it returns that row of the catalog of 34 rows; and all six absorption
coefficients of every definition returned lie in `[0, 1]`. -/
theorem materialDB_get_clamps_and_bounds (index : Int) :
    ((index < 0 ∨ 34 ≤ index) →
      (MaterialDB.get index : MaterialDef ℝ) = MaterialDB.get 0) ∧
    (0 ≤ index → index < 34 →
      (materialData : List (MaterialDef ℝ)).get? index.toNat
        = some (MaterialDB.get index)) ∧
    (materialData : List (MaterialDef ℝ)).length = 34 ∧
    (MaterialDB.get index : MaterialDef ℝ).absorption.length = 6 ∧
    (∀ b : Nat, b < 6 → 0 ≤ (MaterialDB.get index : MaterialDef ℝ).abs b ∧
      (MaterialDB.get index : MaterialDef ℝ).abs b ≤ 1) := by
  have materialData_real_bounds := catalog_and_buffer_facts.1
  have materialDB_abs_bounds := catalog_and_buffer_facts.2.1
  have hlen : (materialData : List (MaterialDef ℝ)).length = 34 := rfl
  refine ⟨?_, ?_, hlen, (materialData_real_bounds _ (materialDB_get_mem index)).1,
    fun b hb => materialDB_abs_bounds index b hb⟩
  · intro h
    have h' : index < 0 ∨ index ≥ 34 := h
    unfold MaterialDB.get
    rw [if_pos h', if_neg (by decide)]
    rfl
  · intro h0 h34
    have hlt : index.toNat < (materialData : List (MaterialDef ℝ)).length := by
      rw [hlen]; omega
    unfold MaterialDB.get
    rw [if_neg (by omega), List.getD_eq_getElem _ _ hlt, List.get?_eq_getElem?,
      List.getElem?_eq_getElem hlt]

/-- C21. For every real `x`, `antiDenormal x` is `0` when `|x| < 1e-20` and `x`
otherwise; at `|x| = 1e-20` exactly it is the identity; and `antiDenormal` is
idempotent. -/
theorem antiDenormal_spec (x : ℝ) :
    (|x| < 1e-20 → antiDenormal x = 0) ∧ (¬ |x| < 1e-20 → antiDenormal x = x) ∧
      (|x| = 1e-20 → antiDenormal x = x) ∧
      antiDenormal (antiDenormal x) = antiDenormal x := by
  have antiDenormal_eq := sample_processing_facts.1
  refine ⟨?_, ?_, ?_, ?_⟩
  · intro h
    rw [antiDenormal_eq, if_pos h]
  · intro h
    rw [antiDenormal_eq, if_neg h]
  · intro h
    rw [antiDenormal_eq, if_neg (by rw [h]; exact lt_irrefl _)]
  · by_cases h : |x| < 1e-20
    · rw [antiDenormal_eq x, if_pos h, antiDenormal_eq, if_pos (by norm_num)]
    · rw [antiDenormal_eq x, if_neg h, antiDenormal_eq x, if_neg h]

/-- C22. After `setTarget(t, n)` with `n > 0` on a smoother whose current value is
`c`, the `(k+1)`-th call of `getNext` returns `c + (k+1)*(t - c)/n` for every
`k < n`, the `n`-th call returns `t`, and every later call returns `t`. After
`snapTo(v)`, or `setTarget(v, n)` with `n ≤ 0`, the current value is `v` and every
call of `getNext` returns `v`. -/
theorem smoother_ramps_linearly_and_converges (s : ParameterSmoother ℝ) :
    (∀ (t : ℝ) (n : Int), 0 < n →
      (∀ k : Nat, (k : Int) < n →
        ((s.setTarget t n).advance k).getNext.2
          = s.currentValue + ((k : ℝ) + 1) * (t - s.currentValue) / (n : ℝ)) ∧
      ((s.setTarget t n).advance (n.toNat - 1)).getNext.2 = t ∧
      (∀ k : Nat, n ≤ (k : Int) → ((s.setTarget t n).advance k).getNext.2 = t)) ∧
    (∀ v : ℝ, (s.snapTo v).currentValue = v ∧
      ∀ k : Nat, ((s.snapTo v).advance k).getNext.2 = v) ∧
    (∀ (v : ℝ) (n : Int), n ≤ 0 → (s.setTarget v n).currentValue = v ∧
      ∀ k : Nat, ((s.setTarget v n).advance k).getNext.2 = v) := by
  refine ⟨?_, ?_, ?_⟩
  · intro t n hn
    have hset : (s.setTarget t n).currentValue = s.currentValue ∧
        (s.setTarget t n).step = (t - s.currentValue) / (n : ℝ) ∧
        (s.setTarget t n).countdown = n ∧ (s.setTarget t n).targetValue = t := by
      unfold ParameterSmoother.setTarget
      dsimp only []
      rw [if_neg (not_le.mpr hn)]
      exact ⟨rfl, rfl, rfl, rfl⟩
    obtain ⟨hc, hs, hcd, ht⟩ := hset
    have ramp : ∀ k : Nat, (k : Int) < n →
        ((s.setTarget t n).advance k).getNext.2
          = s.currentValue + ((k : ℝ) + 1) * (t - s.currentValue) / (n : ℝ) := by
      intro k hk
      obtain ⟨h1, h2, h3, _⟩ := advance_ramp (s.setTarget t n) k (by rw [hcd]; omega)
      rw [getNext_of_running _ (by rw [h2, hcd]; omega), h1, h3, hc, hs]
      ring
    have hn0 : (n : ℝ) ≠ 0 := by exact_mod_cast (ne_of_gt hn)
    refine ⟨ramp, ?_, ?_⟩
    · have hk : ((n.toNat - 1 : Nat) : Int) < n := by omega
      rw [ramp _ hk]
      have hcast : (((n.toNat - 1 : Nat) : ℝ) + 1) = (n : ℝ) := by
        have h1 : 1 ≤ n.toNat := by omega
        rw [Nat.cast_sub h1]
        have h2 : ((n.toNat : Nat) : ℝ) = (n : ℝ) := by
          have : ((n.toNat : Nat) : Int) = n := Int.toNat_of_nonneg (le_of_lt hn)
          exact_mod_cast this
        rw [h2]
        push_cast
        ring
      rw [hcast]
      field_simp
    · intro k hk
      rw [advance_getNext_of_done _ k (by rw [hcd]; exact hk), ht]
  · intro v
    refine ⟨rfl, ?_⟩
    intro k
    rw [advance_getNext_of_done _ k (by
      show (0 : Int) ≤ k
      exact Int.natCast_nonneg k)]
    rfl
  · intro v n hn
    have hset : (s.setTarget v n).currentValue = v ∧
        (s.setTarget v n).countdown = 0 ∧ (s.setTarget v n).targetValue = v := by
      unfold ParameterSmoother.setTarget
      dsimp only []
      rw [if_pos hn]
      exact ⟨rfl, rfl, rfl⟩
    obtain ⟨hc, hcd, ht⟩ := hset
    refine ⟨hc, ?_⟩
    intro k
    rw [advance_getNext_of_done _ k (by rw [hcd]; exact Int.natCast_nonneg k), ht]

/-- C23. `DynamicsProcessor::process` returns exactly `1`, leaving the processor
unchanged, when `|amount| < 0.01`; a gain in `[10^(-60/20), 1]` when
`amount ≤ -0.01`; a gain in `[1, 10^(24/20)]` when `amount ≥ 0.01`; and exactly `1`
whenever the envelope level in dB after the update is at or below the threshold.
The two ranges hold in every state with `ratio ≥ 1`, which is every state the
class can be in: the default state and every `setParams` and `prepare` give
`ratio ≥ 1`, and `reset` and `process` keep `ratio`. -/
theorem dynamics_process_gain_by_sign (d : DynamicsProcessor ℝ) (input amount : ℝ) :
    (|amount| < 0.01 → d.process realLibm input amount = (d, 1)) ∧
      (1 ≤ d.ratio → amount ≤ -0.01 →
        (10 : ℝ) ^ ((-60 : ℝ) / 20) ≤ (d.process realLibm input amount).2 ∧
          (d.process realLibm input amount).2 ≤ 1) ∧
      (1 ≤ d.ratio → 0.01 ≤ amount →
        1 ≤ (d.process realLibm input amount).2 ∧
          (d.process realLibm input amount).2 ≤ (10 : ℝ) ^ ((24 : ℝ) / 20)) ∧
      (20 * realLibm.log10 (stdMax 1.0e-6 (d.process realLibm input amount).1.envelope)
          ≤ d.thresholdDB → (d.process realLibm input amount).2 = 1) ∧
      (1 ≤ (DynamicsProcessor.fresh : DynamicsProcessor ℝ).ratio ∧
        (∀ (m : Libm ℝ) (thresh r attMs relMs : ℝ),
          1 ≤ (d.setParams m thresh r attMs relMs).ratio) ∧
        (∀ (m : Libm ℝ) (fs : ℝ), 1 ≤ (d.prepare m fs).ratio) ∧
        d.reset.ratio = d.ratio ∧ (d.process realLibm input amount).1.ratio = d.ratio) := by
  have db_pow_bounds := sample_processing_facts.2.1
  have db_pow_zero := sample_processing_facts.2.2.1
  have dynClamp_bounds := sample_processing_facts.2.2.2.1
  have dynamics_process_active := sample_processing_facts.2.2.2.2.1
  have hmax : ∀ r : ℝ, 1 ≤ stdMax 1.01 r := by
    intro r
    unfold stdMax
    split_ifs with h
    · linarith
    · norm_num
  refine ⟨?_, ?_, ?_, ?_, ?_, ?_, ?_, rfl, (dynamics_process_frame _ d input amount).1⟩
  · intro h
    rw [dynamics_process_idle realLibm d input amount h]
    norm_num
  · intro hr ha
    have hact : ¬ |amount| < 0.01 := by
      rw [abs_of_neg (by linarith)]
      linarith
    obtain ⟨g, hg, hneg, _, _⟩ := dynamics_process_active d input amount hact
    rw [hg]
    have hb := dynClamp_bounds g
    have := db_pow_bounds _ (-60) 0 hb.1 (hb.2.2.1 (hneg hr (by linarith)))
    rw [zero_div, Real.rpow_zero] at this
    exact this
  · intro hr ha
    have hact : ¬ |amount| < 0.01 := by
      rw [abs_of_pos (by linarith)]
      linarith
    obtain ⟨g, hg, _, hpos, _⟩ := dynamics_process_active d input amount hact
    rw [hg]
    have hb := dynClamp_bounds g
    have := db_pow_bounds _ 0 24 (hb.2.2.2 (hpos hr (by linarith))) hb.2.1
    rw [zero_div, Real.rpow_zero] at this
    exact this
  · intro hle
    by_cases h : |amount| < 0.01
    · rw [dynamics_process_idle realLibm d input amount h]
      norm_num
    · obtain ⟨g, hg, _, _, hz⟩ := dynamics_process_active d input amount h
      rw [hg, hz (by
        have h20 : (20.0 : ℝ) = 20 := by norm_num
        rw [h20]
        exact hle)]
      rw [if_neg (by norm_num), if_neg (by norm_num)]
      exact db_pow_zero
  · show (1 : ℝ) ≤ 2.0
    norm_num
  · intro m thresh r attMs relMs
    exact hmax r
  · intro m fs
    exact hmax _

/-- C24, as stated, fails at the boundary: at a gain exactly `0.01` dB away from
the stored one `setTilt` does recompute: on the default equaliser, whose stored gain is `0`,
`setTilt(0.01)` changes the stored gain. -/
theorem setTilt_recomputes_at_boundary :
    |(0.01 : ℝ) - (TiltEqualizer.fresh : TiltEqualizer ℝ).currentGainDB| ≤ 0.01 ∧
      ((TiltEqualizer.fresh : TiltEqualizer ℝ).setTilt realLibm 0.01).currentGainDB
        ≠ (TiltEqualizer.fresh : TiltEqualizer ℝ).currentGainDB := by
  have h0 : (TiltEqualizer.fresh : TiltEqualizer ℝ).currentGainDB = 0 := by
    show (0.0 : ℝ) = 0
    norm_num
  have hn : ¬ |(0.01 : ℝ) - (TiltEqualizer.fresh : TiltEqualizer ℝ).currentGainDB| < 0.01 := by
    rw [h0, sub_zero, abs_of_pos (by norm_num)]
    exact lt_irrefl _
  refine ⟨?_, ?_⟩
  · rw [h0, sub_zero, abs_of_pos (by norm_num)]
  · rw [setTilt_currentGainDB _ _ _ hn, h0]
    norm_num

/-- C24, amended. `setTilt(g)` leaves the equaliser untouched, that is the five
coefficients, the stored gain and the filter state, whenever
`|g - currentGainDB| < 0.01`; whenever `|g - currentGainDB| ≥ 0.01` it recomputes
and the stored gain becomes `g`. -/
theorem setTilt_unchanged_within_threshold (m : Libm ℝ) (t : TiltEqualizer ℝ) (g : ℝ) :
    (|g - t.currentGainDB| < 0.01 → t.setTilt m g = t) ∧
      (|g - t.currentGainDB| ≥ 0.01 → (t.setTilt m g).currentGainDB = g) := by
  refine ⟨fun h => setTilt_keep m t g h, fun h => ?_⟩
  exact setTilt_currentGainDB m t g (not_lt.mpr h)

/-- C25. For every non-empty buffer of length `size` the two wrapping loops of
`LagrangeInterpolator::process` return, with a position in `[0, size)` that
differs from `readPos` by a multiple of `size`. If that position has integer part
`i0` and fractional part `f`, the four indices read are `(i0 - 1) mod size`, `i0`,
`(i0 + 1) mod size` and `(i0 + 2) mod size`, all within `0..size-1`; a cubic
polynomial through the four samples at `-1, 0, 1, 2` exists, every such polynomial
`P` has `process = P(f)` and any two of them agree everywhere; at an integer
position the result is `buffer[i0]`, and a constant buffer yields that constant. -/
theorem lagrange_process_interpolates (buffer : Nat → ℝ) (size : Int) (hsize : 0 < size)
    (readPos : ℝ) :
    (∃ w : ℝ, wrapReadPosF (size : ℝ) (wrapFuel (size : ℝ) readPos) readPos = some w ∧
        0 ≤ w ∧ w < (size : ℝ) ∧ ∃ k : Int, readPos = w + (k : ℝ) * (size : ℝ)) ∧
      ∀ (i0 : Int) (f : ℝ) (k : Int), 0 ≤ i0 → i0 < size → 0 ≤ f → f < 1 →
        readPos = (i0 : ℝ) + f + (k : ℝ) * (size : ℝ) →
        (Int.tmod (i0 - 1 + size) size = (i0 - 1) % size ∧
          Int.tmod (i0 + 1) size = (i0 + 1) % size ∧
          Int.tmod (i0 + 2) size = (i0 + 2) % size ∧
          (∀ j : Int, 0 ≤ j % size ∧ j % size < size)) ∧
        (∃ P : ℝ → ℝ, IsCubic P ∧ P (-1) = buffer ((i0 - 1) % size).toNat ∧
          P 0 = buffer i0.toNat ∧ P 1 = buffer ((i0 + 1) % size).toNat ∧
          P 2 = buffer ((i0 + 2) % size).toNat) ∧
        (∀ P : ℝ → ℝ, IsCubic P → P (-1) = buffer ((i0 - 1) % size).toNat →
          P 0 = buffer i0.toNat → P 1 = buffer ((i0 + 1) % size).toNat →
          P 2 = buffer ((i0 + 2) % size).toNat →
          LagrangeInterpolator.process buffer size readPos = P f ∧
            ∀ Q : ℝ → ℝ, IsCubic Q → Q (-1) = P (-1) → Q 0 = P 0 → Q 1 = P 1 →
              Q 2 = P 2 → ∀ t : ℝ, Q t = P t) ∧
        (f = 0 → LagrangeInterpolator.process buffer size readPos = buffer i0.toNat) ∧
        (∀ c : ℝ, (∀ j : Nat, (j : Int) < size → buffer j = c) →
          LagrangeInterpolator.process buffer size readPos = c) := by
  have wrapReadPosF_eq {α : Type} [LinearOrderedField α] [FloorRing α] := (@wrap_facts α _ _).2.1
  have cubic_through_four_points := sample_processing_facts.2.2.2.2.2.1
  have lagrange_process_eq := sample_processing_facts.2.2.2.2.2.2.1
  have hsz : (0 : ℝ) < (size : ℝ) := by exact_mod_cast hsize
  refine ⟨?_, ?_⟩
  · refine ⟨_, wrapReadPosF_eq (size : ℝ) readPos hsz _ (le_refl _), ?_, ?_, ?_⟩
    · have := (floor_div_mul_bounds (size : ℝ) readPos hsz).1
      linarith
    · have := (floor_div_mul_bounds (size : ℝ) readPos hsz).2
      linarith
    · exact ⟨⌊readPos / (size : ℝ)⌋, by ring⟩
  · intro i0 f k hi0 hi1 hf0 hf1 hr
    have hval := lagrange_process_eq buffer size hsize readPos i0 f k hi0 hi1 hf0 hf1 hr
    have hmod : ∀ j : Int, 0 ≤ j % size ∧ j % size < size := fun j =>
      ⟨Int.emod_nonneg _ (ne_of_gt hsize), Int.emod_lt_of_pos _ hsize⟩
    refine ⟨⟨?_, (tmod_index (i0 + 1) size (by omega) hsize).1,
      (tmod_index (i0 + 2) size (by omega) hsize).1, hmod⟩, ?_, ?_, ?_, ?_⟩
    · rw [(tmod_index (i0 - 1 + size) size (by omega) hsize).1, Int.add_emod_self]
    · refine ⟨fun t =>
        buffer i0.toNat
          + (buffer ((i0 + 1) % size).toNat - buffer ((i0 - 1) % size).toNat / 3
              - buffer i0.toNat / 2 - buffer ((i0 + 2) % size).toNat / 6) * t
          + ((buffer ((i0 - 1) % size).toNat + buffer ((i0 + 1) % size).toNat) / 2
              - buffer i0.toNat) * t ^ 2
          + ((buffer i0.toNat - buffer ((i0 + 1) % size).toNat) / 2
              + (buffer ((i0 + 2) % size).toNat - buffer ((i0 - 1) % size).toNat) / 6) * t ^ 3,
        ⟨_, _, _, _, fun t => rfl⟩, ?_, ?_, ?_, ?_⟩
      · ring
      · ring
      · ring
      · ring
    · intro P hP hm1 h0 h1 h2
      refine ⟨?_, ?_⟩
      · rw [hval, cubic_through_four_points P hP f, hm1, h0, h1, h2]
      · intro Q hQ qm1 q0 q1 q2 t
        rw [cubic_through_four_points Q hQ t, cubic_through_four_points P hP t, qm1, q0, q1, q2]
    · intro hf
      rw [hval, hf]
      ring
    · intro c hc
      have hb : ∀ j : Int, buffer (j % size).toNat = c := by
        intro j
        apply hc
        rw [Int.toNat_of_nonneg (hmod j).1]
        exact (hmod j).2
      have hb0 : buffer i0.toNat = c := by
        apply hc
        rw [Int.toNat_of_nonneg hi0]
        exact hi1
      rw [hval, hb, hb, hb, hb0]
      have e2 : (1.0 : ℝ) / 2.0 = 1 / 2 := by norm_num
      have e3 : (1.0 : ℝ) / 3.0 = 1 / 3 := by norm_num
      have e6 : (1.0 : ℝ) / 6.0 = 1 / 6 := by norm_num
      have e5 : (0.5 : ℝ) = 1 / 2 := by norm_num
      rw [e2, e3, e6, e5]
      ring

theorem lagrange_process_interpolates_witness :
    (0 : Int) < 4 ∧
      LagrangeInterpolator.process (fun j => ((j : Nat) : ℝ) ^ 2) 4 (5.5 : ℝ)
        = 1 + 2 * 0.5 + 0.5 ^ 2 :=
  ⟨by decide,
    (((lagrange_process_interpolates (fun j => ((j : Nat) : ℝ) ^ 2) 4 (by decide) 5.5).2
      1 0.5 1 (by decide) (by decide) (by norm_num) (by norm_num) (by norm_num)).2.2.1
      (fun t : ℝ => 1 + 2 * t + t ^ 2)
      ⟨1, 2, 1, 0, fun t => by ring⟩
      (by show (1 : ℝ) + 2 * (-1) + (-1) ^ 2 = ((0 : Nat) : ℝ) ^ 2; norm_num)
      (by show (1 : ℝ) + 2 * 0 + 0 ^ 2 = ((1 : Nat) : ℝ) ^ 2; norm_num)
      (by show (1 : ℝ) + 2 * 1 + 1 ^ 2 = ((2 : Nat) : ℝ) ^ 2; norm_num)
      (by show (1 : ℝ) + 2 * 2 + 2 ^ 2 = ((3 : Nat) : ℝ) ^ 2; norm_num)).1⟩

/-- C26. `safeLoopSaturate` is the identity on `[-1.5, 1.5]` and maps every real
to a value of magnitude below `1.6`. A loop allpass with a non-empty buffer is in
a bounded state after `reset` (every sample in the buffer has magnitude below
`1.6` and `writePos` is inside the buffer), as it is after `setup` and `reset`;
`setGain`, `setBaseDelay` and
`setModulation` keep a bounded state bounded; `process` maps a bounded state to a
bounded state, whatever the input and the gain, and its output has magnitude
below `1.6 * (1 + |gain|)`. So over every run of `setGain`/`process` from `reset`
the state stays bounded and every output obeys the bound for its gain. -/
theorem loopAllpass_state_stays_bounded :
    (∀ x : ℝ, -1.5 ≤ x → x ≤ 1.5 → safeLoopSaturate realLibm x = x) ∧
      (∀ x : ℝ, |safeLoopSaturate realLibm x| < 1.6) ∧
      (∀ a : LoopAllpass ℝ, 0 < a.bufferSize → a.reset.StateBounded) ∧
      (∀ (a : LoopAllpass ℝ) (maxLen : Int) (fs : ℝ), 0 ≤ maxLen →
        (a.setup maxLen fs).reset.StateBounded) ∧
      (∀ (a : LoopAllpass ℝ) (g rate depth fs : ℝ) (samples ch : Int), a.StateBounded →
        (a.setGain g).StateBounded ∧ (a.setBaseDelay samples).StateBounded ∧
          (a.setModulation rate depth fs ch).StateBounded) ∧
      (∀ (a : LoopAllpass ℝ) (x : ℝ), a.StateBounded →
        (a.process realLibm x).1.StateBounded ∧
          |(a.process realLibm x).2| < 1.6 * (1 + |a.gain|)) ∧
      (∀ (a : LoopAllpass ℝ) (inputs : List (ℝ × ℝ)), 0 < a.bufferSize →
        (LoopAllpass.run realLibm a.reset inputs).1.StateBounded ∧
          ∀ r ∈ (LoopAllpass.run realLibm a.reset inputs).2, |r.2| < 1.6 * (1 + |r.1|)) := by
  have safeLoopSaturate_of_mem := sample_processing_facts.2.2.2.2.2.2.2.2.1
  have safeLoopSaturate_abs_lt := sample_processing_facts.2.2.2.2.2.2.2.2.2.1
  have loopAllpass_process_bounded := sample_processing_facts.2.2.2.2.2.2.2.2.2.2.2.2.1
  have loopAllpass_run_bounded := sample_processing_facts.2.2.2.2.2.2.2.2.2.2.2.2.2.1
  have hreset : ∀ a : LoopAllpass ℝ, 0 < a.bufferSize → a.reset.StateBounded := by
    intro a hs
    refine ⟨hs, le_refl _, hs, ?_⟩
    intro k _
    show |(0.0 : ℝ)| < 1.6
    norm_num
  refine ⟨safeLoopSaturate_of_mem, safeLoopSaturate_abs_lt, hreset,
    fun a maxLen fs hm => hreset (a.setup maxLen fs) (by
      show 0 < maxLen + 128
      omega), ?_,
    loopAllpass_process_bounded, fun a inputs hs => loopAllpass_run_bounded inputs _ (hreset a hs)⟩
  intro a g rate depth fs samples ch h
  refine ⟨h, h, ?_⟩
  unfold LoopAllpass.setModulation
  split_ifs
  · exact h
  · exact h

/-- C27. `matrixMDS` is the permutation that swaps each adjacent pair of channels:
for every 16-element real vector `x` and every `i` in `0..15`,
`matrixMDS(x)[i] = x[i XOR 1]`. -/
theorem matrixMDS_swaps_adjacent_pairs (x : Nat → ℝ) (i : Nat) (hi : i < 16) :
    matrixMDS x i = x (i ^^^ 1) := by
  have matrixMDS_apply {α : Type} [Field α] [CharZero α] := (@mds_facts α _ _).2
  exact matrixMDS_apply x i hi

theorem matrixMDS_swaps_adjacent_pairs_witness :
    (1 : Nat) < 16 ∧ matrixMDS (unitImpulse : Nat → ℝ) 1 = unitImpulse (1 ^^^ 1) :=
  ⟨by decide, matrixMDS_swaps_adjacent_pairs unitImpulse 1 (by decide)⟩

/-- C28, as stated, fails on two inputs. (1) A 2 m cube of
material 28 with `absorptionOverride = 1`, `decayRatio = 0` and room shape 6, on
an engine prepared at 8 kHz: the tuple is in normal physics mode, and on channel 0
every one of the six bands, so also the band of maximum steady-state gain, has
`sampleGains[b] < baseGain`, so its relative gain is not clamped to 1. (2) With
`targetGains[2] = baseG = 1` and the sample rate at which
`sin(2 * PI * 500 / fs) = -1`, the peak section divides by zero and its `tb0` is
not 1. -/
theorem max_band_not_clamped_in_absorbent_room :
    (sfxTypeOf (absorbentRoomParams : PhysicsParams ℝ) = 0 ∧
      (preparedEngine realLibm (8000 : ℝ)).config = engine8k ∧
      ∀ b : Nat, b < 6 →
        ¬ (sampleGains realLibm engine8k (absorbentRoomParams : PhysicsParams ℝ) 0 b
            ≥ baseGain realLibm (absorbentRoomParams : PhysicsParams ℝ))) ∧
      ((1 : ℝ) ≥ 1 ∧ (1 : ℝ) > 0.000001 ∧
        ((MaterialFilter4Band.fresh : MaterialFilter4Band ℝ).setCoeffs realLibm (fun _ => 1) 1
          (2000 * PI / (3 * Real.pi))).p1.tb0 ≠ 1) := by
  have stdClamp_ratio_eq_one := sample_processing_facts.2.2.2.2.2.2.2.2.2.2.2.2.2.2.1
  have calcPeak_one := sample_processing_facts.2.2.2.2.2.2.2.2.2.2.2.2.2.2.2.2.2.2.2.1
  have baseGain_ge_floor := sample_processing_facts.2.2.2.2.2.2.2.2.2.2.2.2.2.2.2.2.2.2.2.2.2.2.1
  have preparedEngine_config_8k := sample_processing_facts.2.2.2.2.2.2.2.2.2.2.2.2.2.2.2.2.2.2.2.2.2.2.2.2.2.2.1
  have sampleGains_absorbentRoomParams := sample_processing_facts.2.2.2.2.2.2.2.2.2.2.2.2.2.2.2.2.2.2.2.2.2.2.2.2.2.2.2.2.2.2.2.2.1
  have sin_peak_pole := sample_processing_facts.2.2.2.2.2.2.2.2.2.2.2.2.2.2.2.2.2.2.2.2.2.2.2.2.2.2.2.2.2.2.2.2.2
  refine ⟨⟨sfxTypeOf_absorbentRoomParams, preparedEngine_config_8k, ?_⟩, le_refl _,
    by norm_num, ?_⟩
  · intro b hb hge
    have h1 := sampleGains_absorbentRoomParams b hb
    have h2 := baseGain_ge_floor realLibm (absorbentRoomParams : PhysicsParams ℝ)
    linarith
  · rw [(setCoeffs_sections realLibm _ _ _ _).2.1,
      stdClamp_ratio_eq_one 1 1 (by norm_num) (le_refl _),
      (calcPeak_one _ 500.0 _).2.1 (by rw [sin_peak_pole]; norm_num)]
    norm_num

/-- C28, amended. In `MaterialFilter4Band::setCoeffs` with `baseG > 1e-6`, for
each of the four sections (low shelf from band 0, 500 Hz peak from band 2, 2 kHz
peak from band 4, high shelf from band 5; bands 1 and 3 are never used), if
`targetGains[k] ≥ baseG` then the relative gain is clamped to 1 and the target
coefficients have `tb1 = ta1` and `tb2 = ta2`; `tb0 = 1` holds for the two shelves,
and for a peak whenever `1 + sin(2 * PI * freq / fs) ≠ 0`, which is the case for
every `fs ≥ 8000`. In normal physics mode `updatePhysics` calls
`setCoeffs(sampleGains, baseGain, fs)` on every channel with `baseGain > 1e-6`, and
`sampleGains[k] ≥ baseGain` for whichever band `k` attains the maximum
steady-state gain, provided that maximum is at least `0.0001`. -/
theorem setCoeffs_identity_when_clamped (f : MaterialFilter4Band ℝ) (targetGains : Nat → ℝ)
    (baseG fs : ℝ) (hbase : baseG > 0.000001) :
    (targetGains 0 ≥ baseG →
      (f.setCoeffs realLibm targetGains baseG fs).ls = calcLS realLibm fs f.ls 1 ∧
        (f.setCoeffs realLibm targetGains baseG fs).ls.tb0 = 1 ∧
        (f.setCoeffs realLibm targetGains baseG fs).ls.tb1
          = (f.setCoeffs realLibm targetGains baseG fs).ls.ta1 ∧
        (f.setCoeffs realLibm targetGains baseG fs).ls.tb2
          = (f.setCoeffs realLibm targetGains baseG fs).ls.ta2) ∧
      (targetGains 2 ≥ baseG →
        (f.setCoeffs realLibm targetGains baseG fs).p1
            = calcPeak realLibm fs 1 500.0 0.5 f.p1 ∧
          (1 + realLibm.sin (2.0 * PI * 500.0 / fs) ≠ 0 →
            (f.setCoeffs realLibm targetGains baseG fs).p1.tb0 = 1) ∧
          (f.setCoeffs realLibm targetGains baseG fs).p1.tb1
            = (f.setCoeffs realLibm targetGains baseG fs).p1.ta1 ∧
          (f.setCoeffs realLibm targetGains baseG fs).p1.tb2
            = (f.setCoeffs realLibm targetGains baseG fs).p1.ta2) ∧
      (targetGains 4 ≥ baseG →
        (f.setCoeffs realLibm targetGains baseG fs).p2
            = calcPeak realLibm fs 1 2000.0 0.5 f.p2 ∧
          (1 + realLibm.sin (2.0 * PI * 2000.0 / fs) ≠ 0 →
            (f.setCoeffs realLibm targetGains baseG fs).p2.tb0 = 1) ∧
          (f.setCoeffs realLibm targetGains baseG fs).p2.tb1
            = (f.setCoeffs realLibm targetGains baseG fs).p2.ta1 ∧
          (f.setCoeffs realLibm targetGains baseG fs).p2.tb2
            = (f.setCoeffs realLibm targetGains baseG fs).p2.ta2) ∧
      (targetGains 5 ≥ baseG →
        (f.setCoeffs realLibm targetGains baseG fs).hs = calcHS realLibm fs f.hs 1 ∧
          (f.setCoeffs realLibm targetGains baseG fs).hs.tb0 = 1 ∧
          (f.setCoeffs realLibm targetGains baseG fs).hs.tb1
            = (f.setCoeffs realLibm targetGains baseG fs).hs.ta1 ∧
          (f.setCoeffs realLibm targetGains baseG fs).hs.tb2
            = (f.setCoeffs realLibm targetGains baseG fs).hs.ta2) ∧
      (8000 ≤ fs → 1 + realLibm.sin (2.0 * PI * 500.0 / fs) ≠ 0 ∧
        1 + realLibm.sin (2.0 * PI * 2000.0 / fs) ≠ 0) ∧
      (∀ tg : Nat → ℝ, tg 0 = targetGains 0 → tg 2 = targetGains 2 →
        tg 4 = targetGains 4 → tg 5 = targetGains 5 →
        f.setCoeffs realLibm tg baseG fs = f.setCoeffs realLibm targetGains baseG fs) ∧
      (∀ (s : FDNEngine ℝ) (p : PhysicsParams ℝ) (i k : Nat), sfxTypeOf p = 0 → i < 16 →
        k < 6 → (∀ b : Nat, b < 6 → finalGains realLibm p b ≤ finalGains realLibm p k) →
        0.0001 ≤ finalGains realLibm p k →
        ((s.updatePhysics realLibm p).channels i).materialFilter
            = (s.channels i).materialFilter.setCoeffs realLibm
                (sampleGains realLibm s.config p i) (baseGain realLibm p) s.fs ∧
          sampleGains realLibm s.config p i k ≥ baseGain realLibm p ∧
          baseGain realLibm p > 0.000001) := by
  have stdClamp_ratio_eq_one := sample_processing_facts.2.2.2.2.2.2.2.2.2.2.2.2.2.2.1
  have calcLS_one := sample_processing_facts.2.2.2.2.2.2.2.2.2.2.2.2.2.2.2.2.2.1
  have calcHS_one := sample_processing_facts.2.2.2.2.2.2.2.2.2.2.2.2.2.2.2.2.2.2.1
  have calcPeak_one := sample_processing_facts.2.2.2.2.2.2.2.2.2.2.2.2.2.2.2.2.2.2.2.1
  have peak_sin_nonneg := sample_processing_facts.2.2.2.2.2.2.2.2.2.2.2.2.2.2.2.2.2.2.2.2.1
  have baseGain_le_of_max := sample_processing_facts.2.2.2.2.2.2.2.2.2.2.2.2.2.2.2.2.2.2.2.2.2.1
  have baseGain_ge_floor := sample_processing_facts.2.2.2.2.2.2.2.2.2.2.2.2.2.2.2.2.2.2.2.2.2.2.1
  have finalGains_le_sampleGains := sample_processing_facts.2.2.2.2.2.2.2.2.2.2.2.2.2.2.2.2.2.2.2.2.2.2.2.1
  have updatePhysics_materialFilter_normal := sample_processing_facts.2.2.2.2.2.2.2.2.2.2.2.2.2.2.2.2.2.2.2.2.2.2.2.2.1
  obtain ⟨hls, hp1, hp2, hhs⟩ := setCoeffs_sections realLibm f targetGains baseG fs
  refine ⟨?_, ?_, ?_, ?_, ?_, ?_, ?_⟩
  · intro h
    rw [hls, stdClamp_ratio_eq_one _ _ hbase h]
    exact ⟨rfl, calcLS_one fs f.ls⟩
  · intro h
    rw [hp1, stdClamp_ratio_eq_one _ _ hbase h]
    have := calcPeak_one fs 500.0 f.p1
    exact ⟨rfl, this.1, this.2.2⟩
  · intro h
    rw [hp2, stdClamp_ratio_eq_one _ _ hbase h]
    have := calcPeak_one fs 2000.0 f.p2
    exact ⟨rfl, this.1, this.2.2⟩
  · intro h
    rw [hhs, stdClamp_ratio_eq_one _ _ hbase h]
    exact ⟨rfl, calcHS_one fs f.hs⟩
  · intro hfs
    exact ⟨peak_sin_nonneg fs 500.0 hfs (by norm_num) (by norm_num),
      peak_sin_nonneg fs 2000.0 hfs (by norm_num) (by norm_num)⟩
  · intro tg h0 h2 h4 h5
    exact setCoeffs_congr_bands realLibm f targetGains tg baseG fs h0 h2 h4 h5
  · intro s p i k hsfx hi _ hmax hfloor
    refine ⟨updatePhysics_materialFilter_normal s p i hi hsfx, ?_, ?_⟩
    · exact le_trans (baseGain_le_of_max p k hmax hfloor)
        (finalGains_le_sampleGains s.config p i k)
    · have := baseGain_ge_floor realLibm p
      have h6 : (0.000001 : ℝ) < 0.0001 := by norm_num
      exact lt_of_lt_of_le h6 this

theorem setCoeffs_identity_when_clamped_witness :
    (1 : ℝ) > 0.000001 ∧
      ((MaterialFilter4Band.fresh : MaterialFilter4Band ℝ).setCoeffs realLibm
        (fun _ => 1) 1 48000).ls.tb0 = 1 :=
  ⟨by norm_num,
    ((setCoeffs_identity_when_clamped MaterialFilter4Band.fresh (fun _ => 1) 1 48000
      (by norm_num)).1 (le_refl _)).2.1⟩

/-- C29. With `roomShape = 5` in normal physics mode the delay-ratio table is
`ratio[i] = 1 + 0.05 * (i mod 4)`, so for every `i` in `0..11` the delay targets of
channels `i` and `i + 4` are equal, both as computed by `updatePhysics` and as
stored in the delay smoothers of the engine. -/
theorem roomShape5_delay_targets_repeat (e : EngineConfig ℝ) (p : PhysicsParams ℝ)
    (hshape : p.roomShape = 5) (hsfx : sfxTypeOf p = 0) :
    (∀ i : Nat, i < 16 → (ratios p.roomShape i : ℝ) = 1 + 0.05 * ((i % 4 : Nat) : ℝ)) ∧
      (∀ i : Nat, i < 12 → targetDelay e p i = targetDelay e p (i + 4)) ∧
      (∀ (m : Libm ℝ) (s : FDNEngine ℝ) (i : Nat), i < 12 →
        ((s.updatePhysics m p).channels i).delaySmoother.targetValue
          = ((s.updatePhysics m p).channels (i + 4)).delaySmoother.targetValue) := by
  have hd : ∀ (e : EngineConfig ℝ) (i : Nat), targetDelay e p i = targetDelay e p (i + 4) := by
    intro e i
    unfold targetDelay
    rw [if_neg (by rw [hsfx]; decide), if_neg (by rw [hsfx]; decide)]
    unfold physicsTargetDelay rawDelay
    rw [hshape, ratios_shape5_add_four]
  refine ⟨?_, fun i _ => hd e i, ?_⟩
  · intro i _
    rw [hshape]
    unfold ratios
    rw [if_neg (by decide), if_pos rfl]
    norm_num
    ring
  · intro m s i hi
    rw [updatePhysics_delayTarget m s p i (by omega),
      updatePhysics_delayTarget m s p (i + 4) (by omega)]
    exact hd s.config i

theorem roomShape5_delay_targets_repeat_witness :
    (shape5Params : PhysicsParams ℝ).roomShape = 5 ∧
      sfxTypeOf (shape5Params : PhysicsParams ℝ) = 0 ∧
      targetDelay engine48k (shape5Params : PhysicsParams ℝ) 0
        = targetDelay engine48k (shape5Params : PhysicsParams ℝ) 4 :=
  ⟨rfl, rfl, (roomShape5_delay_targets_repeat engine48k shape5Params rfl rfl).2.1 0 (by decide)⟩

/-- C30. For every integer index, in or out of range, `MaterialDB::get(index)` has
`isResonator` set if and only if `checkSFX(index)` is non-zero, which is the case
exactly for the indices 13, 20, 29, 31 and 33. -/
theorem isResonator_iff_checkSFX (index : Int) :
    ((MaterialDB.get index : MaterialDef ℝ).isResonator = true ↔ checkSFX index ≠ 0) ∧
      (checkSFX index ≠ 0 ↔
        (index = 13 ∨ index = 20 ∨ index = 29 ∨ index = 31 ∨ index = 33)) := by
  refine ⟨?_, checkSFX_ne_zero_iff index⟩
  rw [checkSFX_ne_zero_iff]
  by_cases h : index < 0 ∨ index ≥ 34
  · have hg : (MaterialDB.get index : MaterialDef ℝ).isResonator = false := by
      unfold MaterialDB.get
      rw [if_pos h]
      rfl
    rw [hg]
    constructor
    · intro hf
      exact absurd hf (by decide)
    · intro hi
      omega
  · have hlo : 0 ≤ index := by omega
    have hhi : index < 34 := by omega
    obtain ⟨n, rfl⟩ := Int.eq_ofNat_of_zero_le hlo
    have hn : n < 34 := by omega
    unfold MaterialDB.get
    rw [if_neg h]
    rw [Int.toNat_ofNat]
    interval_cases n <;> simp [materialData, List.getD]
end FDN
